import Mathlib

/-!
# GTK CSS colour model (`gtk/gtkcsscolor.c`)

A shallow embedding of the colour model of `gtk/gtkcsscolor.c`: colour
initialisation, the conversion pipeline and colour interpolation.

Conventions of the embedding.

* The C type `float` is modelled by the exact rationals `ℚ`: every arithmetic
  operation of the source is the corresponding exact operation, rounding is
  not modelled.  `fabs` is the absolute value and `fmod` is the C library
  remainder `x - y * trunc (x / y)`.
* `g_assert` is modelled by `Option`: a function that can hit an assertion
  returns `none` when the assertion fails.  The `default:` branches of the
  `switch` statements (`g_assert_not_reached`) stand for enumeration values
  outside the six colour spaces and the four hue modes; the inductive types
  below have no such value.
* The numeric colour-space primitives of `gtkcolorutils.c` (`gtk_hsl_to_rgb`,
  `gtk_rgb_to_linear_srgb`, ...) are not part of the embedded file; they are
  the fields of the parameter `ColorUtils`.  Every theorem holds for all
  primitives; the round-trip theorem alone assumes something about them
  (`InverseOn`).
-/

namespace GtkCss

/-! ## Data model -/

/-- The six colour spaces, in the order of the rows of the `analogous` table. -/
inductive GtkCssColorSpace
  | SRGB
  | SRGB_LINEAR
  | HSL
  | HWB
  | OKLAB
  | OKLCH
  deriving DecidableEq, Repr

/-- The four hue interpolation modes handled by `adjust_hue`. -/
inductive GtkCssHueInterpolation
  | SHORTER
  | LONGER
  | INCREASING
  | DECREASING
  deriving DecidableEq, Repr

/-- A C array of length four (`float values[4]`, `gboolean missing[4]`). -/
structure Vec4 (α : Type) where
  x0 : α
  x1 : α
  x2 : α
  x3 : α
  deriving DecidableEq, Repr

/-- Array read `v[i]`, for `i < 4`. -/
def Vec4.get {α : Type} (v : Vec4 α) (i : Nat) : α :=
  match i with
  | 0 => v.x0
  | 1 => v.x1
  | 2 => v.x2
  | _ => v.x3

/-- Array write `v[i] = a`, for `i < 4`. -/
def Vec4.set {α : Type} (v : Vec4 α) (i : Nat) (a : α) : Vec4 α :=
  match i with
  | 0 => { v with x0 := a }
  | 1 => { v with x1 := a }
  | 2 => { v with x2 := a }
  | _ => { v with x3 := a }

/-- The struct `GtkCssColor`: a colour space, four components and the mask of
missing components (bit `i` set: component `i` is missing). -/
structure GtkCssColor where
  color_space : GtkCssColorSpace
  values : Vec4 ℚ
  missing : Nat
  deriving DecidableEq, Repr

/-- The functions that `gtkcsscolor.c` uses and does not define.  The first ten
fields are the colour-space primitives of `gtkcolorutils.c`, each taking the
three colour components and returning the three converted ones.
`missing_value` is the number that `gtk_css_color_init_with_missing` stores in
a component flagged missing. -/
structure ColorUtils where
  gtk_hsl_to_rgb : ℚ → ℚ → ℚ → ℚ × ℚ × ℚ
  gtk_hwb_to_rgb : ℚ → ℚ → ℚ → ℚ × ℚ × ℚ
  gtk_oklch_to_oklab : ℚ → ℚ → ℚ → ℚ × ℚ × ℚ
  gtk_rgb_to_linear_srgb : ℚ → ℚ → ℚ → ℚ × ℚ × ℚ
  gtk_linear_srgb_to_rgb : ℚ → ℚ → ℚ → ℚ × ℚ × ℚ
  gtk_rgb_to_hsl : ℚ → ℚ → ℚ → ℚ × ℚ × ℚ
  gtk_rgb_to_hwb : ℚ → ℚ → ℚ → ℚ × ℚ × ℚ
  gtk_oklab_to_oklch : ℚ → ℚ → ℚ → ℚ × ℚ × ℚ
  gtk_oklab_to_linear_srgb : ℚ → ℚ → ℚ → ℚ × ℚ × ℚ
  gtk_linear_srgb_to_oklab : ℚ → ℚ → ℚ → ℚ × ℚ × ℚ
  missing_value : ℚ → ℚ

/-- The test `(color->missing & (1 << i)) != 0`. -/
def missing_bit (c : GtkCssColor) (i : Nat) : Bool :=
  (c.missing &&& (1 <<< i)) != 0

/-- The initialiser `gboolean missing[4] = { 0, }`. -/
def no_missing : Vec4 Bool := ⟨false, false, false, false⟩

/-! ## Initialisation -/

/-- Modelled from the spec: `gtk_css_color_init_with_missing` is defined in
`gtkcsscolorprivate.h`, which is not among the sources.  A colour value is
"{color_space, 4 float components, 4-bit missing-mask}": the function stores
the colour space, the four components and the mask whose bit `i` is the flag
`missing[i]` (the bit that the source reads back with `missing & (1 << i)`).
The numeric value of a component flagged missing is "meaningless" in the
spec; what is stored there is left to `ColorUtils.missing_value`. -/
def gtk_css_color_init_with_missing (U : ColorUtils) (color_space : GtkCssColorSpace)
    (values : Vec4 ℚ) (missing : Vec4 Bool) : GtkCssColor :=
  { color_space := color_space
    values :=
      ⟨if missing.x0 then U.missing_value values.x0 else values.x0,
       if missing.x1 then U.missing_value values.x1 else values.x1,
       if missing.x2 then U.missing_value values.x2 else values.x2,
       if missing.x3 then U.missing_value values.x3 else values.x3⟩
    missing :=
      missing.x0.toNat ||| (missing.x1.toNat <<< 1) |||
        (missing.x2.toNat <<< 2) ||| (missing.x3.toNat <<< 3) }

/-- The powerless components looked for by `gtk_css_color_init`
(the `switch` of lines 33-57). -/
def powerless (color_space : GtkCssColorSpace) (values : Vec4 ℚ) : Vec4 Bool :=
  match color_space with
  | .SRGB => no_missing
  | .SRGB_LINEAR => no_missing
  | .OKLAB => no_missing
  | .HSL => if |values.x2| < 1 / 1000 then no_missing.set 0 true else no_missing
  | .HWB => if values.x1 + values.x2 > 99999 / 1000 then no_missing.set 0 true else no_missing
  | .OKLCH => if |values.x1| < 1 / 1000 then no_missing.set 2 true else no_missing

/-- Source function `gtk_css_color_init` (lines 25-60). -/
def gtk_css_color_init (U : ColorUtils) (color_space : GtkCssColorSpace)
    (values : Vec4 ℚ) : GtkCssColor :=
  gtk_css_color_init_with_missing U color_space values (powerless color_space values)

/-! ## Colour conversion -/

/-- Source function `convert_to_rectangular` (lines 163-206). -/
def convert_to_rectangular (U : ColorUtils) (output : GtkCssColor) : GtkCssColor :=
  match output.color_space with
  | .SRGB => output
  | .SRGB_LINEAR => output
  | .OKLAB => output
  | .HSL =>
    let v := U.gtk_hsl_to_rgb output.values.x0 (output.values.x1 / 100) (output.values.x2 / 100)
    gtk_css_color_init_with_missing U .SRGB ⟨v.1, v.2.1, v.2.2, output.values.x3⟩ no_missing
  | .HWB =>
    let v := U.gtk_hwb_to_rgb output.values.x0 (output.values.x1 / 100) (output.values.x2 / 100)
    gtk_css_color_init_with_missing U .SRGB ⟨v.1, v.2.1, v.2.2, output.values.x3⟩ no_missing
  | .OKLCH =>
    let v := U.gtk_oklch_to_oklab output.values.x0 output.values.x1 output.values.x2
    gtk_css_color_init_with_missing U .OKLAB ⟨v.1, v.2.1, v.2.2, output.values.x3⟩ no_missing

/-- Source function `convert_to_linear` (lines 208-226); `none` when the `g_assert` fails. -/
def convert_to_linear (U : ColorUtils) (output : GtkCssColor) : Option GtkCssColor :=
  if output.color_space = .SRGB ∨ output.color_space = .SRGB_LINEAR ∨
      output.color_space = .OKLAB then
    if output.color_space = .SRGB then
      let v := U.gtk_rgb_to_linear_srgb output.values.x0 output.values.x1 output.values.x2
      some (gtk_css_color_init U .SRGB_LINEAR ⟨v.1, v.2.1, v.2.2, output.values.x3⟩)
    else some output
  else none

/-- Source function `convert_from_linear` (lines 228-258); `none` when the `g_assert` fails. -/
def convert_from_linear (U : ColorUtils) (output : GtkCssColor)
    (dest : GtkCssColorSpace) : Option GtkCssColor :=
  if output.color_space = .SRGB_LINEAR ∨ output.color_space = .OKLAB then
    match dest with
    | .SRGB | .HSL | .HWB =>
      let v := U.gtk_linear_srgb_to_rgb output.values.x0 output.values.x1 output.values.x2
      some (gtk_css_color_init U .SRGB ⟨v.1, v.2.1, v.2.2, output.values.x3⟩)
    | .SRGB_LINEAR | .OKLAB | .OKLCH => some output
  else none

/-- Source function `convert_from_rectangular` (lines 260-315); `none` when a `g_assert` fails. -/
def convert_from_rectangular (U : ColorUtils) (output : GtkCssColor)
    (dest : GtkCssColorSpace) : Option GtkCssColor :=
  match dest with
  | .SRGB | .SRGB_LINEAR | .OKLAB =>
    if output.color_space = dest then some output else none
  | .HSL =>
    if output.color_space = .SRGB then
      let v := U.gtk_rgb_to_hsl output.values.x0 output.values.x1 output.values.x2
      some (gtk_css_color_init U dest ⟨v.1, v.2.1 * 100, v.2.2 * 100, output.values.x3⟩)
    else none
  | .HWB =>
    if output.color_space = .SRGB then
      let v := U.gtk_rgb_to_hwb output.values.x0 output.values.x1 output.values.x2
      some (gtk_css_color_init U dest ⟨v.1, v.2.1 * 100, v.2.2 * 100, output.values.x3⟩)
    else none
  | .OKLCH =>
    if output.color_space = .OKLAB then
      let v := U.gtk_oklab_to_oklch output.values.x0 output.values.x1 output.values.x2
      some (gtk_css_color_init U dest ⟨v.1, v.2.1, v.2.2, output.values.x3⟩)
    else none

/-- The pivot `dest_linear` chosen by `convert_linear_to_linear` (lines 324-327). -/
def dest_linear (dest : GtkCssColorSpace) : GtkCssColorSpace :=
  if dest = .OKLCH then .OKLAB else .SRGB_LINEAR

/-- Source function `convert_linear_to_linear` (lines 317-351); `none` when the final
`g_assert (output->color_space == dest_linear)` fails. -/
def convert_linear_to_linear (U : ColorUtils) (output : GtkCssColor)
    (dest : GtkCssColorSpace) : Option GtkCssColor :=
  let output1 :=
    if dest_linear dest = .SRGB_LINEAR ∧ output.color_space = .OKLAB then
      let v := U.gtk_oklab_to_linear_srgb output.values.x0 output.values.x1 output.values.x2
      gtk_css_color_init U (dest_linear dest) ⟨v.1, v.2.1, v.2.2, output.values.x3⟩
    else if dest_linear dest = .OKLAB ∧ output.color_space = .SRGB_LINEAR then
      let v := U.gtk_linear_srgb_to_oklab output.values.x0 output.values.x1 output.values.x2
      gtk_css_color_init U (dest_linear dest) ⟨v.1, v.2.1, v.2.2, output.values.x3⟩
    else output
  if output1.color_space = dest_linear dest then some output1 else none

/-- Source function `gtk_css_color_convert` (lines 354-375).  `gtk_css_color_init_from_color`
copies the input; the result is `none` when one of the assertions of the
pipeline fails. -/
def gtk_css_color_convert (U : ColorUtils) (input : GtkCssColor)
    (dest : GtkCssColorSpace) : Option GtkCssColor :=
  (convert_to_linear U (convert_to_rectangular U input)).bind fun output =>
    if output.color_space = .SRGB_LINEAR ∨ output.color_space = .OKLAB then
      (convert_linear_to_linear U output dest).bind fun output1 =>
        (convert_from_linear U output1 dest).bind fun output2 =>
          convert_from_rectangular U output2 dest
    else none

/-! ## Colour interpolation -/

/-- The C library function `trunc`: rounding towards zero. -/
def trunc (q : ℚ) : ℤ :=
  if 0 ≤ q then ⌊q⌋ else ⌈q⌉

/-- The C library function `fmod`: `x - y * trunc (x / y)`. -/
def fmod (x y : ℚ) : ℚ :=
  x - y * (trunc (x / y) : ℚ)

/-- Source function `adjust_hue` (lines 380-423): the pair of hues `(*h1, *h2)` after the call. -/
def adjust_hue (h1 h2 : ℚ) (interp : GtkCssHueInterpolation) : ℚ × ℚ :=
  match interp with
  | .SHORTER =>
    let d := h2 - h1
    if d > 180 then (h1 + 360, h2)
    else if d < -180 then (h1, h2 + 360)
    else (h1, h2)
  | .LONGER =>
    let d := h2 - h1
    if 0 < d ∧ d < 180 then (h1 + 360, h2)
    else if -180 < d ∧ d ≤ 0 then (h1, h2 + 360)
    else (h1, h2)
  | .INCREASING => if h2 < h1 then (h1, h2 + 360) else (h1, h2)
  | .DECREASING => if h1 < h2 then (h1 + 360, h2) else (h1, h2)

/-- Source function `apply_hue_interpolation` (lines 425-450): the pair `(from, to)` after the call. -/
def apply_hue_interpolation (from1 to1 : GtkCssColor) (space : GtkCssColorSpace)
    (interp : GtkCssHueInterpolation) : GtkCssColor × GtkCssColor :=
  match space with
  | .SRGB | .SRGB_LINEAR | .OKLAB => (from1, to1)
  | .HSL | .HWB =>
    let h := adjust_hue from1.values.x0 to1.values.x0 interp
    ({ from1 with values := from1.values.set 0 h.1 },
     { to1 with values := to1.values.set 0 h.2 })
  | .OKLCH =>
    let h := adjust_hue from1.values.x2 to1.values.x2 interp
    ({ from1 with values := from1.values.set 2 h.1 },
     { to1 with values := to1.values.set 2 h.2 })

/-- Source function `normalize_hue_component` (lines 452-458). -/
def normalize_hue_component (v : ℚ) : ℚ :=
  let v1 := fmod v 360
  if v1 < 0 then v1 + 360 else v1

/-- Source function `normalize_hue` (lines 460-482). -/
def normalize_hue (color : GtkCssColor) : GtkCssColor :=
  match color.color_space with
  | .SRGB | .SRGB_LINEAR | .OKLAB => color
  | .HSL | .HWB =>
    { color with values := color.values.set 0 (normalize_hue_component color.values.x0) }
  | .OKLCH =>
    { color with values := color.values.set 2 (normalize_hue_component color.values.x2) }

/-- Source function `premultiply_component` (lines 484-492). -/
def premultiply_component (color : GtkCssColor) (i : Nat) : GtkCssColor :=
  if missing_bit color i then color
  else { color with values := color.values.set i (color.values.get i * color.values.x3) }

/-- Source function `premultiply` (lines 494-524). -/
def premultiply (color : GtkCssColor) : GtkCssColor :=
  if missing_bit color 3 then color
  else
    match color.color_space with
    | .SRGB | .SRGB_LINEAR | .OKLAB =>
      premultiply_component (premultiply_component (premultiply_component color 0) 1) 2
    | .HSL | .HWB => premultiply_component (premultiply_component color 1) 2
    | .OKLCH => premultiply_component (premultiply_component color 0) 1

/-- Source function `unpremultiply_component` (lines 526-534). -/
def unpremultiply_component (color : GtkCssColor) (i : Nat) : GtkCssColor :=
  if missing_bit color i then color
  else { color with values := color.values.set i (color.values.get i / color.values.x3) }

/-- Source function `unpremultiply` (lines 536-566). -/
def unpremultiply (color : GtkCssColor) : GtkCssColor :=
  if missing_bit color 3 ∨ color.values.x3 = 0 then color
  else
    match color.color_space with
    | .SRGB | .SRGB_LINEAR | .OKLAB =>
      unpremultiply_component (unpremultiply_component (unpremultiply_component color 0) 1) 2
    | .HSL | .HWB => unpremultiply_component (unpremultiply_component color 1) 2
    | .OKLCH => unpremultiply_component (unpremultiply_component color 0) 1

/-- The table `analogous` of `collect_analogous_missing` (lines 576-584): for
each colour space the index of the component that is red, green, blue,
lightness, colorfulness, hue, opposite a, opposite b, alpha (`-1`: none). -/
def analogous : GtkCssColorSpace → List Int
  | .SRGB => [0, 1, 2, -1, -1, -1, -1, -1, 3]
  | .SRGB_LINEAR => [0, 1, 2, -1, -1, -1, -1, -1, 3]
  | .HSL => [-1, -1, -1, 2, 1, 0, -1, -1, 3]
  | .HWB => [-1, -1, -1, -1, -1, 0, -1, -1, 3]
  | .OKLAB => [-1, -1, -1, 0, -1, -1, 1, 2, 3]
  | .OKLCH => [-1, -1, -1, 0, 1, 2, -1, -1, 3]

/-- The inner loop of `collect_analogous_missing` (lines 597-608) over the
columns `j` of the rows `src` and `dest`: at the first column whose source
entry is `i`, the destination entry (when it is not `-1`) is flagged. -/
def mark_analogous (i : Nat) : List Int → List Int → Vec4 Bool → Vec4 Bool
  | s :: src, d :: dest, missing =>
    if s = (i : Int) then
      if d ≠ -1 then missing.set d.toNat true else missing
    else mark_analogous i src dest missing
  | _, _, missing => missing

/-- Source function `collect_analogous_missing` (lines 568-610): the array `missing` on return. -/
def collect_analogous_missing (color : GtkCssColor) (color_space : GtkCssColorSpace) :
    Vec4 Bool :=
  [0, 1, 2, 3].foldl
    (fun missing i =>
      if missing_bit color i then
        mark_analogous i (analogous color.color_space) (analogous color_space) missing
      else missing)
    no_missing

/-- One iteration `i` of the loop of lines 633-644 of
`gtk_css_color_interpolate`, on the state `(from1, to1, missing)`. -/
def carry_missing (from_missing to_missing : Vec4 Bool)
    (s : GtkCssColor × GtkCssColor × Vec4 Bool) (i : Nat) :
    GtkCssColor × GtkCssColor × Vec4 Bool :=
  let m1 := from_missing.get i
  let m2 := to_missing.get i
  let from1 :=
    if m1 && !m2 then { s.1 with values := s.1.values.set i (s.2.1.values.get i) } else s.1
  let to1 :=
    if m1 && !m2 then s.2.1
    else if !m1 && m2 then { s.2.1 with values := s.2.1.values.set i (s.1.values.get i) }
    else s.2.1
  (from1, to1, s.2.2.set i (m1 && m2))

/-- Lines 633-663 of `gtk_css_color_interpolate`: the blend of the two converted
endpoints `from1` and `to1`, given the arrays `from_missing` and `to_missing`. -/
def interpolate_converted (U : ColorUtils) (from_missing to_missing : Vec4 Bool)
    (from1 to1 : GtkCssColor) (progress : ℚ) (space : GtkCssColorSpace)
    (interp : GtkCssHueInterpolation) : GtkCssColor :=
  let s := [0, 1, 2, 3].foldl (carry_missing from_missing to_missing)
    (from1, to1, no_missing)
  let h := apply_hue_interpolation { s.1 with missing := 0 } { s.2.1 with missing := 0 }
    space interp
  let from2 := premultiply h.1
  let to2 := premultiply h.2
  let v : Vec4 ℚ :=
    ⟨from2.values.x0 * (1 - progress) + to2.values.x0 * progress,
     from2.values.x1 * (1 - progress) + to2.values.x1 * progress,
     from2.values.x2 * (1 - progress) + to2.values.x2 * progress,
     from2.values.x3 * (1 - progress) + to2.values.x3 * progress⟩
  unpremultiply (normalize_hue (gtk_css_color_init_with_missing U space v s.2.2))

/-- Source function `gtk_css_color_interpolate` (lines 613-664); `none` when an assertion of
`gtk_css_color_convert` fails. -/
def gtk_css_color_interpolate (U : ColorUtils) (from0 to0 : GtkCssColor) (progress : ℚ)
    (space : GtkCssColorSpace) (interp : GtkCssHueInterpolation) : Option GtkCssColor :=
  let from_missing := collect_analogous_missing from0 space
  let to_missing := collect_analogous_missing to0 space
  (gtk_css_color_convert U from0 space).bind fun from1 =>
    (gtk_css_color_convert U to0 space).bind fun to1 =>
      some (interpolate_converted U from_missing to_missing from1 to1 progress space interp)

/-- The index of the lightness component of a colour space: the fourth column
of the table `analogous` (`none`: the space has no lightness component). -/
def lightness_index (s : GtkCssColorSpace) : Option Nat :=
  match (analogous s).get? 3 with
  | some i => if i = -1 then none else some i.toNat
  | none => none

/-- The index of the hue component in a polar colour space, as used by
`apply_hue_interpolation` and `normalize_hue` (`none`: the space has no hue). -/
def hue_index : GtkCssColorSpace → Option Nat
  | .HSL => some 0
  | .HWB => some 0
  | .OKLCH => some 2
  | _ => none

/-- The colour components of `c` as the primitives of `gtkcolorutils.c` take
them: the percentages of HSL and HWB are divided by `100`. -/
def prim_coords (c : GtkCssColor) : ℚ × ℚ × ℚ :=
  match c.color_space with
  | .HSL | .HWB => (c.values.x0, c.values.x1 / 100, c.values.x2 / 100)
  | _ => (c.values.x0, c.values.x1, c.values.x2)

/-- The primitives of `U` restrict to mutually inverse maps between the domains
`D s` (one set of component triples per colour space, in the coordinates of
`prim_coords`): each primitive maps its source domain into its target domain
and is undone there by the primitive of the opposite direction. -/
structure InverseOn (U : ColorUtils) (D : GtkCssColorSpace → ℚ × ℚ × ℚ → Prop) : Prop where
  hsl_rgb_mem : ∀ a b c, D .HSL (a, b, c) → D .SRGB (U.gtk_hsl_to_rgb a b c)
  rgb_hsl_mem : ∀ a b c, D .SRGB (a, b, c) → D .HSL (U.gtk_rgb_to_hsl a b c)
  hwb_rgb_mem : ∀ a b c, D .HWB (a, b, c) → D .SRGB (U.gtk_hwb_to_rgb a b c)
  rgb_hwb_mem : ∀ a b c, D .SRGB (a, b, c) → D .HWB (U.gtk_rgb_to_hwb a b c)
  rgb_lin_mem : ∀ a b c, D .SRGB (a, b, c) → D .SRGB_LINEAR (U.gtk_rgb_to_linear_srgb a b c)
  lin_rgb_mem : ∀ a b c, D .SRGB_LINEAR (a, b, c) → D .SRGB (U.gtk_linear_srgb_to_rgb a b c)
  lin_lab_mem : ∀ a b c, D .SRGB_LINEAR (a, b, c) → D .OKLAB (U.gtk_linear_srgb_to_oklab a b c)
  lab_lin_mem : ∀ a b c, D .OKLAB (a, b, c) → D .SRGB_LINEAR (U.gtk_oklab_to_linear_srgb a b c)
  lab_lch_mem : ∀ a b c, D .OKLAB (a, b, c) → D .OKLCH (U.gtk_oklab_to_oklch a b c)
  lch_lab_mem : ∀ a b c, D .OKLCH (a, b, c) → D .OKLAB (U.gtk_oklch_to_oklab a b c)
  hsl_rgb_inv : ∀ a b c, D .HSL (a, b, c) →
    U.gtk_rgb_to_hsl (U.gtk_hsl_to_rgb a b c).1 (U.gtk_hsl_to_rgb a b c).2.1
      (U.gtk_hsl_to_rgb a b c).2.2 = (a, b, c)
  rgb_hsl_inv : ∀ a b c, D .SRGB (a, b, c) →
    U.gtk_hsl_to_rgb (U.gtk_rgb_to_hsl a b c).1 (U.gtk_rgb_to_hsl a b c).2.1
      (U.gtk_rgb_to_hsl a b c).2.2 = (a, b, c)
  hwb_rgb_inv : ∀ a b c, D .HWB (a, b, c) →
    U.gtk_rgb_to_hwb (U.gtk_hwb_to_rgb a b c).1 (U.gtk_hwb_to_rgb a b c).2.1
      (U.gtk_hwb_to_rgb a b c).2.2 = (a, b, c)
  rgb_hwb_inv : ∀ a b c, D .SRGB (a, b, c) →
    U.gtk_hwb_to_rgb (U.gtk_rgb_to_hwb a b c).1 (U.gtk_rgb_to_hwb a b c).2.1
      (U.gtk_rgb_to_hwb a b c).2.2 = (a, b, c)
  rgb_lin_inv : ∀ a b c, D .SRGB (a, b, c) →
    U.gtk_linear_srgb_to_rgb (U.gtk_rgb_to_linear_srgb a b c).1
      (U.gtk_rgb_to_linear_srgb a b c).2.1 (U.gtk_rgb_to_linear_srgb a b c).2.2 = (a, b, c)
  lin_rgb_inv : ∀ a b c, D .SRGB_LINEAR (a, b, c) →
    U.gtk_rgb_to_linear_srgb (U.gtk_linear_srgb_to_rgb a b c).1
      (U.gtk_linear_srgb_to_rgb a b c).2.1 (U.gtk_linear_srgb_to_rgb a b c).2.2 = (a, b, c)
  lin_lab_inv : ∀ a b c, D .SRGB_LINEAR (a, b, c) →
    U.gtk_oklab_to_linear_srgb (U.gtk_linear_srgb_to_oklab a b c).1
      (U.gtk_linear_srgb_to_oklab a b c).2.1 (U.gtk_linear_srgb_to_oklab a b c).2.2 = (a, b, c)
  lab_lin_inv : ∀ a b c, D .OKLAB (a, b, c) →
    U.gtk_linear_srgb_to_oklab (U.gtk_oklab_to_linear_srgb a b c).1
      (U.gtk_oklab_to_linear_srgb a b c).2.1 (U.gtk_oklab_to_linear_srgb a b c).2.2 = (a, b, c)
  lab_lch_inv : ∀ a b c, D .OKLAB (a, b, c) →
    U.gtk_oklch_to_oklab (U.gtk_oklab_to_oklch a b c).1 (U.gtk_oklab_to_oklch a b c).2.1
      (U.gtk_oklab_to_oklch a b c).2.2 = (a, b, c)
  lch_lab_inv : ∀ a b c, D .OKLCH (a, b, c) →
    U.gtk_oklab_to_oklch (U.gtk_oklch_to_oklab a b c).1 (U.gtk_oklch_to_oklab a b c).2.1
      (U.gtk_oklch_to_oklab a b c).2.2 = (a, b, c)

/-- The identity colour utilities: every primitive returns its arguments and a
missing component stores `0`.  They instantiate the general theorems at
concrete inputs. -/
def idUtils : ColorUtils :=
  { gtk_hsl_to_rgb := fun a b c => (a, b, c)
    gtk_hwb_to_rgb := fun a b c => (a, b, c)
    gtk_oklch_to_oklab := fun a b c => (a, b, c)
    gtk_rgb_to_linear_srgb := fun a b c => (a, b, c)
    gtk_linear_srgb_to_rgb := fun a b c => (a, b, c)
    gtk_rgb_to_hsl := fun a b c => (a, b, c)
    gtk_rgb_to_hwb := fun a b c => (a, b, c)
    gtk_oklab_to_oklch := fun a b c => (a, b, c)
    gtk_oklab_to_linear_srgb := fun a b c => (a, b, c)
    gtk_linear_srgb_to_oklab := fun a b c => (a, b, c)
    missing_value := fun _ => 0 }

/-! ## Serialisation (`gtk_css_color_print`) -/

/-- One piece appended to a `GString`: literal text, or a number together with
the `printf` conversion that formats it (`%g`, `%d`, or `%g` through
`g_ascii_formatd`).  The digits produced by the C library are not modelled. -/
inductive Piece
  | text (s : String)
  | g (v : ℚ)
  | d (n : ℤ)
  | ascii_g (v : ℚ)
  deriving DecidableEq, Repr

/-- The GLib macro `CLAMP (x, low, high)`. -/
def CLAMP (x low high : ℚ) : ℚ :=
  if x > high then high else if x < low then low else x

/-- Modelled from the spec: `gtk_css_color_component_missing` and
`gtk_css_color_get_component` are defined in `gtkcsscolorprivate.h`, which is
not among the sources; they read the missing bit and the value of component
`idx`.  The piece is what `append_color_component` (lines 65-74) appends:
"any missing component prints the literal token `none`", any other one is
printed with `%g`. -/
def color_component (color : GtkCssColor) (idx : Nat) : Piece :=
  if missing_bit color idx then .text "none" else .g (color.values.get idx)

/-- Source function `append_color_component` (lines 65-74). -/
def append_color_component (string : List Piece) (color : GtkCssColor) (idx : Nat) :
    List Piece :=
  string ++ [color_component color idx]

/-- The integer `(int)(0.5 + CLAMP (v, 0., 1.) * 255.)` printed for a channel in
the legacy notation. -/
def legacy_channel (v : ℚ) : ℤ :=
  trunc (1 / 2 + CLAMP v 0 1 * 255)

/-- The block at the label `print_rgb` of `gtk_css_color_print` (lines 86-110),
after the conversion to sRGB has produced `tmp`. -/
def print_rgb (tmp : GtkCssColor) (string : List Piece) : List Piece :=
  if tmp.values.x3 > 999 / 1000 then
    string ++ [.text "rgb(", .d (legacy_channel tmp.values.x0), .text ",",
      .d (legacy_channel tmp.values.x1), .text ",",
      .d (legacy_channel tmp.values.x2), .text ")"]
  else
    string ++ [.text "rgba(", .d (legacy_channel tmp.values.x0), .text ",",
      .d (legacy_channel tmp.values.x1), .text ",",
      .d (legacy_channel tmp.values.x2), .text ",",
      .ascii_g (CLAMP tmp.values.x3 0 1), .text ")"]

/-- The common tail of `gtk_css_color_print` (lines 135-151): the three colour
components separated by blanks, the alpha after `" / "` when it is missing or
below `0.999`, and the closing parenthesis. -/
def print_components (color : GtkCssColor) (string : List Piece) : List Piece :=
  let s0 := append_color_component string color 0
  let s1 := append_color_component (s0 ++ [.text " "]) color 1
  let s2 := append_color_component (s1 ++ [.text " "]) color 2
  let s3 :=
    if missing_bit color 3 ∨ color.values.x3 < 999 / 1000 then
      append_color_component (s2 ++ [.text " / "]) color 3
    else s2
  s3 ++ [.text ")"]

/-- Source function `gtk_css_color_print` (lines 76-152); `none` when an
assertion of `gtk_css_color_convert` fails. -/
def gtk_css_color_print (U : ColorUtils) (color : GtkCssColor) (serialize_as_rgb : Bool)
    (string : List Piece) : Option (List Piece) :=
  match color.color_space with
  | .HSL | .HWB =>
    (gtk_css_color_convert U color .SRGB).map fun tmp => print_rgb tmp string
  | .SRGB =>
    if serialize_as_rgb then
      (gtk_css_color_convert U color .SRGB).map fun tmp => print_rgb tmp string
    else some (print_components color (string ++ [.text "color(srgb "]))
  | .SRGB_LINEAR => some (print_components color (string ++ [.text "color(srgb-linear "]))
  | .OKLAB => some (print_components color (string ++ [.text "oklab("]))
  | .OKLCH => some (print_components color (string ++ [.text "oklch("]))

/-- The struct `GdkRGBA`. -/
structure GdkRGBA where
  red : ℚ
  green : ℚ
  blue : ℚ
  alpha : ℚ
  deriving DecidableEq, Repr

/-- The struct `GdkHSLA`. -/
structure GdkHSLA where
  hue : ℚ
  saturation : ℚ
  lightness : ℚ
  alpha : ℚ
  deriving DecidableEq, Repr

/-- The struct `_GtkCssValue` of `gtkcsscolorvalue.c` with its tag `ColorType`:
a literal (`COLOR_TYPE_LITERAL`), a colour with its cached sRGB value
(`COLOR_TYPE_COLOR`), a named reference, a shade, an alpha scale, a mix, or
`currentcolor`.  A named reference carries the address `addr` of its node:
`g_slist_find` compares the nodes of the cycle list by address. -/
inductive GtkCssValue
  | literal (rgba : GdkRGBA)
  | color (color : GtkCssColor) (rgba : GdkRGBA) (serialize_as_rgb : Bool)
  | name (addr : Nat) (name : String)
  | shade (color : GtkCssValue) (factor : ℚ)
  | alpha (color : GtkCssValue) (factor : ℚ)
  | mix (color1 color2 : GtkCssValue) (factor : ℚ)
  | current_color
  deriving DecidableEq, Repr

/-- The functions and values that `gtkcsscolorvalue.c` uses and does not
define: the three HSLA helpers of `gdk/gdkhslaprivate.h` called by
`apply_shade`, and the initial value of the `color` property returned by
`_gtk_css_style_property_get_initial_value`. -/
structure StyleEnv where
  gdk_hsla_init_from_rgba : GdkRGBA → GdkHSLA
  gdk_hsla_shade : GdkHSLA → ℚ → GdkHSLA
  gdk_rgba_init_from_hsla : GdkHSLA → GdkRGBA
  initial_color : GtkCssValue

/-- Source function `apply_alpha` (lines 330-338). -/
def apply_alpha (c : GdkRGBA) (factor : ℚ) : GdkRGBA :=
  { c with alpha := CLAMP (c.alpha * factor) 0 1 }

/-- Source function `apply_shade` (lines 340-351). -/
def apply_shade (E : StyleEnv) (c : GdkRGBA) (factor : ℚ) : GdkRGBA :=
  E.gdk_rgba_init_from_hsla (E.gdk_hsla_shade (E.gdk_hsla_init_from_rgba c) factor)

/-- Source function `transition` (lines 353-359). -/
def transition (start stop progress : ℚ) : ℚ :=
  start + (stop - start) * progress

/-- Source function `apply_mix` (lines 361-380). -/
def apply_mix (in1 in2 : GdkRGBA) (factor : ℚ) : GdkRGBA :=
  let alpha := CLAMP (transition in1.alpha in2.alpha factor) 0 1
  if alpha ≤ 0 then ⟨0, 0, 0, alpha⟩
  else
    ⟨CLAMP (transition (in1.red * in1.alpha) (in2.red * in2.alpha) factor) 0 1 / alpha,
     CLAMP (transition (in1.green * in1.alpha) (in2.green * in2.alpha) factor) 0 1 / alpha,
     CLAMP (transition (in1.blue * in1.alpha) (in2.blue * in2.alpha) factor) 0 1 / alpha,
     alpha⟩

/-- Source function `gtk_css_color_value_new_literal` (lines 518-538).  The two
singletons (opaque white, transparent black) are literals with the same
colour as the node that would be allocated. -/
def gtk_css_color_value_new_literal (color : GdkRGBA) : GtkCssValue :=
  .literal color

/-- The test `color->type == COLOR_TYPE_LITERAL || color->type == COLOR_TYPE_COLOR`. -/
def is_color : GtkCssValue → Bool
  | .literal _ => true
  | .color _ _ _ => true
  | _ => false

/-- The current colour passed to the resolver is `NULL` or a literal or colour
node. -/
def current_is_color : Option GtkCssValue → Bool
  | none => true
  | some c => is_color c

/-- Source function `gtk_css_color_value_get_rgba` (lines 1556-1563); `none` when
the assertion on the type fails. -/
def gtk_css_color_value_get_rgba : GtkCssValue → Option GdkRGBA
  | .literal rgba => some rgba
  | .color _ rgba _ => some rgba
  | _ => none

/-- The outcome of a resolution: the fuel of the model ran out, a `g_assert`
failed, the function returned `NULL` (unresolved), or it returned a value. -/
inductive Resolution
  | out_of_fuel
  | assertion_failed
  | unresolved
  | resolved (value : GtkCssValue)
  deriving DecidableEq, Repr

/-- Source function `gtk_css_color_value_do_resolve` (lines 382-490).  The
provider is the lookup `gtk_style_provider_get_color`, `current` is `none` for
`NULL`, and `cycle_list` holds the addresses of the named references being
resolved.  Every call consumes one unit of fuel. -/
def gtk_css_color_value_do_resolve (E : StyleEnv) (provider : String → Option GtkCssValue)
    (current : Option GtkCssValue) : Nat → GtkCssValue → List Nat → Resolution
  | 0, _, _ => .out_of_fuel
  | fuel + 1, color, cycle_list =>
    match color with
    | .literal _ => .resolved color
    | .color _ _ _ => .resolved color
    | .name addr name =>
      if addr ∈ cycle_list then .unresolved
      else
        match provider name with
        | none => .unresolved
        | some named =>
          gtk_css_color_value_do_resolve E provider current fuel named (addr :: cycle_list)
    | .shade c factor =>
      match gtk_css_color_value_do_resolve E provider current fuel c cycle_list with
      | .resolved val =>
        match gtk_css_color_value_get_rgba val with
        | some rgba => .resolved (gtk_css_color_value_new_literal (apply_shade E rgba factor))
        | none => .assertion_failed
      | r => r
    | .alpha c factor =>
      match gtk_css_color_value_do_resolve E provider current fuel c cycle_list with
      | .resolved val =>
        match gtk_css_color_value_get_rgba val with
        | some rgba => .resolved (gtk_css_color_value_new_literal (apply_alpha rgba factor))
        | none => .assertion_failed
      | r => r
    | .mix c1 c2 factor =>
      match gtk_css_color_value_do_resolve E provider current fuel c1 cycle_list with
      | .resolved val1 =>
        match gtk_css_color_value_get_rgba val1 with
        | some color1 =>
          match gtk_css_color_value_do_resolve E provider current fuel c2 cycle_list with
          | .resolved val2 =>
            match gtk_css_color_value_get_rgba val2 with
            | some color2 =>
              .resolved (gtk_css_color_value_new_literal (apply_mix color1 color2 factor))
            | none => .assertion_failed
          | r => r
        | none => .assertion_failed
      | r => r
    | .current_color =>
      match current with
      | some c => .resolved c
      | none => .resolved E.initial_color

/-- Source function `gtk_css_color_value_resolve` (lines 492-498). -/
def gtk_css_color_value_resolve (E : StyleEnv) (provider : String → Option GtkCssValue)
    (current : Option GtkCssValue) (fuel : Nat) (color : GtkCssValue) : Resolution :=
  gtk_css_color_value_do_resolve E provider current fuel color []

/-- The call returns `r`: with enough fuel the model returns `r`. -/
def Resolves (E : StyleEnv) (provider : String → Option GtkCssValue)
    (current : Option GtkCssValue) (color : GtkCssValue) (cycle_list : List Nat)
    (r : Resolution) : Prop :=
  ∃ N, ∀ fuel, N ≤ fuel →
    gtk_css_color_value_do_resolve E provider current fuel color cycle_list = r

/-- A provider that maps finitely many names to fixed expression nodes. -/
def provider_of (entries : List (String × GtkCssValue)) : String → Option GtkCssValue :=
  fun name => entries.lookup name

/-- The addresses of the named references of an expression tree. -/
def GtkCssValue.addrs : GtkCssValue → List Nat
  | .name addr _ => [addr]
  | .shade c _ => c.addrs
  | .alpha c _ => c.addrs
  | .mix c1 c2 _ => c1.addrs ++ c2.addrs
  | _ => []

/-- The expression `color`, resolved with `cycle_list` in progress, leads back to
a reference that is already being resolved: it is such a reference, or a
reference that the provider maps to an expression that leads back, or a
shade, alpha or mix node with a child that leads back. -/
inductive LeadsBack (provider : String → Option GtkCssValue) :
    List Nat → GtkCssValue → Prop
  | hit (cycle_list addr name) (h : addr ∈ cycle_list) :
      LeadsBack provider cycle_list (.name addr name)
  | hop (cycle_list addr name named) (h : addr ∉ cycle_list)
      (hp : provider name = some named)
      (hn : LeadsBack provider (addr :: cycle_list) named) :
      LeadsBack provider cycle_list (.name addr name)
  | shade (cycle_list c factor) (h : LeadsBack provider cycle_list c) :
      LeadsBack provider cycle_list (.shade c factor)
  | alpha (cycle_list c factor) (h : LeadsBack provider cycle_list c) :
      LeadsBack provider cycle_list (.alpha c factor)
  | mix_left (cycle_list c1 c2 factor) (h : LeadsBack provider cycle_list c1) :
      LeadsBack provider cycle_list (.mix c1 c2 factor)
  | mix_right (cycle_list c1 c2 factor) (h : LeadsBack provider cycle_list c2) :
      LeadsBack provider cycle_list (.mix c1 c2 factor)

/-- Source function `gtk_css_value_color_equal` (lines 189-239).  The functions
`gdk_rgba_equal` (of `gdk/gdkrgba.c`) and `gtk_css_color_equal` (of
`gtkcsscolorprivate.h`) are not among the sources and are parameters.  The
first two tests (lines 193-199) compare a colour without missing component
and a literal by their RGBA; any other pair of different types is unequal
(lines 201-202); nodes of the same type are compared by the `switch`.
The children of composites are compared with `gtk_css_value_equal`, which
for colour values is this function again. -/
def gtk_css_value_color_equal (gdk_rgba_equal : GdkRGBA → GdkRGBA → Bool)
    (gtk_css_color_equal : GtkCssColor → GtkCssColor → Bool) :
    GtkCssValue → GtkCssValue → Bool
  | .color c1 rgba1 _, .literal rgba2 =>
    if c1.missing = 0 then gdk_rgba_equal rgba1 rgba2 else false
  | .literal rgba1, .color c2 rgba2 _ =>
    if c2.missing = 0 then gdk_rgba_equal rgba1 rgba2 else false
  | .literal rgba1, .literal rgba2 => gdk_rgba_equal rgba1 rgba2
  | .color c1 _ _, .color c2 _ _ => gtk_css_color_equal c1 c2
  | .name _ name1, .name _ name2 => decide (name1 = name2)
  | .shade c1 f1, .shade c2 f2 =>
    decide (f1 = f2) && gtk_css_value_color_equal gdk_rgba_equal gtk_css_color_equal c1 c2
  | .alpha c1 f1, .alpha c2 f2 =>
    decide (f1 = f2) && gtk_css_value_color_equal gdk_rgba_equal gtk_css_color_equal c1 c2
  | .mix a1 b1 f1, .mix a2 b2 f2 =>
    decide (f1 = f2) && gtk_css_value_color_equal gdk_rgba_equal gtk_css_color_equal a1 a2 &&
      gtk_css_value_color_equal gdk_rgba_equal gtk_css_color_equal b1 b2
  | .current_color, .current_color => true
  | _, _ => false

/-- The addresses of the named references in the trees of a finite provider. -/
def entries_addrs : List (String × GtkCssValue) → List Nat
  | [] => []
  | e :: es => e.2.addrs ++ entries_addrs es

/-- The tag `ColorType` of a node. -/
inductive ColorType
  | COLOR_TYPE_LITERAL
  | COLOR_TYPE_COLOR
  | COLOR_TYPE_NAME
  | COLOR_TYPE_SHADE
  | COLOR_TYPE_ALPHA
  | COLOR_TYPE_MIX
  | COLOR_TYPE_CURRENT_COLOR
  deriving DecidableEq, Repr

/-- The field `type` of a node. -/
def GtkCssValue.type : GtkCssValue → ColorType
  | .literal _ => .COLOR_TYPE_LITERAL
  | .color _ _ _ => .COLOR_TYPE_COLOR
  | .name _ _ => .COLOR_TYPE_NAME
  | .shade _ _ => .COLOR_TYPE_SHADE
  | .alpha _ _ => .COLOR_TYPE_ALPHA
  | .mix _ _ _ => .COLOR_TYPE_MIX
  | .current_color => .COLOR_TYPE_CURRENT_COLOR

/-- The identity HSLA helpers with an opaque white initial colour.  They
instantiate the general theorems at concrete inputs. -/
def idEnv : StyleEnv :=
  { gdk_hsla_init_from_rgba := fun c => ⟨c.red, c.green, c.blue, c.alpha⟩
    gdk_hsla_shade := fun c _ => c
    gdk_rgba_init_from_hsla := fun c => ⟨c.hue, c.saturation, c.lightness, c.alpha⟩
    initial_color := .literal ⟨1, 1, 1, 1⟩ }

/-! ## Computed values (`gtk_css_value_color_compute`) -/

/-- The property identifiers named in `gtk_css_value_color_get_fallback`; `OTHER`
stands for every other value of `property_id`. -/
inductive GtkCssProperty
  | BACKGROUND_IMAGE
  | BORDER_IMAGE_SOURCE
  | TEXT_SHADOW
  | ICON_SHADOW
  | BOX_SHADOW
  | COLOR
  | BACKGROUND_COLOR
  | BORDER_TOP_COLOR
  | BORDER_RIGHT_COLOR
  | BORDER_BOTTOM_COLOR
  | BORDER_LEFT_COLOR
  | OUTLINE_COLOR
  | CARET_COLOR
  | SECONDARY_CARET_COLOR
  | ICON_PALETTE
  | OTHER (id : Nat)
  deriving DecidableEq, Repr

/-- The part of `GtkCssComputeContext` read by `gtk_css_value_color_compute`: the
provider, the colour of the style (`context->style->core->color`) and the
colour of the parent style, absent when `context->parent_style` is `NULL`. -/
structure GtkCssComputeContext where
  provider : String → Option GtkCssValue
  style_color : GtkCssValue
  parent_color : Option GtkCssValue

/-- The field `is_computed` of a colour value: it is set for literals and
colours (lines 500-503, 533, 550) and clear for the other nodes. -/
def is_computed (value : GtkCssValue) : Bool :=
  is_color value

/-- Source function `gtk_css_color_value_new_transparent` (lines 506-510). -/
def gtk_css_color_value_new_transparent : GtkCssValue :=
  .literal ⟨0, 0, 0, 0⟩

/-- Modelled from the spec: `gtk_css_value_compute` is defined in
`gtkcssvalue.c`, which is not among the sources.  The fallback of a colour
property is "the property's own initial value", computed: a value that is
already computed is returned as it is, any other value is passed to the
`compute` function of its class, which for a colour value is
`gtk_css_value_color_compute` (the table `GTK_CSS_VALUE_COLOR`, lines
320-329), here the argument `class_compute`. -/
def gtk_css_value_compute
    (class_compute : GtkCssValue → GtkCssProperty → GtkCssComputeContext → Resolution)
    (value : GtkCssValue) (property_id : GtkCssProperty)
    (context : GtkCssComputeContext) : Resolution :=
  if is_computed value then .resolved value else class_compute value property_id context

/-- Source function `gtk_css_value_color_get_fallback` (lines 109-144).  The
initial values of the properties (`_gtk_css_style_property_get_initial_value`)
are the parameter `initial_value`; `class_compute` is the function that
`gtk_css_value_compute` dispatches to. -/
def gtk_css_value_color_get_fallback (initial_value : GtkCssProperty → GtkCssValue)
    (class_compute : GtkCssValue → GtkCssProperty → GtkCssComputeContext → Resolution)
    (property_id : GtkCssProperty) (context : GtkCssComputeContext) : Resolution :=
  match property_id with
  | .BACKGROUND_IMAGE | .BORDER_IMAGE_SOURCE | .TEXT_SHADOW | .ICON_SHADOW | .BOX_SHADOW =>
    .resolved gtk_css_color_value_new_transparent
  | .COLOR | .BACKGROUND_COLOR | .BORDER_TOP_COLOR | .BORDER_RIGHT_COLOR
  | .BORDER_BOTTOM_COLOR | .BORDER_LEFT_COLOR | .OUTLINE_COLOR | .CARET_COLOR
  | .SECONDARY_CARET_COLOR =>
    gtk_css_value_compute class_compute (initial_value property_id) property_id context
  | .ICON_PALETTE => .resolved context.style_color
  | .OTHER _ => .resolved gtk_css_color_value_new_transparent

/-- The value of the variable `resolved` of `gtk_css_value_color_compute` at
line 183: the outcome of the resolution of lines 157-181, run with `fuel`. -/
def compute_resolved (E : StyleEnv) (fuel : Nat) (value : GtkCssValue)
    (property_id : GtkCssProperty) (context : GtkCssComputeContext) : Resolution :=
  if property_id = .COLOR then
    gtk_css_color_value_resolve E context.provider context.parent_color fuel value
  else if value.type = .COLOR_TYPE_LITERAL then .resolved value
  else
    gtk_css_color_value_resolve E context.provider (some context.style_color) fuel value

/-- Source function `gtk_css_value_color_compute` (lines 146-187).  Every call
consumes one unit of fuel; the resolution is run with the fuel that is
left. -/
def gtk_css_value_color_compute (E : StyleEnv) (initial_value : GtkCssProperty → GtkCssValue) :
    Nat → GtkCssValue → GtkCssProperty → GtkCssComputeContext → Resolution
  | 0, _, _, _ => .out_of_fuel
  | fuel + 1, value, property_id, context =>
    match compute_resolved E fuel value property_id context with
    | .unresolved =>
      gtk_css_value_color_get_fallback initial_value
        (fun v p c => gtk_css_value_color_compute E initial_value fuel v p c) property_id context
    | r => r

/-! ## Parsing of colour functions (`parse_color_function`) -/

/-- Modelled from the spec: the tokenizer is not among the sources.  The input
is "a CSS token stream conforming to CSS Syntax Level 3 tokenization (idents,
functions, hash colors, percentages, numbers, angles, delimiters, commas, EOF
per block)".  These are the tokens of the block of a colour function:
identifiers (in lower case), commas, delimiters, numbers, percentages and
angles (a dimension with an angle unit, given in degrees); `OTHER` is any
other token.  The end of the block is the end of the list. -/
inductive GtkCssToken
  | IDENT (name : String)
  | COMMA
  | DELIM (c : Char)
  | NUMBER (value : ℚ)
  | PERCENTAGE (value : ℚ)
  | ANGLE (degrees : ℚ)
  | OTHER
  deriving DecidableEq, Repr

/-- The state of a `GtkCssParser` inside a block: the tokens that are left,
white space skipped. -/
abbrev GtkCssParser := List GtkCssToken

/-- Modelled from the spec: `gtk_css_parser_get_token` (of `gtkcssparser.c`, not
among the sources) returns the current token; `none` stands for the token
`GTK_CSS_TOKEN_EOF`, "EOF per block". -/
def gtk_css_parser_get_token (self : GtkCssParser) : Option GtkCssToken :=
  self.head?

/-- Modelled from the spec: `gtk_css_parser_consume_token` (of `gtkcssparser.c`,
not among the sources) moves to the next token of the stream. -/
def gtk_css_parser_consume_token (self : GtkCssParser) : GtkCssParser :=
  self.tail

/-- Modelled from the spec: `gtk_css_parser_try_ident` (of `gtkcssparser.c`, not
among the sources): a channel parser "accepts the literal `none`" when the
current token is that identifier, and consumes it. -/
def gtk_css_parser_try_ident (self : GtkCssParser) (ident : String) : Bool × GtkCssParser :=
  match self with
  | .IDENT name :: rest => if name = ident then (true, rest) else (false, self)
  | _ => (false, self)

/-- The flags `GTK_CSS_PARSE_NUMBER`, `GTK_CSS_PARSE_PERCENT` and
`GTK_CSS_PARSE_ANGLE` of `GtkCssNumberParseFlags`. -/
inductive GtkCssNumberParseFlags
  | PARSE_NUMBER
  | PARSE_PERCENT
  | PARSE_ANGLE
  deriving DecidableEq, Repr

/-- A number value returned by `gtk_css_number_value_parse`: a number, a
percentage or an angle in degrees. -/
inductive GtkCssNumberValue
  | number (value : ℚ)
  | percent (value : ℚ)
  | angle (degrees : ℚ)
  deriving DecidableEq, Repr

/-- Modelled from the spec: `gtk_css_number_value_parse` (of
`gtkcssnumbervalue.c`, not among the sources).  A channel "accepts
number-or-percentage" or "number-or-angle": the current token is consumed
when its kind is among the flags (a bitwise or in the source, a list here),
and the call fails otherwise. -/
def gtk_css_number_value_parse (parser : GtkCssParser) (flags : List GtkCssNumberParseFlags) :
    Option (GtkCssNumberValue × GtkCssParser) :=
  match parser with
  | .NUMBER v :: rest => if .PARSE_NUMBER ∈ flags then some (.number v, rest) else none
  | .PERCENTAGE v :: rest => if .PARSE_PERCENT ∈ flags then some (.percent v, rest) else none
  | .ANGLE d :: rest => if .PARSE_ANGLE ∈ flags then some (.angle d, rest) else none
  | _ => none

/-- Modelled from the spec: `gtk_css_number_value_get_canonical` (of
`gtkcssnumbervalue.c`, not among the sources).  A percentage is "mapped to" the
range given by `one_hundred_percent` ("0..255 canonical", "canonical range
0..100", "canonicalized against 0.4"), a number is taken as it is and an angle
is "canonicalized to degrees". -/
def gtk_css_number_value_get_canonical (val : GtkCssNumberValue) (one_hundred_percent : ℚ) : ℚ :=
  match val with
  | .number v => v
  | .percent v => v * one_hundred_percent / 100
  | .angle d => d

/-- The enumeration `ColorSyntax` (lines 760-765). -/
inductive ColorSyntax
  | DETECTING
  | MODERN
  | LEGACY
  deriving DecidableEq, Repr

/-- What a channel parser writes when it returns `TRUE`: `*value`, `*missing`,
`*syntax` and the state of the parser. -/
structure Channel where
  value : ℚ
  missing : Bool
  syn : ColorSyntax
  parser : GtkCssParser
  deriving DecidableEq, Repr

/-- The struct `ParseRGBAData` (lines 753-758). -/
structure ParseRGBAData where
  rgba : GdkRGBA
  use_percentages : Bool
  missing : Vec4 Bool
  deriving DecidableEq, Repr

/-- Source function `parse_rgb_channel_value` (lines 767-823); `none` is the
result `FALSE`.  The second component is `data->use_percentages`. -/
def parse_rgb_channel_value (parser : GtkCssParser) (syn : ColorSyntax)
    (data : ParseRGBAData) : Option (Channel × ParseRGBAData) :=
  let has_percentage :=
    match gtk_css_parser_get_token parser with
    | some (.PERCENTAGE _) => true
    | _ => false
  let checked : Option ParseRGBAData :=
    match syn with
    | .DETECTING => some { data with use_percentages := has_percentage }
    | .LEGACY => if data.use_percentages != has_percentage then none else some data
    | .MODERN => some data
  match checked with
  | none => none
  | some data =>
    if syn ≠ .LEGACY ∧ (gtk_css_parser_try_ident parser "none").1 = true then
      some (⟨0, true, .MODERN, (gtk_css_parser_try_ident parser "none").2⟩, data)
    else
      match gtk_css_number_value_parse parser [.PARSE_NUMBER, .PARSE_PERCENT] with
      | none => none
      | some (val, parser) =>
        some (⟨CLAMP (gtk_css_number_value_get_canonical val 255) 0 255 / 255, false, syn,
          parser⟩, data)

/-- Source function `parse_alpha_value` (lines 825-860). -/
def parse_alpha_value (parser : GtkCssParser) (syn : ColorSyntax) : Option Channel :=
  let flags : List GtkCssNumberParseFlags :=
    if syn = .MODERN then [.PARSE_PERCENT, .PARSE_NUMBER] else [.PARSE_NUMBER]
  if syn ≠ .LEGACY ∧ (gtk_css_parser_try_ident parser "none").1 = true then
    some ⟨0, true, .MODERN, (gtk_css_parser_try_ident parser "none").2⟩
  else
    match gtk_css_number_value_parse parser flags with
    | none => none
    | some (val, parser) =>
      some ⟨CLAMP (gtk_css_number_value_get_canonical val 1) 0 1, false, syn, parser⟩

/-- Source function `parse_hsl_channel_value` (lines 862-896). -/
def parse_hsl_channel_value (parser : GtkCssParser) (syn : ColorSyntax) : Option Channel :=
  if syn ≠ .LEGACY ∧ (gtk_css_parser_try_ident parser "none").1 = true then
    some ⟨0, true, .MODERN, (gtk_css_parser_try_ident parser "none").2⟩
  else
    let flags : List GtkCssNumberParseFlags :=
      if syn = .MODERN then [.PARSE_NUMBER, .PARSE_PERCENT] else [.PARSE_PERCENT]
    match gtk_css_number_value_parse parser flags with
    | none => none
    | some (val, parser) =>
      some ⟨CLAMP (gtk_css_number_value_get_canonical val 100) 0 100, false, syn, parser⟩

/-- Source function `parse_hwb_channel_value` (lines 898-929). -/
def parse_hwb_channel_value (parser : GtkCssParser) (syn : ColorSyntax) : Option Channel :=
  if syn ≠ .LEGACY ∧ (gtk_css_parser_try_ident parser "none").1 = true then
    some ⟨0, true, .MODERN, (gtk_css_parser_try_ident parser "none").2⟩
  else
    match gtk_css_number_value_parse parser [.PARSE_PERCENT, .PARSE_NUMBER] with
    | none => none
    | some (val, parser) =>
      some ⟨CLAMP (gtk_css_number_value_get_canonical val 100) 0 100, false, syn, parser⟩

/-- Source function `parse_hue_value` (lines 931-963). -/
def parse_hue_value (parser : GtkCssParser) (syn : ColorSyntax) : Option Channel :=
  if syn ≠ .LEGACY ∧ (gtk_css_parser_try_ident parser "none").1 = true then
    some ⟨0, true, .MODERN, (gtk_css_parser_try_ident parser "none").2⟩
  else
    match gtk_css_number_value_parse parser [.PARSE_NUMBER, .PARSE_ANGLE] with
    | none => none
    | some (hue, parser) =>
      let value := fmod (gtk_css_number_value_get_canonical hue 360) 360
      some ⟨if value < 0 then value + 360 else value, false, syn, parser⟩

/-- Source function `parse_ok_L_value` (lines 965-993). -/
def parse_ok_L_value (parser : GtkCssParser) : Option (ℚ × Bool × GtkCssParser) :=
  if (gtk_css_parser_try_ident parser "none").1 = true then
    some (0, true, (gtk_css_parser_try_ident parser "none").2)
  else
    match gtk_css_number_value_parse parser [.PARSE_PERCENT, .PARSE_NUMBER] with
    | none => none
    | some (val, parser) =>
      some (CLAMP (gtk_css_number_value_get_canonical val 1) 0 1, false, parser)

/-- Source function `parse_ok_C_value` (lines 995-1023); `MAX (x, 0.0)` is written
with `max`. -/
def parse_ok_C_value (parser : GtkCssParser) : Option (ℚ × Bool × GtkCssParser) :=
  if (gtk_css_parser_try_ident parser "none").1 = true then
    some (0, true, (gtk_css_parser_try_ident parser "none").2)
  else
    match gtk_css_number_value_parse parser [.PARSE_PERCENT, .PARSE_NUMBER] with
    | none => none
    | some (val, parser) =>
      some (max (gtk_css_number_value_get_canonical val (2 / 5)) 0, false, parser)

/-- Source function `parse_ok_ab_value` (lines 1025-1050).  The flag `*missing` is
not written when a number is parsed: it keeps the value `old_missing`. -/
def parse_ok_ab_value (parser : GtkCssParser) (old_missing : Bool) :
    Option (ℚ × Bool × GtkCssParser) :=
  if (gtk_css_parser_try_ident parser "none").1 = true then
    some (0, true, (gtk_css_parser_try_ident parser "none").2)
  else
    match gtk_css_number_value_parse parser [.PARSE_PERCENT, .PARSE_NUMBER] with
    | none => none
    | some (val, parser) =>
      some (gtk_css_number_value_get_canonical val (2 / 5), old_missing, parser)

/-- Source function `parse_color_channel_value` (lines 1218-1245). -/
def parse_color_channel_value (parser : GtkCssParser) : Option (ℚ × Bool × GtkCssParser) :=
  if (gtk_css_parser_try_ident parser "none").1 = true then
    some (0, true, (gtk_css_parser_try_ident parser "none").2)
  else
    match gtk_css_number_value_parse parser [.PARSE_NUMBER, .PARSE_PERCENT] with
    | none => none
    | some (val, parser) => some (gtk_css_number_value_get_canonical val 1, false, parser)

/-- The outcome of a parsing function: a result, a syntax error (the C function
returns `FALSE`, `0` or `NULL`), a failed `g_assert`, or the fuel of the model
ran out. -/
inductive ParseResult (α : Type)
  | ok (a : α)
  | error
  | assertion_failed
  | out_of_fuel
  deriving DecidableEq, Repr

/-- What a `parse_func` leaves when it returns a number of arguments: that
number, the parser, `*syntax` and the data. -/
structure ParseStep (δ : Type) where
  parse_args : Nat
  parser : GtkCssParser
  syn : ColorSyntax
  data : δ

/-- The type of the argument `parse_func` of `parse_color_function`. -/
abbrev ParseFunc (δ : Type) :=
  GtkCssParser → Nat → ColorSyntax → δ → ParseResult (ParseStep δ)

/-- The result of a channel parser that takes `syntax`, as the `guint` returned
by a `parse_func`: `1` with the channel stored by `store`, or `0`. -/
def channel_step {δ : Type} (r : Option Channel) (store : Channel → δ) :
    ParseResult (ParseStep δ) :=
  match r with
  | some ch => .ok ⟨1, ch.parser, ch.syn, store ch⟩
  | none => .error

/-- The result of a channel parser that does not take `syntax`, as the `guint`
returned by a `parse_func`. -/
def plain_step {δ : Type} (r : Option (ℚ × Bool × GtkCssParser)) (syn : ColorSyntax)
    (store : ℚ → Bool → δ) : ParseResult (ParseStep δ) :=
  match r with
  | some (value, missing, parser) => .ok ⟨1, parser, syn, store value missing⟩
  | none => .error

/-- Source function `parse_rgba_color_channel` (lines 1052-1079). -/
def parse_rgba_color_channel : ParseFunc ParseRGBAData :=
  fun parser arg syn data =>
    match arg with
    | 0 =>
      match parse_rgb_channel_value parser syn data with
      | some (ch, data) =>
        .ok ⟨1, ch.parser, ch.syn,
          { data with rgba := { data.rgba with red := ch.value },
                      missing := data.missing.set 0 ch.missing }⟩
      | none => .error
    | 1 =>
      match parse_rgb_channel_value parser syn data with
      | some (ch, data) =>
        .ok ⟨1, ch.parser, ch.syn,
          { data with rgba := { data.rgba with green := ch.value },
                      missing := data.missing.set 1 ch.missing }⟩
      | none => .error
    | 2 =>
      match parse_rgb_channel_value parser syn data with
      | some (ch, data) =>
        .ok ⟨1, ch.parser, ch.syn,
          { data with rgba := { data.rgba with blue := ch.value },
                      missing := data.missing.set 2 ch.missing }⟩
      | none => .error
    | 3 =>
      channel_step (parse_alpha_value parser syn) fun ch =>
        { data with rgba := { data.rgba with alpha := ch.value },
                    missing := data.missing.set 3 ch.missing }
    | _ => .assertion_failed

/-- The struct `ParseHSLAData` (lines 1081-1085). -/
structure ParseHSLAData where
  hsla : GdkHSLA
  missing : Vec4 Bool
  deriving DecidableEq, Repr

/-- Source function `parse_hsla_color_channel` (lines 1087-1114). -/
def parse_hsla_color_channel : ParseFunc ParseHSLAData :=
  fun parser arg syn data =>
    match arg with
    | 0 =>
      channel_step (parse_hue_value parser syn) fun ch =>
        { hsla := { data.hsla with hue := ch.value }, missing := data.missing.set 0 ch.missing }
    | 1 =>
      channel_step (parse_hsl_channel_value parser syn) fun ch =>
        { hsla := { data.hsla with saturation := ch.value },
          missing := data.missing.set 1 ch.missing }
    | 2 =>
      channel_step (parse_hsl_channel_value parser syn) fun ch =>
        { hsla := { data.hsla with lightness := ch.value },
          missing := data.missing.set 2 ch.missing }
    | 3 =>
      channel_step (parse_alpha_value parser syn) fun ch =>
        { hsla := { data.hsla with alpha := ch.value }, missing := data.missing.set 3 ch.missing }
    | _ => .assertion_failed

/-- The structs `HwbData`, `LabData`, `LchData` and the fields `values`, `missing`
of `ParseColorData` (lines 1116-1119, 1148-1151, 1180-1183, 1212-1216): four
floats and four flags. -/
structure ChannelData where
  values : Vec4 ℚ
  missing : Vec4 Bool
  deriving DecidableEq, Repr

/-- The assignment of a parsed channel to component `i` of the data. -/
def ChannelData.store (data : ChannelData) (i : Nat) (value : ℚ) (missing : Bool) :
    ChannelData :=
  { values := data.values.set i value, missing := data.missing.set i missing }

/-- Source function `parse_hwb_color_channel` (lines 1121-1146). -/
def parse_hwb_color_channel : ParseFunc ChannelData :=
  fun parser arg syn data =>
    match arg with
    | 0 => channel_step (parse_hue_value parser syn) fun ch => data.store 0 ch.value ch.missing
    | 1 =>
      channel_step (parse_hwb_channel_value parser syn) fun ch =>
        data.store 1 ch.value ch.missing
    | 2 =>
      channel_step (parse_hwb_channel_value parser syn) fun ch =>
        data.store 2 ch.value ch.missing
    | 3 => channel_step (parse_alpha_value parser syn) fun ch => data.store 3 ch.value ch.missing
    | _ => .assertion_failed

/-- Source function `parse_oklab_color_channel` (lines 1153-1178). -/
def parse_oklab_color_channel : ParseFunc ChannelData :=
  fun parser arg syn data =>
    match arg with
    | 0 => plain_step (parse_ok_L_value parser) syn (data.store 0)
    | 1 => plain_step (parse_ok_ab_value parser data.missing.x1) syn (data.store 1)
    | 2 => plain_step (parse_ok_ab_value parser data.missing.x2) syn (data.store 2)
    | 3 => channel_step (parse_alpha_value parser syn) fun ch => data.store 3 ch.value ch.missing
    | _ => .assertion_failed

/-- Source function `parse_oklch_color_channel` (lines 1185-1210). -/
def parse_oklch_color_channel : ParseFunc ChannelData :=
  fun parser arg syn data =>
    match arg with
    | 0 => plain_step (parse_ok_L_value parser) syn (data.store 0)
    | 1 => plain_step (parse_ok_C_value parser) syn (data.store 1)
    | 2 => channel_step (parse_hue_value parser syn) fun ch => data.store 2 ch.value ch.missing
    | 3 => channel_step (parse_alpha_value parser syn) fun ch => data.store 3 ch.value ch.missing
    | _ => .assertion_failed

/-- The struct `ParseColorData` (lines 1212-1216). -/
structure ParseColorData where
  color_space : GtkCssColorSpace
  channels : ChannelData
  deriving DecidableEq, Repr

/-- Source function `parse_color_color_channel` (lines 1247-1288). -/
def parse_color_color_channel : ParseFunc ParseColorData :=
  fun parser arg syn data =>
    match arg with
    | 0 =>
      if (gtk_css_parser_try_ident parser "srgb").1 = true then
        .ok ⟨1, (gtk_css_parser_try_ident parser "srgb").2, syn,
          { data with color_space := .SRGB }⟩
      else if (gtk_css_parser_try_ident parser "srgb-linear").1 = true then
        .ok ⟨1, (gtk_css_parser_try_ident parser "srgb-linear").2, syn,
          { data with color_space := .SRGB_LINEAR }⟩
      else .error
    | 1 =>
      plain_step (parse_color_channel_value parser) syn fun v m =>
        { data with channels := data.channels.store 0 v m }
    | 2 =>
      plain_step (parse_color_channel_value parser) syn fun v m =>
        { data with channels := data.channels.store 1 v m }
    | 3 =>
      plain_step (parse_color_channel_value parser) syn fun v m =>
        { data with channels := data.channels.store 2 v m }
    | 4 =>
      channel_step (parse_alpha_value parser syn) fun ch =>
        { data with channels := data.channels.store 3 ch.value ch.missing }
    | _ => .assertion_failed

/-- What the body of the loop of `parse_color_function` decides after an
argument: the result `TRUE`, a syntax error, or one more iteration with the
given parser, `syntax`, `min_args` and `max_args`. -/
inductive LoopAction
  | accept
  | reject
  | next (self : GtkCssParser) (syn : ColorSyntax) (min_args max_args : Nat)
  deriving DecidableEq, Repr

/-- The body of the loop of `parse_color_function` after the call of `parse_func`
(lines 1325-1397): `arg` is the number of arguments parsed so far and `syn` the
syntax left by `parse_func`. -/
def after_argument (allow_alpha require_alpha : Bool) (self : GtkCssParser)
    (syn : ColorSyntax) (arg min_args max_args : Nat) : LoopAction :=
  let token := gtk_css_parser_get_token self
  let detected : ColorSyntax × Nat × Nat :=
    if syn = .DETECTING then
      if token = some .COMMA then
        (.LEGACY, if require_alpha then 4 else 3, if allow_alpha then 4 else 3)
      else (.MODERN, min_args, max_args)
    else (syn, min_args, max_args)
  let syn := detected.1
  let min_args := detected.2.1
  let max_args := detected.2.2
  if token = none then
    if arg < min_args then .reject else .accept
  else if token = some .COMMA then
    if syn = .MODERN then .reject
    else if arg ≥ max_args then .reject
    else .next (gtk_css_parser_consume_token self) syn min_args max_args
  else if syn = .LEGACY then .reject
  else if arg = min_args then
    if token = some (.DELIM '/') then
      .next (gtk_css_parser_consume_token self) syn min_args max_args
    else .reject
  else if arg ≥ max_args then .reject
  else .next self syn min_args max_args

/-- The loop of `parse_color_function` (lines 1319-1398), entered with the
current values of the parser, `syntax`, `arg`, `min_args`, `max_args` and the
data.  Every iteration consumes one unit of fuel. -/
def parse_color_function_loop {δ : Type} (allow_alpha require_alpha : Bool)
    (parse_func : ParseFunc δ) :
    Nat → GtkCssParser → ColorSyntax → Nat → Nat → Nat → δ → ParseResult δ
  | 0, _, _, _, _, _, _ => .out_of_fuel
  | fuel + 1, self, syn, arg, min_args, max_args, data =>
    match parse_func self arg syn data with
    | .out_of_fuel => .out_of_fuel
    | .assertion_failed => .assertion_failed
    | .error => .error
    | .ok step =>
      if step.parse_args = 0 then .error
      else
        match after_argument allow_alpha require_alpha step.parser step.syn
            (arg + step.parse_args) min_args max_args with
        | .accept => .ok step.data
        | .reject => .error
        | .next self syn min_args max_args =>
          parse_color_function_loop allow_alpha require_alpha parse_func fuel self syn
            (arg + step.parse_args) min_args max_args step.data

/-- Source function `parse_color_function` (lines 1290-1403), called on the
tokens of the block of the function.  The value is the data when the result
is `TRUE`.  The loop is entered at most `max_args` times, which is at most
five; the fuel is six. -/
def parse_color_function {δ : Type} (self : GtkCssParser) (syn : ColorSyntax)
    (parse_color_space allow_alpha require_alpha : Bool) (parse_func : ParseFunc δ)
    (data : δ) : ParseResult δ :=
  let min_args := if parse_color_space then 3 + 1 else 3
  let max_args := if parse_color_space then 4 + 1 else 4
  parse_color_function_loop allow_alpha require_alpha parse_func 6 self syn 0
    min_args max_args data

/-- Source function `gtk_css_color_value_new_color` (lines 539-563); `none` when
the conversion to sRGB stops at an assertion. -/
def gtk_css_color_value_new_color (U : ColorUtils) (color_space : GtkCssColorSpace)
    (serialize_as_rgb : Bool) (values : Vec4 ℚ) (missing : Vec4 Bool) : Option GtkCssValue :=
  let color := gtk_css_color_init_with_missing U color_space values missing
  match gtk_css_color_convert U color .SRGB with
  | some tmp =>
    some (.color color ⟨tmp.values.x0, tmp.values.x1, tmp.values.x2, tmp.values.x3⟩
      serialize_as_rgb)
  | none => none

/-- The end of a branch of `gtk_css_color_value_parse`: `NULL` when
`parse_color_function` fails, the new colour value otherwise. -/
def parsed_color {δ : Type} (U : ColorUtils) (r : ParseResult δ)
    (color_space : δ → GtkCssColorSpace) (serialize_as_rgb : Bool) (values : δ → Vec4 ℚ)
    (missing : δ → Vec4 Bool) : ParseResult GtkCssValue :=
  match r with
  | .ok data =>
    match gtk_css_color_value_new_color U (color_space data) serialize_as_rgb (values data)
        (missing data) with
    | some value => .ok value
    | none => .assertion_failed
  | .error => .error
  | .assertion_failed => .assertion_failed
  | .out_of_fuel => .out_of_fuel

/-- Source function `gtk_css_color_value_parse` (lines 1405-1554), called with the
parser at a function token `name` whose block holds the tokens `block`: the
branches of lines 1426-1487.  The other branches (lighter, darker, shade,
alpha, mix and the literal colours of `gdk_rgba_parser_parse`) call code that
is not among the sources and are the parameter `other`.  The components of
`rgba` that line 1409 leaves uninitialised are `0` here; they are written
before a call succeeds. -/
def gtk_css_color_value_parse (U : ColorUtils)
    (other : String → GtkCssParser → ParseResult GtkCssValue) (name : String)
    (block : GtkCssParser) : ParseResult GtkCssValue :=
  if name = "rgb" ∨ name = "rgba" then
    let has_alpha := decide (name = "rgba")
    parsed_color U
      (parse_color_function block .DETECTING false has_alpha has_alpha
        parse_rgba_color_channel ⟨⟨0, 0, 0, 1⟩, false, no_missing⟩)
      (fun _ => .SRGB) true
      (fun data => ⟨data.rgba.red, data.rgba.green, data.rgba.blue, data.rgba.alpha⟩)
      (fun data => data.missing)
  else if name = "hsl" ∨ name = "hsla" then
    parsed_color U
      (parse_color_function block .DETECTING false true false
        parse_hsla_color_channel ⟨⟨0, 0, 0, 1⟩, no_missing⟩)
      (fun _ => .HSL) false
      (fun data => ⟨data.hsla.hue, data.hsla.saturation, data.hsla.lightness, data.hsla.alpha⟩)
      (fun data => data.missing)
  else if name = "hwb" then
    parsed_color U
      (parse_color_function block .MODERN false true false
        parse_hwb_color_channel ⟨⟨0, 0, 0, 1⟩, no_missing⟩)
      (fun _ => .HWB) false (fun data => data.values) (fun data => data.missing)
  else if name = "oklab" then
    parsed_color U
      (parse_color_function block .MODERN false true false
        parse_oklab_color_channel ⟨⟨0, 0, 0, 1⟩, no_missing⟩)
      (fun _ => .OKLAB) false (fun data => data.values) (fun data => data.missing)
  else if name = "oklch" then
    parsed_color U
      (parse_color_function block .MODERN false true false
        parse_oklch_color_channel ⟨⟨0, 0, 0, 1⟩, no_missing⟩)
      (fun _ => .OKLCH) false (fun data => data.values) (fun data => data.missing)
  else if name = "color" then
    parsed_color U
      (parse_color_function block .MODERN true true false
        parse_color_color_channel ⟨.SRGB, ⟨⟨0, 0, 0, 1⟩, no_missing⟩⟩)
      (fun data => data.color_space) false (fun data => data.channels.values)
      (fun data => data.channels.missing)
  else other name block

/-! ### Shapes of argument blocks -/

/-- A token that a channel parser can consume: an identifier, a number, a
percentage or an angle. -/
def is_argument : GtkCssToken → Bool
  | .IDENT _ | .NUMBER _ | .PERCENTAGE _ | .ANGLE _ => true
  | _ => false

/-- A number, a percentage or an angle. -/
def is_numeric : GtkCssToken → Bool
  | .NUMBER _ | .PERCENTAGE _ | .ANGLE _ => true
  | _ => false

/-- A block in modern syntax: three arguments, optionally followed by the
delimiter `/` and one more argument, and nothing else. -/
def modern_shape : GtkCssParser → Bool
  | [a0, a1, a2] => is_argument a0 && is_argument a1 && is_argument a2
  | [a0, a1, a2, s, a3] =>
    is_argument a0 && is_argument a1 && is_argument a2 && decide (s = .DELIM '/') &&
      is_argument a3
  | _ => false

/-- A block in legacy syntax with `n` arguments (`n` is 3 or 4): numbers,
percentages or angles separated by commas, and nothing else. -/
def legacy_shape (n : Nat) : GtkCssParser → Bool
  | [a0, c1, a1, c2, a2] =>
    decide (n = 3) && decide (c1 = .COMMA) && decide (c2 = .COMMA) &&
      is_numeric a0 && is_numeric a1 && is_numeric a2
  | [a0, c1, a1, c2, a2, c3, a3] =>
    decide (n = 4) && decide (c1 = .COMMA) && decide (c2 = .COMMA) && decide (c3 = .COMMA) &&
      is_numeric a0 && is_numeric a1 && is_numeric a2 && is_numeric a3
  | _ => false

/-- A `parse_func` that consumes exactly one argument token when it succeeds,
counts it as one argument, and leaves `syntax` as it is or moves it from
detecting to modern. -/
def ConsumesOne {δ : Type} (parse_func : ParseFunc δ) : Prop :=
  ∀ self arg syn data step, parse_func self arg syn data = .ok step →
    step.parse_args = 1 ∧
    (∃ t, is_argument t = true ∧ self = t :: step.parser) ∧
    (step.syn = syn ∨ (syn = .DETECTING ∧ step.syn = .MODERN))

/-- A `parse_func` that accepts an identifier only by selecting the modern
syntax. -/
def IdentIsModern {δ : Type} (parse_func : ParseFunc δ) : Prop :=
  ∀ self arg syn data step, parse_func self arg syn data = .ok step →
    step.syn ≠ .MODERN → ∀ t, self.head? = some t → is_numeric t = true

/-- A `parse_func` that runs without failed assertion for the arguments below
`bound`. -/
def TotalBelow {δ : Type} (parse_func : ParseFunc δ) (bound : Nat) : Prop :=
  ∀ self arg syn data, arg < bound →
    parse_func self arg syn data = .error ∨ ∃ step, parse_func self arg syn data = .ok step

/-- A channel of `rgb()` as a token: a percentage or a number. -/
def channel_token (percent : Bool) (v : ℚ) : GtkCssToken :=
  if percent then .PERCENTAGE v else .NUMBER v

/-- The value of a colour channel of `rgb()` written as the number `v` or the
percentage `v`: `clamp (v, 0, 255) / 255` or `clamp (255 * v / 100, 0, 255) / 255`. -/
def rgb_channel_of (percent : Bool) (v : ℚ) : ℚ :=
  if percent then CLAMP (v * 255 / 100) 0 255 / 255 else CLAMP v 0 255 / 255

/-- The value of an alpha written as the number `v` or the percentage `v`:
`clamp (v, 0, 1)` or `clamp (v / 100, 0, 1)`. -/
def alpha_of (percent : Bool) (v : ℚ) : ℚ :=
  if percent then CLAMP (v * 1 / 100) 0 1 else CLAMP v 0 1

/-- An argument that is the identifier `none` (for `none`) or a number. -/
def none_or_number : Option ℚ → GtkCssToken
  | none => .IDENT "none"
  | some n => .NUMBER n

/-- The test `gtk_css_token_is (token, GTK_CSS_TOKEN_PERCENTAGE)`. -/
def is_percentage : GtkCssToken → Bool
  | .PERCENTAGE _ => true
  | _ => false

/-- A number of the interval `[0, 1]`. -/
def in_unit (x : ℚ) : Prop :=
  0 ≤ x ∧ x ≤ 1

/-! ## Constructors of composite colour values -/

/-- Source function `gtk_css_color_value_new_shade` (lines 579-602).  A literal
or colour child is folded: the shade of its field `rgba` becomes a literal.
Every value of the model belongs to the class `GTK_CSS_VALUE_COLOR`, so the
check on the class always passes. -/
def gtk_css_color_value_new_shade (E : StyleEnv) (color : GtkCssValue) (factor : ℚ) :
    GtkCssValue :=
  match color with
  | .literal rgba => gtk_css_color_value_new_literal (apply_shade E rgba factor)
  | .color _ rgba _ => gtk_css_color_value_new_literal (apply_shade E rgba factor)
  | _ => .shade color factor

/-- Source function `gtk_css_color_value_new_alpha` (lines 604-627). -/
def gtk_css_color_value_new_alpha (color : GtkCssValue) (factor : ℚ) : GtkCssValue :=
  match color with
  | .literal rgba => gtk_css_color_value_new_literal (apply_alpha rgba factor)
  | .color _ rgba _ => gtk_css_color_value_new_literal (apply_alpha rgba factor)
  | _ => .alpha color factor

/-- Source function `gtk_css_color_value_new_mix` (lines 629-657).  The test on
the two types is the test that both children have a field `rgba`:
`gtk_css_color_value_get_rgba` is `some` for the literal and colour nodes and
for no other node. -/
def gtk_css_color_value_new_mix (color1 color2 : GtkCssValue) (factor : ℚ) : GtkCssValue :=
  match gtk_css_color_value_get_rgba color1, gtk_css_color_value_get_rgba color2 with
  | some rgba1, some rgba2 => gtk_css_color_value_new_literal (apply_mix rgba1 rgba2 factor)
  | _, _ => .mix color1 color2 factor

/-- Modelled from the spec: `gtk_css_value_ref` is defined in `gtkcssvalue.c`,
which is not among the sources.  Expression nodes are "ref-counted, shared":
the state is the list `held` of the references that are held, one entry per
reference, and taking a reference on `value` adds an entry. -/
def gtk_css_value_ref (value : GtkCssValue) (held : List GtkCssValue) : List GtkCssValue :=
  value :: held

/-- Modelled from the spec: `gtk_css_value_unref` is defined in `gtkcssvalue.c`,
which is not among the sources.  Releasing a reference on `value` removes one
entry of `value` from the list of the references that are held. -/
def gtk_css_value_unref (value : GtkCssValue) (held : List GtkCssValue) : List GtkCssValue :=
  held.erase value

/-- Source function `gtk_css_color_value_do_resolve` (lines 382-490) with its
effect on the reference counts: the result of the call and the references
held after it, given the references `held` before it.  A returned value comes
with a reference that belongs to the caller: `gtk_css_value_ref (color)` for a
literal, a colour and the current colour, the reference of the new node for
`gtk_css_color_value_new_literal`.  Every `gtk_css_value_unref` of the source
is a step of the model, and a `return NULL` returns the list as it is at that
point. -/
def gtk_css_color_value_do_resolve_refs (E : StyleEnv)
    (provider : String → Option GtkCssValue) (current : Option GtkCssValue) :
    Nat → GtkCssValue → List Nat → List GtkCssValue → Resolution × List GtkCssValue
  | 0, _, _, held => (.out_of_fuel, held)
  | fuel + 1, color, cycle_list, held =>
    match color with
    | .literal _ => (.resolved color, gtk_css_value_ref color held)
    | .color _ _ _ => (.resolved color, gtk_css_value_ref color held)
    | .name addr name =>
      if addr ∈ cycle_list then (.unresolved, held)
      else
        match provider name with
        | none => (.unresolved, held)
        | some named =>
          gtk_css_color_value_do_resolve_refs E provider current fuel named
            (addr :: cycle_list) held
    | .shade c factor =>
      let r := gtk_css_color_value_do_resolve_refs E provider current fuel c cycle_list held
      match r.1 with
      | .resolved val =>
        match gtk_css_color_value_get_rgba val with
        | some rgba =>
          let value := gtk_css_color_value_new_literal (apply_shade E rgba factor)
          (.resolved value, gtk_css_value_unref val (gtk_css_value_ref value r.2))
        | none => (.assertion_failed, r.2)
      | _ => r
    | .alpha c factor =>
      let r := gtk_css_color_value_do_resolve_refs E provider current fuel c cycle_list held
      match r.1 with
      | .resolved val =>
        match gtk_css_color_value_get_rgba val with
        | some rgba =>
          let value := gtk_css_color_value_new_literal (apply_alpha rgba factor)
          (.resolved value, gtk_css_value_unref val (gtk_css_value_ref value r.2))
        | none => (.assertion_failed, r.2)
      | _ => r
    | .mix c1 c2 factor =>
      let r1 := gtk_css_color_value_do_resolve_refs E provider current fuel c1 cycle_list held
      match r1.1 with
      | .resolved val1 =>
        match gtk_css_color_value_get_rgba val1 with
        | some color1 =>
          let r2 :=
            gtk_css_color_value_do_resolve_refs E provider current fuel c2 cycle_list r1.2
          match r2.1 with
          | .resolved val2 =>
            match gtk_css_color_value_get_rgba val2 with
            | some color2 =>
              let value := gtk_css_color_value_new_literal (apply_mix color1 color2 factor)
              (.resolved value,
                gtk_css_value_unref val2 (gtk_css_value_unref val1
                  (gtk_css_value_ref value r2.2)))
            | none => (.assertion_failed, r2.2)
          | _ => r2
        | none => (.assertion_failed, r1.2)
      | _ => r1
    | .current_color =>
      match current with
      | some c => (.resolved c, gtk_css_value_ref c held)
      | none => (.resolved E.initial_color, gtk_css_value_ref E.initial_color held)

/-! ## Theorems -/

/-- Every conversion to a destination other than Oklab passes all assertions
and returns a colour in the destination space. -/
theorem convert_some_of_ne_oklab (U : ColorUtils) (input : GtkCssColor)
    (dest : GtkCssColorSpace) (hd : dest ≠ .OKLAB) :
    ∃ output, gtk_css_color_convert U input dest = some output ∧
      output.color_space = dest := by
  obtain ⟨cs, v, m⟩ := input
  cases cs <;> cases dest <;>
    simp [gtk_css_color_convert, convert_to_rectangular, convert_to_linear,
      convert_linear_to_linear, convert_from_linear, convert_from_rectangular,
      dest_linear, gtk_css_color_init, gtk_css_color_init_with_missing] at hd ⊢

/-- A conversion whose destination is Oklab hits the assertion
`output->color_space == dest` of `convert_from_rectangular`: the pivot chosen
by `convert_linear_to_linear` for that destination is linear sRGB. -/
theorem convert_oklab_none (U : ColorUtils) (input : GtkCssColor) :
    gtk_css_color_convert U input .OKLAB = none := by
  obtain ⟨cs, v, m⟩ := input
  cases cs <;>
    simp [gtk_css_color_convert, convert_to_rectangular, convert_to_linear,
      convert_linear_to_linear, convert_from_linear, convert_from_rectangular,
      dest_linear, gtk_css_color_init, gtk_css_color_init_with_missing]

/-- Claim C1 (fails on the code): a conversion whose destination is Oklab never
completes.  `convert_linear_to_linear` selects Oklab as pivot only for the
destination Oklch, so for the destination Oklab the colour is left (or put)
in linear sRGB and the assertion `output->color_space == dest` of
`convert_from_rectangular` fails, whatever the input colour is. -/
theorem convert_to_oklab_fails (U : ColorUtils) (input : GtkCssColor) :
    gtk_css_color_convert U input .OKLAB = none :=
  convert_oklab_none U input

/-! ### Hue normalisation -/

/-- The function `normalize_hue_component` computes `360 * fract (v / 360)`. -/
theorem normalize_hue_component_eq (v : ℚ) :
    normalize_hue_component v = 360 * Int.fract (v / 360) := by
  have hf := Int.fract_nonneg (v / 360)
  have hfl : (⌊v / 360⌋ : ℚ) = v / 360 - Int.fract (v / 360) := by
    rw [Int.fract]; ring
  unfold normalize_hue_component fmod trunc
  by_cases h0 : 0 ≤ v / 360
  · have hn : ¬ (v - 360 * (⌊v / 360⌋ : ℚ) < 0) := by
      rw [hfl]; linarith
    simp only [h0, if_true, hn, if_false]
    rw [hfl]; ring
  · simp only [h0, if_false]
    by_cases hz : Int.fract (v / 360) = 0
    · have hc : (⌈v / 360⌉ : ℚ) = v / 360 := by
        have hv : v / 360 = (⌊v / 360⌋ : ℚ) := by rw [hfl, hz]; ring
        rw [hv, Int.ceil_intCast]
      have hn : ¬ (v - 360 * (⌈v / 360⌉ : ℚ) < 0) := by
        rw [hc]; linarith
      simp only [hn, if_false]
      rw [hc, hz]; ring
    · have hc := Int.ceil_eq_add_one_sub_fract hz
      have hpos : 0 < Int.fract (v / 360) := lt_of_le_of_ne hf (Ne.symm hz)
      have hn : v - 360 * (⌈v / 360⌉ : ℚ) < 0 := by
        rw [hc]; linarith [Int.fract_lt_one (v / 360)]
      simp only [hn, if_true]
      rw [hc]; ring

/-- The normalised hue lies in `[0, 360)`. -/
theorem normalize_hue_component_range (v : ℚ) :
    0 ≤ normalize_hue_component v ∧ normalize_hue_component v < 360 := by
  rw [normalize_hue_component_eq]
  constructor
  · linarith [Int.fract_nonneg (v / 360)]
  · linarith [Int.fract_lt_one (v / 360)]

/-- Adding a full turn does not change the normalised hue. -/
theorem normalize_hue_component_add_360 (v : ℚ) :
    normalize_hue_component (v + 360) = normalize_hue_component v := by
  rw [normalize_hue_component_eq, normalize_hue_component_eq]
  have : (v + 360) / 360 = v / 360 + 1 := by ring
  rw [this, Int.fract_add_one]

/-- A hue that already lies in `[0, 360)` is left unchanged. -/
theorem normalize_hue_component_of_range (v : ℚ) (h0 : 0 ≤ v) (h1 : v < 360) :
    normalize_hue_component v = v := by
  rw [normalize_hue_component_eq]
  have : Int.fract (v / 360) = v / 360 := by
    rw [Int.fract_eq_iff]
    refine ⟨by positivity, by linarith [div_lt_one (show (0 : ℚ) < 360 by norm_num) |>.mpr h1], 0, by simp⟩
  rw [this]; ring

/-- Claim C7: in mode `shorter`, for hues `h1`, `h2` in `[0, 360)`, `adjust_hue`
changes each hue only by adding `0` or `360` and leaves `|h2 - h1| ≤ 180`;
and for `h1 = 10`, `h2 = 350` the blend at progress `1/2`, normalised, is `0`. -/
theorem adjust_hue_shorter (h1 h2 : ℚ) (h1lo : 0 ≤ h1) (h1hi : h1 < 360)
    (h2lo : 0 ≤ h2) (h2hi : h2 < 360) :
    ((adjust_hue h1 h2 .SHORTER).1 = h1 ∨ (adjust_hue h1 h2 .SHORTER).1 = h1 + 360) ∧
    ((adjust_hue h1 h2 .SHORTER).2 = h2 ∨ (adjust_hue h1 h2 .SHORTER).2 = h2 + 360) ∧
    |(adjust_hue h1 h2 .SHORTER).2 - (adjust_hue h1 h2 .SHORTER).1| ≤ 180 ∧
    normalize_hue_component
      ((adjust_hue 10 350 .SHORTER).1 * (1 - 1 / 2) +
        (adjust_hue 10 350 .SHORTER).2 * (1 / 2)) = 0 := by
  refine ⟨?_, ?_, ?_, ?_⟩
  · unfold adjust_hue; dsimp only; split_ifs <;> simp
  · unfold adjust_hue; dsimp only; split_ifs <;> simp
  · unfold adjust_hue; dsimp only
    split_ifs with ha hb <;> rw [abs_le] <;> constructor <;> dsimp only <;> linarith
  · have h : adjust_hue 10 350 .SHORTER = (370, 350) := by
      unfold adjust_hue; norm_num
    rw [h]
    have h2 : ((370 : ℚ), (350 : ℚ)).1 * (1 - 1 / 2) + ((370 : ℚ), (350 : ℚ)).2 * (1 / 2)
        = 0 + 360 := by norm_num
    rw [h2, normalize_hue_component_add_360]
    exact normalize_hue_component_of_range 0 le_rfl (by norm_num)

/-- Witness of `adjust_hue_shorter` at `h1 = 10`, `h2 = 350`. -/
theorem adjust_hue_shorter_witness :
    ((adjust_hue 10 350 .SHORTER).1 = 10 ∨ (adjust_hue 10 350 .SHORTER).1 = 10 + 360) ∧
    ((adjust_hue 10 350 .SHORTER).2 = 350 ∨ (adjust_hue 10 350 .SHORTER).2 = 350 + 360) ∧
    |(adjust_hue 10 350 .SHORTER).2 - (adjust_hue 10 350 .SHORTER).1| ≤ 180 ∧
    normalize_hue_component
      ((adjust_hue 10 350 .SHORTER).1 * (1 - 1 / 2) +
        (adjust_hue 10 350 .SHORTER).2 * (1 / 2)) = 0 :=
  adjust_hue_shorter 10 350 (by norm_num) (by norm_num) (by norm_num) (by norm_num)

/-- Claim C8: in mode `longer`, for all hues `h1`, `h2` (in particular those in
`[0, 360)`), `adjust_hue` changes each hue only by adding `0` or `360` and
leaves `|h2 - h1| ≥ 180`; and for `h1 = 10`, `h2 = 350` the blend at progress
`1/2`, normalised, is `180`. -/
theorem adjust_hue_longer (h1 h2 : ℚ) :
    ((adjust_hue h1 h2 .LONGER).1 = h1 ∨ (adjust_hue h1 h2 .LONGER).1 = h1 + 360) ∧
    ((adjust_hue h1 h2 .LONGER).2 = h2 ∨ (adjust_hue h1 h2 .LONGER).2 = h2 + 360) ∧
    180 ≤ |(adjust_hue h1 h2 .LONGER).2 - (adjust_hue h1 h2 .LONGER).1| ∧
    normalize_hue_component
      ((adjust_hue 10 350 .LONGER).1 * (1 - 1 / 2) +
        (adjust_hue 10 350 .LONGER).2 * (1 / 2)) = 180 := by
  refine ⟨?_, ?_, ?_, ?_⟩
  · unfold adjust_hue; dsimp only; split_ifs <;> simp
  · unfold adjust_hue; dsimp only; split_ifs <;> simp
  · unfold adjust_hue; dsimp only
    split_ifs with ha hb
    · rw [le_abs]; right; dsimp only; linarith [ha.1, ha.2]
    · rw [le_abs]; left; dsimp only; linarith [hb.1, hb.2]
    · rw [le_abs]; dsimp only
      by_cases hd : 0 < h2 - h1
      · left
        have : ¬ (h2 - h1 < 180) := fun h => ha ⟨hd, h⟩
        linarith
      · right
        have : ¬ (-180 < h2 - h1) := fun h => hb ⟨h, by linarith⟩
        linarith
  · have h : adjust_hue 10 350 .LONGER = (10, 350) := by
      unfold adjust_hue; norm_num
    rw [h]
    have h2 : ((10 : ℚ), (350 : ℚ)).1 * (1 - 1 / 2) + ((10 : ℚ), (350 : ℚ)).2 * (1 / 2)
        = 180 := by norm_num
    rw [h2]
    exact normalize_hue_component_of_range 180 (by norm_num) (by norm_num)

/-! ### Structure of the interpolation result -/

/-- The function `gtk_css_color_init` never flags the alpha component as powerless. -/
theorem powerless_x3 (s : GtkCssColorSpace) (v : Vec4 ℚ) : (powerless s v).x3 = false := by
  cases s <;> simp only [powerless] <;> try split_ifs
  all_goals rfl

/-- The function `gtk_css_color_init` stores the alpha component as given. -/
theorem init_x3 (U : ColorUtils) (s : GtkCssColorSpace) (v : Vec4 ℚ) :
    (gtk_css_color_init U s v).values.x3 = v.x3 := by
  simp [gtk_css_color_init, gtk_css_color_init_with_missing, powerless_x3]

/-- The function `convert_to_rectangular` keeps the alpha component. -/
theorem convert_to_rectangular_x3 (U : ColorUtils) (c : GtkCssColor) :
    (convert_to_rectangular U c).values.x3 = c.values.x3 := by
  obtain ⟨cs, v, m⟩ := c
  cases cs <;> simp [convert_to_rectangular, gtk_css_color_init_with_missing, no_missing]

/-- The function `convert_to_linear` keeps the alpha component. -/
theorem convert_to_linear_x3 (U : ColorUtils) (c o : GtkCssColor)
    (h : convert_to_linear U c = some o) : o.values.x3 = c.values.x3 := by
  unfold convert_to_linear at h
  split_ifs at h <;> simp only [Option.some.injEq] at h <;> subst h
  · exact init_x3 _ _ _
  · rfl

/-- The function `convert_linear_to_linear` keeps the alpha component. -/
theorem convert_linear_to_linear_x3 (U : ColorUtils) (c o : GtkCssColor)
    (d : GtkCssColorSpace) (h : convert_linear_to_linear U c d = some o) :
    o.values.x3 = c.values.x3 := by
  unfold convert_linear_to_linear at h
  dsimp only at h
  split_ifs at h <;> simp only [Option.some.injEq] at h <;> subst h
  · exact init_x3 _ _ _
  · exact init_x3 _ _ _
  · rfl

/-- The function `convert_from_linear` keeps the alpha component. -/
theorem convert_from_linear_x3 (U : ColorUtils) (c o : GtkCssColor)
    (d : GtkCssColorSpace) (h : convert_from_linear U c d = some o) :
    o.values.x3 = c.values.x3 := by
  unfold convert_from_linear at h
  split_ifs at h
  cases d <;> simp only [Option.some.injEq] at h <;> subst h
  all_goals first | exact init_x3 _ _ _ | rfl

/-- The function `convert_from_rectangular` keeps the alpha component. -/
theorem convert_from_rectangular_x3 (U : ColorUtils) (c o : GtkCssColor)
    (d : GtkCssColorSpace) (h : convert_from_rectangular U c d = some o) :
    o.values.x3 = c.values.x3 := by
  unfold convert_from_rectangular at h
  cases d <;> dsimp only at h <;> split_ifs at h <;>
    simp only [Option.some.injEq] at h <;> subst h
  all_goals first | rfl | exact init_x3 _ _ _

/-- The conversion pipeline never touches the alpha component. -/
theorem convert_alpha (U : ColorUtils) (c : GtkCssColor) (d : GtkCssColorSpace)
    (o : GtkCssColor) (h : gtk_css_color_convert U c d = some o) :
    o.values.x3 = c.values.x3 := by
  unfold gtk_css_color_convert at h
  cases h1 : convert_to_linear U (convert_to_rectangular U c) with
  | none => simp [h1] at h
  | some o1 =>
    simp only [h1, Option.some_bind] at h
    split_ifs at h
    cases h2 : convert_linear_to_linear U o1 d with
    | none => simp [h2] at h
    | some o2 =>
      simp only [h2, Option.some_bind] at h
      cases h3 : convert_from_linear U o2 d with
      | none => simp [h3] at h
      | some o3 =>
        simp only [h3, Option.some_bind] at h
        rw [convert_from_rectangular_x3 U o3 o d h, convert_from_linear_x3 U o2 o3 d h3,
          convert_linear_to_linear_x3 U o1 o2 d h2, convert_to_linear_x3 U _ o1 h1,
          convert_to_rectangular_x3]

/-- The function `unpremultiply` keeps the colour space and the missing mask. -/
theorem unpremultiply_frame (c : GtkCssColor) :
    (unpremultiply c).color_space = c.color_space ∧ (unpremultiply c).missing = c.missing := by
  obtain ⟨cs, v, m⟩ := c
  unfold unpremultiply
  split_ifs
  · exact ⟨rfl, rfl⟩
  · cases cs <;> simp only [unpremultiply_component] <;> split_ifs <;> exact ⟨rfl, rfl⟩

/-- The function `unpremultiply` does not touch the hue component. -/
theorem unpremultiply_hue (c : GtkCssColor) (k : Nat) (hk : hue_index c.color_space = some k) :
    (unpremultiply c).values.get k = c.values.get k := by
  obtain ⟨cs, v, m⟩ := c
  unfold unpremultiply
  split_ifs
  · rfl
  · cases cs <;> simp [hue_index] at hk <;> subst hk <;>
      simp only [unpremultiply_component] <;> split_ifs <;> simp [Vec4.get, Vec4.set]

/-- The function `normalize_hue` keeps the colour space and the missing mask. -/
theorem normalize_hue_frame (c : GtkCssColor) :
    (normalize_hue c).color_space = c.color_space ∧ (normalize_hue c).missing = c.missing := by
  obtain ⟨cs, v, m⟩ := c
  cases cs <;> exact ⟨rfl, rfl⟩

/-- The function `normalize_hue` normalises the hue component of a polar colour. -/
theorem normalize_hue_hue (c : GtkCssColor) (k : Nat) (hk : hue_index c.color_space = some k) :
    (normalize_hue c).values.get k = normalize_hue_component (c.values.get k) := by
  obtain ⟨cs, v, m⟩ := c
  cases cs <;> simp [hue_index] at hk <;> subst hk <;>
    simp [normalize_hue, Vec4.get, Vec4.set]

/-- The flags computed by the loop of lines 633-644: component `i` of the
result is flagged exactly when it is flagged on both sides. -/
theorem carry_missing_flags (fm tm : Vec4 Bool) (a b : GtkCssColor) :
    ([0, 1, 2, 3].foldl (carry_missing fm tm) (a, b, no_missing)).2.2 =
      ⟨fm.x0 && tm.x0, fm.x1 && tm.x1, fm.x2 && tm.x2, fm.x3 && tm.x3⟩ := by
  simp [List.foldl, carry_missing, Vec4.get, Vec4.set, no_missing]

/-- Reading back bit `i` of the mask stored by `gtk_css_color_init_with_missing`. -/
theorem init_with_missing_bit (U : ColorUtils) (s : GtkCssColorSpace) (v : Vec4 ℚ)
    (m : Vec4 Bool) (i : Nat) (hi : i < 4) :
    missing_bit (gtk_css_color_init_with_missing U s v m) i = m.get i := by
  obtain ⟨m0, m1, m2, m3⟩ := m
  interval_cases i <;> cases m0 <;> cases m1 <;> cases m2 <;> cases m3 <;>
    simp [missing_bit, gtk_css_color_init_with_missing, Vec4.get] <;> decide

/-- In every interpolation space other than Oklab the interpolation returns a
colour in that space whose missing flag `i` is the conjunction of the two
projected flags (the analogous missing components of the endpoints). -/
theorem interpolate_missing_of_ne_oklab (U : ColorUtils) (A B : GtkCssColor) (p : ℚ)
    (space : GtkCssColorSpace) (interp : GtkCssHueInterpolation) (hs : space ≠ .OKLAB) :
    ∃ out, gtk_css_color_interpolate U A B p space interp = some out ∧
      out.color_space = space ∧
      ∀ i, i < 4 → missing_bit out i =
        ((collect_analogous_missing A space).get i &&
          (collect_analogous_missing B space).get i) := by
  obtain ⟨a1, ha1, -⟩ := convert_some_of_ne_oklab U A space hs
  obtain ⟨b1, hb1, -⟩ := convert_some_of_ne_oklab U B space hs
  simp only [gtk_css_color_interpolate, interpolate_converted, ha1, hb1, Option.some_bind]
  refine ⟨_, rfl, ?_, ?_⟩
  · rw [(unpremultiply_frame _).1, (normalize_hue_frame _).1]; rfl
  · intro i hi
    have hm : ∀ c : GtkCssColor, missing_bit (unpremultiply (normalize_hue c)) i
        = missing_bit c i := by
      intro c
      unfold missing_bit
      rw [(unpremultiply_frame _).2, (normalize_hue_frame _).2]
    rw [hm, init_with_missing_bit U _ _ _ i hi, carry_missing_flags]
    interval_cases i <;> rfl

/-- After `normalize_hue` and `unpremultiply` the hue of a polar colour lies in
`[0, 360)`. -/
theorem unpremultiply_normalize_hue_range (c : GtkCssColor) (k : Nat)
    (hk : hue_index c.color_space = some k) :
    0 ≤ (unpremultiply (normalize_hue c)).values.get k ∧
      (unpremultiply (normalize_hue c)).values.get k < 360 := by
  have h1 : hue_index (normalize_hue c).color_space = some k := by
    rw [(normalize_hue_frame c).1]; exact hk
  rw [unpremultiply_hue _ k h1, normalize_hue_hue _ k hk]
  exact normalize_hue_component_range _

/-- Claim C9: for every interpolation performed in a polar space (HSL, HWB or
Oklch: the spaces with a hue index `k`), with any endpoints, any progress and
any hue mode, `gtk_css_color_interpolate` returns a colour whose hue component
lies in `[0, 360)`. -/
theorem interpolate_hue_range (U : ColorUtils) (A B : GtkCssColor) (p : ℚ)
    (space : GtkCssColorSpace) (interp : GtkCssHueInterpolation) (k : Nat)
    (hk : hue_index space = some k) :
    ∃ out, gtk_css_color_interpolate U A B p space interp = some out ∧
      0 ≤ out.values.get k ∧ out.values.get k < 360 := by
  have hs : space ≠ .OKLAB := by
    rintro rfl
    simp [hue_index] at hk
  obtain ⟨a1, ha1, -⟩ := convert_some_of_ne_oklab U A space hs
  obtain ⟨b1, hb1, -⟩ := convert_some_of_ne_oklab U B space hs
  simp only [gtk_css_color_interpolate, interpolate_converted, ha1, hb1, Option.some_bind]
  exact ⟨_, rfl, unpremultiply_normalize_hue_range _ k hk⟩

/-- Witness of `interpolate_hue_range`: an HSL interpolation in mode `longer`. -/
theorem interpolate_hue_range_witness :
    hue_index .HSL = some 0 ∧
    ∃ out, gtk_css_color_interpolate idUtils ⟨.HSL, ⟨10, 50, 50, 1⟩, 0⟩
        ⟨.HSL, ⟨350, 50, 50, 1⟩, 0⟩ (1 / 2) .HSL .LONGER = some out ∧
      0 ≤ out.values.get 0 ∧ out.values.get 0 < 360 :=
  ⟨rfl, interpolate_hue_range idUtils _ _ _ .HSL .LONGER 0 rfl⟩

/-! ### The blend of the converted endpoints -/

/-- A colour with an empty missing mask has no analogous missing component. -/
theorem collect_of_missing_eq_zero (c : GtkCssColor) (s : GtkCssColorSpace)
    (h : c.missing = 0) : collect_analogous_missing c s = no_missing := by
  simp [collect_analogous_missing, missing_bit, h]

/-- The loop of lines 633-644 in closed form: a component flagged on one side
only is copied from the other side, and the result flag is the conjunction. -/
theorem carry_missing_fold (fm tm : Vec4 Bool) (a b : GtkCssColor) :
    [0, 1, 2, 3].foldl (carry_missing fm tm) (a, b, no_missing) =
      ({ a with values :=
          ⟨if fm.x0 && !tm.x0 then b.values.x0 else a.values.x0,
           if fm.x1 && !tm.x1 then b.values.x1 else a.values.x1,
           if fm.x2 && !tm.x2 then b.values.x2 else a.values.x2,
           if fm.x3 && !tm.x3 then b.values.x3 else a.values.x3⟩ },
       { b with values :=
          ⟨if !fm.x0 && tm.x0 then a.values.x0 else b.values.x0,
           if !fm.x1 && tm.x1 then a.values.x1 else b.values.x1,
           if !fm.x2 && tm.x2 then a.values.x2 else b.values.x2,
           if !fm.x3 && tm.x3 then a.values.x3 else b.values.x3⟩ },
       ⟨fm.x0 && tm.x0, fm.x1 && tm.x1, fm.x2 && tm.x2, fm.x3 && tm.x3⟩) := by
  obtain ⟨f0, f1, f2, f3⟩ := fm
  obtain ⟨t0, t1, t2, t3⟩ := tm
  cases f0 <;> cases f1 <;> cases f2 <;> cases f3 <;>
    cases t0 <;> cases t1 <;> cases t2 <;> cases t3 <;> rfl

/-- Outside Oklab both endpoints convert, keeping their alpha, and the
interpolation is the blend of the converted endpoints. -/
theorem interpolate_of_ne_oklab (U : ColorUtils) (A B : GtkCssColor)
    (space : GtkCssColorSpace) (interp : GtkCssHueInterpolation) (hs : space ≠ .OKLAB) :
    ∃ a1 b1, gtk_css_color_convert U A space = some a1 ∧
      gtk_css_color_convert U B space = some b1 ∧
      a1.color_space = space ∧ b1.color_space = space ∧
      a1.values.x3 = A.values.x3 ∧ b1.values.x3 = B.values.x3 ∧
      ∀ p, gtk_css_color_interpolate U A B p space interp =
        some (interpolate_converted U (collect_analogous_missing A space)
          (collect_analogous_missing B space) a1 b1 p space interp) := by
  obtain ⟨a1, ha1, hsa⟩ := convert_some_of_ne_oklab U A space hs
  obtain ⟨b1, hb1, hsb⟩ := convert_some_of_ne_oklab U B space hs
  refine ⟨a1, b1, ha1, hb1, hsa, hsb, convert_alpha U A space a1 ha1,
    convert_alpha U B space b1 hb1, ?_⟩
  intro p
  simp only [gtk_css_color_interpolate, ha1, hb1, Option.some_bind]

/-- Endpoints of the blend: with no missing flag on either side and non-zero
alphas, the blend at progress `0` is `a` and at progress `1` is `b`, each with
an empty mask and a normalised hue. -/
theorem blend_endpoints (U : ColorUtils) (a b : GtkCssColor)
    (space : GtkCssColorSpace) (interp : GtkCssHueInterpolation)
    (ha : a.color_space = space) (hb : b.color_space = space)
    (ha3 : a.values.x3 ≠ 0) (hb3 : b.values.x3 ≠ 0) :
    interpolate_converted U no_missing no_missing a b 0 space interp =
      normalize_hue { a with missing := 0 } ∧
    interpolate_converted U no_missing no_missing a b 1 space interp =
      normalize_hue { b with missing := 0 } := by
  obtain ⟨sa, ⟨a0, a1, a2, a3⟩, ma⟩ := a
  obtain ⟨sb, ⟨b0, b1, b2, b3⟩, mb⟩ := b
  simp only at ha hb ha3 hb3
  cases space <;> subst ha hb <;> cases interp <;>
    simp +decide [interpolate_converted, carry_missing, apply_hue_interpolation, premultiply,
      premultiply_component, unpremultiply, unpremultiply_component, normalize_hue,
      gtk_css_color_init_with_missing, missing_bit, Vec4.get, Vec4.set, no_missing, ha3, hb3,
      adjust_hue] <;>
    split_ifs <;> simp [normalize_hue_component_add_360]

set_option maxHeartbeats 1600000 in
/-- Lightness of the blend when exactly one side misses it (and alpha is
present and non-zero on both sides): the result's lightness is not missing
and, at progress `0` and `1`, is the lightness of the side that has it. -/
theorem blend_lightness_one_missing (U : ColorUtils) (fm tm : Vec4 Bool) (a b : GtkCssColor)
    (space : GtkCssColorSpace) (interp : GtkCssHueInterpolation) (k : Nat)
    (ha : a.color_space = space) (hb : b.color_space = space)
    (hk : lightness_index space = some k)
    (hx : fm.get k = !tm.get k)
    (hf3 : fm.x3 = false) (ht3 : tm.x3 = false)
    (ha3 : a.values.x3 ≠ 0) (hb3 : b.values.x3 ≠ 0) :
    missing_bit (interpolate_converted U fm tm a b 0 space interp) k = false ∧
    missing_bit (interpolate_converted U fm tm a b 1 space interp) k = false ∧
    (interpolate_converted U fm tm a b 0 space interp).values.get k =
      (if fm.get k then b else a).values.get k ∧
    (interpolate_converted U fm tm a b 1 space interp).values.get k =
      (if fm.get k then b else a).values.get k := by
  obtain ⟨f0, f1, f2, f3⟩ := fm
  obtain ⟨t0, t1, t2, t3⟩ := tm
  obtain ⟨sa, ⟨a0, a1, a2, a3⟩, ma⟩ := a
  obtain ⟨sb, ⟨b0, b1, b2, b3⟩, mb⟩ := b
  simp only at ha hb ha3 hb3 hf3 ht3
  subst hf3 ht3
  cases space <;> simp [lightness_index, analogous] at hk <;> subst hk ha hb <;>
    simp only [Vec4.get] at hx <;> subst hx
  · cases f0 <;> cases f1 <;> cases t0 <;> cases t1 <;> cases t2 <;>
    simp +decide [interpolate_converted, carry_missing, apply_hue_interpolation, premultiply,
      premultiply_component, unpremultiply, unpremultiply_component, normalize_hue,
      gtk_css_color_init_with_missing, missing_bit, Vec4.get, Vec4.set, no_missing, ha3, hb3]
  · cases f1 <;> cases f2 <;> cases t0 <;> cases t1 <;> cases t2 <;>
    simp +decide [interpolate_converted, carry_missing, apply_hue_interpolation, premultiply,
      premultiply_component, unpremultiply, unpremultiply_component, normalize_hue,
      gtk_css_color_init_with_missing, missing_bit, Vec4.get, Vec4.set, no_missing, ha3, hb3]
  · cases f1 <;> cases f2 <;> cases t0 <;> cases t1 <;> cases t2 <;>
    simp +decide [interpolate_converted, carry_missing, apply_hue_interpolation, premultiply,
      premultiply_component, unpremultiply, unpremultiply_component, normalize_hue,
      gtk_css_color_init_with_missing, missing_bit, Vec4.get, Vec4.set, no_missing, ha3, hb3]

/-- Hue of the blend when exactly one side misses it: the result's hue is not
missing; it is the normalised hue `h` of the side that has it, except in mode
`longer`, where the two equal hues are taken a full turn apart and the result
is `h + 360 * p`, normalised. -/
theorem blend_hue_one_missing (U : ColorUtils) (fm tm : Vec4 Bool) (a b : GtkCssColor)
    (p : ℚ) (space : GtkCssColorSpace) (interp : GtkCssHueInterpolation) (k : Nat)
    (ha : a.color_space = space) (hb : b.color_space = space)
    (hk : hue_index space = some k) (hx : fm.get k = !tm.get k) :
    missing_bit (interpolate_converted U fm tm a b p space interp) k = false ∧
    (interpolate_converted U fm tm a b p space interp).values.get k =
      normalize_hue_component
        ((if fm.get k then b else a).values.get k +
          (if interp = .LONGER then 360 * p else 0)) := by
  have hk4 : k < 4 := by
    cases space <;> simp [hue_index] at hk <;> omega
  constructor
  · unfold interpolate_converted missing_bit
    dsimp only
    rw [(unpremultiply_frame _).2, (normalize_hue_frame _).2]
    have := init_with_missing_bit U space
    unfold missing_bit at this
    rw [this _ _ k hk4, carry_missing_flags]
    obtain ⟨f0, f1, f2, f3⟩ := fm
    obtain ⟨t0, t1, t2, t3⟩ := tm
    interval_cases k <;> simp only [Vec4.get] at hx ⊢ <;> subst hx <;> simp
  · unfold interpolate_converted
    dsimp only
    rw [unpremultiply_hue _ k (by rw [(normalize_hue_frame _).1]; exact hk),
      normalize_hue_hue _ k hk, carry_missing_fold]
    obtain ⟨f0, f1, f2, f3⟩ := fm
    obtain ⟨t0, t1, t2, t3⟩ := tm
    obtain ⟨sa, ⟨a0, a1, a2, a3⟩, ma⟩ := a
    obtain ⟨sb, ⟨b0, b1, b2, b3⟩, mb⟩ := b
    simp only at ha hb
    congr 1
    cases space <;> simp [hue_index] at hk <;> subst hk ha hb <;>
      simp only [Vec4.get] at hx <;> subst hx <;>
      cases t0 <;> cases t2 <;> cases interp <;>
      simp +decide [apply_hue_interpolation, premultiply,
        premultiply_component, gtk_css_color_init_with_missing, missing_bit, Vec4.get,
        Vec4.set, adjust_hue] <;>
      ring

/-- Half a turn always changes the normalised hue. -/
theorem normalize_hue_component_add_180_ne (v : ℚ) :
    normalize_hue_component (v + 180) ≠ normalize_hue_component v := by
  rw [normalize_hue_component_eq, normalize_hue_component_eq]
  intro h
  have h1 : Int.fract ((v + 180) / 360) = Int.fract (v / 360) := by linarith
  obtain ⟨z, hz⟩ := Int.fract_eq_fract.mp h1
  have h2 : (2 : ℚ) * (z : ℚ) = 1 := by rw [← hz]; ring
  have h3 : (2 : ℤ) * z = 1 := by exact_mod_cast h2
  omega

/-- In a space with a lightness component other than Oklab (HSL, Oklch), when
exactly one endpoint misses its (analogous) lightness and alpha is present and
non-zero on both, the interpolation returns, at progress `0` and `1`, a colour
whose lightness is not missing and is the converted lightness of the endpoint
that has it. -/
theorem interpolate_lightness_of_ne_oklab (U : ColorUtils) (A B : GtkCssColor)
    (space : GtkCssColorSpace) (interp : GtkCssHueInterpolation) (k : Nat)
    (hs : space ≠ .OKLAB) (hk : lightness_index space = some k)
    (hx : (collect_analogous_missing A space).get k =
      !(collect_analogous_missing B space).get k)
    (hAa : (collect_analogous_missing A space).x3 = false)
    (hBa : (collect_analogous_missing B space).x3 = false)
    (hA3 : A.values.x3 ≠ 0) (hB3 : B.values.x3 ≠ 0) :
    ∃ a1 b1 o0 o1, gtk_css_color_convert U A space = some a1 ∧
      gtk_css_color_convert U B space = some b1 ∧
      gtk_css_color_interpolate U A B 0 space interp = some o0 ∧
      gtk_css_color_interpolate U A B 1 space interp = some o1 ∧
      missing_bit o0 k = false ∧ missing_bit o1 k = false ∧
      o0.values.get k =
        (if (collect_analogous_missing A space).get k then b1 else a1).values.get k ∧
      o1.values.get k =
        (if (collect_analogous_missing A space).get k then b1 else a1).values.get k := by
  obtain ⟨a1, b1, ha1, hb1, hsa, hsb, hxa, hxb, hI⟩ := interpolate_of_ne_oklab U A B space interp hs
  have h := blend_lightness_one_missing U _ _ a1 b1 space interp k hsa hsb hk hx hAa hBa
    (by rw [hxa]; exact hA3) (by rw [hxb]; exact hB3)
  exact ⟨a1, b1, _, _, ha1, hb1, hI 0, hI 1, h.1, h.2.1, h.2.2.1, h.2.2.2⟩

/-! ### Round trips of `gtk_css_color_convert` -/

/-- When no component is powerless `gtk_css_color_init` stores the components
with an empty mask. -/
theorem init_of_powerless (U : ColorUtils) (s : GtkCssColorSpace) (v : Vec4 ℚ)
    (h : powerless s v = no_missing) : gtk_css_color_init U s v = ⟨s, v, 0⟩ := by
  simp [gtk_css_color_init, gtk_css_color_init_with_missing, h, no_missing]

/-- An empty mask after `gtk_css_color_init` means that no component was found
powerless. -/
theorem powerless_of_init_missing (U : ColorUtils) (s : GtkCssColorSpace) (v : Vec4 ℚ)
    (h : (gtk_css_color_init U s v).missing = 0) : powerless s v = no_missing := by
  cases s <;> simp only [gtk_css_color_init, powerless] at h ⊢ <;> try split_ifs at h ⊢
  all_goals first | rfl | (exfalso; revert h; simp +decide [gtk_css_color_init_with_missing, no_missing, Vec4.set])

/-- No component of an sRGB colour is powerless. -/
theorem powerless_srgb (v : Vec4 ℚ) : powerless .SRGB v = no_missing := rfl

/-- No component of a linear sRGB colour is powerless. -/
theorem powerless_srgb_linear (v : Vec4 ℚ) : powerless .SRGB_LINEAR v = no_missing := rfl

/-- No component of an Oklab colour is powerless. -/
theorem powerless_oklab (v : Vec4 ℚ) : powerless .OKLAB v = no_missing := rfl

/-- Second half of a round trip: if `C` (no missing component, not powerless,
components in the domain of its space) converts to `mid` and `mid` has an
empty mask, then `mid` converts back to `C`. -/
theorem convert_back (U : ColorUtils) (D : GtkCssColorSpace → ℚ × ℚ × ℚ → Prop)
    (hU : InverseOn U D) (C mid : GtkCssColor) (S2 : GtkCssColorSpace)
    (h1 : C.color_space ≠ .OKLAB)
    (hC : C.missing = 0) (hD : D C.color_space (prim_coords C))
    (hp : powerless C.color_space C.values = no_missing)
    (hmid : gtk_css_color_convert U C S2 = some mid) (hm : mid.missing = 0) :
    gtk_css_color_convert U mid C.color_space = some C := by
  obtain ⟨S1, ⟨c0, c1, c2, c3⟩, m⟩ := C
  simp only at h1 hC hD hp ⊢
  subst hC
  cases S1
  · -- SRGB
    simp only [prim_coords] at hD
    have d1 := hU.rgb_lin_mem _ _ _ hD
    have d2 := hU.lin_lab_mem _ _ _ (by simpa using d1)
    have d3 := hU.lab_lch_mem _ _ _ (by simpa using d2)
    have d4 := hU.rgb_hsl_mem _ _ _ hD
    have d5 := hU.rgb_hwb_mem _ _ _ hD
    cases S2 <;>
      simp [gtk_css_color_convert, convert_to_rectangular, convert_to_linear,
        convert_linear_to_linear, convert_from_linear, convert_from_rectangular,
        dest_linear, init_of_powerless, powerless_srgb, powerless_srgb_linear, powerless_oklab,
        gtk_css_color_init_with_missing, no_missing,
        hU.rgb_lin_inv, hU.lin_rgb_inv, hU.lin_lab_inv, hU.lab_lin_inv, hU.lab_lch_inv,
        hU.lch_lab_inv, hU.hsl_rgb_inv, hU.rgb_hsl_inv, hU.hwb_rgb_inv, hU.rgb_hwb_inv,
        hD, d1, d2, d3, d4, d5, hp] at hmid <;>
      subst hmid
    all_goals try (have hq := powerless_of_init_missing U _ _ hm; rw [init_of_powerless U _ _ hq])
    all_goals
      simp [gtk_css_color_convert, convert_to_rectangular, convert_to_linear,
        convert_linear_to_linear, convert_from_linear, convert_from_rectangular,
        dest_linear, init_of_powerless, powerless_srgb, powerless_srgb_linear, powerless_oklab,
        gtk_css_color_init_with_missing, no_missing,
        hU.rgb_lin_inv, hU.lin_rgb_inv, hU.lin_lab_inv, hU.lab_lin_inv, hU.lab_lch_inv,
        hU.lch_lab_inv, hU.hsl_rgb_inv, hU.rgb_hsl_inv, hU.hwb_rgb_inv, hU.rgb_hwb_inv,
        hD, d1, d2, d3, d4, d5, hp]
  · -- SRGB_LINEAR
    simp only [prim_coords] at hD
    have d1 := hU.lin_rgb_mem _ _ _ hD
    have d2 := hU.lin_lab_mem _ _ _ hD
    have d3 := hU.lab_lch_mem _ _ _ (by simpa using d2)
    have d4 := hU.rgb_hsl_mem _ _ _ (by simpa using d1)
    have d5 := hU.rgb_hwb_mem _ _ _ (by simpa using d1)
    cases S2 <;>
      simp [gtk_css_color_convert, convert_to_rectangular, convert_to_linear,
        convert_linear_to_linear, convert_from_linear, convert_from_rectangular,
        dest_linear, init_of_powerless, powerless_srgb, powerless_srgb_linear, powerless_oklab,
        gtk_css_color_init_with_missing, no_missing,
        hU.rgb_lin_inv, hU.lin_rgb_inv, hU.lin_lab_inv, hU.lab_lin_inv, hU.lab_lch_inv,
        hU.lch_lab_inv, hU.hsl_rgb_inv, hU.rgb_hsl_inv, hU.hwb_rgb_inv, hU.rgb_hwb_inv,
        hD, d1, d2, d3, d4, d5, hp] at hmid <;>
      subst hmid
    all_goals try (have hq := powerless_of_init_missing U _ _ hm; rw [init_of_powerless U _ _ hq])
    all_goals
      simp [gtk_css_color_convert, convert_to_rectangular, convert_to_linear,
        convert_linear_to_linear, convert_from_linear, convert_from_rectangular,
        dest_linear, init_of_powerless, powerless_srgb, powerless_srgb_linear, powerless_oklab,
        gtk_css_color_init_with_missing, no_missing,
        hU.rgb_lin_inv, hU.lin_rgb_inv, hU.lin_lab_inv, hU.lab_lin_inv, hU.lab_lch_inv,
        hU.lch_lab_inv, hU.hsl_rgb_inv, hU.rgb_hsl_inv, hU.hwb_rgb_inv, hU.rgb_hwb_inv,
        hD, d1, d2, d3, d4, d5, hp]
  · -- HSL
    simp only [prim_coords] at hD
    have d1 := hU.hsl_rgb_mem _ _ _ hD
    have d2 := hU.rgb_lin_mem _ _ _ (by simpa using d1)
    have d3 := hU.lin_lab_mem _ _ _ (by simpa using d2)
    have d4 := hU.lab_lch_mem _ _ _ (by simpa using d3)
    have d5 := hU.rgb_hwb_mem _ _ _ (by simpa using d1)
    cases S2 <;>
      simp [gtk_css_color_convert, convert_to_rectangular, convert_to_linear,
        convert_linear_to_linear, convert_from_linear, convert_from_rectangular,
        dest_linear, init_of_powerless, powerless_srgb, powerless_srgb_linear, powerless_oklab,
        gtk_css_color_init_with_missing, no_missing,
        hU.rgb_lin_inv, hU.lin_rgb_inv, hU.lin_lab_inv, hU.lab_lin_inv, hU.lab_lch_inv,
        hU.lch_lab_inv, hU.hsl_rgb_inv, hU.rgb_hsl_inv, hU.hwb_rgb_inv, hU.rgb_hwb_inv,
        hD, d1, d2, d3, d4, d5, hp] at hmid <;>
      subst hmid
    all_goals try (have hq := powerless_of_init_missing U _ _ hm; rw [init_of_powerless U _ _ hq])
    all_goals
      simp [gtk_css_color_convert, convert_to_rectangular, convert_to_linear,
        convert_linear_to_linear, convert_from_linear, convert_from_rectangular,
        dest_linear, init_of_powerless, powerless_srgb, powerless_srgb_linear, powerless_oklab,
        gtk_css_color_init_with_missing, no_missing,
        hU.rgb_lin_inv, hU.lin_rgb_inv, hU.lin_lab_inv, hU.lab_lin_inv, hU.lab_lch_inv,
        hU.lch_lab_inv, hU.hsl_rgb_inv, hU.rgb_hsl_inv, hU.hwb_rgb_inv, hU.rgb_hwb_inv,
        hD, d1, d2, d3, d4, d5, hp]
  · -- HWB
    simp only [prim_coords] at hD
    have d1 := hU.hwb_rgb_mem _ _ _ hD
    have d2 := hU.rgb_lin_mem _ _ _ (by simpa using d1)
    have d3 := hU.lin_lab_mem _ _ _ (by simpa using d2)
    have d4 := hU.lab_lch_mem _ _ _ (by simpa using d3)
    have d5 := hU.rgb_hsl_mem _ _ _ (by simpa using d1)
    cases S2 <;>
      simp [gtk_css_color_convert, convert_to_rectangular, convert_to_linear,
        convert_linear_to_linear, convert_from_linear, convert_from_rectangular,
        dest_linear, init_of_powerless, powerless_srgb, powerless_srgb_linear, powerless_oklab,
        gtk_css_color_init_with_missing, no_missing,
        hU.rgb_lin_inv, hU.lin_rgb_inv, hU.lin_lab_inv, hU.lab_lin_inv, hU.lab_lch_inv,
        hU.lch_lab_inv, hU.hsl_rgb_inv, hU.rgb_hsl_inv, hU.hwb_rgb_inv, hU.rgb_hwb_inv,
        hD, d1, d2, d3, d4, d5, hp] at hmid <;>
      subst hmid
    all_goals try (have hq := powerless_of_init_missing U _ _ hm; rw [init_of_powerless U _ _ hq])
    all_goals
      simp [gtk_css_color_convert, convert_to_rectangular, convert_to_linear,
        convert_linear_to_linear, convert_from_linear, convert_from_rectangular,
        dest_linear, init_of_powerless, powerless_srgb, powerless_srgb_linear, powerless_oklab,
        gtk_css_color_init_with_missing, no_missing,
        hU.rgb_lin_inv, hU.lin_rgb_inv, hU.lin_lab_inv, hU.lab_lin_inv, hU.lab_lch_inv,
        hU.lch_lab_inv, hU.hsl_rgb_inv, hU.rgb_hsl_inv, hU.hwb_rgb_inv, hU.rgb_hwb_inv,
        hD, d1, d2, d3, d4, d5, hp]
  · exact absurd rfl h1
  · -- OKLCH
    simp only [prim_coords] at hD
    have d1 := hU.lch_lab_mem _ _ _ hD
    have d2 := hU.lab_lin_mem _ _ _ (by simpa using d1)
    have d3 := hU.lin_rgb_mem _ _ _ (by simpa using d2)
    have d4 := hU.rgb_hsl_mem _ _ _ (by simpa using d3)
    have d5 := hU.rgb_hwb_mem _ _ _ (by simpa using d3)
    cases S2 <;>
      simp [gtk_css_color_convert, convert_to_rectangular, convert_to_linear,
        convert_linear_to_linear, convert_from_linear, convert_from_rectangular,
        dest_linear, init_of_powerless, powerless_srgb, powerless_srgb_linear, powerless_oklab,
        gtk_css_color_init_with_missing, no_missing,
        hU.rgb_lin_inv, hU.lin_rgb_inv, hU.lin_lab_inv, hU.lab_lin_inv, hU.lab_lch_inv,
        hU.lch_lab_inv, hU.hsl_rgb_inv, hU.rgb_hsl_inv, hU.hwb_rgb_inv, hU.rgb_hwb_inv,
        hD, d1, d2, d3, d4, d5, hp] at hmid <;>
      subst hmid
    all_goals try (have hq := powerless_of_init_missing U _ _ hm; rw [init_of_powerless U _ _ hq])
    all_goals
      simp [gtk_css_color_convert, convert_to_rectangular, convert_to_linear,
        convert_linear_to_linear, convert_from_linear, convert_from_rectangular,
        dest_linear, init_of_powerless, powerless_srgb, powerless_srgb_linear, powerless_oklab,
        gtk_css_color_init_with_missing, no_missing,
        hU.rgb_lin_inv, hU.lin_rgb_inv, hU.lin_lab_inv, hU.lab_lin_inv, hU.lab_lch_inv,
        hU.lch_lab_inv, hU.hsl_rgb_inv, hU.rgb_hsl_inv, hU.hwb_rgb_inv, hU.rgb_hwb_inv,
        hD, d1, d2, d3, d4, d5, hp]

/-- A conversion to HSL ends with `gtk_css_color_init` on the HSL components. -/
theorem convert_hsl_init (U : ColorUtils) (c o : GtkCssColor)
    (h : gtk_css_color_convert U c .HSL = some o) :
    ∃ v, o = gtk_css_color_init U .HSL v := by
  obtain ⟨cs, v, m⟩ := c
  cases cs <;>
    simp [gtk_css_color_convert, convert_to_rectangular, convert_to_linear,
      convert_linear_to_linear, convert_from_linear, convert_from_rectangular,
      dest_linear, init_of_powerless, powerless_srgb, powerless_srgb_linear, powerless_oklab,
      gtk_css_color_init_with_missing, no_missing] at h <;>
    exact ⟨_, h.symm⟩

/-- Round trip of a powerless hue: the HSL colour `(10, 50, 0)` of alpha `1` with
no missing component, converted to sRGB and back to HSL, comes back with its
hue flagged missing or with a lightness of absolute value at least `0.001`,
whatever the primitives are. -/
theorem convert_round_trip_powerless (U : ColorUtils) :
    ∃ mid out,
      gtk_css_color_convert U ⟨.HSL, ⟨10, 50, 0, 1⟩, 0⟩ .SRGB = some mid ∧
      gtk_css_color_convert U mid .HSL = some out ∧
      (missing_bit out 0 = true ∨ 1 / 1000 ≤ |out.values.x2|) := by
  obtain ⟨mid, hmid, -⟩ := convert_some_of_ne_oklab U ⟨.HSL, ⟨10, 50, 0, 1⟩, 0⟩ .SRGB (by decide)
  obtain ⟨out, hout, -⟩ := convert_some_of_ne_oklab U mid .HSL (by decide)
  obtain ⟨v, hv⟩ := convert_hsl_init U mid out hout
  refine ⟨mid, out, hmid, hout, ?_⟩
  subst hv
  by_cases hl : |v.x2| < 1 / 1000
  · left
    have hq : powerless .HSL v = no_missing.set 0 true := if_pos hl
    rw [gtk_css_color_init, hq, init_with_missing_bit U _ _ _ 0 (by norm_num)]
    rfl
  · right
    have hq : powerless .HSL v = no_missing := if_neg hl
    rw [init_of_powerless U _ _ hq]
    exact not_lt.mp hl

/-- Claim C2, counterexample: take the HSL colour `C = (10, 50, 0)` of alpha `1`
with no missing component (what `hsl(10 50% 0%)` parses to).  For no choice of
the primitives does the round trip through sRGB return a colour whose hue is
still present (as in `C`) and whose lightness is within `0.001` of the
lightness `0` of `C`: the conversions complete, and the result has its hue
flagged missing or its lightness off by at least `0.001`. -/
theorem convert_round_trip_counterexample :
    ¬ ∃ (U : ColorUtils) (mid out : GtkCssColor),
      gtk_css_color_convert U ⟨.HSL, ⟨10, 50, 0, 1⟩, 0⟩ .SRGB = some mid ∧
      gtk_css_color_convert U mid .HSL = some out ∧
      missing_bit out 0 = missing_bit ⟨.HSL, ⟨10, 50, 0, 1⟩, 0⟩ 0 ∧
      |out.values.x2 - (⟨.HSL, ⟨10, 50, 0, 1⟩, 0⟩ : GtkCssColor).values.x2| < 1 / 1000 := by
  rintro ⟨U, mid, out, hmid, hout, hbit, hl⟩
  obtain ⟨mid', out', hmid', hout', key⟩ := convert_round_trip_powerless U
  rw [hmid] at hmid'
  cases hmid'
  rw [hout] at hout'
  cases hout'
  have hb : missing_bit out 0 = false := by rw [hbit]; decide
  simp only [sub_zero] at hl
  rcases key with h | h
  · rw [hb] at h
    exact absurd h (by decide)
  · exact absurd hl (not_lt.mpr h)

/-- Claim C2, amended: let `C` be a colour with no missing component, in a
space other than Oklab, that `gtk_css_color_init` does not find powerless,
and let the destination be a space other than Oklab.  Then the conversion to
the destination completes, and whenever the converted colour has an empty
missing mask (no powerless component was detected), converting it back to the
space of `C` returns exactly `C` — provided the colour-space primitives are
mutually inverse on domains `D` containing the components of `C`. -/
theorem convert_round_trip (U : ColorUtils) (D : GtkCssColorSpace → ℚ × ℚ × ℚ → Prop)
    (hU : InverseOn U D) (C : GtkCssColor) (S2 : GtkCssColorSpace)
    (h1 : C.color_space ≠ .OKLAB) (h2 : S2 ≠ .OKLAB)
    (hC : C.missing = 0) (hD : D C.color_space (prim_coords C))
    (hp : powerless C.color_space C.values = no_missing) :
    ∃ mid, gtk_css_color_convert U C S2 = some mid ∧ mid.color_space = S2 ∧
      (mid.missing = 0 → gtk_css_color_convert U mid C.color_space = some C) := by
  obtain ⟨mid, hmid, hs⟩ := convert_some_of_ne_oklab U C S2 h2
  exact ⟨mid, hmid, hs, fun hm => convert_back U D hU C mid S2 h1 hC hD hp hmid hm⟩

/-- The identity colour utilities are mutually inverse everywhere. -/
theorem idUtils_inverseOn : InverseOn idUtils (fun _ _ => True) := by
  constructor <;> intros <;> trivial

/-- Witness of `convert_round_trip`: sRGB `(1/4, 1/2, 3/4)` of alpha `1`, through
HSL and back. -/
theorem convert_round_trip_witness :
    InverseOn idUtils (fun _ _ => True) ∧
    GtkCssColorSpace.SRGB ≠ GtkCssColorSpace.OKLAB ∧
    GtkCssColorSpace.HSL ≠ GtkCssColorSpace.OKLAB ∧
    powerless .SRGB ⟨1 / 4, 1 / 2, 3 / 4, 1⟩ = no_missing ∧
    ∃ mid, gtk_css_color_convert idUtils ⟨.SRGB, ⟨1 / 4, 1 / 2, 3 / 4, 1⟩, 0⟩ .HSL = some mid ∧
      mid.color_space = .HSL ∧
      (mid.missing = 0 →
        gtk_css_color_convert idUtils mid .SRGB = some ⟨.SRGB, ⟨1 / 4, 1 / 2, 3 / 4, 1⟩, 0⟩) :=
  ⟨idUtils_inverseOn, by decide, by decide, rfl,
    convert_round_trip idUtils (fun _ _ => True) idUtils_inverseOn
      ⟨.SRGB, ⟨1 / 4, 1 / 2, 3 / 4, 1⟩, 0⟩ .HSL (by decide) (by decide) rfl trivial rfl⟩

/-! ### Claims on `gtk_css_color_interpolate` -/

/-- Interpolation from a fully transparent colour: with `A = sRGB (1, 0, 0)` of
alpha `0` and `B = sRGB (0, 0, 1)` of alpha `1`, the interpolation in sRGB at
progress `0` returns `(0, 0, 0)` of alpha `0` for every hue mode and all
primitives: the premultiplied components are `0` and `unpremultiply` skips
the division when alpha is `0`. -/
theorem interpolate_zero_alpha (U : ColorUtils) (interp : GtkCssHueInterpolation) :
    gtk_css_color_interpolate U ⟨.SRGB, ⟨1, 0, 0, 0⟩, 0⟩ ⟨.SRGB, ⟨0, 0, 1, 1⟩, 0⟩ 0
      .SRGB interp = some ⟨.SRGB, ⟨0, 0, 0, 0⟩, 0⟩ := by
  obtain ⟨a1, b1, -, -, hsa, hsb, hxa, hxb, hI⟩ :=
    interpolate_of_ne_oklab U ⟨.SRGB, ⟨1, 0, 0, 0⟩, 0⟩ ⟨.SRGB, ⟨0, 0, 1, 1⟩, 0⟩ .SRGB interp
      (by decide)
  rw [hI 0, collect_of_missing_eq_zero _ _ rfl, collect_of_missing_eq_zero _ _ rfl]
  obtain ⟨sa, ⟨a0, a1, a2, a3⟩, ma⟩ := a1
  obtain ⟨sb, ⟨b0, b1, b2, b3⟩, mb⟩ := b1
  simp only at hsa hsb hxa hxb
  subst hsa hsb hxa hxb
  simp +decide [interpolate_converted, carry_missing, apply_hue_interpolation, premultiply,
    premultiply_component, unpremultiply, normalize_hue,
    gtk_css_color_init_with_missing, missing_bit, Vec4.get, Vec4.set, no_missing]

/-- Claim C3, counterexample: with `A = sRGB (1, 0, 0)` of alpha `0` and
`B = sRGB (0, 0, 1)` of alpha `1`, neither with a missing component, for no
choice of the primitives and no hue mode does the interpolation in sRGB at
progress `0` return `A`: it returns `(0, 0, 0)` of alpha `0`. -/
theorem interpolate_progress_zero_counterexample :
    ¬ ∃ (U : ColorUtils) (interp : GtkCssHueInterpolation),
      gtk_css_color_interpolate U ⟨.SRGB, ⟨1, 0, 0, 0⟩, 0⟩ ⟨.SRGB, ⟨0, 0, 1, 1⟩, 0⟩ 0
        .SRGB interp = some ⟨.SRGB, ⟨1, 0, 0, 0⟩, 0⟩ := by
  rintro ⟨U, interp, h⟩
  rw [interpolate_zero_alpha U interp] at h
  simp at h

/-- Claim C3, amended: for every interpolation space other than Oklab and every
hue mode, if `A` and `B` have no missing component and non-zero alpha, then
`gtk_css_color_interpolate` returns at progress `0` the colour `A` converted
into the interpolation space and at progress `1` the colour `B` converted into
the interpolation space, each with an empty missing mask and its hue (if any)
normalised into `[0, 360)`. -/
theorem interpolate_endpoints (U : ColorUtils) (A B : GtkCssColor)
    (space : GtkCssColorSpace) (interp : GtkCssHueInterpolation) (hs : space ≠ .OKLAB)
    (hA : A.missing = 0) (hB : B.missing = 0)
    (hA3 : A.values.x3 ≠ 0) (hB3 : B.values.x3 ≠ 0) :
    ∃ a1 b1, gtk_css_color_convert U A space = some a1 ∧
      gtk_css_color_convert U B space = some b1 ∧
      gtk_css_color_interpolate U A B 0 space interp =
        some (normalize_hue { a1 with missing := 0 }) ∧
      gtk_css_color_interpolate U A B 1 space interp =
        some (normalize_hue { b1 with missing := 0 }) := by
  obtain ⟨a1, b1, ha1, hb1, hsa, hsb, hxa, hxb, hI⟩ := interpolate_of_ne_oklab U A B space interp hs
  have h := blend_endpoints U a1 b1 space interp hsa hsb
    (by rw [hxa]; exact hA3) (by rw [hxb]; exact hB3)
  refine ⟨a1, b1, ha1, hb1, ?_, ?_⟩
  · rw [hI 0, collect_of_missing_eq_zero A space hA, collect_of_missing_eq_zero B space hB, h.1]
  · rw [hI 1, collect_of_missing_eq_zero A space hA, collect_of_missing_eq_zero B space hB, h.2]

/-- Witness of `interpolate_endpoints`: sRGB `(1, 0, 0)` of alpha `1/2` and sRGB
`(0, 0, 1)` of alpha `1`, interpolated in HSL. -/
theorem interpolate_endpoints_witness :
    GtkCssColorSpace.HSL ≠ GtkCssColorSpace.OKLAB ∧
    (⟨.SRGB, ⟨1, 0, 0, 1 / 2⟩, 0⟩ : GtkCssColor).values.x3 ≠ 0 ∧
    (⟨.SRGB, ⟨0, 0, 1, 1⟩, 0⟩ : GtkCssColor).values.x3 ≠ 0 ∧
    ∃ a1 b1, gtk_css_color_convert idUtils ⟨.SRGB, ⟨1, 0, 0, 1 / 2⟩, 0⟩ .HSL = some a1 ∧
      gtk_css_color_convert idUtils ⟨.SRGB, ⟨0, 0, 1, 1⟩, 0⟩ .HSL = some b1 ∧
      gtk_css_color_interpolate idUtils ⟨.SRGB, ⟨1, 0, 0, 1 / 2⟩, 0⟩ ⟨.SRGB, ⟨0, 0, 1, 1⟩, 0⟩ 0
        .HSL .SHORTER = some (normalize_hue { a1 with missing := 0 }) ∧
      gtk_css_color_interpolate idUtils ⟨.SRGB, ⟨1, 0, 0, 1 / 2⟩, 0⟩ ⟨.SRGB, ⟨0, 0, 1, 1⟩, 0⟩ 1
        .HSL .SHORTER = some (normalize_hue { b1 with missing := 0 }) :=
  ⟨by decide, by norm_num, by norm_num,
    interpolate_endpoints idUtils _ _ .HSL .SHORTER (by decide) rfl rfl
      (by norm_num) (by norm_num)⟩

/-- Claim C4 (fails on the code): an interpolation in Oklab returns no colour at
all, so there is no missing mask to speak of: both endpoints are first
converted to Oklab, and that conversion stops at the failing assertion of
`convert_from_rectangular`. -/
theorem interpolate_in_oklab_fails (U : ColorUtils) (A B : GtkCssColor) (p : ℚ)
    (interp : GtkCssHueInterpolation) :
    gtk_css_color_interpolate U A B p .OKLAB interp = none := by
  simp [gtk_css_color_interpolate, convert_oklab_none]

/-- Claim C5 (fails on the code): Oklab has a lightness component (index `0`);
`A` below misses its lightness, `B` has lightness `1/2`, both have alpha `1`;
their interpolation in Oklab returns no colour at progress `0` and at
progress `1`, for every hue mode and all primitives. -/
theorem interpolate_lightness_in_oklab_fails (U : ColorUtils)
    (interp : GtkCssHueInterpolation) :
    lightness_index .OKLAB = some 0 ∧
    missing_bit ⟨.OKLAB, ⟨0, 1 / 10, 1 / 10, 1⟩, 1⟩ 0 = true ∧
    missing_bit ⟨.OKLAB, ⟨1 / 2, 0, 0, 1⟩, 0⟩ 0 = false ∧
    gtk_css_color_interpolate U ⟨.OKLAB, ⟨0, 1 / 10, 1 / 10, 1⟩, 1⟩
      ⟨.OKLAB, ⟨1 / 2, 0, 0, 1⟩, 0⟩ 0 .OKLAB interp = none ∧
    gtk_css_color_interpolate U ⟨.OKLAB, ⟨0, 1 / 10, 1 / 10, 1⟩, 1⟩
      ⟨.OKLAB, ⟨1 / 2, 0, 0, 1⟩, 0⟩ 1 .OKLAB interp = none := by
  refine ⟨by decide, by decide, by decide, ?_, ?_⟩ <;>
    simp [gtk_css_color_interpolate, convert_oklab_none]

/-- Mode `longer` with one hue missing: in HSL, `A` has its hue missing and `B`
has hue `90` present.  At progress `1/2` the hue of the result is the
converted hue of `B` plus `180`, normalised, whatever the primitives are. -/
theorem interpolate_hue_longer_half (U : ColorUtils) :
    ∃ b1 out, gtk_css_color_convert U ⟨.HSL, ⟨90, 50, 50, 1⟩, 0⟩ .HSL = some b1 ∧
      gtk_css_color_interpolate U ⟨.HSL, ⟨0, 50, 50, 1⟩, 1⟩ ⟨.HSL, ⟨90, 50, 50, 1⟩, 0⟩
        (1 / 2) .HSL .LONGER = some out ∧
      out.values.get 0 = normalize_hue_component (b1.values.get 0 + 180) := by
  obtain ⟨a1, b1, -, hb1, hsa, hsb, -, -, hI⟩ :=
    interpolate_of_ne_oklab U ⟨.HSL, ⟨0, 50, 50, 1⟩, 1⟩ ⟨.HSL, ⟨90, 50, 50, 1⟩, 0⟩ .HSL .LONGER
      (by decide)
  have hf : (collect_analogous_missing ⟨.HSL, ⟨0, 50, 50, 1⟩, 1⟩ .HSL).get 0 = true := by decide
  have ht : (collect_analogous_missing ⟨.HSL, ⟨90, 50, 50, 1⟩, 0⟩ .HSL).get 0 = false := by decide
  have h := (blend_hue_one_missing U
    (collect_analogous_missing ⟨.HSL, ⟨0, 50, 50, 1⟩, 1⟩ .HSL)
    (collect_analogous_missing ⟨.HSL, ⟨90, 50, 50, 1⟩, 0⟩ .HSL)
    a1 b1 (1 / 2) .HSL .LONGER 0 hsa hsb rfl (by rw [hf, ht]; rfl)).2
  rw [hf, if_pos rfl, if_pos rfl] at h
  have e : (360 : ℚ) * (1 / 2) = 180 := by norm_num
  rw [e] at h
  exact ⟨b1, _, hb1, hI (1 / 2), h⟩

/-- Claim C6, counterexample: in HSL, `A = (0, 50, 50)` has its hue missing (mask
`1`) and `B = (90, 50, 50)` has its hue present; projected into HSL exactly
one hue is missing.  In mode `longer`, at progress `1/2`, for no choice of the
primitives is the hue of the result the normalised (converted) hue of `B`: it
is that hue plus `180`, normalised. -/
theorem interpolate_hue_longer_counterexample :
    (collect_analogous_missing ⟨.HSL, ⟨0, 50, 50, 1⟩, 1⟩ .HSL).get 0 = true ∧
    (collect_analogous_missing ⟨.HSL, ⟨90, 50, 50, 1⟩, 0⟩ .HSL).get 0 = false ∧
    ¬ ∃ (U : ColorUtils) (b1 out : GtkCssColor),
      gtk_css_color_convert U ⟨.HSL, ⟨90, 50, 50, 1⟩, 0⟩ .HSL = some b1 ∧
      gtk_css_color_interpolate U ⟨.HSL, ⟨0, 50, 50, 1⟩, 1⟩ ⟨.HSL, ⟨90, 50, 50, 1⟩, 0⟩
        (1 / 2) .HSL .LONGER = some out ∧
      out.values.get 0 = normalize_hue_component (b1.values.get 0) := by
  refine ⟨by decide, by decide, ?_⟩
  rintro ⟨U, b1, out, hb1, hout, hh⟩
  obtain ⟨b1', out', hb1', hout', h⟩ := interpolate_hue_longer_half U
  rw [hb1] at hb1'
  cases hb1'
  rw [hout] at hout'
  cases hout'
  rw [hh] at h
  exact normalize_hue_component_add_180_ne _ h.symm

/-- Claim C6, amended: in a polar interpolation space (HSL, HWB, Oklch: hue
index `k`), when exactly one endpoint's hue is missing (projected into the
interpolation space), for every progress `p` the hue of the result is not
missing; in the modes `shorter`, `increasing` and `decreasing` it is the
converted hue of the endpoint that has one, normalised into `[0, 360)`; in
mode `longer` the two equal hues are taken a full turn apart and the result
is that hue plus `360 * p`, normalised. -/
theorem interpolate_hue_one_missing (U : ColorUtils) (A B : GtkCssColor) (p : ℚ)
    (space : GtkCssColorSpace) (interp : GtkCssHueInterpolation) (k : Nat)
    (hk : hue_index space = some k)
    (hx : (collect_analogous_missing A space).get k =
      !(collect_analogous_missing B space).get k) :
    ∃ a1 b1 out, gtk_css_color_convert U A space = some a1 ∧
      gtk_css_color_convert U B space = some b1 ∧
      gtk_css_color_interpolate U A B p space interp = some out ∧
      missing_bit out k = false ∧
      (interp ≠ .LONGER → out.values.get k = normalize_hue_component
        ((if (collect_analogous_missing A space).get k then b1 else a1).values.get k)) ∧
      (interp = .LONGER → out.values.get k = normalize_hue_component
        ((if (collect_analogous_missing A space).get k then b1 else a1).values.get k
          + 360 * p)) := by
  have hs : space ≠ .OKLAB := by
    rintro rfl
    simp [hue_index] at hk
  obtain ⟨a1, b1, ha1, hb1, hsa, hsb, -, -, hI⟩ := interpolate_of_ne_oklab U A B space interp hs
  have h := blend_hue_one_missing U _ _ a1 b1 p space interp k hsa hsb hk hx
  refine ⟨a1, b1, _, ha1, hb1, hI p, h.1, ?_, ?_⟩
  · intro hne
    rw [h.2, if_neg hne, add_zero]
  · intro he
    rw [h.2, if_pos he]

/-- Witness of `interpolate_hue_one_missing`: HSL, the hue of the first endpoint
is missing, mode `shorter`, progress `1/3`. -/
theorem interpolate_hue_one_missing_witness :
    hue_index .HSL = some 0 ∧
    (collect_analogous_missing ⟨.HSL, ⟨0, 50, 50, 1⟩, 1⟩ .HSL).get 0 =
      !(collect_analogous_missing ⟨.HSL, ⟨90, 50, 50, 1⟩, 0⟩ .HSL).get 0 ∧
    ∃ a1 b1 out, gtk_css_color_convert idUtils ⟨.HSL, ⟨0, 50, 50, 1⟩, 1⟩ .HSL = some a1 ∧
      gtk_css_color_convert idUtils ⟨.HSL, ⟨90, 50, 50, 1⟩, 0⟩ .HSL = some b1 ∧
      gtk_css_color_interpolate idUtils ⟨.HSL, ⟨0, 50, 50, 1⟩, 1⟩ ⟨.HSL, ⟨90, 50, 50, 1⟩, 0⟩
        (1 / 3) .HSL .SHORTER = some out ∧
      missing_bit out 0 = false ∧
      (GtkCssHueInterpolation.SHORTER ≠ .LONGER → out.values.get 0 = normalize_hue_component
        ((if (collect_analogous_missing ⟨.HSL, ⟨0, 50, 50, 1⟩, 1⟩ .HSL).get 0
          then b1 else a1).values.get 0)) ∧
      (GtkCssHueInterpolation.SHORTER = .LONGER → out.values.get 0 = normalize_hue_component
        ((if (collect_analogous_missing ⟨.HSL, ⟨0, 50, 50, 1⟩, 1⟩ .HSL).get 0
          then b1 else a1).values.get 0 + 360 * (1 / 3))) :=
  ⟨rfl, by decide,
    interpolate_hue_one_missing idUtils _ _ (1 / 3) .HSL .SHORTER 0 rfl (by decide)⟩

/-- Claim C10: `gtk_css_color_init` on an HSL colour with lightness `0` flags the
hue (bit 0 of the mask) as missing whatever the hue, saturation and alpha
are, and on an HWB colour with `w + b ≥ 100` it flags the hue as missing. -/
theorem init_powerless_hue (U : ColorUtils) (h s a h' w b a' : ℚ) (hwb : w + b ≥ 100) :
    missing_bit (gtk_css_color_init U .HSL ⟨h, s, 0, a⟩) 0 = true ∧
    missing_bit (gtk_css_color_init U .HWB ⟨h', w, b, a'⟩) 0 = true := by
  have h1 : w + b > 99999 / 1000 := by linarith
  constructor
  · simp [missing_bit, gtk_css_color_init, gtk_css_color_init_with_missing, powerless,
      no_missing, Vec4.set]
  · simp [missing_bit, gtk_css_color_init, gtk_css_color_init_with_missing, powerless,
      no_missing, Vec4.set, h1]

/-- Witness of `init_powerless_hue`: HSL `(120, 50, 0)` and HWB `(120, 60, 40)`. -/
theorem init_powerless_hue_witness :
    (60 : ℚ) + 40 ≥ 100 ∧
    missing_bit (gtk_css_color_init idUtils .HSL ⟨120, 50, 0, 1⟩) 0 = true ∧
    missing_bit (gtk_css_color_init idUtils .HWB ⟨120, 60, 40, 1⟩) 0 = true :=
  ⟨by norm_num, init_powerless_hue idUtils 120 50 1 120 60 40 1 (by norm_num)⟩

/-! ### Claims on `gtk_css_color_print` -/

/-- What `print_rgb` appends does not depend on the buffer. -/
theorem print_rgb_append (tmp : GtkCssColor) (string : List Piece) :
    print_rgb tmp string = string ++ print_rgb tmp [] := by
  unfold print_rgb
  split_ifs <;> simp

/-- What `print_components` appends does not depend on the buffer. -/
theorem print_components_append (color : GtkCssColor) (string : List Piece) :
    print_components color string = string ++ print_components color [] := by
  unfold print_components append_color_component
  split_ifs <;> simp

/-- The two shapes of the legacy notation. -/
theorem print_rgb_eq (tmp : GtkCssColor) :
    (tmp.values.x3 > 999 / 1000 → print_rgb tmp [] =
      [.text "rgb(", .d (legacy_channel tmp.values.x0), .text ",",
        .d (legacy_channel tmp.values.x1), .text ",",
        .d (legacy_channel tmp.values.x2), .text ")"]) ∧
    (¬ tmp.values.x3 > 999 / 1000 → print_rgb tmp [] =
      [.text "rgba(", .d (legacy_channel tmp.values.x0), .text ",",
        .d (legacy_channel tmp.values.x1), .text ",",
        .d (legacy_channel tmp.values.x2), .text ",",
        .ascii_g (CLAMP tmp.values.x3 0 1), .text ")"]) := by
  constructor <;> intro h <;> simp [print_rgb, h]

/-- The legacy notation never prints the token `none`. -/
theorem print_rgb_no_none (tmp : GtkCssColor) : Piece.text "none" ∉ print_rgb tmp [] := by
  unfold print_rgb
  split_ifs <;> simp +decide

/-- The printer in the legacy cases: HSL, HWB, and sRGB with `serialize_as_rgb`. -/
theorem print_legacy (U : ColorUtils) (color : GtkCssColor) (flag : Bool)
    (string : List Piece)
    (h : color.color_space = .HSL ∨ color.color_space = .HWB ∨
      (color.color_space = .SRGB ∧ flag = true)) :
    ∃ tmp, gtk_css_color_convert U color .SRGB = some tmp ∧
      tmp.values.x3 = color.values.x3 ∧
      gtk_css_color_print U color flag string = some (string ++ print_rgb tmp []) := by
  obtain ⟨tmp, htmp, -⟩ := convert_some_of_ne_oklab U color .SRGB (by decide)
  refine ⟨tmp, htmp, convert_alpha U color .SRGB tmp htmp, ?_⟩
  rw [← print_rgb_append]
  rcases h with h | h | ⟨h, hf⟩ <;> simp [gtk_css_color_print, *]

/-- The printer in the modern cases: the opening text is chosen by the colour
space, the rest is `print_components`. -/
theorem print_modern (U : ColorUtils) (color : GtkCssColor) (flag : Bool)
    (string : List Piece) :
    (color.color_space = .SRGB → flag = false →
      gtk_css_color_print U color flag string =
        some (string ++ .text "color(srgb " :: print_components color [])) ∧
    (color.color_space = .SRGB_LINEAR →
      gtk_css_color_print U color flag string =
        some (string ++ .text "color(srgb-linear " :: print_components color [])) ∧
    (color.color_space = .OKLAB →
      gtk_css_color_print U color flag string =
        some (string ++ .text "oklab(" :: print_components color [])) ∧
    (color.color_space = .OKLCH →
      gtk_css_color_print U color flag string =
        some (string ++ .text "oklch(" :: print_components color [])) := by
  refine ⟨?_, ?_, ?_, ?_⟩ <;> intros <;>
    simp [gtk_css_color_print, *, print_components_append color (string ++ _)]

/-- Claim C11: `gtk_css_color_print` chooses the notation by colour space.  HSL and
HWB colours, and sRGB colours when `serialize_as_rgb` is set, are converted to
sRGB and printed in the legacy notation, which starts with `rgb(` or `rgba(`;
an sRGB colour without the flag starts with `color(srgb `, a linear sRGB
colour with `color(srgb-linear `, an Oklab colour with `oklab(` and an Oklch
colour with `oklch(`. -/
theorem print_notation_of_space (U : ColorUtils) (color : GtkCssColor) (flag : Bool)
    (string : List Piece) :
    ((color.color_space = .HSL ∨ color.color_space = .HWB ∨
        (color.color_space = .SRGB ∧ flag = true)) →
      ∃ tmp, gtk_css_color_convert U color .SRGB = some tmp ∧
        gtk_css_color_print U color flag string = some (string ++ print_rgb tmp []) ∧
        ((print_rgb tmp []).head? = some (.text "rgb(") ∨
          (print_rgb tmp []).head? = some (.text "rgba("))) ∧
    (color.color_space = .SRGB → flag = false →
      ∃ rest, gtk_css_color_print U color flag string =
        some (string ++ .text "color(srgb " :: rest)) ∧
    (color.color_space = .SRGB_LINEAR →
      ∃ rest, gtk_css_color_print U color flag string =
        some (string ++ .text "color(srgb-linear " :: rest)) ∧
    (color.color_space = .OKLAB →
      ∃ rest, gtk_css_color_print U color flag string =
        some (string ++ .text "oklab(" :: rest)) ∧
    (color.color_space = .OKLCH →
      ∃ rest, gtk_css_color_print U color flag string =
        some (string ++ .text "oklch(" :: rest)) := by
  have hm := print_modern U color flag string
  refine ⟨?_, ?_, ?_, ?_, ?_⟩
  · intro h
    obtain ⟨tmp, htmp, -, hp⟩ := print_legacy U color flag string h
    refine ⟨tmp, htmp, hp, ?_⟩
    by_cases ha : tmp.values.x3 > 999 / 1000
    · left; rw [(print_rgb_eq tmp).1 ha]; rfl
    · right; rw [(print_rgb_eq tmp).2 ha]; rfl
  · intro h hf
    exact ⟨_, hm.1 h hf⟩
  · intro h
    exact ⟨_, hm.2.1 h⟩
  · intro h
    exact ⟨_, hm.2.2.1 h⟩
  · intro h
    exact ⟨_, hm.2.2.2 h⟩

/-- Witness of `print_notation_of_space`: an Oklch colour and an HSL colour. -/
theorem print_notation_of_space_witness :
    (∃ rest, gtk_css_color_print idUtils ⟨.OKLCH, ⟨1 / 2, 1 / 10, 30, 1⟩, 0⟩ false [] =
      some ([] ++ .text "oklch(" :: rest)) ∧
    (∃ tmp, gtk_css_color_convert idUtils ⟨.HSL, ⟨30, 50, 50, 1⟩, 0⟩ .SRGB = some tmp ∧
      gtk_css_color_print idUtils ⟨.HSL, ⟨30, 50, 50, 1⟩, 0⟩ false [] =
        some ([] ++ print_rgb tmp []) ∧
      ((print_rgb tmp []).head? = some (.text "rgb(") ∨
        (print_rgb tmp []).head? = some (.text "rgba("))) :=
  ⟨(print_notation_of_space idUtils ⟨.OKLCH, ⟨1 / 2, 1 / 10, 30, 1⟩, 0⟩ false []).2.2.2.2 rfl,
   (print_notation_of_space idUtils ⟨.HSL, ⟨30, 50, 50, 1⟩, 0⟩ false []).1 (Or.inl rfl)⟩

/-- Claim C12, counterexample: the sRGB colour `(0, 0, 0)` of alpha `1` whose red
component is missing (mask `1`), printed with `serialize_as_rgb` set.  For no
choice of the primitives does the output contain the token `none`: the
colour is printed in the legacy notation `rgb(r,g,b)`. -/
theorem print_missing_counterexample :
    missing_bit ⟨.SRGB, ⟨0, 0, 0, 1⟩, 1⟩ 0 = true ∧
    ¬ ∃ (U : ColorUtils) (out : List Piece),
      gtk_css_color_print U ⟨.SRGB, ⟨0, 0, 0, 1⟩, 1⟩ true [] = some out ∧
      Piece.text "none" ∈ out := by
  refine ⟨by decide, ?_⟩
  rintro ⟨U, out, hout, hmem⟩
  obtain ⟨tmp, -, -, hp⟩ := print_legacy U ⟨.SRGB, ⟨0, 0, 0, 1⟩, 1⟩ true []
    (Or.inr (Or.inr ⟨rfl, rfl⟩))
  rw [hp] at hout
  cases hout
  exact print_rgb_no_none tmp (by simpa using hmem)

/-- Claim C12, amended: in the modern notations (sRGB without the flag, linear
sRGB, Oklab, Oklch) every component marked missing is printed as the token
`none`: colour component `i` is the piece at position `2 * i + 1` of the
output, and a missing alpha is printed after `" / "` at positions `6` and `7`.
In the legacy notation (HSL, HWB, sRGB with the flag) the sRGB conversion is
printed and the token `none` never appears. -/
theorem print_missing (U : ColorUtils) (color : GtkCssColor) (flag : Bool)
    (string : List Piece) :
    ((color.color_space = .SRGB_LINEAR ∨ color.color_space = .OKLAB ∨
        color.color_space = .OKLCH ∨ (color.color_space = .SRGB ∧ flag = false)) →
      ∃ app, gtk_css_color_print U color flag string = some (string ++ app) ∧
        (∀ i, i < 3 → missing_bit color i = true →
          app.get? (2 * i + 1) = some (.text "none")) ∧
        (missing_bit color 3 = true →
          app.get? 6 = some (.text " / ") ∧ app.get? 7 = some (.text "none"))) ∧
    ((color.color_space = .HSL ∨ color.color_space = .HWB ∨
        (color.color_space = .SRGB ∧ flag = true)) →
      ∃ tmp, gtk_css_color_convert U color .SRGB = some tmp ∧
        gtk_css_color_print U color flag string = some (string ++ print_rgb tmp []) ∧
        Piece.text "none" ∉ print_rgb tmp []) := by
  constructor
  · intro h
    have hm := print_modern U color flag string
    have key : ∀ pre : String,
        (∀ i, i < 3 → missing_bit color i = true →
          (Piece.text pre :: print_components color []).get? (2 * i + 1) =
            some (.text "none")) ∧
        (missing_bit color 3 = true →
          (Piece.text pre :: print_components color []).get? 6 = some (.text " / ") ∧
          (Piece.text pre :: print_components color []).get? 7 = some (.text "none")) := by
      intro pre
      constructor
      · intro i hi hmiss
        by_cases hc : missing_bit color 3 = true ∨ color.values.x3 < 999 / 1000 <;>
          interval_cases i <;>
          simp [print_components, append_color_component, color_component, hmiss, hc]
      · intro hmiss
        simp [print_components, append_color_component, color_component, hmiss]
    rcases h with h | h | h | ⟨h, hf⟩
    · exact ⟨_, hm.2.1 h, key _⟩
    · exact ⟨_, hm.2.2.1 h, key _⟩
    · exact ⟨_, hm.2.2.2 h, key _⟩
    · exact ⟨_, hm.1 h hf, key _⟩
  · intro h
    obtain ⟨tmp, htmp, -, hp⟩ := print_legacy U color flag string h
    exact ⟨tmp, htmp, hp, print_rgb_no_none tmp⟩

/-- Witness of `print_missing`: an Oklab colour whose `a` component and alpha are
missing (mask `10`), and an HWB colour whose hue is missing. -/
theorem print_missing_witness :
    (∃ app, gtk_css_color_print idUtils ⟨.OKLAB, ⟨1 / 2, 0, 1 / 10, 0⟩, 10⟩ false [] =
        some ([] ++ app) ∧
      (∀ i, i < 3 → missing_bit ⟨.OKLAB, ⟨1 / 2, 0, 1 / 10, 0⟩, 10⟩ i = true →
        app.get? (2 * i + 1) = some (.text "none")) ∧
      (missing_bit ⟨.OKLAB, ⟨1 / 2, 0, 1 / 10, 0⟩, 10⟩ 3 = true →
        app.get? 6 = some (.text " / ") ∧ app.get? 7 = some (.text "none"))) ∧
    (∃ tmp, gtk_css_color_convert idUtils ⟨.HWB, ⟨0, 20, 30, 1⟩, 1⟩ .SRGB = some tmp ∧
      gtk_css_color_print idUtils ⟨.HWB, ⟨0, 20, 30, 1⟩, 1⟩ true [] =
        some ([] ++ print_rgb tmp []) ∧
      Piece.text "none" ∉ print_rgb tmp []) :=
  ⟨(print_missing idUtils ⟨.OKLAB, ⟨1 / 2, 0, 1 / 10, 0⟩, 10⟩ false []).1 (Or.inr (Or.inl rfl)),
   (print_missing idUtils ⟨.HWB, ⟨0, 20, 30, 1⟩, 1⟩ true []).2 (Or.inr (Or.inl rfl))⟩

/-- Unfolding of the resolver at a named reference. -/
theorem do_resolve_name (E : StyleEnv) (provider : String → Option GtkCssValue)
    (current : Option GtkCssValue) (fuel addr : Nat) (name : String) (L : List Nat) :
    gtk_css_color_value_do_resolve E provider current (fuel + 1) (.name addr name) L =
      if addr ∈ L then .unresolved
      else
        match provider name with
        | none => .unresolved
        | some named =>
          gtk_css_color_value_do_resolve E provider current fuel named (addr :: L) := rfl

/-- Unfolding of the resolver at a shade node. -/
theorem do_resolve_shade (E : StyleEnv) (provider : String → Option GtkCssValue)
    (current : Option GtkCssValue) (fuel : Nat) (c : GtkCssValue) (factor : ℚ)
    (L : List Nat) :
    gtk_css_color_value_do_resolve E provider current (fuel + 1) (.shade c factor) L =
      match gtk_css_color_value_do_resolve E provider current fuel c L with
      | .resolved val =>
        match gtk_css_color_value_get_rgba val with
        | some rgba => .resolved (gtk_css_color_value_new_literal (apply_shade E rgba factor))
        | none => .assertion_failed
      | r => r := rfl

/-- Unfolding of the resolver at an alpha node. -/
theorem do_resolve_alpha (E : StyleEnv) (provider : String → Option GtkCssValue)
    (current : Option GtkCssValue) (fuel : Nat) (c : GtkCssValue) (factor : ℚ)
    (L : List Nat) :
    gtk_css_color_value_do_resolve E provider current (fuel + 1) (.alpha c factor) L =
      match gtk_css_color_value_do_resolve E provider current fuel c L with
      | .resolved val =>
        match gtk_css_color_value_get_rgba val with
        | some rgba => .resolved (gtk_css_color_value_new_literal (apply_alpha rgba factor))
        | none => .assertion_failed
      | r => r := rfl

/-- Unfolding of the resolver at a mix node. -/
theorem do_resolve_mix (E : StyleEnv) (provider : String → Option GtkCssValue)
    (current : Option GtkCssValue) (fuel : Nat) (c1 c2 : GtkCssValue) (factor : ℚ)
    (L : List Nat) :
    gtk_css_color_value_do_resolve E provider current (fuel + 1) (.mix c1 c2 factor) L =
      match gtk_css_color_value_do_resolve E provider current fuel c1 L with
      | .resolved val1 =>
        match gtk_css_color_value_get_rgba val1 with
        | some color1 =>
          match gtk_css_color_value_do_resolve E provider current fuel c2 L with
          | .resolved val2 =>
            match gtk_css_color_value_get_rgba val2 with
            | some color2 =>
              .resolved (gtk_css_color_value_new_literal (apply_mix color1 color2 factor))
            | none => .assertion_failed
          | r => r
        | none => .assertion_failed
      | r => r := rfl

/-- One more unit of fuel does not change an outcome that did not run out. -/
theorem do_resolve_succ (E : StyleEnv) (provider : String → Option GtkCssValue)
    (current : Option GtkCssValue) :
    ∀ (fuel : Nat) (color : GtkCssValue) (L : List Nat),
      gtk_css_color_value_do_resolve E provider current fuel color L ≠ .out_of_fuel →
      gtk_css_color_value_do_resolve E provider current (fuel + 1) color L =
        gtk_css_color_value_do_resolve E provider current fuel color L := by
  intro fuel
  induction fuel with
  | zero =>
    intro color L h
    exact absurd rfl h
  | succ n ih =>
    intro color L h
    cases color with
    | literal rgba => rfl
    | color c rgba s => rfl
    | current_color => rfl
    | name addr nm =>
      rw [do_resolve_name] at h ⊢
      rw [do_resolve_name E provider current n]
      split_ifs with ha
      · rfl
      · rw [if_neg ha] at h
        cases hp : provider nm with
        | none => rfl
        | some named =>
          rw [hp] at h
          exact ih named _ h
    | shade c f =>
      rw [do_resolve_shade] at h ⊢
      rw [do_resolve_shade E provider current n]
      have hc : gtk_css_color_value_do_resolve E provider current n c L ≠ .out_of_fuel := by
        intro e
        rw [e] at h
        exact h rfl
      rw [ih c L hc]
    | alpha c f =>
      rw [do_resolve_alpha] at h ⊢
      rw [do_resolve_alpha E provider current n]
      have hc : gtk_css_color_value_do_resolve E provider current n c L ≠ .out_of_fuel := by
        intro e
        rw [e] at h
        exact h rfl
      rw [ih c L hc]
    | mix c1 c2 f =>
      rw [do_resolve_mix] at h ⊢
      rw [do_resolve_mix E provider current n]
      have hc1 : gtk_css_color_value_do_resolve E provider current n c1 L ≠ .out_of_fuel := by
        intro e
        rw [e] at h
        exact h rfl
      rw [ih c1 L hc1]
      cases h1 : gtk_css_color_value_do_resolve E provider current n c1 L with
      | out_of_fuel => rfl
      | assertion_failed => rfl
      | unresolved => rfl
      | resolved val1 =>
        rw [h1] at h
        dsimp only at h ⊢
        cases hg : gtk_css_color_value_get_rgba val1 with
        | none => rfl
        | some color1 =>
          rw [hg] at h
          dsimp only at h ⊢
          have hc2 : gtk_css_color_value_do_resolve E provider current n c2 L ≠
              .out_of_fuel := by
            intro e
            simp only [e] at h
            exact h rfl
          simp only [ih c2 L hc2]

/-- More fuel does not change an outcome that did not run out. -/
theorem do_resolve_mono (E : StyleEnv) (provider : String → Option GtkCssValue)
    (current : Option GtkCssValue) (color : GtkCssValue) (L : List Nat) (n m : Nat)
    (hnm : n ≤ m)
    (h : gtk_css_color_value_do_resolve E provider current n color L ≠ .out_of_fuel) :
    gtk_css_color_value_do_resolve E provider current m color L =
      gtk_css_color_value_do_resolve E provider current n color L := by
  induction m, hnm using Nat.le_induction with
  | base => rfl
  | succ k _ ih =>
    rw [do_resolve_succ E provider current k color L (by rw [ih]; exact h), ih]

/-- An outcome reached with some fuel is the outcome of the call. -/
theorem resolves_of_eq (E : StyleEnv) (provider : String → Option GtkCssValue)
    (current : Option GtkCssValue) (color : GtkCssValue) (L : List Nat) (n : Nat)
    (r : Resolution)
    (h : gtk_css_color_value_do_resolve E provider current n color L = r)
    (hr : r ≠ .out_of_fuel) : Resolves E provider current color L r := by
  refine ⟨n, fun m hm => ?_⟩
  rw [do_resolve_mono E provider current color L n m hm (by rw [h]; exact hr), h]

/-- The outcome of a call is unique. -/
theorem resolves_unique (E : StyleEnv) (provider : String → Option GtkCssValue)
    (current : Option GtkCssValue) (color : GtkCssValue) (L : List Nat)
    (r1 r2 : Resolution) (h1 : Resolves E provider current color L r1)
    (h2 : Resolves E provider current color L r2) : r1 = r2 := by
  obtain ⟨n1, h1⟩ := h1
  obtain ⟨n2, h2⟩ := h2
  rw [← h1 (max n1 n2) (le_max_left _ _), ← h2 (max n1 n2) (le_max_right _ _)]

/-- A literal or colour node has an RGBA value. -/
theorem get_rgba_of_is_color (v : GtkCssValue) (h : is_color v = true) :
    ∃ rgba, gtk_css_color_value_get_rgba v = some rgba := by
  cases v <;> simp [is_color, gtk_css_color_value_get_rgba] at h ⊢

/-- With a current colour that is absent or a literal or colour node, and an
initial colour of that kind, no assertion fails and every returned value is
a literal or colour node. -/
theorem do_resolve_typed (E : StyleEnv) (provider : String → Option GtkCssValue)
    (current : Option GtkCssValue)
    (hcur : ∀ c, current = some c → is_color c = true)
    (hinit : is_color E.initial_color = true) :
    ∀ (fuel : Nat) (color : GtkCssValue) (L : List Nat),
      gtk_css_color_value_do_resolve E provider current fuel color L ≠ .assertion_failed ∧
      ∀ v, gtk_css_color_value_do_resolve E provider current fuel color L = .resolved v →
        is_color v = true := by
  intro fuel
  induction fuel with
  | zero =>
    intro color L
    exact ⟨fun h => (by cases h), fun v h => by cases h⟩
  | succ n ih =>
    intro color L
    cases color with
    | literal rgba =>
      refine ⟨fun h => (by cases h), fun v h => ?_⟩
      cases h
      rfl
    | color c rgba s =>
      refine ⟨fun h => (by cases h), fun v h => ?_⟩
      cases h
      rfl
    | current_color =>
      cases hc : current with
      | none =>
        subst hc
        refine ⟨fun h => (by cases h), fun v h => ?_⟩
        cases h
        exact hinit
      | some c =>
        subst hc
        refine ⟨fun h => (by cases h), fun v h => ?_⟩
        cases h
        exact hcur c rfl
    | name addr nm =>
      rw [do_resolve_name]
      split_ifs with ha
      · exact ⟨fun h => (by cases h), fun v h => by cases h⟩
      · cases hp : provider nm with
        | none => exact ⟨fun h => (by cases h), fun v h => by cases h⟩
        | some named => exact ih named _
    | shade c f =>
      rw [do_resolve_shade]
      have hc := ih c L
      cases h1 : gtk_css_color_value_do_resolve E provider current n c L with
      | out_of_fuel => exact ⟨fun h => (by cases h), fun v h => by cases h⟩
      | assertion_failed => exact absurd h1 hc.1
      | unresolved => exact ⟨fun h => (by cases h), fun v h => by cases h⟩
      | resolved val =>
        obtain ⟨rgba, hg⟩ := get_rgba_of_is_color val (hc.2 val h1)
        dsimp only
        rw [hg]
        refine ⟨fun h => (by cases h), fun v h => ?_⟩
        cases h
        rfl
    | alpha c f =>
      rw [do_resolve_alpha]
      have hc := ih c L
      cases h1 : gtk_css_color_value_do_resolve E provider current n c L with
      | out_of_fuel => exact ⟨fun h => (by cases h), fun v h => by cases h⟩
      | assertion_failed => exact absurd h1 hc.1
      | unresolved => exact ⟨fun h => (by cases h), fun v h => by cases h⟩
      | resolved val =>
        obtain ⟨rgba, hg⟩ := get_rgba_of_is_color val (hc.2 val h1)
        dsimp only
        rw [hg]
        refine ⟨fun h => (by cases h), fun v h => ?_⟩
        cases h
        rfl
    | mix c1 c2 f =>
      rw [do_resolve_mix]
      have hc1 := ih c1 L
      have hc2 := ih c2 L
      cases h1 : gtk_css_color_value_do_resolve E provider current n c1 L with
      | out_of_fuel => exact ⟨fun h => (by cases h), fun v h => by cases h⟩
      | assertion_failed => exact absurd h1 hc1.1
      | unresolved => exact ⟨fun h => (by cases h), fun v h => by cases h⟩
      | resolved val1 =>
        obtain ⟨rgba1, hg1⟩ := get_rgba_of_is_color val1 (hc1.2 val1 h1)
        dsimp only
        rw [hg1]
        dsimp only
        cases h2 : gtk_css_color_value_do_resolve E provider current n c2 L with
        | out_of_fuel => exact ⟨fun h => (by cases h), fun v h => by cases h⟩
        | assertion_failed => exact absurd h2 hc2.1
        | unresolved => exact ⟨fun h => (by cases h), fun v h => by cases h⟩
        | resolved val2 =>
          obtain ⟨rgba2, hg2⟩ := get_rgba_of_is_color val2 (hc2.2 val2 h2)
          dsimp only
          rw [hg2]
          refine ⟨fun h => (by cases h), fun v h => ?_⟩
          cases h
          rfl

/-- Entering a reference of the known addresses that is not in the cycle list
leaves fewer known addresses outside the list. -/
theorem card_sdiff_cons_lt (known L : List Nat) (addr : Nat) (h1 : addr ∈ known)
    (h2 : addr ∉ L) :
    (known.toFinset \ (addr :: L).toFinset).card < (known.toFinset \ L.toFinset).card := by
  apply Finset.card_lt_card
  rw [Finset.ssubset_iff]
  refine ⟨addr, by simp, ?_⟩
  intro x hx
  simp only [Finset.mem_insert, Finset.mem_sdiff, List.mem_toFinset, List.mem_cons,
    not_or] at hx ⊢
  rcases hx with rfl | ⟨hx, _, hnl⟩
  · exact ⟨h1, h2⟩
  · exact ⟨hx, hnl⟩

/-- The addresses of a tree returned by a finite provider are addresses of its
entries. -/
theorem lookup_addrs (entries : List (String × GtkCssValue)) (name : String)
    (named : GtkCssValue) (h : provider_of entries name = some named) :
    ∀ a ∈ named.addrs, a ∈ entries_addrs entries := by
  induction entries with
  | nil => simp [provider_of, List.lookup] at h
  | cons e es ih =>
    obtain ⟨k, v⟩ := e
    intro a ha
    simp only [provider_of, List.lookup] at h ih
    simp only [entries_addrs, List.mem_append]
    cases hk : (name == k) with
    | true =>
      rw [hk] at h
      cases h
      exact Or.inl ha
    | false =>
      rw [hk] at h
      exact Or.inr (ih h a ha)

/-- With a finite provider every call returns with enough fuel, whatever the
cycle list: the number of known addresses outside the cycle list bounds the
depth of nested references. -/
theorem do_resolve_terminates_aux (E : StyleEnv) (entries : List (String × GtkCssValue))
    (current : Option GtkCssValue) (known : List Nat)
    (hk : ∀ a ∈ entries_addrs entries, a ∈ known) :
    ∀ (k : Nat) (L : List Nat) (color : GtkCssValue),
      (∀ a ∈ color.addrs, a ∈ known) →
      (known.toFinset \ L.toFinset).card < k →
      ∃ N, gtk_css_color_value_do_resolve E (provider_of entries) current N color L ≠
        .out_of_fuel := by
  intro k
  induction k with
  | zero =>
    intro L color _ h
    exact absurd h (Nat.not_lt_zero _)
  | succ k ih =>
    intro L color
    induction color with
    | literal rgba => exact fun _ _ => ⟨1, fun h => by cases h⟩
    | color c rgba s => exact fun _ _ => ⟨1, fun h => by cases h⟩
    | current_color =>
      intro _ _
      refine ⟨1, ?_⟩
      cases current <;> exact fun h => by cases h
    | name addr nm =>
      intro hsub hcard
      by_cases ha : addr ∈ L
      · refine ⟨1, ?_⟩
        rw [do_resolve_name, if_pos ha]
        exact fun h => by cases h
      · cases hp : provider_of entries nm with
        | none =>
          refine ⟨1, ?_⟩
          rw [do_resolve_name, if_neg ha, hp]
          exact fun h => by cases h
        | some named =>
          have hmem : addr ∈ known := hsub addr (by simp [GtkCssValue.addrs])
          have hlt := card_sdiff_cons_lt known L addr hmem ha
          obtain ⟨N, hN⟩ := ih (addr :: L) named
            (fun a h => hk a (lookup_addrs entries nm named hp a h)) (by omega)
          refine ⟨N + 1, ?_⟩
          rw [do_resolve_name, if_neg ha, hp]
          exact hN
    | shade c f ihc =>
      intro hsub hcard
      obtain ⟨N, hN⟩ := ihc (fun a h => hsub a (by simpa [GtkCssValue.addrs] using h)) hcard
      refine ⟨N + 1, ?_⟩
      rw [do_resolve_shade]
      cases h1 : gtk_css_color_value_do_resolve E (provider_of entries) current N c L with
      | out_of_fuel => exact absurd h1 hN
      | assertion_failed => exact fun h => by cases h
      | unresolved => exact fun h => by cases h
      | resolved val =>
        dsimp only
        cases gtk_css_color_value_get_rgba val <;> exact fun h => by cases h
    | alpha c f ihc =>
      intro hsub hcard
      obtain ⟨N, hN⟩ := ihc (fun a h => hsub a (by simpa [GtkCssValue.addrs] using h)) hcard
      refine ⟨N + 1, ?_⟩
      rw [do_resolve_alpha]
      cases h1 : gtk_css_color_value_do_resolve E (provider_of entries) current N c L with
      | out_of_fuel => exact absurd h1 hN
      | assertion_failed => exact fun h => by cases h
      | unresolved => exact fun h => by cases h
      | resolved val =>
        dsimp only
        cases gtk_css_color_value_get_rgba val <;> exact fun h => by cases h
    | mix c1 c2 f ih1 ih2 =>
      intro hsub hcard
      obtain ⟨N1, hN1⟩ := ih1
        (fun a h => hsub a (by simp [GtkCssValue.addrs, h])) hcard
      obtain ⟨N2, hN2⟩ := ih2
        (fun a h => hsub a (by simp [GtkCssValue.addrs, h])) hcard
      have e1 := do_resolve_mono E (provider_of entries) current c1 L N1 (max N1 N2)
        (le_max_left _ _) hN1
      have e2 := do_resolve_mono E (provider_of entries) current c2 L N2 (max N1 N2)
        (le_max_right _ _) hN2
      rw [← e1] at hN1
      rw [← e2] at hN2
      refine ⟨max N1 N2 + 1, ?_⟩
      rw [do_resolve_mix]
      cases h1 : gtk_css_color_value_do_resolve E (provider_of entries) current
          (max N1 N2) c1 L with
      | out_of_fuel => exact absurd h1 hN1
      | assertion_failed => exact fun h => by cases h
      | unresolved => exact fun h => by cases h
      | resolved val1 =>
        dsimp only
        cases gtk_css_color_value_get_rgba val1 with
        | none => exact fun h => by cases h
        | some color1 =>
          dsimp only
          cases h2 : gtk_css_color_value_do_resolve E (provider_of entries) current
              (max N1 N2) c2 L with
          | out_of_fuel => exact absurd h2 hN2
          | assertion_failed => exact fun h => by cases h
          | unresolved => exact fun h => by cases h
          | resolved val2 =>
            dsimp only
            cases gtk_css_color_value_get_rgba val2 <;> exact fun h => by cases h

/-- With a finite provider every call has an outcome: it returns a value,
returns `NULL`, or stops at an assertion. -/
theorem do_resolve_terminates (E : StyleEnv) (entries : List (String × GtkCssValue))
    (current : Option GtkCssValue) (color : GtkCssValue) (L : List Nat) :
    ∃ r, r ≠ .out_of_fuel ∧ Resolves E (provider_of entries) current color L r := by
  obtain ⟨N, hN⟩ := do_resolve_terminates_aux E entries current
    (entries_addrs entries ++ color.addrs) (fun a h => List.mem_append_left _ h)
    (((entries_addrs entries ++ color.addrs).toFinset \ L.toFinset).card + 1) L color
    (fun a h => List.mem_append_right _ h) (Nat.lt_succ_self _)
  exact ⟨_, hN, resolves_of_eq E _ current color L N _ rfl hN⟩

/-- The outcome of a shade node follows from the outcome of its child. -/
theorem resolves_shade (E : StyleEnv) (provider : String → Option GtkCssValue)
    (current : Option GtkCssValue) (c : GtkCssValue) (f : ℚ) (L : List Nat)
    (r : Resolution) (h : Resolves E provider current c L r) :
    Resolves E provider current (.shade c f) L
      (match r with
       | .resolved val =>
         match gtk_css_color_value_get_rgba val with
         | some rgba => .resolved (gtk_css_color_value_new_literal (apply_shade E rgba f))
         | none => .assertion_failed
       | r => r) := by
  obtain ⟨N, hN⟩ := h
  refine ⟨N + 1, fun fuel hf => ?_⟩
  obtain ⟨m, rfl⟩ : ∃ m, fuel = m + 1 := ⟨fuel - 1, by omega⟩
  rw [do_resolve_shade, hN m (by omega)]
  cases r <;> rfl

/-- The outcome of an alpha node follows from the outcome of its child. -/
theorem resolves_alpha (E : StyleEnv) (provider : String → Option GtkCssValue)
    (current : Option GtkCssValue) (c : GtkCssValue) (f : ℚ) (L : List Nat)
    (r : Resolution) (h : Resolves E provider current c L r) :
    Resolves E provider current (.alpha c f) L
      (match r with
       | .resolved val =>
         match gtk_css_color_value_get_rgba val with
         | some rgba => .resolved (gtk_css_color_value_new_literal (apply_alpha rgba f))
         | none => .assertion_failed
       | r => r) := by
  obtain ⟨N, hN⟩ := h
  refine ⟨N + 1, fun fuel hf => ?_⟩
  obtain ⟨m, rfl⟩ : ∃ m, fuel = m + 1 := ⟨fuel - 1, by omega⟩
  rw [do_resolve_alpha, hN m (by omega)]
  cases r <;> rfl

/-- A mix node whose first child is unresolved is unresolved: the second child
is not visited. -/
theorem resolves_mix_left (E : StyleEnv) (provider : String → Option GtkCssValue)
    (current : Option GtkCssValue) (c1 c2 : GtkCssValue) (f : ℚ) (L : List Nat)
    (h : Resolves E provider current c1 L .unresolved) :
    Resolves E provider current (.mix c1 c2 f) L .unresolved := by
  obtain ⟨N, hN⟩ := h
  refine ⟨N + 1, fun fuel hf => ?_⟩
  obtain ⟨m, rfl⟩ : ∃ m, fuel = m + 1 := ⟨fuel - 1, by omega⟩
  rw [do_resolve_mix, hN m (by omega)]

/-- The outcome of a mix node whose first child resolves to a value with an
RGBA follows from the outcome of its second child. -/
theorem resolves_mix_right (E : StyleEnv) (provider : String → Option GtkCssValue)
    (current : Option GtkCssValue) (c1 c2 : GtkCssValue) (f : ℚ) (L : List Nat)
    (v1 : GtkCssValue) (color1 : GdkRGBA) (r : Resolution)
    (h1 : Resolves E provider current c1 L (.resolved v1))
    (hg : gtk_css_color_value_get_rgba v1 = some color1)
    (h2 : Resolves E provider current c2 L r) :
    Resolves E provider current (.mix c1 c2 f) L
      (match r with
       | .resolved val2 =>
         match gtk_css_color_value_get_rgba val2 with
         | some color2 =>
           .resolved (gtk_css_color_value_new_literal (apply_mix color1 color2 f))
         | none => .assertion_failed
       | r => r) := by
  obtain ⟨N1, hN1⟩ := h1
  obtain ⟨N2, hN2⟩ := h2
  refine ⟨max N1 N2 + 1, fun fuel hf => ?_⟩
  obtain ⟨m, rfl⟩ : ∃ m, fuel = m + 1 := ⟨fuel - 1, by omega⟩
  have hm1 : N1 ≤ m := le_trans (le_max_left N1 N2) (by omega)
  have hm2 : N2 ≤ m := le_trans (le_max_right N1 N2) (by omega)
  rw [do_resolve_mix, hN1 m hm1]
  dsimp only
  rw [hg]
  dsimp only
  rw [hN2 m hm2]
  cases r <;> rfl

/-- The hypothesis on the current colour, in the form used by the lemmas. -/
theorem current_is_color_iff (current : Option GtkCssValue)
    (h : current_is_color current = true) :
    ∀ c, current = some c → is_color c = true := by
  intro c hc
  subst hc
  exact h

/-- A well-typed call that has an outcome returns `NULL` or a literal or colour
node. -/
theorem resolves_cases (E : StyleEnv) (provider : String → Option GtkCssValue)
    (current : Option GtkCssValue) (hcur : current_is_color current = true)
    (hinit : is_color E.initial_color = true) (color : GtkCssValue) (L : List Nat)
    (r : Resolution) (hr : r ≠ .out_of_fuel)
    (h : Resolves E provider current color L r) :
    r = .unresolved ∨ ∃ v rgba, r = .resolved v ∧ gtk_css_color_value_get_rgba v = some rgba := by
  obtain ⟨N, hN⟩ := h
  have ht := do_resolve_typed E provider current (current_is_color_iff current hcur) hinit
    N color L
  rw [hN N le_rfl] at ht
  cases r with
  | out_of_fuel => exact absurd rfl hr
  | assertion_failed => exact absurd rfl ht.1
  | unresolved => exact Or.inl rfl
  | resolved v =>
    obtain ⟨rgba, hg⟩ := get_rgba_of_is_color v (ht.2 v rfl)
    exact Or.inr ⟨v, rgba, rfl, hg⟩

/-- A mix node with an unresolved second child is unresolved, for a finite
provider and a well-typed current colour. -/
theorem resolves_mix_unresolved_right (E : StyleEnv)
    (entries : List (String × GtkCssValue)) (current : Option GtkCssValue)
    (hcur : current_is_color current = true) (hinit : is_color E.initial_color = true)
    (c1 c2 : GtkCssValue) (f : ℚ) (L : List Nat)
    (h : Resolves E (provider_of entries) current c2 L .unresolved) :
    Resolves E (provider_of entries) current (.mix c1 c2 f) L .unresolved := by
  obtain ⟨r1, hr1, hR1⟩ := do_resolve_terminates E entries current c1 L
  rcases resolves_cases E _ current hcur hinit c1 L r1 hr1 hR1 with rfl | ⟨v, rgba, rfl, hg⟩
  · exact resolves_mix_left E _ current c1 c2 f L hR1
  · exact resolves_mix_right E _ current c1 c2 f L v rgba _ hR1 hg h

/-- An expression that leads back to a reference being resolved is unresolved,
whatever the cycle list. -/
theorem resolves_leads_back (E : StyleEnv) (entries : List (String × GtkCssValue))
    (current : Option GtkCssValue) (hcur : current_is_color current = true)
    (hinit : is_color E.initial_color = true) (color : GtkCssValue) (L : List Nat)
    (h : LeadsBack (provider_of entries) L color) :
    Resolves E (provider_of entries) current color L .unresolved := by
  induction h with
  | hit L addr name ha =>
    refine ⟨1, fun fuel hf => ?_⟩
    obtain ⟨m, rfl⟩ : ∃ m, fuel = m + 1 := ⟨fuel - 1, by omega⟩
    rw [do_resolve_name, if_pos ha]
  | hop L addr name named ha hp _ ih =>
    obtain ⟨N, hN⟩ := ih
    refine ⟨N + 1, fun fuel hf => ?_⟩
    obtain ⟨m, rfl⟩ : ∃ m, fuel = m + 1 := ⟨fuel - 1, by omega⟩
    rw [do_resolve_name, if_neg ha, hp]
    exact hN m (by omega)
  | shade L c f _ ih => exact resolves_shade E _ current c f L _ ih
  | alpha L c f _ ih => exact resolves_alpha E _ current c f L _ ih
  | mix_left L c1 c2 f _ ih => exact resolves_mix_left E _ current c1 c2 f L ih
  | mix_right L c1 c2 f _ ih =>
    exact resolves_mix_unresolved_right E entries current hcur hinit c1 c2 f L ih

/-! ### Claims about resolution and equality -/

/-- C14: with a finite provider, a current colour that is absent or a literal
or colour node and an initial colour of that kind, an expression that leads
back, through the provider and through shade, alpha and mix nodes, to a
reference already being resolved makes the resolver return `NULL`; with
the empty cycle list this is `gtk_css_color_value_resolve`. -/
theorem resolve_cycle (E : StyleEnv) (entries : List (String × GtkCssValue))
    (current : Option GtkCssValue) (color : GtkCssValue) (cycle_list : List Nat)
    (hcur : current_is_color current = true) (hinit : is_color E.initial_color = true)
    (h : LeadsBack (provider_of entries) cycle_list color) :
    (∃ N, ∀ fuel, N ≤ fuel →
      gtk_css_color_value_do_resolve E (provider_of entries) current fuel color cycle_list =
        .unresolved) ∧
    (cycle_list = [] → ∃ N, ∀ fuel, N ≤ fuel →
      gtk_css_color_value_resolve E (provider_of entries) current fuel color = .unresolved) := by
  have hres := resolves_leads_back E entries current hcur hinit color cycle_list h
  refine ⟨hres, fun hl => ?_⟩
  subst hl
  exact hres

/-- Witness for C14: the name "a" is defined as the name "b", which is defined
as a mix whose second child is the name "a" again. -/
theorem resolve_cycle_witness :
    current_is_color none = true ∧ is_color idEnv.initial_color = true ∧
    LeadsBack
      (provider_of [("a", .name 2 "b"), ("b", .mix (.literal ⟨1, 0, 0, 1⟩) (.name 3 "a") (1 / 2))])
      [] (.name 1 "a") ∧
    ∃ N, ∀ fuel, N ≤ fuel →
      gtk_css_color_value_resolve idEnv
        (provider_of [("a", .name 2 "b"), ("b", .mix (.literal ⟨1, 0, 0, 1⟩) (.name 3 "a") (1 / 2))])
        none fuel (.name 1 "a") = .unresolved :=
  have hl : LeadsBack
      (provider_of [("a", .name 2 "b"), ("b", .mix (.literal ⟨1, 0, 0, 1⟩) (.name 3 "a") (1 / 2))])
      [] (.name 1 "a") :=
    .hop [] 1 "a" (.name 2 "b") (by decide) rfl
      (.hop [1] 2 "b" (.mix (.literal ⟨1, 0, 0, 1⟩) (.name 3 "a") (1 / 2)) (by decide)
        rfl
        (.mix_right [2, 1] _ _ _
          (.hop [2, 1] 3 "a" (.name 2 "b") (by decide) rfl
            (.hit [3, 2, 1] 2 "b" (by decide)))))
  ⟨rfl, rfl, hl, (resolve_cycle idEnv _ none _ [] rfl rfl hl).2 rfl⟩

/-- C15: for every expression tree and every provider that maps finitely many
names to fixed nodes, cyclic or not, `gtk_css_color_value_resolve` has an
outcome: with enough fuel the model returns the same result, which is a
value, `NULL` or a failed assertion, and never runs out of fuel. -/
theorem resolve_terminates (E : StyleEnv) (entries : List (String × GtkCssValue))
    (current : Option GtkCssValue) (color : GtkCssValue) :
    ∃ N r, r ≠ .out_of_fuel ∧ ∀ fuel, N ≤ fuel →
      gtk_css_color_value_resolve E (provider_of entries) current fuel color = r := by
  obtain ⟨r, hr, N, hN⟩ := do_resolve_terminates E entries current color []
  exact ⟨N, r, hr, hN⟩

/-- C16: with a current colour that is absent or a literal or colour node and
an initial colour of that kind, no call of the resolver stops at the type
assertion of `gtk_css_color_value_get_rgba`, and every value returned by
`gtk_css_color_value_resolve` is a literal or colour node. -/
theorem resolve_typed (E : StyleEnv) (provider : String → Option GtkCssValue)
    (current : Option GtkCssValue) (hcur : current_is_color current = true)
    (hinit : is_color E.initial_color = true) (fuel : Nat) (color : GtkCssValue) :
    (∀ cycle_list, gtk_css_color_value_do_resolve E provider current fuel color cycle_list ≠
      .assertion_failed) ∧
    ∀ v, gtk_css_color_value_resolve E provider current fuel color = .resolved v →
      is_color v = true :=
  ⟨fun L => (do_resolve_typed E provider current (current_is_color_iff current hcur) hinit
      fuel color L).1,
   (do_resolve_typed E provider current (current_is_color_iff current hcur) hinit
      fuel color []).2⟩

/-- Witness for C16: the shade of a name defined as a literal resolves to a
literal. -/
theorem resolve_typed_witness :
    current_is_color none = true ∧ is_color idEnv.initial_color = true ∧
    gtk_css_color_value_resolve idEnv (provider_of [("a", .literal ⟨1, 0, 0, 1⟩)]) none 3
      (.shade (.name 1 "a") 2) = .resolved (.literal ⟨1, 0, 0, 1⟩) ∧
    is_color (.literal ⟨1, 0, 0, 1⟩) = true :=
  ⟨rfl, rfl, rfl,
    (resolve_typed idEnv (provider_of [("a", .literal ⟨1, 0, 0, 1⟩)]) none rfl rfl 3
      (.shade (.name 1 "a") 2)).2 _ rfl⟩

/-- C17: a named reference that the provider does not know resolves to `NULL`,
for every current colour and every cycle list. -/
theorem resolve_unknown_name (E : StyleEnv) (provider : String → Option GtkCssValue)
    (current : Option GtkCssValue) (addr : Nat) (name : String) (cycle_list : List Nat)
    (fuel : Nat) (h : provider name = none) :
    gtk_css_color_value_do_resolve E provider current (fuel + 1) (.name addr name)
      cycle_list = .unresolved := by
  rw [do_resolve_name, h]
  split_ifs <;> rfl

/-- Witness for C17: the empty provider does not know the name "a". -/
theorem resolve_unknown_name_witness :
    provider_of [] "a" = none ∧
    gtk_css_color_value_do_resolve idEnv (provider_of []) (some .current_color) 1
      (.name 1 "a") [5] = .unresolved :=
  ⟨rfl, resolve_unknown_name idEnv (provider_of []) (some .current_color) 1 "a" [5] 0 rfl⟩

/-- C18: with a finite provider, a current colour that is absent or a literal
or colour node and an initial colour of that kind: a shade or alpha node is
unresolved when its child is, a mix node is unresolved when one of its
children is, and when the children resolve the node resolves to the literal
computed from their RGBA values. -/
theorem resolve_composite (E : StyleEnv) (entries : List (String × GtkCssValue))
    (current : Option GtkCssValue) (c c1 c2 : GtkCssValue) (f : ℚ) (L : List Nat)
    (hcur : current_is_color current = true) (hinit : is_color E.initial_color = true) :
    (Resolves E (provider_of entries) current c L .unresolved →
      Resolves E (provider_of entries) current (.shade c f) L .unresolved ∧
      Resolves E (provider_of entries) current (.alpha c f) L .unresolved) ∧
    (Resolves E (provider_of entries) current c1 L .unresolved ∨
      Resolves E (provider_of entries) current c2 L .unresolved →
      Resolves E (provider_of entries) current (.mix c1 c2 f) L .unresolved) ∧
    (∀ v, Resolves E (provider_of entries) current c L (.resolved v) →
      ∃ rgba, gtk_css_color_value_get_rgba v = some rgba ∧
        Resolves E (provider_of entries) current (.shade c f) L
          (.resolved (.literal (apply_shade E rgba f))) ∧
        Resolves E (provider_of entries) current (.alpha c f) L
          (.resolved (.literal (apply_alpha rgba f)))) ∧
    (∀ v1 v2, Resolves E (provider_of entries) current c1 L (.resolved v1) →
      Resolves E (provider_of entries) current c2 L (.resolved v2) →
      ∃ rgba1 rgba2, gtk_css_color_value_get_rgba v1 = some rgba1 ∧
        gtk_css_color_value_get_rgba v2 = some rgba2 ∧
        Resolves E (provider_of entries) current (.mix c1 c2 f) L
          (.resolved (.literal (apply_mix rgba1 rgba2 f)))) := by
  refine ⟨fun h => ⟨resolves_shade E _ current c f L _ h, resolves_alpha E _ current c f L _ h⟩,
    ?_, ?_, ?_⟩
  · rintro (h | h)
    · exact resolves_mix_left E _ current c1 c2 f L h
    · exact resolves_mix_unresolved_right E entries current hcur hinit c1 c2 f L h
  · intro v hv
    rcases resolves_cases E _ current hcur hinit c L _ (by simp) hv with
      h | ⟨v0, rgba, h, hg⟩
    · cases h
    · cases h
      refine ⟨rgba, hg, ?_, ?_⟩
      · have := resolves_shade E _ current c f L _ hv
        simpa only [hg] using this
      · have := resolves_alpha E _ current c f L _ hv
        simpa only [hg] using this
  · intro v1 v2 hv1 hv2
    rcases resolves_cases E _ current hcur hinit c1 L _ (by simp) hv1 with
      h | ⟨v0, rgba1, h, hg1⟩
    · cases h
    · cases h
      rcases resolves_cases E _ current hcur hinit c2 L _ (by simp) hv2 with
        h | ⟨v0, rgba2, h, hg2⟩
      · cases h
      · cases h
        refine ⟨rgba1, rgba2, hg1, hg2, ?_⟩
        have := resolves_mix_right E _ current c1 c2 f L v1 rgba1 _ hv1 hg1 hv2
        simpa only [hg2] using this

/-- Witness for C18: with the name "a" defined as a literal and the name "x"
unknown, the mix of "a" and "x" is unresolved and the shade and the alpha
scale of "a" resolve to literals. -/
theorem resolve_composite_witness :
    current_is_color none = true ∧ is_color idEnv.initial_color = true ∧
    Resolves idEnv (provider_of [("a", .literal ⟨1, 0, 0, 1⟩)]) none (.name 1 "x") []
      .unresolved ∧
    Resolves idEnv (provider_of [("a", .literal ⟨1, 0, 0, 1⟩)]) none
      (.mix (.name 2 "a") (.name 1 "x") (1 / 2)) [] .unresolved ∧
    Resolves idEnv (provider_of [("a", .literal ⟨1, 0, 0, 1⟩)]) none (.name 2 "a") []
      (.resolved (.literal ⟨1, 0, 0, 1⟩)) ∧
    ∃ rgba, gtk_css_color_value_get_rgba (.literal ⟨1, 0, 0, 1⟩) = some rgba ∧
      Resolves idEnv (provider_of [("a", .literal ⟨1, 0, 0, 1⟩)]) none
        (.shade (.name 2 "a") 2) [] (.resolved (.literal (apply_shade idEnv rgba 2))) ∧
      Resolves idEnv (provider_of [("a", .literal ⟨1, 0, 0, 1⟩)]) none
        (.alpha (.name 2 "a") 2) [] (.resolved (.literal (apply_alpha rgba 2))) :=
  have hx : Resolves idEnv (provider_of [("a", .literal ⟨1, 0, 0, 1⟩)]) none (.name 1 "x") []
      .unresolved :=
    resolves_of_eq idEnv _ none _ [] 1 _ rfl (fun h => by cases h)
  have ha : Resolves idEnv (provider_of [("a", .literal ⟨1, 0, 0, 1⟩)]) none (.name 2 "a") []
      (.resolved (.literal ⟨1, 0, 0, 1⟩)) :=
    resolves_of_eq idEnv _ none _ [] 2 _ rfl (fun h => by cases h)
  ⟨rfl, rfl, hx,
    (resolve_composite idEnv [("a", .literal ⟨1, 0, 0, 1⟩)] none (.name 1 "x") (.name 2 "a")
      (.name 1 "x") (1 / 2) [] rfl rfl).2.1 (Or.inr hx),
    ha,
    (resolve_composite idEnv [("a", .literal ⟨1, 0, 0, 1⟩)] none (.name 2 "a") (.name 2 "a")
      (.name 1 "x") 2 [] rfl rfl).2.2.1 _ ha⟩

/-- C19: a `currentcolor` node resolves to the supplied current colour, and to
the initial value of the `color` property when none is supplied, for every
provider and every cycle list. -/
theorem resolve_current_color (E : StyleEnv) (provider : String → Option GtkCssValue)
    (cycle_list : List Nat) (fuel : Nat) :
    (∀ c, gtk_css_color_value_do_resolve E provider (some c) (fuel + 1) .current_color
      cycle_list = .resolved c) ∧
    gtk_css_color_value_do_resolve E provider none (fuel + 1) .current_color cycle_list =
      .resolved E.initial_color ∧
    (∀ c, gtk_css_color_value_resolve E provider (some c) (fuel + 1) .current_color =
      .resolved c) ∧
    gtk_css_color_value_resolve E provider none (fuel + 1) .current_color =
      .resolved E.initial_color :=
  ⟨fun _ => rfl, rfl, fun _ => rfl, rfl⟩

/-- C20: a colour node and a literal are compared by `gdk_rgba_equal` on their
RGBA values when the colour has no missing component, in both argument
orders, and are unequal when it has one; two nodes of different types that
are not a colour and a literal are unequal. -/
theorem color_equal_variants (gdk_rgba_equal : GdkRGBA → GdkRGBA → Bool)
    (gtk_css_color_equal : GtkCssColor → GtkCssColor → Bool) (c : GtkCssColor)
    (rgba l : GdkRGBA) (s : Bool) (v1 v2 : GtkCssValue) (hne : v1.type ≠ v2.type)
    (h1 : ¬ (v1.type = .COLOR_TYPE_COLOR ∧ v2.type = .COLOR_TYPE_LITERAL))
    (h2 : ¬ (v1.type = .COLOR_TYPE_LITERAL ∧ v2.type = .COLOR_TYPE_COLOR)) :
    gtk_css_value_color_equal gdk_rgba_equal gtk_css_color_equal (.color c rgba s)
      (.literal l) = (if c.missing = 0 then gdk_rgba_equal rgba l else false) ∧
    gtk_css_value_color_equal gdk_rgba_equal gtk_css_color_equal (.literal l)
      (.color c rgba s) = (if c.missing = 0 then gdk_rgba_equal l rgba else false) ∧
    gtk_css_value_color_equal gdk_rgba_equal gtk_css_color_equal v1 v2 = false := by
  refine ⟨rfl, rfl, ?_⟩
  cases v1 <;> cases v2 <;>
    simp [GtkCssValue.type, gtk_css_value_color_equal] at hne h1 h2 ⊢

/-- Witness for C20: a named reference and `currentcolor`, with an sRGB colour
without missing component. -/
theorem color_equal_variants_witness :
    (GtkCssValue.name 1 "a").type ≠ GtkCssValue.current_color.type ∧
    gtk_css_value_color_equal (fun a b => decide (a = b)) (fun a b => decide (a = b))
      (.color ⟨.SRGB, ⟨1, 0, 0, 1⟩, 0⟩ ⟨1, 0, 0, 1⟩ false) (.literal ⟨1, 0, 0, 1⟩) = true ∧
    gtk_css_value_color_equal (fun a b => decide (a = b)) (fun a b => decide (a = b))
      (.name 1 "a") .current_color = false :=
  have h := color_equal_variants (fun a b => decide (a = b)) (fun a b => decide (a = b))
    ⟨.SRGB, ⟨1, 0, 0, 1⟩, 0⟩ ⟨1, 0, 0, 1⟩ ⟨1, 0, 0, 1⟩ false (.name 1 "a") .current_color
    (by decide) (by decide) (by decide)
  ⟨by decide, by rw [h.1]; decide, h.2.2⟩


/-! ### Claims on `gtk_css_value_color_compute` and `apply_mix` -/

/-- The macro `CLAMP` returns a value between its bounds. -/
theorem CLAMP_mem (x low high : ℚ) (h : low ≤ high) :
    low ≤ CLAMP x low high ∧ CLAMP x low high ≤ high := by
  unfold CLAMP
  split_ifs with h1 h2
  · exact ⟨h, le_rfl⟩
  · exact ⟨le_rfl, h⟩
  · exact ⟨not_lt.mp h2, not_lt.mp h1⟩

/-- Unfolding of `gtk_css_value_color_compute`. -/
theorem compute_succ (E : StyleEnv) (initial_value : GtkCssProperty → GtkCssValue)
    (fuel : Nat) (value : GtkCssValue) (property_id : GtkCssProperty)
    (context : GtkCssComputeContext) :
    gtk_css_value_color_compute E initial_value (fuel + 1) value property_id context =
      match compute_resolved E fuel value property_id context with
      | .unresolved =>
        gtk_css_value_color_get_fallback initial_value
          (fun v p c => gtk_css_value_color_compute E initial_value fuel v p c)
          property_id context
      | r => r := rfl

/-- The fallback is not `NULL` when the computation it calls is not. -/
theorem get_fallback_ne_unresolved (initial_value : GtkCssProperty → GtkCssValue)
    (class_compute : GtkCssValue → GtkCssProperty → GtkCssComputeContext → Resolution)
    (h : ∀ v p c, class_compute v p c ≠ .unresolved)
    (property_id : GtkCssProperty) (context : GtkCssComputeContext) :
    gtk_css_value_color_get_fallback initial_value class_compute property_id context ≠
      .unresolved := by
  cases property_id <;>
    simp only [gtk_css_value_color_get_fallback, gtk_css_value_compute, ne_eq,
      not_false_eq_true, reduceCtorEq] <;>
    split_ifs <;> first | exact h _ _ _ | simp

/-- The computation never returns `NULL`. -/
theorem compute_ne_unresolved (E : StyleEnv) (initial_value : GtkCssProperty → GtkCssValue) :
    ∀ (fuel : Nat) (value : GtkCssValue) (property_id : GtkCssProperty)
      (context : GtkCssComputeContext),
      gtk_css_value_color_compute E initial_value fuel value property_id context ≠
        .unresolved := by
  intro fuel
  induction fuel with
  | zero =>
    intro value property_id context h
    cases h
  | succ n ih =>
    intro value property_id context
    rw [compute_succ]
    cases hr : compute_resolved E n value property_id context with
    | unresolved => exact get_fallback_ne_unresolved initial_value _ ih property_id context
    | out_of_fuel => exact fun h => by cases h
    | assertion_failed => exact fun h => by cases h
    | resolved v => exact fun h => by cases h

/-- The resolution of lines 157-181 has an outcome that is `NULL` or a value,
for a finite provider and well-typed colours of the style and its parent. -/
theorem compute_resolved_cases (E : StyleEnv) (entries : List (String × GtkCssValue))
    (context : GtkCssComputeContext) (value : GtkCssValue) (property_id : GtkCssProperty)
    (hprov : context.provider = provider_of entries)
    (hstyle : is_color context.style_color = true)
    (hparent : current_is_color context.parent_color = true)
    (hinit : is_color E.initial_color = true) :
    ∃ N r, (r = .unresolved ∨ ∃ v, r = .resolved v) ∧
      ∀ fuel, N ≤ fuel → compute_resolved E fuel value property_id context = r := by
  unfold compute_resolved gtk_css_color_value_resolve
  rw [hprov]
  by_cases hp : property_id = .COLOR
  · simp only [hp, if_true]
    obtain ⟨r, hr, hR⟩ := do_resolve_terminates E entries context.parent_color value []
    obtain ⟨N, hN⟩ := hR
    refine ⟨N, r, ?_, hN⟩
    rcases resolves_cases E _ _ hparent hinit value [] r hr ⟨N, hN⟩ with h | ⟨v, _, h, _⟩
    · exact Or.inl h
    · exact Or.inr ⟨v, h⟩
  · simp only [hp, if_false]
    by_cases hl : value.type = .COLOR_TYPE_LITERAL
    · simp only [hl, if_true]
      exact ⟨0, _, Or.inr ⟨value, rfl⟩, fun _ _ => rfl⟩
    · simp only [hl, if_false]
      obtain ⟨r, hr, hR⟩ := do_resolve_terminates E entries (some context.style_color) value []
      obtain ⟨N, hN⟩ := hR
      refine ⟨N, r, ?_, hN⟩
      rcases resolves_cases E _ (some context.style_color) hstyle hinit value [] r hr ⟨N, hN⟩
        with h | ⟨v, _, h, _⟩
      · exact Or.inl h
      · exact Or.inr ⟨v, h⟩

/-- The computed value of `currentcolor`: the colour of the parent style (or the
initial colour) for the property `color`, the colour of the style otherwise. -/
theorem compute_current_color (E : StyleEnv) (initial_value : GtkCssProperty → GtkCssValue)
    (context : GtkCssComputeContext) (property_id : GtkCssProperty) (fuel : Nat) :
    gtk_css_value_color_compute E initial_value (fuel + 2) .current_color property_id
      context = .resolved
        (if property_id = .COLOR then
          match context.parent_color with
          | some c => c
          | none => E.initial_color
        else context.style_color) := by
  rw [compute_succ]
  unfold compute_resolved gtk_css_color_value_resolve
  by_cases hp : property_id = .COLOR
  · simp only [hp, if_true]
    cases hc : context.parent_color with
    | none => rfl
    | some c => rfl
  · simp only [hp, if_false]
    rfl

/-- The fallback returns a value when the initial values are literals, colours
or `currentcolor`. -/
theorem get_fallback_resolved (E : StyleEnv) (initial_value : GtkCssProperty → GtkCssValue)
    (context : GtkCssComputeContext) (property_id : GtkCssProperty)
    (hiv : ∀ p, is_color (initial_value p) = true ∨ initial_value p = .current_color) :
    ∃ v, ∀ fuel, gtk_css_value_color_get_fallback initial_value
      (fun v p c => gtk_css_value_color_compute E initial_value (fuel + 2) v p c)
      property_id context = .resolved v := by
  have key : ∃ v, ∀ fuel, gtk_css_value_compute
      (fun v p c => gtk_css_value_color_compute E initial_value (fuel + 2) v p c)
      (initial_value property_id) property_id context = .resolved v := by
    unfold gtk_css_value_compute is_computed
    rcases hiv property_id with h | h
    · exact ⟨_, fun _ => by rw [if_pos h]⟩
    · rw [h]
      exact ⟨_, fun fuel => by
        rw [if_neg (by decide)]
        exact compute_current_color E initial_value context property_id fuel⟩
  cases property_id <;> first
    | exact ⟨_, fun _ => rfl⟩
    | exact key

/-- C21: `gtk_css_value_color_compute` never returns `NULL`.  With a finite
provider, literal or colour values for the colours of the style, of its
parent and for the initial colour, and initial values that are literals,
colours or `currentcolor`, it returns a value.  When the resolution fails
the result is the fallback: the transparent literal for the five image
and shadow properties and for unlisted properties, the computed initial
value for the nine colour properties, the colour of the style for
`icon-palette`. -/
theorem compute_fallback (E : StyleEnv) (initial_value : GtkCssProperty → GtkCssValue)
    (entries : List (String × GtkCssValue)) (context : GtkCssComputeContext)
    (value : GtkCssValue) (property_id : GtkCssProperty)
    (hprov : context.provider = provider_of entries)
    (hstyle : is_color context.style_color = true)
    (hparent : current_is_color context.parent_color = true)
    (hinit : is_color E.initial_color = true)
    (hiv : ∀ p, is_color (initial_value p) = true ∨ initial_value p = .current_color) :
    (∀ fuel, gtk_css_value_color_compute E initial_value fuel value property_id context ≠
      .unresolved) ∧
    (∃ N v, ∀ fuel, N ≤ fuel →
      gtk_css_value_color_compute E initial_value fuel value property_id context =
        .resolved v) ∧
    (∀ fuel, compute_resolved E fuel value property_id context = .unresolved →
      gtk_css_value_color_compute E initial_value (fuel + 1) value property_id context =
        gtk_css_value_color_get_fallback initial_value
          (fun v p c => gtk_css_value_color_compute E initial_value fuel v p c)
          property_id context) ∧
    (∀ class_compute,
      (property_id = .BACKGROUND_IMAGE ∨ property_id = .BORDER_IMAGE_SOURCE ∨
        property_id = .TEXT_SHADOW ∨ property_id = .ICON_SHADOW ∨
        property_id = .BOX_SHADOW ∨ ∃ id, property_id = .OTHER id) →
      gtk_css_value_color_get_fallback initial_value class_compute property_id context =
        .resolved (.literal ⟨0, 0, 0, 0⟩)) ∧
    (∀ class_compute,
      (property_id = .COLOR ∨ property_id = .BACKGROUND_COLOR ∨
        property_id = .BORDER_TOP_COLOR ∨ property_id = .BORDER_RIGHT_COLOR ∨
        property_id = .BORDER_BOTTOM_COLOR ∨ property_id = .BORDER_LEFT_COLOR ∨
        property_id = .OUTLINE_COLOR ∨ property_id = .CARET_COLOR ∨
        property_id = .SECONDARY_CARET_COLOR) →
      gtk_css_value_color_get_fallback initial_value class_compute property_id context =
        gtk_css_value_compute class_compute (initial_value property_id) property_id context) ∧
    (∀ class_compute, property_id = .ICON_PALETTE →
      gtk_css_value_color_get_fallback initial_value class_compute property_id context =
        .resolved context.style_color) := by
  refine ⟨fun fuel => compute_ne_unresolved E initial_value fuel value property_id context,
    ?_, ?_, ?_, ?_, ?_⟩
  · obtain ⟨N, r, hr, hN⟩ := compute_resolved_cases E entries context value property_id
      hprov hstyle hparent hinit
    rcases hr with rfl | ⟨v, rfl⟩
    · obtain ⟨w, hw⟩ := get_fallback_resolved E initial_value context property_id hiv
      refine ⟨N + 3, w, fun fuel hf => ?_⟩
      obtain ⟨m, rfl⟩ : ∃ m, fuel = m + 2 + 1 := ⟨fuel - 3, by omega⟩
      rw [compute_succ, hN (m + 2) (by omega)]
      exact hw m
    · refine ⟨N + 1, v, fun fuel hf => ?_⟩
      obtain ⟨m, rfl⟩ : ∃ m, fuel = m + 1 := ⟨fuel - 1, by omega⟩
      rw [compute_succ, hN m (by omega)]
  · intro fuel h
    rw [compute_succ, h]
  · rintro cc (h | h | h | h | h | ⟨id, h⟩) <;> subst h <;> rfl
  · rintro cc (h | h | h | h | h | h | h | h | h) <;> subst h <;> rfl
  · rintro cc h
    subst h
    rfl

/-- Witness for C21: the unknown name "a" computed for `border-top-color`, whose
initial value is `currentcolor`, is the colour of the style. -/
theorem compute_fallback_witness :
    is_color (GtkCssValue.literal ⟨1, 0, 0, 1⟩) = true ∧
    current_is_color none = true ∧ is_color idEnv.initial_color = true ∧
    (∀ fuel, gtk_css_value_color_compute idEnv (fun _ => .current_color) fuel (.name 1 "a")
      .BORDER_TOP_COLOR ⟨provider_of [], .literal ⟨1, 0, 0, 1⟩, none⟩ ≠ .unresolved) ∧
    gtk_css_value_color_compute idEnv (fun _ => .current_color) 4 (.name 1 "a")
      .BORDER_TOP_COLOR ⟨provider_of [], .literal ⟨1, 0, 0, 1⟩, none⟩ =
      .resolved (.literal ⟨1, 0, 0, 1⟩) :=
  ⟨rfl, rfl, rfl,
    (compute_fallback idEnv (fun _ => .current_color) [] ⟨provider_of [], .literal ⟨1, 0, 0, 1⟩, none⟩
      (.name 1 "a") .BORDER_TOP_COLOR rfl rfl rfl rfl (fun _ => Or.inr rfl)).1,
    rfl⟩

/-- C30: `apply_mix` returns an alpha in `[0, 1]` for all inputs and factors,
and when that alpha is `0`, in particular when both inputs have alpha `0`,
the result is `(0, 0, 0, 0)`: the branch that divides by alpha is not
taken. -/
theorem apply_mix_alpha (in1 in2 : GdkRGBA) (factor : ℚ) :
    0 ≤ (apply_mix in1 in2 factor).alpha ∧ (apply_mix in1 in2 factor).alpha ≤ 1 ∧
    (apply_mix in1 in2 factor).alpha =
      CLAMP (transition in1.alpha in2.alpha factor) 0 1 ∧
    ((apply_mix in1 in2 factor).alpha = 0 → apply_mix in1 in2 factor = ⟨0, 0, 0, 0⟩) ∧
    (in1.alpha = 0 → in2.alpha = 0 → apply_mix in1 in2 factor = ⟨0, 0, 0, 0⟩) := by
  have hc := CLAMP_mem (transition in1.alpha in2.alpha factor) 0 1 zero_le_one
  have ha : (apply_mix in1 in2 factor).alpha =
      CLAMP (transition in1.alpha in2.alpha factor) 0 1 := by
    unfold apply_mix
    dsimp only
    split_ifs <;> rfl
  have hz : CLAMP (transition in1.alpha in2.alpha factor) 0 1 = 0 →
      apply_mix in1 in2 factor = ⟨0, 0, 0, 0⟩ := by
    intro h0
    unfold apply_mix
    dsimp only
    rw [h0, if_pos le_rfl]
  refine ⟨by rw [ha]; exact hc.1, by rw [ha]; exact hc.2, ha, fun h => hz (ha ▸ h), ?_⟩
  intro h1 h2
  apply hz
  simp [transition, h1, h2, CLAMP]

/-- Witness for C30: two colours of alpha `0` mixed half and half. -/
theorem apply_mix_alpha_witness :
    (⟨1, 0, 0, 0⟩ : GdkRGBA).alpha = 0 ∧ (⟨0, 0, 1, 0⟩ : GdkRGBA).alpha = 0 ∧
    apply_mix ⟨1, 0, 0, 0⟩ ⟨0, 0, 1, 0⟩ (1 / 2) = ⟨0, 0, 0, 0⟩ :=
  ⟨rfl, rfl, (apply_mix_alpha ⟨1, 0, 0, 0⟩ ⟨0, 0, 1, 0⟩ (1 / 2)).2.2.2.2 rfl rfl⟩


/-! ### Channel parsers -/

/-- A channel parsed by `parse_rgb_channel_value` lies in `[0, 1]`. -/
theorem parse_rgb_channel_value_range (parser : GtkCssParser) (syn : ColorSyntax)
    (data data1 : ParseRGBAData) (ch : Channel)
    (h : parse_rgb_channel_value parser syn data = some (ch, data1)) :
    0 ≤ ch.value ∧ ch.value ≤ 1 := by
  have hc : ∀ x : ℚ, 0 ≤ CLAMP x 0 255 / 255 ∧ CLAMP x 0 255 / 255 ≤ 1 := by
    intro x
    have := CLAMP_mem x 0 255 (by norm_num)
    constructor
    · exact div_nonneg this.1 (by norm_num)
    · rw [div_le_one (by norm_num)]
      exact this.2
  unfold parse_rgb_channel_value at h
  dsimp only at h
  split at h
  · cases h
  · split_ifs at h
    · cases h
      simp
    · split at h
      · cases h
      · cases h
        exact hc _

/-- An alpha parsed by `parse_alpha_value` lies in `[0, 1]`. -/
theorem parse_alpha_value_range (parser : GtkCssParser) (syn : ColorSyntax) (ch : Channel)
    (h : parse_alpha_value parser syn = some ch) : 0 ≤ ch.value ∧ ch.value ≤ 1 := by
  unfold parse_alpha_value at h
  dsimp only at h
  split at h
  · cases h
    simp
  · split at h
    · cases h
    · cases h
      exact CLAMP_mem _ 0 1 zero_le_one

/-- A number token parsed by `parse_rgb_channel_value`. -/
theorem parse_rgb_channel_value_number (n : ℚ) (rest : GtkCssParser) (syn : ColorSyntax)
    (data : ParseRGBAData) :
    parse_rgb_channel_value (.NUMBER n :: rest) syn data =
      match syn with
      | .DETECTING =>
        some (⟨CLAMP n 0 255 / 255, false, .DETECTING, rest⟩,
          { data with use_percentages := false })
      | .MODERN => some (⟨CLAMP n 0 255 / 255, false, .MODERN, rest⟩, data)
      | .LEGACY =>
        if data.use_percentages = true then none
        else some (⟨CLAMP n 0 255 / 255, false, .LEGACY, rest⟩, data) := by
  cases syn
  · rfl
  · rfl
  · cases h : data.use_percentages <;>
      simp [parse_rgb_channel_value, gtk_css_parser_get_token, gtk_css_parser_try_ident,
        gtk_css_number_value_parse, gtk_css_number_value_get_canonical, h]

/-- A percentage token parsed by `parse_rgb_channel_value`. -/
theorem parse_rgb_channel_value_percentage (p : ℚ) (rest : GtkCssParser) (syn : ColorSyntax)
    (data : ParseRGBAData) :
    parse_rgb_channel_value (.PERCENTAGE p :: rest) syn data =
      match syn with
      | .DETECTING =>
        some (⟨CLAMP (p * 255 / 100) 0 255 / 255, false, .DETECTING, rest⟩,
          { data with use_percentages := true })
      | .MODERN => some (⟨CLAMP (p * 255 / 100) 0 255 / 255, false, .MODERN, rest⟩, data)
      | .LEGACY =>
        if data.use_percentages = true then
          some (⟨CLAMP (p * 255 / 100) 0 255 / 255, false, .LEGACY, rest⟩, data)
        else none := by
  cases syn
  · rfl
  · rfl
  · cases h : data.use_percentages <;>
      simp [parse_rgb_channel_value, gtk_css_parser_get_token, gtk_css_parser_try_ident,
        gtk_css_number_value_parse, gtk_css_number_value_get_canonical, h]

/-- Unfolding of the loop. -/
theorem loop_succ {δ : Type} (allow_alpha require_alpha : Bool) (parse_func : ParseFunc δ)
    (fuel : Nat) (self : GtkCssParser) (syn : ColorSyntax) (arg min_args max_args : Nat)
    (data : δ) :
    parse_color_function_loop allow_alpha require_alpha parse_func (fuel + 1) self syn arg
        min_args max_args data =
      match parse_func self arg syn data with
      | .out_of_fuel => .out_of_fuel
      | .assertion_failed => .assertion_failed
      | .error => .error
      | .ok step =>
        if step.parse_args = 0 then .error
        else
          match after_argument allow_alpha require_alpha step.parser step.syn
              (arg + step.parse_args) min_args max_args with
          | .accept => .ok step.data
          | .reject => .error
          | .next self syn min_args max_args =>
            parse_color_function_loop allow_alpha require_alpha parse_func fuel self syn
              (arg + step.parse_args) min_args max_args step.data := rfl

/-- The decision at the end of the block. -/
theorem after_argument_nil (allow_alpha require_alpha : Bool) (syn : ColorSyntax)
    (arg min_args max_args : Nat) :
    after_argument allow_alpha require_alpha [] syn arg min_args max_args =
      if arg < min_args then .reject else .accept := by
  cases syn <;> simp [after_argument, gtk_css_parser_get_token]

/-- The decision at a comma. -/
theorem after_argument_comma (allow_alpha require_alpha : Bool) (rest : GtkCssParser)
    (syn : ColorSyntax) (arg min_args max_args : Nat) :
    after_argument allow_alpha require_alpha (.COMMA :: rest) syn arg min_args max_args =
      match syn with
      | .MODERN => .reject
      | .LEGACY => if arg ≥ max_args then .reject else .next rest .LEGACY min_args max_args
      | .DETECTING =>
        if arg ≥ (if allow_alpha then 4 else 3) then .reject
        else .next rest .LEGACY (if require_alpha then 4 else 3) (if allow_alpha then 4 else 3) := by
  cases syn <;>
    simp [after_argument, gtk_css_parser_get_token, gtk_css_parser_consume_token]

/-- The decision at a token that is not a comma. -/
theorem after_argument_other (allow_alpha require_alpha : Bool) (t : GtkCssToken)
    (rest : GtkCssParser) (syn : ColorSyntax) (arg min_args max_args : Nat)
    (ht : t ≠ .COMMA) :
    after_argument allow_alpha require_alpha (t :: rest) syn arg min_args max_args =
      match syn with
      | .LEGACY => .reject
      | _ =>
        if arg = min_args then
          if t = .DELIM '/' then .next rest .MODERN min_args max_args else .reject
        else if arg ≥ max_args then .reject
        else .next (t :: rest) .MODERN min_args max_args := by
  cases syn <;>
    simp [after_argument, gtk_css_parser_get_token, gtk_css_parser_consume_token, ht]

/-- The first step of an accepting run of the loop: `parse_func` consumes one
argument token and the decision after it is not a rejection. -/
theorem loop_ok_step {δ : Type} (allow_alpha require_alpha : Bool) (parse_func : ParseFunc δ)
    (hc : ConsumesOne parse_func) (fuel : Nat) (self : GtkCssParser) (syn : ColorSyntax)
    (arg min_args max_args : Nat) (data d : δ)
    (h : parse_color_function_loop allow_alpha require_alpha parse_func fuel self syn arg
      min_args max_args data = .ok d) :
    ∃ fuel1 step t, fuel = fuel1 + 1 ∧ parse_func self arg syn data = .ok step ∧
      is_argument t = true ∧ self = t :: step.parser ∧
      (step.syn = syn ∨ (syn = .DETECTING ∧ step.syn = .MODERN)) ∧
      (match after_argument allow_alpha require_alpha step.parser step.syn (arg + 1)
          min_args max_args with
        | .accept => ParseResult.ok step.data
        | .reject => .error
        | .next self syn min_args max_args =>
          parse_color_function_loop allow_alpha require_alpha parse_func fuel1 self syn
            (arg + 1) min_args max_args step.data) = .ok d := by
  cases fuel with
  | zero => cases h
  | succ fuel1 =>
    rw [loop_succ] at h
    cases hp : parse_func self arg syn data with
    | out_of_fuel => rw [hp] at h; cases h
    | assertion_failed => rw [hp] at h; cases h
    | error => rw [hp] at h; cases h
    | ok step =>
      rw [hp] at h
      obtain ⟨h1, ⟨t, ht, hs⟩, hsyn⟩ := hc self arg syn data step hp
      simp only [h1, one_ne_zero, if_false] at h
      exact ⟨fuel1, step, t, rfl, rfl, ht, hs, hsyn, h⟩

/-- After the delimiter `/` an accepting run reads one argument and the end of
the block. -/
theorem loop_after_slash {δ : Type} (allow_alpha require_alpha : Bool)
    (parse_func : ParseFunc δ) (hc : ConsumesOne parse_func) (fuel : Nat)
    (self : GtkCssParser) (min_args : Nat) (data d : δ)
    (h : parse_color_function_loop allow_alpha require_alpha parse_func fuel self .MODERN
      min_args min_args (min_args + 1) data = .ok d) :
    ∃ a, is_argument a = true ∧ self = [a] := by
  obtain ⟨fuel1, step, t, -, -, ht, hs, hsyn, h⟩ :=
    loop_ok_step allow_alpha require_alpha parse_func hc fuel self .MODERN min_args min_args
      (min_args + 1) data d h
  have hm : step.syn = .MODERN := by
    rcases hsyn with h1 | ⟨h1, -⟩
    · exact h1
    · cases h1
  rw [hm] at h
  cases hr : step.parser with
  | nil => exact ⟨t, ht, by rw [hs, hr]⟩
  | cons t1 rest =>
    rw [hr] at h
    by_cases hcomma : t1 = .COMMA
    · subst hcomma
      rw [after_argument_comma] at h
      cases h
    · rw [after_argument_other _ _ _ _ _ _ _ _ hcomma] at h
      simp at h

/-- In modern syntax an accepting run that still expects `n + 1` channels reads
them, then the end of the block or the delimiter `/` and one more argument. -/
theorem loop_modern {δ : Type} (allow_alpha require_alpha : Bool) (parse_func : ParseFunc δ)
    (hc : ConsumesOne parse_func) (min_args : Nat) :
    ∀ (n fuel : Nat) (self : GtkCssParser) (arg : Nat) (data d : δ),
      arg + n + 1 = min_args →
      parse_color_function_loop allow_alpha require_alpha parse_func fuel self .MODERN arg
        min_args (min_args + 1) data = .ok d →
      ∃ args tail, self = args ++ tail ∧ args.length = n + 1 ∧
        (∀ a ∈ args, is_argument a = true) ∧
        (tail = [] ∨ ∃ a, is_argument a = true ∧ tail = [.DELIM '/', a]) := by
  intro n
  induction n with
  | zero =>
    intro fuel self arg data d hn h
    obtain ⟨fuel1, step, t, -, -, ht, hs, hsyn, h⟩ :=
      loop_ok_step allow_alpha require_alpha parse_func hc fuel self .MODERN arg min_args
        (min_args + 1) data d h
    have hm : step.syn = .MODERN := by
      rcases hsyn with h1 | ⟨h1, -⟩
      · exact h1
      · cases h1
    have harg : arg + 1 = min_args := by omega
    rw [hm, harg] at h
    cases hr : step.parser with
    | nil => exact ⟨[t], [], by rw [hs, hr]; rfl, rfl, by simpa using ht, Or.inl rfl⟩
    | cons t1 rest =>
      rw [hr] at h
      by_cases hcomma : t1 = .COMMA
      · subst hcomma
        rw [after_argument_comma] at h
        cases h
      · rw [after_argument_other _ _ _ _ _ _ _ _ hcomma] at h
        by_cases hd : t1 = .DELIM '/'
        · simp only [hd, if_true] at h
          obtain ⟨a, ha, hrest⟩ := loop_after_slash allow_alpha require_alpha parse_func hc
            fuel1 rest min_args step.data d h
          refine ⟨[t], [.DELIM '/', a], ?_, rfl, by simpa using ht, Or.inr ⟨a, ha, rfl⟩⟩
          rw [hs, hr, hd, hrest]
          rfl
        · simp [hd] at h
  | succ n ih =>
    intro fuel self arg data d hn h
    obtain ⟨fuel1, step, t, -, -, ht, hs, hsyn, h⟩ :=
      loop_ok_step allow_alpha require_alpha parse_func hc fuel self .MODERN arg min_args
        (min_args + 1) data d h
    have hm : step.syn = .MODERN := by
      rcases hsyn with h1 | ⟨h1, -⟩
      · exact h1
      · cases h1
    rw [hm] at h
    cases hr : step.parser with
    | nil =>
      rw [hr, after_argument_nil, if_pos (by omega)] at h
      cases h
    | cons t1 rest =>
      rw [hr] at h
      by_cases hcomma : t1 = .COMMA
      · subst hcomma
        rw [after_argument_comma] at h
        cases h
      · rw [after_argument_other _ _ _ _ _ _ _ _ hcomma] at h
        have h1 : ¬ arg + 1 = min_args := by omega
        have h2 : ¬ arg + 1 ≥ min_args + 1 := by omega
        simp only [h1, h2, if_false] at h
        obtain ⟨args, tail, hself, hlen, hargs, htail⟩ :=
          ih fuel1 (t1 :: rest) (arg + 1) step.data d (by omega) h
        refine ⟨t :: args, tail, ?_, by simp [hlen], ?_, htail⟩
        · rw [hs, hr, hself]
          rfl
        · intro a ha
          rcases List.mem_cons.mp ha with rfl | ha
          · exact ht
          · exact hargs a ha

/-- In legacy syntax an accepting run that may still read `n + 1` arguments
reads numbers separated by commas up to the end of the block. -/
theorem loop_legacy {δ : Type} (allow_alpha require_alpha : Bool) (parse_func : ParseFunc δ)
    (hc : ConsumesOne parse_func) (hi : IdentIsModern parse_func) (min_args max_args : Nat) :
    ∀ (n fuel : Nat) (self : GtkCssParser) (arg : Nat) (data d : δ),
      arg + n + 1 = max_args →
      parse_color_function_loop allow_alpha require_alpha parse_func fuel self .LEGACY arg
        min_args max_args data = .ok d →
      ∃ args, self = List.intersperse .COMMA args ∧ args ≠ [] ∧
        min_args ≤ arg + args.length ∧ arg + args.length ≤ max_args ∧
        ∀ a ∈ args, is_numeric a = true := by
  intro n
  induction n with
  | zero =>
    intro fuel self arg data d hn h
    obtain ⟨fuel1, step, t, -, hp, -, hs, hsyn, h⟩ :=
      loop_ok_step allow_alpha require_alpha parse_func hc fuel self .LEGACY arg min_args
        max_args data d h
    have hm : step.syn = .LEGACY := by
      rcases hsyn with h1 | ⟨h1, -⟩
      · exact h1
      · cases h1
    have hnum : is_numeric t = true :=
      hi self arg .LEGACY data step hp (by rw [hm]; decide) t (by rw [hs]; rfl)
    rw [hm] at h
    cases hr : step.parser with
    | nil =>
      rw [hr, after_argument_nil] at h
      by_cases hlt : arg + 1 < min_args
      · rw [if_pos hlt] at h
        cases h
      · refine ⟨[t], by rw [hs, hr]; rfl, by simp, by simp; omega, by simp; omega, ?_⟩
        simpa using hnum
    | cons t1 rest =>
      rw [hr] at h
      by_cases hcomma : t1 = .COMMA
      · subst hcomma
        rw [after_argument_comma] at h
        simp only [ge_iff_le] at h
        rw [if_pos (by omega)] at h
        cases h
      · rw [after_argument_other _ _ _ _ _ _ _ _ hcomma] at h
        cases h
  | succ n ih =>
    intro fuel self arg data d hn h
    obtain ⟨fuel1, step, t, -, hp, -, hs, hsyn, h⟩ :=
      loop_ok_step allow_alpha require_alpha parse_func hc fuel self .LEGACY arg min_args
        max_args data d h
    have hm : step.syn = .LEGACY := by
      rcases hsyn with h1 | ⟨h1, -⟩
      · exact h1
      · cases h1
    have hnum : is_numeric t = true :=
      hi self arg .LEGACY data step hp (by rw [hm]; decide) t (by rw [hs]; rfl)
    rw [hm] at h
    cases hr : step.parser with
    | nil =>
      rw [hr, after_argument_nil] at h
      by_cases hlt : arg + 1 < min_args
      · rw [if_pos hlt] at h
        cases h
      · refine ⟨[t], by rw [hs, hr]; rfl, by simp, by simp; omega, by simp; omega, ?_⟩
        simpa using hnum
    | cons t1 rest =>
      rw [hr] at h
      by_cases hcomma : t1 = .COMMA
      · subst hcomma
        rw [after_argument_comma] at h
        simp only [ge_iff_le] at h
        rw [if_neg (by omega)] at h
        obtain ⟨args, hself, hne, hmin, hmax, hargs⟩ :=
          ih fuel1 rest (arg + 1) step.data d (by omega) h
        obtain ⟨b, l, rfl⟩ : ∃ b l, args = b :: l := by
          cases args with
          | nil => exact absurd rfl hne
          | cons b l => exact ⟨b, l, rfl⟩
        refine ⟨t :: b :: l, ?_, by simp, ?_, ?_, ?_⟩
        · rw [hs, hr, hself]
          rfl
        · simp only [List.length_cons] at hmin ⊢
          omega
        · simp only [List.length_cons] at hmax ⊢
          omega
        · intro a ha
          rcases List.mem_cons.mp ha with rfl | ha
          · exact hnum
          · exact hargs a ha
      · rw [after_argument_other _ _ _ _ _ _ _ _ hcomma] at h
        cases h

/-- Three arguments and their tail form a block in modern syntax. -/
theorem modern_shape_of_append (args tail : GtkCssParser) (hlen : args.length = 3)
    (hargs : ∀ a ∈ args, is_argument a = true)
    (htail : tail = [] ∨ ∃ a, is_argument a = true ∧ tail = [.DELIM '/', a]) :
    modern_shape (args ++ tail) = true := by
  obtain ⟨a0, a1, a2, rfl⟩ : ∃ a0 a1 a2, args = [a0, a1, a2] := by
    match args, hlen with
    | [a0, a1, a2], _ => exact ⟨a0, a1, a2, rfl⟩
  have h0 := hargs a0 (by simp)
  have h1 := hargs a1 (by simp)
  have h2 := hargs a2 (by simp)
  rcases htail with rfl | ⟨a, ha, rfl⟩
  · simp [modern_shape, h0, h1, h2]
  · simp [modern_shape, h0, h1, h2, ha]

/-- A call that starts in modern syntax accepts only blocks in modern syntax. -/
theorem parse_color_function_modern {δ : Type} (parse_func : ParseFunc δ)
    (hc : ConsumesOne parse_func) (self : GtkCssParser) (allow_alpha require_alpha : Bool)
    (data d : δ)
    (h : parse_color_function self .MODERN false allow_alpha require_alpha parse_func data =
      .ok d) : modern_shape self = true := by
  obtain ⟨args, tail, hself, hlen, hargs, htail⟩ :=
    loop_modern allow_alpha require_alpha parse_func hc 3 2 6 self 0 data d rfl h
  rw [hself]
  exact modern_shape_of_append args tail hlen hargs htail

/-- A call of `color()` accepts only a first argument followed by a block in
modern syntax. -/
theorem parse_color_function_color {δ : Type} (parse_func : ParseFunc δ)
    (hc : ConsumesOne parse_func) (self : GtkCssParser) (allow_alpha require_alpha : Bool)
    (data d : δ)
    (h : parse_color_function self .MODERN true allow_alpha require_alpha parse_func data =
      .ok d) :
    ∃ k rest, is_argument k = true ∧ self = k :: rest ∧ modern_shape rest = true := by
  obtain ⟨args, tail, hself, hlen, hargs, htail⟩ :=
    loop_modern allow_alpha require_alpha parse_func hc 4 3 6 self 0 data d rfl h
  obtain ⟨k, args1, rfl⟩ : ∃ k args1, args = k :: args1 := by
    cases args with
    | nil => simp at hlen
    | cons k args1 => exact ⟨k, args1, rfl⟩
  refine ⟨k, args1 ++ tail, hargs k (by simp), by rw [hself]; rfl, ?_⟩
  exact modern_shape_of_append args1 tail (by simpa using hlen)
    (fun a ha => hargs a (List.mem_cons_of_mem _ ha)) htail

/-- A call that detects its syntax accepts only blocks in modern syntax and
blocks in legacy syntax with an allowed number of arguments. -/
theorem parse_color_function_detecting {δ : Type} (parse_func : ParseFunc δ)
    (hc : ConsumesOne parse_func) (hi : IdentIsModern parse_func) (self : GtkCssParser)
    (allow_alpha require_alpha : Bool) (data d : δ)
    (h : parse_color_function self .DETECTING false allow_alpha require_alpha parse_func
      data = .ok d) :
    modern_shape self = true ∨ (require_alpha = false ∧ legacy_shape 3 self = true) ∨
      (allow_alpha = true ∧ legacy_shape 4 self = true) := by
  obtain ⟨fuel1, step, t, hfuel, hp, ht, hs, hsyn, h⟩ :=
    loop_ok_step allow_alpha require_alpha parse_func hc 6 self .DETECTING 0 3 4 data d h
  have modern_case : ∀ t1 rest, step.parser = t1 :: rest →
      parse_color_function_loop allow_alpha require_alpha parse_func fuel1 (t1 :: rest)
        .MODERN (0 + 1) 3 4 step.data = .ok d → modern_shape self = true := by
    intro t1 rest hr h
    obtain ⟨args, tail, hself, hlen, hargs, htail⟩ :=
      loop_modern allow_alpha require_alpha parse_func hc 3 1 fuel1 (t1 :: rest) 1
        step.data d rfl h
    rw [hs, hr, hself]
    refine modern_shape_of_append (t :: args) tail (by simp [hlen]) ?_ htail
    intro a ha
    rcases List.mem_cons.mp ha with rfl | ha
    · exact ht
    · exact hargs a ha
  cases hr : step.parser with
  | nil =>
    rw [hr, after_argument_nil] at h
    simp at h
  | cons t1 rest =>
    rw [hr] at h
    by_cases hcomma : t1 = .COMMA
    · subst hcomma
      rw [after_argument_comma] at h
      rcases hsyn with hd | ⟨-, hm⟩
      · rw [hd] at h
        have hnum : is_numeric t = true :=
          hi self 0 .DETECTING data step hp (by rw [hd]; decide) t (by rw [hs]; rfl)
        have hge : ¬ (0 + 1 ≥ if allow_alpha = true then 4 else 3) := by
          cases allow_alpha <;> simp
        simp only [hge, if_false] at h
        obtain ⟨n, hn⟩ : ∃ n, 0 + 1 + n + 1 = if allow_alpha = true then 4 else 3 := by
          cases allow_alpha
          · exact ⟨1, rfl⟩
          · exact ⟨2, rfl⟩
        obtain ⟨args, hself, -, hmin, hmax, hargs⟩ :=
          loop_legacy allow_alpha require_alpha parse_func hc hi _ _ n fuel1 rest (0 + 1)
            step.data d hn h
        have hshape : ∀ l : List GtkCssToken, (∀ a ∈ l, is_numeric a = true) →
            (l.length = 2 → legacy_shape 3 (t :: .COMMA :: List.intersperse .COMMA l) = true) ∧
            (l.length = 3 → legacy_shape 4 (t :: .COMMA :: List.intersperse .COMMA l) = true) := by
          intro l hl
          constructor
          · intro h2
            match l, h2, hl with
            | [a1, a2], _, hl =>
              have h1 := hl a1 (by simp)
              have h2 := hl a2 (by simp)
              simp [legacy_shape, hnum, h1, h2]
          · intro h3
            match l, h3, hl with
            | [a1, a2, a3], _, hl =>
              have h1 := hl a1 (by simp)
              have h2 := hl a2 (by simp)
              have h3 := hl a3 (by simp)
              simp [legacy_shape, hnum, h1, h2, h3]
        rw [hs, hr, hself]
        cases allow_alpha <;> cases require_alpha <;> simp only [if_true, if_false,
          Bool.false_eq_true] at hmin hmax
        · exact Or.inr (Or.inl ⟨rfl, (hshape args hargs).1 (by omega)⟩)
        · omega
        · by_cases h2 : args.length = 2
          · exact Or.inr (Or.inl ⟨rfl, (hshape args hargs).1 h2⟩)
          · exact Or.inr (Or.inr ⟨rfl, (hshape args hargs).2 (by omega)⟩)
        · exact Or.inr (Or.inr ⟨rfl, (hshape args hargs).2 (by omega)⟩)
      · rw [hm] at h
        cases h
    · rw [after_argument_other _ _ _ _ _ _ _ _ hcomma] at h
      rcases hsyn with hd | ⟨-, hm⟩
      · rw [hd] at h
        simp only [show ¬ (0 + 1 = 3) by decide, show ¬ (0 + 1 ≥ 4) by decide, if_false] at h
        exact Or.inl (modern_case t1 rest hr h)
      · rw [hm] at h
        simp only [show ¬ (0 + 1 = 3) by decide, show ¬ (0 + 1 ≥ 4) by decide, if_false] at h
        exact Or.inl (modern_case t1 rest hr h)

/-! ### The six `parse_func` -/

/-- An accepted identifier is the current token, and it is consumed. -/
theorem try_ident_true (parser : GtkCssParser) (ident : String)
    (h : (gtk_css_parser_try_ident parser ident).1 = true) :
    parser = .IDENT ident :: (gtk_css_parser_try_ident parser ident).2 := by
  unfold gtk_css_parser_try_ident at h ⊢
  split at h
  · rename_i name rest
    by_cases hn : name = ident
    · simp [hn]
    · simp [hn] at h
  · simp at h

/-- A parsed number is the current token, a number, a percentage or an angle,
and it is consumed. -/
theorem number_value_parse_some (parser : GtkCssParser) (flags : List GtkCssNumberParseFlags)
    (val : GtkCssNumberValue) (rest : GtkCssParser)
    (h : gtk_css_number_value_parse parser flags = some (val, rest)) :
    ∃ t, is_numeric t = true ∧ parser = t :: rest := by
  unfold gtk_css_number_value_parse at h
  split at h
  · split_ifs at h
    cases h
    refine ⟨_, ?_, rfl⟩
    rfl
  · split_ifs at h
    cases h
    refine ⟨_, ?_, rfl⟩
    rfl
  · split_ifs at h
    cases h
    refine ⟨_, ?_, rfl⟩
    rfl
  · cases h

/-- A numeric token is an argument token. -/
theorem is_argument_of_is_numeric (t : GtkCssToken) (h : is_numeric t = true) :
    is_argument t = true := by
  cases t <;> simp [is_numeric, is_argument] at h ⊢

/-- What a channel parser that takes `syntax` does when it succeeds: it consumes
one argument token, the identifier `none` exactly when the channel is
missing; it leaves `syntax` as it is, or selects the modern syntax when the
channel is missing. -/
theorem channel_pattern (parser : GtkCssParser) (syn : ColorSyntax)
    (flags : List GtkCssNumberParseFlags) (f : GtkCssNumberValue → ℚ) (ch : Channel)
    (h : (if syn ≠ .LEGACY ∧ (gtk_css_parser_try_ident parser "none").1 = true then
        some ⟨0, true, .MODERN, (gtk_css_parser_try_ident parser "none").2⟩
      else
        match gtk_css_number_value_parse parser flags with
        | none => none
        | some (val, parser) => some ⟨f val, false, syn, parser⟩) = some ch) :
    ∃ t, is_argument t = true ∧ parser = t :: ch.parser ∧
      (ch.syn = syn ∨ (syn ≠ .LEGACY ∧ ch.syn = .MODERN)) ∧
      (ch.syn ≠ .MODERN → is_numeric t = true) ∧
      (ch.missing = true → t = .IDENT "none" ∧ syn ≠ .LEGACY) ∧
      (ch.missing = false → is_numeric t = true) := by
  split_ifs at h with hc
  · cases h
    refine ⟨.IDENT "none", rfl, try_ident_true parser "none" hc.2, Or.inr ⟨hc.1, rfl⟩, ?_,
      fun _ => ⟨rfl, hc.1⟩, ?_⟩
    · intro hne
      exact absurd rfl hne
    · intro hm
      cases hm
  · split at h
    · cases h
    · rename_i val rest hp
      cases h
      obtain ⟨t, ht, hs⟩ := number_value_parse_some parser flags val rest hp
      refine ⟨t, is_argument_of_is_numeric t ht, hs, Or.inl rfl, fun _ => ht, ?_, fun _ => ht⟩
      intro hm
      cases hm

/-- The pattern of the channel parsers that do not take `syntax`. -/
theorem plain_pattern (parser : GtkCssParser) (flags : List GtkCssNumberParseFlags)
    (f : GtkCssNumberValue → ℚ) (m : Bool) (r : ℚ × Bool × GtkCssParser)
    (h : (if (gtk_css_parser_try_ident parser "none").1 = true then
        some ((0 : ℚ), true, (gtk_css_parser_try_ident parser "none").2)
      else
        match gtk_css_number_value_parse parser flags with
        | none => none
        | some (val, parser) => some (f val, m, parser)) = some r) :
    ∃ t, is_argument t = true ∧ parser = t :: r.2.2 := by
  split_ifs at h with hc
  · cases h
    exact ⟨.IDENT "none", rfl, try_ident_true parser "none" hc⟩
  · split at h
    · cases h
    · rename_i val rest hp
      cases h
      obtain ⟨t, ht, hs⟩ := number_value_parse_some parser flags val rest hp
      exact ⟨t, is_argument_of_is_numeric t ht, hs⟩

/-- The two ways in which a channel parser leaves `syntax`. -/
theorem syn_cases (syn syn1 : ColorSyntax)
    (h : syn1 = syn ∨ (syn ≠ .LEGACY ∧ syn1 = .MODERN)) :
    syn1 = syn ∨ (syn = .DETECTING ∧ syn1 = .MODERN) := by
  rcases h with h | ⟨h1, h2⟩
  · exact Or.inl h
  · cases syn
    · exact Or.inr ⟨rfl, h2⟩
    · exact Or.inl h2
    · exact absurd rfl h1

/-- What `parse_rgb_channel_value` does when it succeeds. -/
theorem parse_rgb_channel_value_some (parser : GtkCssParser) (syn : ColorSyntax)
    (data data1 : ParseRGBAData) (ch : Channel)
    (h : parse_rgb_channel_value parser syn data = some (ch, data1)) :
    (∃ t, is_argument t = true ∧ parser = t :: ch.parser ∧
      (ch.syn = syn ∨ (syn ≠ .LEGACY ∧ ch.syn = .MODERN)) ∧
      (ch.syn ≠ .MODERN → is_numeric t = true) ∧
      (ch.missing = true → t = .IDENT "none" ∧ syn ≠ .LEGACY) ∧
      (ch.missing = false → is_numeric t = true)) ∧
    data1.rgba = data.rgba ∧ data1.missing = data.missing := by
  unfold parse_rgb_channel_value at h
  dsimp only at h
  split at h
  · cases h
  · rename_i d hchk
    have hd : d.rgba = data.rgba ∧ d.missing = data.missing := by
      cases syn
      · cases hchk
        exact ⟨rfl, rfl⟩
      · cases hchk
        exact ⟨rfl, rfl⟩
      · dsimp only at hchk
        split_ifs at hchk
        cases hchk
        exact ⟨rfl, rfl⟩
    split_ifs at h with hc
    · cases h
      refine ⟨⟨.IDENT "none", rfl, try_ident_true parser "none" hc.2, Or.inr ⟨hc.1, rfl⟩,
        fun hne => absurd rfl hne, fun _ => ⟨rfl, hc.1⟩, fun hm => by cases hm⟩, hd⟩
    · split at h
      · cases h
      · rename_i val rest hp
        cases h
        obtain ⟨t, ht, hs⟩ := number_value_parse_some parser _ val rest hp
        exact ⟨⟨t, is_argument_of_is_numeric t ht, hs, Or.inl rfl, fun _ => ht,
          fun hm => (by cases hm), fun _ => ht⟩, hd⟩

/-- The result of `channel_step` when it is not an error. -/
theorem channel_step_ok {δ : Type} (r : Option Channel) (store : Channel → δ)
    (step : ParseStep δ) (h : channel_step r store = .ok step) :
    ∃ ch, r = some ch ∧ step = ⟨1, ch.parser, ch.syn, store ch⟩ := by
  cases r with
  | none => cases h
  | some ch =>
    cases h
    exact ⟨ch, rfl, rfl⟩

/-- The result of `plain_step` when it is not an error. -/
theorem plain_step_ok {δ : Type} (r : Option (ℚ × Bool × GtkCssParser)) (syn : ColorSyntax)
    (store : ℚ → Bool → δ) (step : ParseStep δ) (h : plain_step r syn store = .ok step) :
    ∃ v, r = some v ∧ step = ⟨1, v.2.2, syn, store v.1 v.2.1⟩ := by
  cases r with
  | none => cases h
  | some v =>
    obtain ⟨a, b, c⟩ := v
    cases h
    exact ⟨(a, b, c), rfl, rfl⟩

/-- The parsers `parse_alpha_value`, `parse_hsl_channel_value`,
`parse_hwb_channel_value` and `parse_hue_value` follow `channel_pattern`. -/
theorem channel_parsers_some (parser : GtkCssParser) (syn : ColorSyntax) (ch : Channel)
    (h : parse_alpha_value parser syn = some ch ∨ parse_hsl_channel_value parser syn = some ch ∨
      parse_hwb_channel_value parser syn = some ch ∨ parse_hue_value parser syn = some ch) :
    ∃ t, is_argument t = true ∧ parser = t :: ch.parser ∧
      (ch.syn = syn ∨ (syn ≠ .LEGACY ∧ ch.syn = .MODERN)) ∧
      (ch.syn ≠ .MODERN → is_numeric t = true) ∧
      (ch.missing = true → t = .IDENT "none" ∧ syn ≠ .LEGACY) ∧
      (ch.missing = false → is_numeric t = true) := by
  rcases h with h | h | h | h
  · exact channel_pattern parser syn _ _ ch h
  · exact channel_pattern parser syn _ _ ch h
  · exact channel_pattern parser syn _ _ ch h
  · exact channel_pattern parser syn _ _ ch h

/-- The parsers `parse_ok_L_value`, `parse_ok_C_value`, `parse_ok_ab_value` and
`parse_color_channel_value` follow `plain_pattern`. -/
theorem plain_parsers_some (parser : GtkCssParser) (m : Bool) (r : ℚ × Bool × GtkCssParser)
    (h : parse_ok_L_value parser = some r ∨ parse_ok_C_value parser = some r ∨
      parse_ok_ab_value parser m = some r ∨ parse_color_channel_value parser = some r) :
    ∃ t, is_argument t = true ∧ parser = t :: r.2.2 := by
  rcases h with h | h | h | h
  · exact plain_pattern parser _ _ _ r h
  · exact plain_pattern parser _ _ _ r h
  · exact plain_pattern parser _ _ _ r h
  · exact plain_pattern parser _ _ _ r h

/-- The function `parse_rgba_color_channel` consumes one argument token. -/
theorem rgba_consumes_one : ConsumesOne parse_rgba_color_channel := by
  intro self arg syn data step h
  unfold parse_rgba_color_channel at h
  split at h
  · split at h
    · rename_i ch d hp
      cases h
      obtain ⟨⟨t, ht, hs, hsyn, -⟩, -⟩ := parse_rgb_channel_value_some self syn data d ch hp
      exact ⟨rfl, ⟨t, ht, hs⟩, syn_cases _ _ hsyn⟩
    · cases h
  · split at h
    · rename_i ch d hp
      cases h
      obtain ⟨⟨t, ht, hs, hsyn, -⟩, -⟩ := parse_rgb_channel_value_some self syn data d ch hp
      exact ⟨rfl, ⟨t, ht, hs⟩, syn_cases _ _ hsyn⟩
    · cases h
  · split at h
    · rename_i ch d hp
      cases h
      obtain ⟨⟨t, ht, hs, hsyn, -⟩, -⟩ := parse_rgb_channel_value_some self syn data d ch hp
      exact ⟨rfl, ⟨t, ht, hs⟩, syn_cases _ _ hsyn⟩
    · cases h
  · obtain ⟨ch, hr, rfl⟩ := channel_step_ok _ _ _ h
    obtain ⟨t, ht, hs, hsyn, -⟩ := channel_parsers_some self syn ch (Or.inl hr)
    exact ⟨rfl, ⟨t, ht, hs⟩, syn_cases _ _ hsyn⟩
  · cases h

/-- The function `parse_rgba_color_channel` accepts an identifier only by
selecting the modern syntax. -/
theorem rgba_ident_is_modern : IdentIsModern parse_rgba_color_channel := by
  intro self arg syn data step h hne t0 ht0
  unfold parse_rgba_color_channel at h
  split at h
  · split at h
    · rename_i ch d hp
      cases h
      obtain ⟨⟨t, -, hs, -, hnum, -⟩, -⟩ := parse_rgb_channel_value_some self syn data d ch hp
      rw [hs] at ht0
      cases ht0
      exact hnum hne
    · cases h
  · split at h
    · rename_i ch d hp
      cases h
      obtain ⟨⟨t, -, hs, -, hnum, -⟩, -⟩ := parse_rgb_channel_value_some self syn data d ch hp
      rw [hs] at ht0
      cases ht0
      exact hnum hne
    · cases h
  · split at h
    · rename_i ch d hp
      cases h
      obtain ⟨⟨t, -, hs, -, hnum, -⟩, -⟩ := parse_rgb_channel_value_some self syn data d ch hp
      rw [hs] at ht0
      cases ht0
      exact hnum hne
    · cases h
  · obtain ⟨ch, hr, rfl⟩ := channel_step_ok _ _ _ h
    obtain ⟨t, -, hs, -, hnum, -⟩ := channel_parsers_some self syn ch (Or.inl hr)
    rw [hs] at ht0
    cases ht0
    exact hnum hne
  · cases h

/-- The function `parse_hsla_color_channel` consumes one argument token. -/
theorem hsla_consumes_one : ConsumesOne parse_hsla_color_channel := by
  intro self arg syn data step h
  unfold parse_hsla_color_channel at h
  split at h
  · obtain ⟨ch, hr, rfl⟩ := channel_step_ok _ _ _ h
    obtain ⟨t, ht, hs, hsyn, -⟩ := channel_parsers_some self syn ch (Or.inr (Or.inr (Or.inr hr)))
    exact ⟨rfl, ⟨t, ht, hs⟩, syn_cases _ _ hsyn⟩
  · obtain ⟨ch, hr, rfl⟩ := channel_step_ok _ _ _ h
    obtain ⟨t, ht, hs, hsyn, -⟩ := channel_parsers_some self syn ch (Or.inr (Or.inl hr))
    exact ⟨rfl, ⟨t, ht, hs⟩, syn_cases _ _ hsyn⟩
  · obtain ⟨ch, hr, rfl⟩ := channel_step_ok _ _ _ h
    obtain ⟨t, ht, hs, hsyn, -⟩ := channel_parsers_some self syn ch (Or.inr (Or.inl hr))
    exact ⟨rfl, ⟨t, ht, hs⟩, syn_cases _ _ hsyn⟩
  · obtain ⟨ch, hr, rfl⟩ := channel_step_ok _ _ _ h
    obtain ⟨t, ht, hs, hsyn, -⟩ := channel_parsers_some self syn ch (Or.inl hr)
    exact ⟨rfl, ⟨t, ht, hs⟩, syn_cases _ _ hsyn⟩
  · cases h

/-- The function `parse_hsla_color_channel` accepts an identifier only by
selecting the modern syntax. -/
theorem hsla_ident_is_modern : IdentIsModern parse_hsla_color_channel := by
  intro self arg syn data step h hne t0 ht0
  unfold parse_hsla_color_channel at h
  split at h
  · obtain ⟨ch, hr, rfl⟩ := channel_step_ok _ _ _ h
    obtain ⟨t, -, hs, -, hnum, -⟩ := channel_parsers_some self syn ch (Or.inr (Or.inr (Or.inr hr)))
    rw [hs] at ht0
    cases ht0
    exact hnum hne
  · obtain ⟨ch, hr, rfl⟩ := channel_step_ok _ _ _ h
    obtain ⟨t, -, hs, -, hnum, -⟩ := channel_parsers_some self syn ch (Or.inr (Or.inl hr))
    rw [hs] at ht0
    cases ht0
    exact hnum hne
  · obtain ⟨ch, hr, rfl⟩ := channel_step_ok _ _ _ h
    obtain ⟨t, -, hs, -, hnum, -⟩ := channel_parsers_some self syn ch (Or.inr (Or.inl hr))
    rw [hs] at ht0
    cases ht0
    exact hnum hne
  · obtain ⟨ch, hr, rfl⟩ := channel_step_ok _ _ _ h
    obtain ⟨t, -, hs, -, hnum, -⟩ := channel_parsers_some self syn ch (Or.inl hr)
    rw [hs] at ht0
    cases ht0
    exact hnum hne
  · cases h

/-- The function `parse_hwb_color_channel` consumes one argument token. -/
theorem hwb_consumes_one : ConsumesOne parse_hwb_color_channel := by
  intro self arg syn data step h
  unfold parse_hwb_color_channel at h
  split at h
  · obtain ⟨ch, hr, rfl⟩ := channel_step_ok _ _ _ h
    obtain ⟨t, ht, hs, hsyn, -⟩ := channel_parsers_some self syn ch (Or.inr (Or.inr (Or.inr hr)))
    exact ⟨rfl, ⟨t, ht, hs⟩, syn_cases _ _ hsyn⟩
  · obtain ⟨ch, hr, rfl⟩ := channel_step_ok _ _ _ h
    obtain ⟨t, ht, hs, hsyn, -⟩ := channel_parsers_some self syn ch (Or.inr (Or.inr (Or.inl hr)))
    exact ⟨rfl, ⟨t, ht, hs⟩, syn_cases _ _ hsyn⟩
  · obtain ⟨ch, hr, rfl⟩ := channel_step_ok _ _ _ h
    obtain ⟨t, ht, hs, hsyn, -⟩ := channel_parsers_some self syn ch (Or.inr (Or.inr (Or.inl hr)))
    exact ⟨rfl, ⟨t, ht, hs⟩, syn_cases _ _ hsyn⟩
  · obtain ⟨ch, hr, rfl⟩ := channel_step_ok _ _ _ h
    obtain ⟨t, ht, hs, hsyn, -⟩ := channel_parsers_some self syn ch (Or.inl hr)
    exact ⟨rfl, ⟨t, ht, hs⟩, syn_cases _ _ hsyn⟩
  · cases h

/-- The function `parse_oklab_color_channel` consumes one argument token. -/
theorem oklab_consumes_one : ConsumesOne parse_oklab_color_channel := by
  intro self arg syn data step h
  unfold parse_oklab_color_channel at h
  split at h
  · obtain ⟨v, hr, rfl⟩ := plain_step_ok _ _ _ _ h
    obtain ⟨t, ht, hs⟩ := plain_parsers_some self false v (Or.inl hr)
    exact ⟨rfl, ⟨t, ht, hs⟩, Or.inl rfl⟩
  · obtain ⟨v, hr, rfl⟩ := plain_step_ok _ _ _ _ h
    obtain ⟨t, ht, hs⟩ := plain_parsers_some self _ v (Or.inr (Or.inr (Or.inl hr)))
    exact ⟨rfl, ⟨t, ht, hs⟩, Or.inl rfl⟩
  · obtain ⟨v, hr, rfl⟩ := plain_step_ok _ _ _ _ h
    obtain ⟨t, ht, hs⟩ := plain_parsers_some self _ v (Or.inr (Or.inr (Or.inl hr)))
    exact ⟨rfl, ⟨t, ht, hs⟩, Or.inl rfl⟩
  · obtain ⟨ch, hr, rfl⟩ := channel_step_ok _ _ _ h
    obtain ⟨t, ht, hs, hsyn, -⟩ := channel_parsers_some self syn ch (Or.inl hr)
    exact ⟨rfl, ⟨t, ht, hs⟩, syn_cases _ _ hsyn⟩
  · cases h

/-- The function `parse_oklch_color_channel` consumes one argument token. -/
theorem oklch_consumes_one : ConsumesOne parse_oklch_color_channel := by
  intro self arg syn data step h
  unfold parse_oklch_color_channel at h
  split at h
  · obtain ⟨v, hr, rfl⟩ := plain_step_ok _ _ _ _ h
    obtain ⟨t, ht, hs⟩ := plain_parsers_some self false v (Or.inl hr)
    exact ⟨rfl, ⟨t, ht, hs⟩, Or.inl rfl⟩
  · obtain ⟨v, hr, rfl⟩ := plain_step_ok _ _ _ _ h
    obtain ⟨t, ht, hs⟩ := plain_parsers_some self false v (Or.inr (Or.inl hr))
    exact ⟨rfl, ⟨t, ht, hs⟩, Or.inl rfl⟩
  · obtain ⟨ch, hr, rfl⟩ := channel_step_ok _ _ _ h
    obtain ⟨t, ht, hs, hsyn, -⟩ := channel_parsers_some self syn ch (Or.inr (Or.inr (Or.inr hr)))
    exact ⟨rfl, ⟨t, ht, hs⟩, syn_cases _ _ hsyn⟩
  · obtain ⟨ch, hr, rfl⟩ := channel_step_ok _ _ _ h
    obtain ⟨t, ht, hs, hsyn, -⟩ := channel_parsers_some self syn ch (Or.inl hr)
    exact ⟨rfl, ⟨t, ht, hs⟩, syn_cases _ _ hsyn⟩
  · cases h

/-- The function `parse_color_color_channel` consumes one argument token. -/
theorem color_consumes_one : ConsumesOne parse_color_color_channel := by
  intro self arg syn data step h
  unfold parse_color_color_channel at h
  split at h
  · split_ifs at h with h1 h2
    · cases h
      exact ⟨rfl, ⟨.IDENT "srgb", rfl, try_ident_true self "srgb" h1⟩, Or.inl rfl⟩
    · cases h
      exact ⟨rfl, ⟨.IDENT "srgb-linear", rfl, try_ident_true self "srgb-linear" h2⟩, Or.inl rfl⟩
  · obtain ⟨v, hr, rfl⟩ := plain_step_ok _ _ _ _ h
    obtain ⟨t, ht, hs⟩ := plain_parsers_some self false v (Or.inr (Or.inr (Or.inr hr)))
    exact ⟨rfl, ⟨t, ht, hs⟩, Or.inl rfl⟩
  · obtain ⟨v, hr, rfl⟩ := plain_step_ok _ _ _ _ h
    obtain ⟨t, ht, hs⟩ := plain_parsers_some self false v (Or.inr (Or.inr (Or.inr hr)))
    exact ⟨rfl, ⟨t, ht, hs⟩, Or.inl rfl⟩
  · obtain ⟨v, hr, rfl⟩ := plain_step_ok _ _ _ _ h
    obtain ⟨t, ht, hs⟩ := plain_parsers_some self false v (Or.inr (Or.inr (Or.inr hr)))
    exact ⟨rfl, ⟨t, ht, hs⟩, Or.inl rfl⟩
  · obtain ⟨ch, hr, rfl⟩ := channel_step_ok _ _ _ h
    obtain ⟨t, ht, hs, hsyn, -⟩ := channel_parsers_some self syn ch (Or.inl hr)
    exact ⟨rfl, ⟨t, ht, hs⟩, syn_cases _ _ hsyn⟩
  · cases h

/-- A `channel_step` is an error or a step. -/
theorem channel_step_total {δ : Type} (r : Option Channel) (store : Channel → δ) :
    channel_step r store = .error ∨ ∃ step, channel_step r store = .ok step := by
  cases r with
  | none => exact Or.inl rfl
  | some ch => exact Or.inr ⟨_, rfl⟩

/-- A `plain_step` is an error or a step. -/
theorem plain_step_total {δ : Type} (r : Option (ℚ × Bool × GtkCssParser)) (syn : ColorSyntax)
    (store : ℚ → Bool → δ) :
    plain_step r syn store = .error ∨ ∃ step, plain_step r syn store = .ok step := by
  cases r with
  | none => exact Or.inl rfl
  | some v => exact Or.inr ⟨_, rfl⟩

/-- The function `parse_rgba_color_channel` meets no assertion below four
arguments. -/
theorem rgba_total : TotalBelow parse_rgba_color_channel 4 := by
  intro self arg syn data harg
  unfold parse_rgba_color_channel
  interval_cases arg
  · dsimp only
    cases parse_rgb_channel_value self syn data with
    | none => exact Or.inl rfl
    | some r => exact Or.inr ⟨_, rfl⟩
  · dsimp only
    cases parse_rgb_channel_value self syn data with
    | none => exact Or.inl rfl
    | some r => exact Or.inr ⟨_, rfl⟩
  · dsimp only
    cases parse_rgb_channel_value self syn data with
    | none => exact Or.inl rfl
    | some r => exact Or.inr ⟨_, rfl⟩
  · exact channel_step_total _ _

/-- The function `parse_hsla_color_channel` meets no assertion below four
arguments. -/
theorem hsla_total : TotalBelow parse_hsla_color_channel 4 := by
  intro self arg syn data harg
  unfold parse_hsla_color_channel
  interval_cases arg <;> exact channel_step_total _ _

/-- The function `parse_hwb_color_channel` meets no assertion below four
arguments. -/
theorem hwb_total : TotalBelow parse_hwb_color_channel 4 := by
  intro self arg syn data harg
  unfold parse_hwb_color_channel
  interval_cases arg <;> exact channel_step_total _ _

/-- The function `parse_oklab_color_channel` meets no assertion below four
arguments. -/
theorem oklab_total : TotalBelow parse_oklab_color_channel 4 := by
  intro self arg syn data harg
  unfold parse_oklab_color_channel
  interval_cases arg <;> first | exact channel_step_total _ _ | exact plain_step_total _ _ _

/-- The function `parse_oklch_color_channel` meets no assertion below four
arguments. -/
theorem oklch_total : TotalBelow parse_oklch_color_channel 4 := by
  intro self arg syn data harg
  unfold parse_oklch_color_channel
  interval_cases arg <;> first | exact channel_step_total _ _ | exact plain_step_total _ _ _

/-- The function `parse_color_color_channel` meets no assertion below five
arguments. -/
theorem color_total : TotalBelow parse_color_color_channel 5 := by
  intro self arg syn data harg
  unfold parse_color_color_channel
  interval_cases arg
  · dsimp only
    split_ifs
    · exact Or.inr ⟨_, rfl⟩
    · exact Or.inr ⟨_, rfl⟩
    · exact Or.inl rfl
  · exact plain_step_total _ _ _
  · exact plain_step_total _ _ _
  · exact plain_step_total _ _ _
  · exact channel_step_total _ _

/-- What holds of the next iteration when the loop goes on: the number of
arguments is below `max_args`, and `min_args` is below `max_args` unless the
syntax is legacy. -/
theorem after_argument_next (allow_alpha require_alpha : Bool) (self : GtkCssParser)
    (syn : ColorSyntax) (arg min_args max_args bound : Nat)
    (self1 : GtkCssParser) (syn1 : ColorSyntax) (min1 max1 : Nat)
    (hinv : syn = .LEGACY ∨ min_args < max_args) (hmax : max_args ≤ bound) (hb : 4 ≤ bound)
    (h : after_argument allow_alpha require_alpha self syn arg min_args max_args =
      .next self1 syn1 min1 max1) :
    (syn1 = .LEGACY ∨ min1 < max1) ∧ arg < max1 ∧ max1 ≤ bound ∧ syn1 ≠ .DETECTING := by
  cases self with
  | nil =>
    rw [after_argument_nil] at h
    split_ifs at h
  | cons t rest =>
    by_cases hcomma : t = .COMMA
    · subst hcomma
      rw [after_argument_comma] at h
      cases syn with
      | MODERN => cases h
      | LEGACY =>
        dsimp only at h
        split_ifs at h with hge
        cases h
        exact ⟨Or.inl rfl, by omega, hmax, by decide⟩
      | DETECTING =>
        dsimp only at h
        split_ifs at h <;> cases h <;> exact ⟨Or.inl rfl, by omega, by omega, by decide⟩
    · rw [after_argument_other _ _ _ _ _ _ _ _ hcomma] at h
      have hlt : min_args < max_args := by
        rcases hinv with hl | hlt
        · subst hl
          cases h
        · exact hlt
      cases syn with
      | LEGACY => cases h
      | MODERN =>
        dsimp only at h
        split_ifs at h with h1 h2 h3
        · cases h
          exact ⟨Or.inr hlt, by omega, hmax, by decide⟩
        · cases h
          exact ⟨Or.inr hlt, by omega, hmax, by decide⟩
      | DETECTING =>
        dsimp only at h
        split_ifs at h with h1 h2 h3
        · cases h
          exact ⟨Or.inr hlt, by omega, hmax, by decide⟩
        · cases h
          exact ⟨Or.inr hlt, by omega, hmax, by decide⟩

/-- The loop returns a result or a syntax error: no assertion fails and the
fuel suffices. -/
theorem loop_total {δ : Type} (allow_alpha require_alpha : Bool) (parse_func : ParseFunc δ)
    (hc : ConsumesOne parse_func) (bound : Nat) (ht : TotalBelow parse_func bound)
    (hb : 4 ≤ bound) :
    ∀ (fuel : Nat) (self : GtkCssParser) (syn : ColorSyntax) (arg min_args max_args : Nat)
      (data : δ),
      (syn = .LEGACY ∨ min_args < max_args) → arg < max_args → max_args ≤ bound →
      bound ≤ arg + fuel →
      parse_color_function_loop allow_alpha require_alpha parse_func fuel self syn arg
          min_args max_args data = .error ∨
        ∃ d, parse_color_function_loop allow_alpha require_alpha parse_func fuel self syn arg
          min_args max_args data = .ok d := by
  intro fuel
  induction fuel with
  | zero =>
    intro self syn arg min_args max_args data _ harg hmax hfuel
    omega
  | succ fuel ih =>
    intro self syn arg min_args max_args data hinv harg hmax hfuel
    rw [loop_succ]
    rcases ht self arg syn data (by omega) with hp | ⟨step, hp⟩
    · rw [hp]
      exact Or.inl rfl
    · rw [hp]
      obtain ⟨h1, -, hsyn⟩ := hc self arg syn data step hp
      simp only [h1, one_ne_zero, if_false]
      have hinv1 : step.syn = .LEGACY ∨ min_args < max_args := by
        rcases hinv with hl | hlt
        · rcases hsyn with h2 | ⟨h2, -⟩
          · exact Or.inl (h2.trans hl)
          · rw [hl] at h2
            cases h2
        · exact Or.inr hlt
      cases ha : after_argument allow_alpha require_alpha step.parser step.syn (arg + 1)
          min_args max_args with
      | accept => exact Or.inr ⟨_, rfl⟩
      | reject => exact Or.inl rfl
      | next self1 syn1 min1 max1 =>
        obtain ⟨hi1, hlt1, hmax1, -⟩ := after_argument_next allow_alpha require_alpha
          step.parser step.syn (arg + 1) min_args max_args bound self1 syn1 min1 max1 hinv1
          hmax hb ha
        exact ih self1 syn1 (arg + 1) min1 max1 step.data hi1 hlt1 hmax1 (by omega)

/-- The function `parse_color_function` returns a result or a syntax error. -/
theorem parse_color_function_total {δ : Type} (parse_func : ParseFunc δ)
    (hc : ConsumesOne parse_func) (self : GtkCssParser) (syn : ColorSyntax)
    (parse_color_space allow_alpha require_alpha : Bool) (data : δ)
    (ht : TotalBelow parse_func (if parse_color_space then 5 else 4)) :
    parse_color_function self syn parse_color_space allow_alpha require_alpha parse_func
        data = .error ∨
      ∃ d, parse_color_function self syn parse_color_space allow_alpha require_alpha
        parse_func data = .ok d := by
  unfold parse_color_function
  cases parse_color_space
  · exact loop_total allow_alpha require_alpha parse_func hc 4 ht le_rfl 6 self syn 0 3 4 data
      (Or.inr (by decide)) (by decide) le_rfl (by decide)
  · exact loop_total allow_alpha require_alpha parse_func hc 5 ht (by decide) 6 self syn 0 4 5
      data (Or.inr (by decide)) (by decide) le_rfl (by decide)

/-! ### The branches of `gtk_css_color_value_parse` -/

/-- The function `gtk_css_color_value_new_color` returns a colour node: the
conversion to sRGB meets no assertion. -/
theorem new_color_some (U : ColorUtils) (color_space : GtkCssColorSpace) (s : Bool)
    (values : Vec4 ℚ) (missing : Vec4 Bool) :
    ∃ rgba, gtk_css_color_value_new_color U color_space s values missing =
      some (.color (gtk_css_color_init_with_missing U color_space values missing) rgba s) := by
  obtain ⟨tmp, htmp, -⟩ := convert_some_of_ne_oklab U
    (gtk_css_color_init_with_missing U color_space values missing) .SRGB (by decide)
  unfold gtk_css_color_value_new_color
  dsimp only
  rw [htmp]
  exact ⟨_, rfl⟩

/-- The colour value made from the data of a successful `parse_color_function`. -/
theorem parsed_color_of_ok {δ : Type} (U : ColorUtils) (data : δ)
    (cs : δ → GtkCssColorSpace) (s : Bool) (vals : δ → Vec4 ℚ) (miss : δ → Vec4 Bool) :
    ∃ rgba, parsed_color U (.ok data) cs s vals miss =
      .ok (.color (gtk_css_color_init_with_missing U (cs data) (vals data) (miss data)) rgba s) := by
  obtain ⟨rgba, h⟩ := new_color_some U (cs data) s (vals data) (miss data)
  unfold parsed_color
  dsimp only
  rw [h]
  exact ⟨rgba, rfl⟩

/-- A colour value is returned only when `parse_color_function` succeeds. -/
theorem parsed_color_ok_inv {δ : Type} (U : ColorUtils) (r : ParseResult δ)
    (cs : δ → GtkCssColorSpace) (s : Bool) (vals : δ → Vec4 ℚ) (miss : δ → Vec4 Bool)
    (v : GtkCssValue) (h : parsed_color U r cs s vals miss = .ok v) :
    ∃ data rgba, r = .ok data ∧
      v = .color (gtk_css_color_init_with_missing U (cs data) (vals data) (miss data)) rgba s := by
  cases r with
  | ok data =>
    obtain ⟨rgba, h1⟩ := parsed_color_of_ok U data cs s vals miss
    rw [h1] at h
    cases h
    exact ⟨data, rgba, rfl, rfl⟩
  | error => cases h
  | assertion_failed => cases h
  | out_of_fuel => cases h

/-- A colour whose four flags are clear stores its components and an empty
mask. -/
theorem init_with_missing_no_missing (U : ColorUtils) (cs : GtkCssColorSpace) (v : Vec4 ℚ) :
    gtk_css_color_init_with_missing U cs v no_missing = ⟨cs, v, 0⟩ := rfl

/-- The branch of `rgb()` and `rgba()` when `parse_color_function` succeeds. -/
theorem parse_rgb_of_ok (U : ColorUtils)
    (other : String → GtkCssParser → ParseResult GtkCssValue) (name : String)
    (block : GtkCssParser) (data : ParseRGBAData) (hname : name = "rgb" ∨ name = "rgba")
    (h : parse_color_function block .DETECTING false (decide (name = "rgba"))
      (decide (name = "rgba")) parse_rgba_color_channel ⟨⟨0, 0, 0, 1⟩, false, no_missing⟩ =
        .ok data) :
    ∃ rgba, gtk_css_color_value_parse U other name block =
      .ok (.color (gtk_css_color_init_with_missing U .SRGB
        ⟨data.rgba.red, data.rgba.green, data.rgba.blue, data.rgba.alpha⟩ data.missing)
        rgba true) := by
  obtain ⟨rgba, hr⟩ := parsed_color_of_ok U data (fun _ => GtkCssColorSpace.SRGB) true
    (fun data : ParseRGBAData =>
      ⟨data.rgba.red, data.rgba.green, data.rgba.blue, data.rgba.alpha⟩)
    (fun data => data.missing)
  refine ⟨rgba, ?_⟩
  rw [← hr, ← h]
  rcases hname with rfl | rfl <;> rfl

/-- Three space-separated channels, with or without an alpha after `/`, are
accepted by `rgb()` and `rgba()`. -/
theorem parse_rgb_modern_eval (U : ColorUtils)
    (other : String → GtkCssParser → ParseResult GtkCssValue) (name : String)
    (hname : name = "rgb" ∨ name = "rgba") (p0 p1 p2 pa : Bool) (v0 v1 v2 va : ℚ) :
    (∃ rgba, gtk_css_color_value_parse U other name
        [channel_token p0 v0, channel_token p1 v1, channel_token p2 v2] =
      .ok (.color ⟨.SRGB, ⟨rgb_channel_of p0 v0, rgb_channel_of p1 v1, rgb_channel_of p2 v2, 1⟩,
        0⟩ rgba true)) ∧
    (∃ rgba, gtk_css_color_value_parse U other name
        [channel_token p0 v0, channel_token p1 v1, channel_token p2 v2, .DELIM '/',
          channel_token pa va] =
      .ok (.color ⟨.SRGB, ⟨rgb_channel_of p0 v0, rgb_channel_of p1 v1, rgb_channel_of p2 v2,
        alpha_of pa va⟩, 0⟩ rgba true)) := by
  constructor
  · have h : parse_color_function
        [channel_token p0 v0, channel_token p1 v1, channel_token p2 v2] .DETECTING false
        (decide (name = "rgba")) (decide (name = "rgba")) parse_rgba_color_channel
        ⟨⟨0, 0, 0, 1⟩, false, no_missing⟩ =
        .ok ⟨⟨rgb_channel_of p0 v0, rgb_channel_of p1 v1, rgb_channel_of p2 v2, 1⟩, p0,
          no_missing⟩ := by
      rcases hname with rfl | rfl <;> cases p0 <;> cases p1 <;> cases p2 <;> rfl
    obtain ⟨rgba, hr⟩ := parse_rgb_of_ok U other name _ _ hname h
    refine ⟨rgba, ?_⟩
    rw [hr]
    dsimp only
    rw [init_with_missing_no_missing]
  · have h : parse_color_function
        [channel_token p0 v0, channel_token p1 v1, channel_token p2 v2, .DELIM '/',
          channel_token pa va] .DETECTING false
        (decide (name = "rgba")) (decide (name = "rgba")) parse_rgba_color_channel
        ⟨⟨0, 0, 0, 1⟩, false, no_missing⟩ =
        .ok ⟨⟨rgb_channel_of p0 v0, rgb_channel_of p1 v1, rgb_channel_of p2 v2,
          alpha_of pa va⟩, p0, no_missing⟩ := by
      rcases hname with rfl | rfl <;> cases p0 <;> cases p1 <;> cases p2 <;> cases pa <;> rfl
    obtain ⟨rgba, hr⟩ := parse_rgb_of_ok U other name _ _ hname h
    refine ⟨rgba, ?_⟩
    rw [hr]
    dsimp only
    rw [init_with_missing_no_missing]

/-- Three comma-separated channels of the same kind are accepted by `rgb()`. -/
theorem parse_rgb_legacy_eval (U : ColorUtils)
    (other : String → GtkCssParser → ParseResult GtkCssValue) (p : Bool) (v0 v1 v2 : ℚ) :
    ∃ rgba, gtk_css_color_value_parse U other "rgb"
        [channel_token p v0, .COMMA, channel_token p v1, .COMMA, channel_token p v2] =
      .ok (.color ⟨.SRGB, ⟨rgb_channel_of p v0, rgb_channel_of p v1, rgb_channel_of p v2, 1⟩,
        0⟩ rgba true) := by
  have h : parse_color_function
      [channel_token p v0, .COMMA, channel_token p v1, .COMMA, channel_token p v2] .DETECTING
      false (decide ("rgb" = "rgba")) (decide ("rgb" = "rgba")) parse_rgba_color_channel
      ⟨⟨0, 0, 0, 1⟩, false, no_missing⟩ =
      .ok ⟨⟨rgb_channel_of p v0, rgb_channel_of p v1, rgb_channel_of p v2, 1⟩, p,
        no_missing⟩ := by
    cases p <;> rfl
  obtain ⟨rgba, hr⟩ := parse_rgb_of_ok U other "rgb" _ _ (Or.inl rfl) h
  refine ⟨rgba, ?_⟩
  rw [hr]
  dsimp only
  rw [init_with_missing_no_missing]

/-- The values of in-range channels and alphas. -/
theorem rgb_channel_of_in_range (v : ℚ) :
    (0 ≤ v → v ≤ 255 → rgb_channel_of false v = v / 255) ∧
    (0 ≤ v → v ≤ 100 → rgb_channel_of true v = v / 100) ∧
    (0 ≤ v → v ≤ 1 → alpha_of false v = v) ∧
    (0 ≤ v → v ≤ 100 → alpha_of true v = v / 100) := by
  refine ⟨?_, ?_, ?_, ?_⟩ <;> intro h0 h1
  · simp only [rgb_channel_of, CLAMP, Bool.false_eq_true, if_false]
    rw [if_neg (by linarith), if_neg (by linarith)]
  · simp only [rgb_channel_of, CLAMP, if_true]
    rw [if_neg (by linarith), if_neg (by linarith)]
    ring
  · simp only [alpha_of, CLAMP, Bool.false_eq_true, if_false]
    rw [if_neg (by linarith), if_neg (by linarith)]
  · simp only [alpha_of, CLAMP, if_true]
    rw [if_neg (by linarith), if_neg (by linarith)]
    ring

/-! ### The flag `use_percentages` -/

/-- The test of `parse_rgb_channel_value` on the current token. -/
theorem has_percentage_cons (t : GtkCssToken) (rest : GtkCssParser) :
    (match gtk_css_parser_get_token (t :: rest) with
      | some (.PERCENTAGE _) => true
      | _ => false) = is_percentage t := by
  cases t <;> rfl

/-- While the syntax is being detected, `parse_rgb_channel_value` records
whether the channel is a percentage. -/
theorem parse_rgb_channel_value_detecting (t : GtkCssToken) (rest : GtkCssParser)
    (data data1 : ParseRGBAData) (ch : Channel)
    (h : parse_rgb_channel_value (t :: rest) .DETECTING data = some (ch, data1)) :
    data1.use_percentages = is_percentage t := by
  unfold parse_rgb_channel_value at h
  rw [has_percentage_cons] at h
  dsimp only at h
  split_ifs at h
  · cases h
    rfl
  · split at h
    · cases h
    · cases h
      rfl

/-- In legacy syntax `parse_rgb_channel_value` rejects a channel whose kind is
not the recorded one, and leaves the record as it is. -/
theorem parse_rgb_channel_value_legacy (t : GtkCssToken) (rest : GtkCssParser)
    (data : ParseRGBAData) :
    (data.use_percentages ≠ is_percentage t →
      parse_rgb_channel_value (t :: rest) .LEGACY data = none) ∧
    ∀ ch data1, parse_rgb_channel_value (t :: rest) .LEGACY data = some (ch, data1) →
      data1 = data := by
  unfold parse_rgb_channel_value
  rw [has_percentage_cons]
  dsimp only
  constructor
  · intro h
    have : (data.use_percentages != is_percentage t) = true := by
      cases hd : data.use_percentages <;> cases ht : is_percentage t <;> simp_all
    rw [if_pos this]
  · intro ch data1 h
    split_ifs at h with h1 h2
    · exact absurd rfl h2.1
    · dsimp only at h
      split at h
      · cases h
      · cases h
        rfl

/-- The first argument of `rgb()` or `rgba()` followed by a comma: the call
fails, or the loop goes on in legacy syntax with the kind of the first
channel recorded. -/
theorem rgba_loop_first_comma (allow_alpha require_alpha : Bool) (c0 : GtkCssToken)
    (rest : GtkCssParser) (fuel : Nat) (data : ParseRGBAData) :
    parse_color_function_loop allow_alpha require_alpha parse_rgba_color_channel (fuel + 1)
        (c0 :: .COMMA :: rest) .DETECTING 0 3 4 data = .error ∨
      ∃ d1, d1.use_percentages = is_percentage c0 ∧
        parse_color_function_loop allow_alpha require_alpha parse_rgba_color_channel (fuel + 1)
          (c0 :: .COMMA :: rest) .DETECTING 0 3 4 data =
        parse_color_function_loop allow_alpha require_alpha parse_rgba_color_channel fuel rest
          .LEGACY 1 (if require_alpha then 4 else 3) (if allow_alpha then 4 else 3) d1 := by
  rw [loop_succ]
  have hpf : parse_rgba_color_channel (c0 :: .COMMA :: rest) 0 .DETECTING data =
      match parse_rgb_channel_value (c0 :: .COMMA :: rest) .DETECTING data with
      | some (ch, data) =>
        .ok ⟨1, ch.parser, ch.syn,
          { data with rgba := { data.rgba with red := ch.value },
                      missing := data.missing.set 0 ch.missing }⟩
      | none => .error := rfl
  rw [hpf]
  cases hp : parse_rgb_channel_value (c0 :: .COMMA :: rest) .DETECTING data with
  | none => exact Or.inl rfl
  | some r =>
    obtain ⟨ch, d⟩ := r
    obtain ⟨⟨t, -, hs, hsyn, -⟩, -⟩ :=
      parse_rgb_channel_value_some _ _ _ _ _ hp
    have hd := parse_rgb_channel_value_detecting _ _ _ _ _ hp
    have hparser : ch.parser = .COMMA :: rest := (List.cons.inj hs).2.symm
    dsimp only
    simp only [one_ne_zero, if_false, hparser, after_argument_comma]
    rcases hsyn with hs1 | ⟨-, hs1⟩
    · rw [hs1]
      dsimp only
      have hge : ¬ (0 + 1 ≥ if allow_alpha = true then 4 else 3) := by
        cases allow_alpha <;> simp
      rw [if_neg hge]
      refine Or.inr ⟨_, ?_, rfl⟩
      exact hd
    · rw [hs1]
      exact Or.inl rfl

/-- A channel of `rgb()` or `rgba()` in legacy syntax whose kind is not the
recorded one: the call fails. -/
theorem rgba_loop_legacy_mismatch (allow_alpha require_alpha : Bool) (t : GtkCssToken)
    (rest : GtkCssParser) (fuel arg min_args max_args : Nat) (data : ParseRGBAData)
    (harg : arg < 3) (h : data.use_percentages ≠ is_percentage t) :
    parse_color_function_loop allow_alpha require_alpha parse_rgba_color_channel (fuel + 1)
      (t :: rest) .LEGACY arg min_args max_args data = .error := by
  rw [loop_succ]
  have hn := (parse_rgb_channel_value_legacy t rest data).1 h
  interval_cases arg <;> simp only [parse_rgba_color_channel, hn]

/-- A channel of `rgb()` or `rgba()` in legacy syntax followed by a comma: the
call fails, or the loop goes on with the same record. -/
theorem rgba_loop_legacy_comma (allow_alpha require_alpha : Bool) (t : GtkCssToken)
    (rest : GtkCssParser) (fuel arg min_args max_args : Nat) (data : ParseRGBAData)
    (harg : arg < 3) :
    parse_color_function_loop allow_alpha require_alpha parse_rgba_color_channel (fuel + 1)
        (t :: .COMMA :: rest) .LEGACY arg min_args max_args data = .error ∨
      ∃ d1, d1.use_percentages = data.use_percentages ∧
        parse_color_function_loop allow_alpha require_alpha parse_rgba_color_channel (fuel + 1)
          (t :: .COMMA :: rest) .LEGACY arg min_args max_args data =
        parse_color_function_loop allow_alpha require_alpha parse_rgba_color_channel fuel rest
          .LEGACY (arg + 1) min_args max_args d1 := by
  rw [loop_succ]
  rcases rgba_total (t :: .COMMA :: rest) arg .LEGACY data (by omega) with hp | ⟨step, hp⟩
  · rw [hp]
    exact Or.inl rfl
  · rw [hp]
    obtain ⟨h1, ⟨t1, -, hs⟩, hsyn⟩ := rgba_consumes_one _ _ _ _ _ hp
    have hparser : step.parser = .COMMA :: rest := (List.cons.inj hs).2.symm
    have hsyn1 : step.syn = .LEGACY := by
      rcases hsyn with h2 | ⟨h2, -⟩
      · exact h2
      · cases h2
    have hkeep : step.data.use_percentages = data.use_percentages := by
      unfold parse_rgba_color_channel at hp
      interval_cases arg
      all_goals
        dsimp only at hp
        split at hp
        · rename_i ch d hq
          cases hp
          rw [(parse_rgb_channel_value_legacy t _ data).2 ch d hq]
        · cases hp
    simp only [h1, one_ne_zero, if_false, hparser, hsyn1, after_argument_comma]
    by_cases hge : arg + 1 ≥ max_args
    · rw [if_pos hge]
      exact Or.inl rfl
    · rw [if_neg hge]
      refine Or.inr ⟨_, ?_, rfl⟩
      exact hkeep

/-! ### Unfolding of the branches -/

/-- The branch of `rgb()` and `rgba()`. -/
theorem parse_rgb_unfold (U : ColorUtils)
    (other : String → GtkCssParser → ParseResult GtkCssValue) (name : String)
    (block : GtkCssParser) (hname : name = "rgb" ∨ name = "rgba") :
    gtk_css_color_value_parse U other name block =
      parsed_color U
        (parse_color_function block .DETECTING false (decide (name = "rgba"))
          (decide (name = "rgba")) parse_rgba_color_channel ⟨⟨0, 0, 0, 1⟩, false, no_missing⟩)
        (fun _ => .SRGB) true
        (fun data => ⟨data.rgba.red, data.rgba.green, data.rgba.blue, data.rgba.alpha⟩)
        (fun data => data.missing) := by
  rcases hname with rfl | rfl <;> rfl

/-- The branch of `hsl()` and `hsla()`. -/
theorem parse_hsl_unfold (U : ColorUtils)
    (other : String → GtkCssParser → ParseResult GtkCssValue) (name : String)
    (block : GtkCssParser) (hname : name = "hsl" ∨ name = "hsla") :
    gtk_css_color_value_parse U other name block =
      parsed_color U
        (parse_color_function block .DETECTING false true false
          parse_hsla_color_channel ⟨⟨0, 0, 0, 1⟩, no_missing⟩)
        (fun _ => .HSL) false
        (fun data =>
          ⟨data.hsla.hue, data.hsla.saturation, data.hsla.lightness, data.hsla.alpha⟩)
        (fun data => data.missing) := by
  rcases hname with rfl | rfl <;> rfl

/-- The branch of `hwb()`. -/
theorem parse_hwb_unfold (U : ColorUtils)
    (other : String → GtkCssParser → ParseResult GtkCssValue) (block : GtkCssParser) :
    gtk_css_color_value_parse U other "hwb" block =
      parsed_color U
        (parse_color_function block .MODERN false true false
          parse_hwb_color_channel ⟨⟨0, 0, 0, 1⟩, no_missing⟩)
        (fun _ => .HWB) false (fun data => data.values) (fun data => data.missing) := rfl

/-- The branch of `oklab()`. -/
theorem parse_oklab_unfold (U : ColorUtils)
    (other : String → GtkCssParser → ParseResult GtkCssValue) (block : GtkCssParser) :
    gtk_css_color_value_parse U other "oklab" block =
      parsed_color U
        (parse_color_function block .MODERN false true false
          parse_oklab_color_channel ⟨⟨0, 0, 0, 1⟩, no_missing⟩)
        (fun _ => .OKLAB) false (fun data => data.values) (fun data => data.missing) := rfl

/-- The branch of `oklch()`. -/
theorem parse_oklch_unfold (U : ColorUtils)
    (other : String → GtkCssParser → ParseResult GtkCssValue) (block : GtkCssParser) :
    gtk_css_color_value_parse U other "oklch" block =
      parsed_color U
        (parse_color_function block .MODERN false true false
          parse_oklch_color_channel ⟨⟨0, 0, 0, 1⟩, no_missing⟩)
        (fun _ => .OKLCH) false (fun data => data.values) (fun data => data.missing) := rfl

/-- The branch of `color()`. -/
theorem parse_color_unfold (U : ColorUtils)
    (other : String → GtkCssParser → ParseResult GtkCssValue) (block : GtkCssParser) :
    gtk_css_color_value_parse U other "color" block =
      parsed_color U
        (parse_color_function block .MODERN true true false
          parse_color_color_channel ⟨.SRGB, ⟨⟨0, 0, 0, 1⟩, no_missing⟩⟩)
        (fun data => data.color_space) false (fun data => data.channels.values)
        (fun data => data.channels.missing) := rfl

/-- A failed `parse_color_function` gives a failed parse. -/
theorem parsed_color_error {δ : Type} (U : ColorUtils) (cs : δ → GtkCssColorSpace) (s : Bool)
    (vals : δ → Vec4 ℚ) (miss : δ → Vec4 Bool) :
    parsed_color U (.error : ParseResult δ) cs s vals miss = .error := rfl

/-- A parse is a colour value or a syntax error when `parse_color_function` is a
result or a syntax error. -/
theorem parsed_color_total {δ : Type} (U : ColorUtils) (r : ParseResult δ)
    (cs : δ → GtkCssColorSpace) (s : Bool) (vals : δ → Vec4 ℚ) (miss : δ → Vec4 Bool)
    (h : r = .error ∨ ∃ d, r = .ok d) :
    parsed_color U r cs s vals miss = .error ∨
      ∃ v, parsed_color U r cs s vals miss = .ok v := by
  rcases h with rfl | ⟨d, rfl⟩
  · exact Or.inl rfl
  · obtain ⟨rgba, h⟩ := parsed_color_of_ok U d cs s vals miss
    exact Or.inr ⟨_, h⟩

/-- The calls of `rgb()` and `rgba()` with channels of different kinds in legacy
syntax fail. -/
theorem parse_color_function_mixed (allow_alpha require_alpha : Bool) (c0 c1 c2 : GtkCssToken)
    (rest : GtkCssParser) (data : ParseRGBAData) :
    (is_percentage c1 ≠ is_percentage c0 →
      parse_color_function (c0 :: .COMMA :: c1 :: rest) .DETECTING false allow_alpha
        require_alpha parse_rgba_color_channel data = .error) ∧
    (is_percentage c2 ≠ is_percentage c0 →
      parse_color_function (c0 :: .COMMA :: c1 :: .COMMA :: c2 :: rest) .DETECTING false
        allow_alpha require_alpha parse_rgba_color_channel data = .error) := by
  constructor
  · intro h
    show parse_color_function_loop allow_alpha require_alpha _ (5 + 1) _ .DETECTING 0 3 4 _ =
      .error
    rcases rgba_loop_first_comma allow_alpha require_alpha c0 (c1 :: rest) 5 data with
      he | ⟨d1, hd1, he⟩
    · exact he
    · rw [he]
      exact rgba_loop_legacy_mismatch allow_alpha require_alpha c1 rest 4 1 _ _ d1 (by decide)
        (by rw [hd1]; exact fun e => h e.symm)
  · intro h
    show parse_color_function_loop allow_alpha require_alpha _ (5 + 1) _ .DETECTING 0 3 4 _ =
      .error
    rcases rgba_loop_first_comma allow_alpha require_alpha c0 (c1 :: .COMMA :: c2 :: rest) 5
      data with he | ⟨d1, hd1, he⟩
    · exact he
    · rw [he]
      rcases rgba_loop_legacy_comma allow_alpha require_alpha c1 (c2 :: rest) 4 1 _ _ d1
        (by decide) with he2 | ⟨d2, hd2, he2⟩
      · exact he2
      · rw [he2]
        exact rgba_loop_legacy_mismatch allow_alpha require_alpha c2 rest 3 2 _ _ d2 (by decide)
          (by rw [hd2, hd1]; exact fun e => h e.symm)

/-! ### Claims on the parser of colour functions -/

/-- C22, counterexample: `rgb(300 0 0)` is accepted, and for no choice of the
primitives is its red channel `300 / 255`: the channel is clamped to `1`. -/
theorem parse_rgb_modern_counterexample :
    ¬ ∃ (U : ColorUtils) (other : String → GtkCssParser → ParseResult GtkCssValue)
      (c : GtkCssColor) (rgba : GdkRGBA) (s : Bool),
      gtk_css_color_value_parse U other "rgb" [.NUMBER 300, .NUMBER 0, .NUMBER 0] =
        .ok (.color c rgba s) ∧ c.values.x0 = 300 / 255 := by
  rintro ⟨U, other, c, rgba, s, h, hx⟩
  obtain ⟨rgba1, h1⟩ :=
    (parse_rgb_modern_eval U other "rgb" (Or.inl rfl) false false false false 300 0 0 0).1
  have h2 := h.symm.trans h1
  cases h2
  norm_num [rgb_channel_of, CLAMP] at hx

/-- C22, amended: `rgb()` and `rgba()` accept three space-separated channels,
each a number or a percentage, optionally followed by `/` and an alpha that
is a number or a percentage.  The result is an sRGB colour without missing
component whose channels are `clamp (number, 0, 255) / 255` or
`clamp (255 * percentage / 100, 0, 255) / 255` and whose alpha is the number
or `percentage / 100` clamped to `[0, 1]`, or `1` when there is none.  Within
these ranges the channels are `number / 255` and `percentage / 100`. -/
theorem parse_rgb_modern (U : ColorUtils)
    (other : String → GtkCssParser → ParseResult GtkCssValue) (name : String)
    (hname : name = "rgb" ∨ name = "rgba") (p0 p1 p2 pa : Bool) (v0 v1 v2 va : ℚ) :
    (∃ rgba, gtk_css_color_value_parse U other name
        [channel_token p0 v0, channel_token p1 v1, channel_token p2 v2] =
      .ok (.color ⟨.SRGB, ⟨rgb_channel_of p0 v0, rgb_channel_of p1 v1, rgb_channel_of p2 v2, 1⟩,
        0⟩ rgba true)) ∧
    (∃ rgba, gtk_css_color_value_parse U other name
        [channel_token p0 v0, channel_token p1 v1, channel_token p2 v2, .DELIM '/',
          channel_token pa va] =
      .ok (.color ⟨.SRGB, ⟨rgb_channel_of p0 v0, rgb_channel_of p1 v1, rgb_channel_of p2 v2,
        alpha_of pa va⟩, 0⟩ rgba true)) ∧
    (0 ≤ v0 → v0 ≤ 255 → rgb_channel_of false v0 = v0 / 255) ∧
    (0 ≤ v0 → v0 ≤ 100 → rgb_channel_of true v0 = v0 / 100) ∧
    (0 ≤ va → va ≤ 1 → alpha_of false va = va) ∧
    (0 ≤ va → va ≤ 100 → alpha_of true va = va / 100) :=
  ⟨(parse_rgb_modern_eval U other name hname p0 p1 p2 pa v0 v1 v2 va).1,
    (parse_rgb_modern_eval U other name hname p0 p1 p2 pa v0 v1 v2 va).2,
    (rgb_channel_of_in_range v0).1, (rgb_channel_of_in_range v0).2.1,
    (rgb_channel_of_in_range va).2.2.1, (rgb_channel_of_in_range va).2.2.2⟩

/-- Witness for C22: `rgb(255 0 0 / 50%)` is the sRGB colour `(1, 0, 0)` of alpha
`1/2` without missing component. -/
theorem parse_rgb_modern_witness :
    ("rgb" = "rgb" ∨ "rgb" = "rgba") ∧
    ∃ rgba, gtk_css_color_value_parse idUtils (fun _ _ => .error) "rgb"
        [.NUMBER 255, .NUMBER 0, .NUMBER 0, .DELIM '/', .PERCENTAGE 50] =
      .ok (.color ⟨.SRGB, ⟨1, 0, 0, 1 / 2⟩, 0⟩ rgba true) := by
  obtain ⟨rgba, h⟩ := (parse_rgb_modern idUtils (fun _ _ => .error) "rgb" (Or.inl rfl)
    false false false true 255 0 0 50).2.1
  refine ⟨Or.inl rfl, rgba, ?_⟩
  have e1 : rgb_channel_of false 255 = 1 := by norm_num [rgb_channel_of, CLAMP]
  have e2 : rgb_channel_of false 0 = 0 := by norm_num [rgb_channel_of, CLAMP]
  have e3 : alpha_of true 50 = 1 / 2 := by norm_num [alpha_of, CLAMP]
  rw [e1, e2, e3] at h
  exact h

/-- C23: `rgb()` accepts three comma-separated channels that are all numbers or
all percentages: the result is an sRGB colour of alpha `1` without missing
component; `rgb(255,0,0)` is the sRGB colour `(1, 0, 0)` of alpha `1`. -/
theorem parse_rgb_legacy (U : ColorUtils)
    (other : String → GtkCssParser → ParseResult GtkCssValue) (p : Bool) (v0 v1 v2 : ℚ) :
    (∃ rgba, gtk_css_color_value_parse U other "rgb"
        [channel_token p v0, .COMMA, channel_token p v1, .COMMA, channel_token p v2] =
      .ok (.color ⟨.SRGB, ⟨rgb_channel_of p v0, rgb_channel_of p v1, rgb_channel_of p v2, 1⟩,
        0⟩ rgba true)) ∧
    (∃ rgba, gtk_css_color_value_parse U other "rgb"
        [.NUMBER 255, .COMMA, .NUMBER 0, .COMMA, .NUMBER 0] =
      .ok (.color ⟨.SRGB, ⟨1, 0, 0, 1⟩, 0⟩ rgba true)) := by
  refine ⟨parse_rgb_legacy_eval U other p v0 v1 v2, ?_⟩
  obtain ⟨rgba, h⟩ := parse_rgb_legacy_eval U other false 255 0 0
  have e1 : rgb_channel_of false 255 = 1 := by norm_num [rgb_channel_of, CLAMP]
  have e2 : rgb_channel_of false 0 = 0 := by norm_num [rgb_channel_of, CLAMP]
  rw [e1, e2] at h
  exact ⟨rgba, h⟩

/-- C26: in `rgb()` and `rgba()`, a block whose first argument is followed by a
comma (legacy syntax) is rejected when the second channel is a percentage
and the first is not, or the reverse, and when the third channel differs
in that way from the first. -/
theorem parse_rgb_legacy_mixed (U : ColorUtils)
    (other : String → GtkCssParser → ParseResult GtkCssValue) (name : String)
    (c0 c1 c2 : GtkCssToken) (rest : GtkCssParser) (hname : name = "rgb" ∨ name = "rgba") :
    (is_percentage c1 ≠ is_percentage c0 →
      gtk_css_color_value_parse U other name (c0 :: .COMMA :: c1 :: rest) = .error) ∧
    (is_percentage c2 ≠ is_percentage c0 →
      gtk_css_color_value_parse U other name (c0 :: .COMMA :: c1 :: .COMMA :: c2 :: rest) =
        .error) := by
  rw [parse_rgb_unfold U other name _ hname, parse_rgb_unfold U other name _ hname]
  constructor
  · intro h
    rw [(parse_color_function_mixed _ _ c0 c1 c2 rest _).1 h]
    rfl
  · intro h
    rw [(parse_color_function_mixed _ _ c0 c1 c2 rest _).2 h]
    rfl

/-- Witness for C26: `rgb(255, 0%, 0)` and `rgba(10%, 20%, 30, 1)` are rejected. -/
theorem parse_rgb_legacy_mixed_witness :
    ("rgb" = "rgb" ∨ "rgb" = "rgba") ∧
    is_percentage (.PERCENTAGE 0) ≠ is_percentage (.NUMBER 255) ∧
    gtk_css_color_value_parse idUtils (fun _ _ => .error) "rgb"
      [.NUMBER 255, .COMMA, .PERCENTAGE 0, .COMMA, .NUMBER 0] = .error ∧
    gtk_css_color_value_parse idUtils (fun _ _ => .error) "rgba"
      [.PERCENTAGE 10, .COMMA, .PERCENTAGE 20, .COMMA, .NUMBER 30, .COMMA, .NUMBER 1] =
        .error :=
  ⟨Or.inl rfl, by decide,
    (parse_rgb_legacy_mixed idUtils (fun _ _ => .error) "rgb" (.NUMBER 255) (.PERCENTAGE 0)
      (.NUMBER 0) [.COMMA, .NUMBER 0] (Or.inl rfl)).1 (by decide),
    (parse_rgb_legacy_mixed idUtils (fun _ _ => .error) "rgba" (.PERCENTAGE 10) (.PERCENTAGE 20)
      (.NUMBER 30) [.COMMA, .NUMBER 1] (Or.inr rfl)).2 (by decide)⟩

/-- A block in modern syntax holds no comma. -/
theorem modern_shape_no_comma (block : GtkCssParser) (h : modern_shape block = true) :
    .COMMA ∉ block := by
  unfold modern_shape at h
  split at h
  · simp only [Bool.and_eq_true] at h
    obtain ⟨⟨h0, h1⟩, h2⟩ := h
    intro hm
    simp only [List.mem_cons, List.mem_singleton, List.not_mem_nil, or_false] at hm
    rcases hm with rfl | rfl | rfl <;> simp [is_argument] at h0 h1 h2
  · simp only [Bool.and_eq_true, decide_eq_true_eq] at h
    obtain ⟨⟨⟨⟨h0, h1⟩, h2⟩, hs⟩, h3⟩ := h
    intro hm
    simp only [List.mem_cons, List.mem_singleton, List.not_mem_nil, or_false] at hm
    rcases hm with rfl | rfl | rfl | rfl | rfl <;> simp [is_argument] at h0 h1 h2 h3 hs
  · cases h

/-- A block in legacy syntax holds no identifier and no delimiter, and its
number of arguments is 3 or 4. -/
theorem legacy_shape_no_ident (n : Nat) (block : GtkCssParser)
    (h : legacy_shape n block = true) :
    (∀ name, .IDENT name ∉ block) ∧ (∀ c, .DELIM c ∉ block) ∧
      ((n = 3 ∧ block.length = 5) ∨ (n = 4 ∧ block.length = 7)) := by
  unfold legacy_shape at h
  split at h
  · simp only [Bool.and_eq_true, decide_eq_true_eq] at h
    obtain ⟨⟨⟨⟨⟨hn, rfl⟩, rfl⟩, h0⟩, h1⟩, h2⟩ := h
    refine ⟨?_, ?_, Or.inl ⟨hn, rfl⟩⟩
    · intro name hm
      simp only [List.mem_cons, List.mem_singleton, List.not_mem_nil, or_false,
        reduceCtorEq, false_or] at hm
      rcases hm with rfl | rfl | rfl <;> simp [is_numeric] at h0 h1 h2
    · intro c hm
      simp only [List.mem_cons, List.mem_singleton, List.not_mem_nil, or_false,
        reduceCtorEq, false_or] at hm
      rcases hm with rfl | rfl | rfl <;> simp [is_numeric] at h0 h1 h2
  · simp only [Bool.and_eq_true, decide_eq_true_eq] at h
    obtain ⟨⟨⟨⟨⟨⟨⟨hn, rfl⟩, rfl⟩, rfl⟩, h0⟩, h1⟩, h2⟩, h3⟩ := h
    refine ⟨?_, ?_, Or.inr ⟨hn, rfl⟩⟩
    · intro name hm
      simp only [List.mem_cons, List.mem_singleton, List.not_mem_nil, or_false,
        reduceCtorEq, false_or] at hm
      rcases hm with rfl | rfl | rfl | rfl <;> simp [is_numeric] at h0 h1 h2 h3
    · intro c hm
      simp only [List.mem_cons, List.mem_singleton, List.not_mem_nil, or_false,
        reduceCtorEq, false_or] at hm
      rcases hm with rfl | rfl | rfl | rfl <;> simp [is_numeric] at h0 h1 h2 h3
  · cases h

/-- The first argument of an accepted `color()` is a colour-space keyword. -/
theorem parse_color_function_keyword (self : GtkCssParser) (allow_alpha require_alpha : Bool)
    (data d : ParseColorData)
    (h : parse_color_function self .MODERN true allow_alpha require_alpha
      parse_color_color_channel data = .ok d) :
    ∃ k rest, self = k :: rest ∧ (k = .IDENT "srgb" ∨ k = .IDENT "srgb-linear") := by
  obtain ⟨fuel1, step, t, -, hp, -, hs, -, -⟩ :=
    loop_ok_step allow_alpha require_alpha parse_color_color_channel color_consumes_one 6 self
      .MODERN 0 4 5 data d h
  have hpf : parse_color_color_channel self 0 .MODERN data =
      if (gtk_css_parser_try_ident self "srgb").1 = true then
        .ok ⟨1, (gtk_css_parser_try_ident self "srgb").2, .MODERN,
          { data with color_space := .SRGB }⟩
      else if (gtk_css_parser_try_ident self "srgb-linear").1 = true then
        .ok ⟨1, (gtk_css_parser_try_ident self "srgb-linear").2, .MODERN,
          { data with color_space := .SRGB_LINEAR }⟩
      else .error := rfl
  rw [hpf] at hp
  split_ifs at hp with h1 h2
  · exact ⟨_, _, try_ident_true self "srgb" h1, Or.inl rfl⟩
  · exact ⟨_, _, try_ident_true self "srgb-linear" h2, Or.inr rfl⟩

/-- The shape of every block accepted by a colour function. -/
theorem parse_ok_shape (U : ColorUtils)
    (other : String → GtkCssParser → ParseResult GtkCssValue) (name : String)
    (block : GtkCssParser) (v : GtkCssValue)
    (h : gtk_css_color_value_parse U other name block = .ok v) :
    (name = "rgb" → modern_shape block = true ∨ legacy_shape 3 block = true) ∧
    (name = "rgba" → modern_shape block = true ∨ legacy_shape 4 block = true) ∧
    (name = "hsl" ∨ name = "hsla" →
      modern_shape block = true ∨ legacy_shape 3 block = true ∨
        legacy_shape 4 block = true) ∧
    (name = "hwb" ∨ name = "oklab" ∨ name = "oklch" → modern_shape block = true) ∧
    (name = "color" → ∃ k rest, block = k :: rest ∧
      (k = .IDENT "srgb" ∨ k = .IDENT "srgb-linear") ∧ modern_shape rest = true) := by
  refine ⟨?_, ?_, ?_, ?_, ?_⟩
  · intro hn
    rw [parse_rgb_unfold U other name block (Or.inl hn)] at h
    obtain ⟨data, -, hd, -⟩ := parsed_color_ok_inv U _ _ _ _ _ v h
    subst hn
    rcases parse_color_function_detecting _ rgba_consumes_one rgba_ident_is_modern block _ _
      _ data hd with h1 | ⟨-, h1⟩ | ⟨h2, -⟩
    · exact Or.inl h1
    · exact Or.inr h1
    · exact absurd h2 (by decide)
  · intro hn
    rw [parse_rgb_unfold U other name block (Or.inr hn)] at h
    obtain ⟨data, -, hd, -⟩ := parsed_color_ok_inv U _ _ _ _ _ v h
    subst hn
    rcases parse_color_function_detecting _ rgba_consumes_one rgba_ident_is_modern block _ _
      _ data hd with h1 | ⟨h2, -⟩ | ⟨-, h1⟩
    · exact Or.inl h1
    · exact absurd h2 (by decide)
    · exact Or.inr h1
  · intro hn
    rw [parse_hsl_unfold U other name block hn] at h
    obtain ⟨data, -, hd, -⟩ := parsed_color_ok_inv U _ _ _ _ _ v h
    rcases parse_color_function_detecting _ hsla_consumes_one hsla_ident_is_modern block _ _
      _ data hd with h1 | ⟨-, h1⟩ | ⟨-, h1⟩
    · exact Or.inl h1
    · exact Or.inr (Or.inl h1)
    · exact Or.inr (Or.inr h1)
  · rintro (rfl | rfl | rfl)
    · rw [parse_hwb_unfold] at h
      obtain ⟨data, -, hd, -⟩ := parsed_color_ok_inv U _ _ _ _ _ v h
      exact parse_color_function_modern _ hwb_consumes_one block _ _ _ data hd
    · rw [parse_oklab_unfold] at h
      obtain ⟨data, -, hd, -⟩ := parsed_color_ok_inv U _ _ _ _ _ v h
      exact parse_color_function_modern _ oklab_consumes_one block _ _ _ data hd
    · rw [parse_oklch_unfold] at h
      obtain ⟨data, -, hd, -⟩ := parsed_color_ok_inv U _ _ _ _ _ v h
      exact parse_color_function_modern _ oklch_consumes_one block _ _ _ data hd
  · rintro rfl
    rw [parse_color_unfold] at h
    obtain ⟨data, -, hd, -⟩ := parsed_color_ok_inv U _ _ _ _ _ v h
    obtain ⟨k, rest, -, hs, hm⟩ :=
      parse_color_function_color _ color_consumes_one block _ _ _ data hd
    obtain ⟨k1, rest1, hs1, hk⟩ := parse_color_function_keyword block _ _ _ data hd
    rw [hs] at hs1
    obtain ⟨rfl, rfl⟩ := List.cons.inj hs1
    exact ⟨k, rest, hs, hk, hm⟩

/-- A colour function returns a colour value or a syntax error: no assertion
fails and the loop of `parse_color_function` ends. -/
theorem parse_total (U : ColorUtils)
    (other : String → GtkCssParser → ParseResult GtkCssValue) (name : String)
    (block : GtkCssParser)
    (hname : name = "rgb" ∨ name = "rgba" ∨ name = "hsl" ∨ name = "hsla" ∨ name = "hwb" ∨
      name = "oklab" ∨ name = "oklch" ∨ name = "color") :
    gtk_css_color_value_parse U other name block = .error ∨
      ∃ v, gtk_css_color_value_parse U other name block = .ok v := by
  rcases hname with hn | hn | hn | hn | rfl | rfl | rfl | rfl
  · rw [parse_rgb_unfold U other name block (Or.inl hn)]
    exact parsed_color_total U _ _ _ _ _
      (parse_color_function_total _ rgba_consumes_one block _ false _ _ _ rgba_total)
  · rw [parse_rgb_unfold U other name block (Or.inr hn)]
    exact parsed_color_total U _ _ _ _ _
      (parse_color_function_total _ rgba_consumes_one block _ false _ _ _ rgba_total)
  · rw [parse_hsl_unfold U other name block (Or.inl hn)]
    exact parsed_color_total U _ _ _ _ _
      (parse_color_function_total _ hsla_consumes_one block _ false _ _ _ hsla_total)
  · rw [parse_hsl_unfold U other name block (Or.inr hn)]
    exact parsed_color_total U _ _ _ _ _
      (parse_color_function_total _ hsla_consumes_one block _ false _ _ _ hsla_total)
  · rw [parse_hwb_unfold]
    exact parsed_color_total U _ _ _ _ _
      (parse_color_function_total _ hwb_consumes_one block _ false _ _ _ hwb_total)
  · rw [parse_oklab_unfold]
    exact parsed_color_total U _ _ _ _ _
      (parse_color_function_total _ oklab_consumes_one block _ false _ _ _ oklab_total)
  · rw [parse_oklch_unfold]
    exact parsed_color_total U _ _ _ _ _
      (parse_color_function_total _ oklch_consumes_one block _ false _ _ _ oklch_total)
  · rw [parse_color_unfold]
    exact parsed_color_total U _ _ _ _ _
      (parse_color_function_total _ color_consumes_one block _ true _ _ _ color_total)

/-- Tokens after the alpha of a block in modern syntax break every shape. -/
theorem not_shape_of_extra (a0 a1 a2 a3 : GtkCssToken) (extra : GtkCssParser) (n : Nat)
    (he : extra ≠ []) :
    modern_shape ([a0, a1, a2, .DELIM '/', a3] ++ extra) = false ∧
    legacy_shape n ([a0, a1, a2, .DELIM '/', a3] ++ extra) = false := by
  cases extra with
  | nil => exact absurd rfl he
  | cons e es =>
    constructor
    · rfl
    · cases es with
      | nil => rfl
      | cons e2 es2 =>
        cases es2 with
        | nil => simp [legacy_shape]
        | cons e3 es3 => rfl

/-- The mask of a colour value made from data whose flags are known. -/
theorem parsed_color_bits {δ : Type} (U : ColorUtils) (r : ParseResult δ)
    (cs : δ → GtkCssColorSpace) (s : Bool) (vals : δ → Vec4 ℚ) (miss : δ → Vec4 Bool)
    (data : δ) (m : Vec4 Bool) (hr : r = .ok data) (hm : miss data = m) :
    ∃ c rgba, parsed_color U r cs s vals miss = .ok (.color c rgba s) ∧
      missing_bit c 0 = m.x0 ∧ missing_bit c 1 = m.x1 ∧ missing_bit c 2 = m.x2 ∧
      missing_bit c 3 = m.x3 := by
  obtain ⟨rgba, h⟩ := parsed_color_of_ok U data cs s vals miss
  rw [hr]
  refine ⟨_, rgba, h, ?_, ?_, ?_, ?_⟩
  · rw [init_with_missing_bit U _ _ _ 0 (by decide), hm]
    rfl
  · rw [init_with_missing_bit U _ _ _ 1 (by decide), hm]
    rfl
  · rw [init_with_missing_bit U _ _ _ 2 (by decide), hm]
    rfl
  · rw [init_with_missing_bit U _ _ _ 3 (by decide), hm]
    rfl

/-- In modern syntax `rgb()` and `rgba()` accept `none` and numbers in every
position, and flag the positions of `none`. -/
theorem rgba_modern_none (a r : Bool) (x0 x1 x2 x3 : Option ℚ) :
    (∃ data, parse_color_function [none_or_number x0, none_or_number x1, none_or_number x2]
        .DETECTING false a r parse_rgba_color_channel ⟨⟨0, 0, 0, 1⟩, false, no_missing⟩ =
        .ok data ∧ data.missing = ⟨x0.isNone, x1.isNone, x2.isNone, false⟩) ∧
    (∃ data, parse_color_function
        [none_or_number x0, none_or_number x1, none_or_number x2, .DELIM '/',
          none_or_number x3]
        .DETECTING false a r parse_rgba_color_channel ⟨⟨0, 0, 0, 1⟩, false, no_missing⟩ =
        .ok data ∧ data.missing = ⟨x0.isNone, x1.isNone, x2.isNone, x3.isNone⟩) := by
  constructor
  · cases x0 <;> cases x1 <;> cases x2 <;> exact ⟨_, rfl, rfl⟩
  · cases x0 <;> cases x1 <;> cases x2 <;> cases x3 <;> exact ⟨_, rfl, rfl⟩

/-- In modern syntax `hsl()` and `hsla()` accept `none` and numbers in every
position, and flag the positions of `none`. -/
theorem hsla_modern_none (a r : Bool) (x0 x1 x2 x3 : Option ℚ) :
    (∃ data, parse_color_function [none_or_number x0, none_or_number x1, none_or_number x2]
        .DETECTING false a r parse_hsla_color_channel ⟨⟨0, 0, 0, 1⟩, no_missing⟩ =
        .ok data ∧ data.missing = ⟨x0.isNone, x1.isNone, x2.isNone, false⟩) ∧
    (∃ data, parse_color_function
        [none_or_number x0, none_or_number x1, none_or_number x2, .DELIM '/',
          none_or_number x3]
        .DETECTING false a r parse_hsla_color_channel ⟨⟨0, 0, 0, 1⟩, no_missing⟩ =
        .ok data ∧ data.missing = ⟨x0.isNone, x1.isNone, x2.isNone, x3.isNone⟩) := by
  constructor
  · cases x0 <;> cases x1 <;> cases x2 <;> exact ⟨_, rfl, rfl⟩
  · cases x0 <;> cases x1 <;> cases x2 <;> cases x3 <;> exact ⟨_, rfl, rfl⟩

/-- The functions `hwb()`, `oklab()` and `oklch()` accept `none` and numbers in
every position, and flag the positions of `none`. -/
theorem channel_data_modern_none (parse_func : ParseFunc ChannelData)
    (hpf : parse_func = parse_hwb_color_channel ∨ parse_func = parse_oklab_color_channel ∨
      parse_func = parse_oklch_color_channel) (a r : Bool) (x0 x1 x2 x3 : Option ℚ) :
    (∃ data, parse_color_function [none_or_number x0, none_or_number x1, none_or_number x2]
        .MODERN false a r parse_func ⟨⟨0, 0, 0, 1⟩, no_missing⟩ =
        .ok data ∧ data.missing = ⟨x0.isNone, x1.isNone, x2.isNone, false⟩) ∧
    (∃ data, parse_color_function
        [none_or_number x0, none_or_number x1, none_or_number x2, .DELIM '/',
          none_or_number x3]
        .MODERN false a r parse_func ⟨⟨0, 0, 0, 1⟩, no_missing⟩ =
        .ok data ∧ data.missing = ⟨x0.isNone, x1.isNone, x2.isNone, x3.isNone⟩) := by
  constructor
  · rcases hpf with rfl | rfl | rfl <;> cases x0 <;> cases x1 <;> cases x2 <;>
      exact ⟨_, rfl, rfl⟩
  · rcases hpf with rfl | rfl | rfl <;> cases x0 <;> cases x1 <;> cases x2 <;> cases x3 <;>
      exact ⟨_, rfl, rfl⟩

/-- The function `color()` accepts `none` and numbers in every position after
the keyword, and flags the positions of `none`. -/
theorem color_modern_none (k : String) (hk : k = "srgb" ∨ k = "srgb-linear") (a r : Bool)
    (x0 x1 x2 x3 : Option ℚ) :
    (∃ data, parse_color_function
        [.IDENT k, none_or_number x0, none_or_number x1, none_or_number x2]
        .MODERN true a r parse_color_color_channel ⟨.SRGB, ⟨⟨0, 0, 0, 1⟩, no_missing⟩⟩ =
        .ok data ∧ data.channels.missing = ⟨x0.isNone, x1.isNone, x2.isNone, false⟩) ∧
    (∃ data, parse_color_function
        [.IDENT k, none_or_number x0, none_or_number x1, none_or_number x2, .DELIM '/',
          none_or_number x3]
        .MODERN true a r parse_color_color_channel ⟨.SRGB, ⟨⟨0, 0, 0, 1⟩, no_missing⟩⟩ =
        .ok data ∧ data.channels.missing = ⟨x0.isNone, x1.isNone, x2.isNone, x3.isNone⟩) := by
  constructor
  · rcases hk with rfl | rfl <;> cases x0 <;> cases x1 <;> cases x2 <;> exact ⟨_, rfl, rfl⟩
  · rcases hk with rfl | rfl <;> cases x0 <;> cases x1 <;> cases x2 <;> cases x3 <;>
      exact ⟨_, rfl, rfl⟩

/-- C24: once the grammar of a call is fixed, a separator of the other grammar
is a syntax error.  In the loop of `parse_color_function`, when `parse_func`
leaves the legacy syntax and the argument is followed by a token that is not
a comma, or leaves the modern syntax and the argument is followed by a
comma, the call fails.  The loop never goes on while detecting: it goes on
in legacy syntax after a comma, in modern syntax otherwise, and a syntax
that is legacy or modern stays as it is, in the loop and in the six
`parse_func`.  A block accepted by a colour function that holds a comma is a
legacy block, and `rgb(255 0%,0)` is rejected. -/
theorem separator_mismatch (U : ColorUtils)
    (other : String → GtkCssParser → ParseResult GtkCssValue) (δ : Type)
    (parse_func : ParseFunc δ) (allow_alpha require_alpha : Bool) (fuel : Nat)
    (self : GtkCssParser) (syn : ColorSyntax) (arg min_args max_args : Nat) (data : δ)
    (step : ParseStep δ) (t : GtkCssToken) (rest : GtkCssParser) (name : String)
    (block : GtkCssParser) (v : GtkCssValue)
    (hp : parse_func self arg syn data = .ok step) (ht : step.parser = t :: rest) :
    (step.syn = .LEGACY → t ≠ .COMMA →
      parse_color_function_loop allow_alpha require_alpha parse_func (fuel + 1) self syn arg
        min_args max_args data = .error) ∧
    (step.syn = .MODERN → t = .COMMA →
      parse_color_function_loop allow_alpha require_alpha parse_func (fuel + 1) self syn arg
        min_args max_args data = .error) ∧
    (∀ self1 syn1 min1 max1,
      after_argument allow_alpha require_alpha step.parser step.syn (arg + step.parse_args)
        min_args max_args = .next self1 syn1 min1 max1 →
      syn1 ≠ .DETECTING ∧ (step.syn = .LEGACY → syn1 = .LEGACY) ∧
        (step.syn = .MODERN → syn1 = .MODERN) ∧
        (step.syn = .DETECTING → (syn1 = .LEGACY ↔ t = .COMMA))) ∧
    (ConsumesOne parse_rgba_color_channel ∧ ConsumesOne parse_hsla_color_channel ∧
      ConsumesOne parse_hwb_color_channel ∧ ConsumesOne parse_oklab_color_channel ∧
      ConsumesOne parse_oklch_color_channel ∧ ConsumesOne parse_color_color_channel) ∧
    (gtk_css_color_value_parse U other name block = .ok v →
      (name = "rgb" ∨ name = "rgba" ∨ name = "hsl" ∨ name = "hsla" ∨ name = "hwb" ∨
        name = "oklab" ∨ name = "oklch" ∨ name = "color") →
      .COMMA ∈ block →
      (name = "rgb" ∨ name = "rgba" ∨ name = "hsl" ∨ name = "hsla") ∧
        (legacy_shape 3 block = true ∨ legacy_shape 4 block = true)) ∧
    gtk_css_color_value_parse U other "rgb"
      [.NUMBER 255, .PERCENTAGE 0, .COMMA, .NUMBER 0] = .error := by
  refine ⟨?_, ?_, ?_, ⟨rgba_consumes_one, hsla_consumes_one, hwb_consumes_one,
    oklab_consumes_one, oklch_consumes_one, color_consumes_one⟩, ?_, rfl⟩
  · intro hs hc
    rw [loop_succ, hp]
    dsimp only
    by_cases h0 : step.parse_args = 0
    · rw [if_pos h0]
    · rw [if_neg h0, ht, hs, after_argument_other _ _ _ _ _ _ _ _ hc]
  · intro hs hc
    subst hc
    rw [loop_succ, hp]
    dsimp only
    by_cases h0 : step.parse_args = 0
    · rw [if_pos h0]
    · rw [if_neg h0, ht, hs, after_argument_comma]
  · intro self1 syn1 min1 max1 ha
    rw [ht] at ha
    by_cases hc : t = .COMMA
    · subst hc
      rw [after_argument_comma] at ha
      cases hs : step.syn <;> rw [hs] at ha <;> dsimp only at ha
      · split_ifs at ha <;> cases ha <;> simp
      · cases ha
      · split_ifs at ha
        cases ha
        simp
    · rw [after_argument_other _ _ _ _ _ _ _ _ hc] at ha
      cases hs : step.syn <;> rw [hs] at ha <;> dsimp only at ha
      · split_ifs at ha <;> cases ha <;> simp [hc]
      · split_ifs at ha <;> cases ha <;> simp
      · cases ha
  · intro h hname hcomma
    have hshape := parse_ok_shape U other name block v h
    rcases hname with hn | hn | hn | hn | hn | hn | hn | hn
    · rcases hshape.1 hn with h1 | h1
      · exact absurd hcomma (modern_shape_no_comma block h1)
      · exact ⟨Or.inl hn, Or.inl h1⟩
    · rcases hshape.2.1 hn with h1 | h1
      · exact absurd hcomma (modern_shape_no_comma block h1)
      · exact ⟨Or.inr (Or.inl hn), Or.inr h1⟩
    · rcases hshape.2.2.1 (Or.inl hn) with h1 | h1 | h1
      · exact absurd hcomma (modern_shape_no_comma block h1)
      · exact ⟨Or.inr (Or.inr (Or.inl hn)), Or.inl h1⟩
      · exact ⟨Or.inr (Or.inr (Or.inl hn)), Or.inr h1⟩
    · rcases hshape.2.2.1 (Or.inr hn) with h1 | h1 | h1
      · exact absurd hcomma (modern_shape_no_comma block h1)
      · exact ⟨Or.inr (Or.inr (Or.inr hn)), Or.inl h1⟩
      · exact ⟨Or.inr (Or.inr (Or.inr hn)), Or.inr h1⟩
    · exact absurd hcomma (modern_shape_no_comma block (hshape.2.2.2.1 (Or.inl hn)))
    · exact absurd hcomma (modern_shape_no_comma block (hshape.2.2.2.1 (Or.inr (Or.inl hn))))
    · exact absurd hcomma (modern_shape_no_comma block (hshape.2.2.2.1 (Or.inr (Or.inr hn))))
    · obtain ⟨k, rest1, rfl, hk, hm⟩ := hshape.2.2.2.2 hn
      rcases List.mem_cons.mp hcomma with hc | hc
      · rcases hk with rfl | rfl <;> cases hc
      · exact absurd hc (modern_shape_no_comma rest1 hm)

/-- Witness for C24: in legacy syntax the argument `0` of `rgb(0 1` is followed by
a number, and the loop fails. -/
theorem separator_mismatch_witness :
    parse_rgba_color_channel [.NUMBER 0, .NUMBER 1] 1 .LEGACY ⟨⟨0, 0, 0, 1⟩, false, no_missing⟩ =
      .ok ⟨1, [.NUMBER 1], .LEGACY, ⟨⟨0, CLAMP 0 0 255 / 255, 0, 1⟩, false, no_missing⟩⟩ ∧
    parse_color_function_loop false false parse_rgba_color_channel (4 + 1)
      [.NUMBER 0, .NUMBER 1] .LEGACY 1 3 3 ⟨⟨0, 0, 0, 1⟩, false, no_missing⟩ = .error :=
  ⟨rfl, (separator_mismatch idUtils (fun _ _ => .error) ParseRGBAData parse_rgba_color_channel
    false false 4 [.NUMBER 0, .NUMBER 1] .LEGACY 1 3 3 ⟨⟨0, 0, 0, 1⟩, false, no_missing⟩
    ⟨1, [.NUMBER 1], .LEGACY, ⟨⟨0, CLAMP 0 0 255 / 255, 0, 1⟩, false, no_missing⟩⟩
    (.NUMBER 1) [] "rgb" [] (.literal ⟨0, 0, 0, 0⟩) rfl rfl).1 rfl (by decide)⟩

/-- C25: a call of `rgb()`, `rgba()`, `hsl()` or `hsla()` whose block holds a comma
and the identifier `none` is a syntax error.  In modern syntax every colour
function accepts `none` in every channel and alpha position (the other
arguments being numbers or `none`), and the components flagged missing in
the resulting colour are exactly those written `none`. -/
theorem parse_none (U : ColorUtils)
    (other : String → GtkCssParser → ParseResult GtkCssValue) (name : String)
    (block : GtkCssParser) (x0 x1 x2 x3 : Option ℚ) (k : String) :
    ((name = "rgb" ∨ name = "rgba" ∨ name = "hsl" ∨ name = "hsla") →
      .COMMA ∈ block → .IDENT "none" ∈ block →
      gtk_css_color_value_parse U other name block = .error) ∧
    ((name = "rgb" ∨ name = "rgba" ∨ name = "hsl" ∨ name = "hsla" ∨ name = "hwb" ∨
        name = "oklab" ∨ name = "oklch") →
      (∃ c rgba s, gtk_css_color_value_parse U other name
          [none_or_number x0, none_or_number x1, none_or_number x2] = .ok (.color c rgba s) ∧
        missing_bit c 0 = x0.isNone ∧ missing_bit c 1 = x1.isNone ∧
        missing_bit c 2 = x2.isNone ∧ missing_bit c 3 = false) ∧
      (∃ c rgba s, gtk_css_color_value_parse U other name
          [none_or_number x0, none_or_number x1, none_or_number x2, .DELIM '/',
            none_or_number x3] = .ok (.color c rgba s) ∧
        missing_bit c 0 = x0.isNone ∧ missing_bit c 1 = x1.isNone ∧
        missing_bit c 2 = x2.isNone ∧ missing_bit c 3 = x3.isNone)) ∧
    ((k = "srgb" ∨ k = "srgb-linear") →
      (∃ c rgba s, gtk_css_color_value_parse U other "color"
          [.IDENT k, none_or_number x0, none_or_number x1, none_or_number x2] =
          .ok (.color c rgba s) ∧
        missing_bit c 0 = x0.isNone ∧ missing_bit c 1 = x1.isNone ∧
        missing_bit c 2 = x2.isNone ∧ missing_bit c 3 = false) ∧
      (∃ c rgba s, gtk_css_color_value_parse U other "color"
          [.IDENT k, none_or_number x0, none_or_number x1, none_or_number x2, .DELIM '/',
            none_or_number x3] = .ok (.color c rgba s) ∧
        missing_bit c 0 = x0.isNone ∧ missing_bit c 1 = x1.isNone ∧
        missing_bit c 2 = x2.isNone ∧ missing_bit c 3 = x3.isNone)) := by
  refine ⟨?_, ?_, ?_⟩
  · intro hname hcomma hnone
    have hname8 : name = "rgb" ∨ name = "rgba" ∨ name = "hsl" ∨ name = "hsla" ∨
        name = "hwb" ∨ name = "oklab" ∨ name = "oklch" ∨ name = "color" := by
      rcases hname with hn | hn | hn | hn <;> simp [hn]
    rcases parse_total U other name block hname8 with he | ⟨v, hv⟩
    · exact he
    · exfalso
      have hshape := parse_ok_shape U other name block v hv
      have hl : legacy_shape 3 block = true ∨ legacy_shape 4 block = true := by
        rcases hname with hn | hn | hn | hn
        · rcases hshape.1 hn with h1 | h1
          · exact absurd hcomma (modern_shape_no_comma block h1)
          · exact Or.inl h1
        · rcases hshape.2.1 hn with h1 | h1
          · exact absurd hcomma (modern_shape_no_comma block h1)
          · exact Or.inr h1
        · rcases hshape.2.2.1 (Or.inl hn) with h1 | h1 | h1
          · exact absurd hcomma (modern_shape_no_comma block h1)
          · exact Or.inl h1
          · exact Or.inr h1
        · rcases hshape.2.2.1 (Or.inr hn) with h1 | h1 | h1
          · exact absurd hcomma (modern_shape_no_comma block h1)
          · exact Or.inl h1
          · exact Or.inr h1
      rcases hl with h1 | h1
      · exact (legacy_shape_no_ident 3 block h1).1 "none" hnone
      · exact (legacy_shape_no_ident 4 block h1).1 "none" hnone
  · intro hname
    constructor
    · rcases hname with hn | hn | hn | hn | rfl | rfl | rfl
      · obtain ⟨data, hd, hm⟩ := (rgba_modern_none _ _ x0 x1 x2 x3).1
        rw [parse_rgb_unfold U other name _ (Or.inl hn)]
        obtain ⟨c, rgba, h, hb⟩ := parsed_color_bits U _ _ _ _ _ data _ hd hm
        exact ⟨c, rgba, _, h, hb⟩
      · obtain ⟨data, hd, hm⟩ := (rgba_modern_none _ _ x0 x1 x2 x3).1
        rw [parse_rgb_unfold U other name _ (Or.inr hn)]
        obtain ⟨c, rgba, h, hb⟩ := parsed_color_bits U _ _ _ _ _ data _ hd hm
        exact ⟨c, rgba, _, h, hb⟩
      · obtain ⟨data, hd, hm⟩ := (hsla_modern_none _ _ x0 x1 x2 x3).1
        rw [parse_hsl_unfold U other name _ (Or.inl hn)]
        obtain ⟨c, rgba, h, hb⟩ := parsed_color_bits U _ _ _ _ _ data _ hd hm
        exact ⟨c, rgba, _, h, hb⟩
      · obtain ⟨data, hd, hm⟩ := (hsla_modern_none _ _ x0 x1 x2 x3).1
        rw [parse_hsl_unfold U other name _ (Or.inr hn)]
        obtain ⟨c, rgba, h, hb⟩ := parsed_color_bits U _ _ _ _ _ data _ hd hm
        exact ⟨c, rgba, _, h, hb⟩
      · obtain ⟨data, hd, hm⟩ := (channel_data_modern_none _ (Or.inl rfl) _ _ x0 x1 x2 x3).1
        rw [parse_hwb_unfold]
        obtain ⟨c, rgba, h, hb⟩ := parsed_color_bits U _ _ _ _ _ data _ hd hm
        exact ⟨c, rgba, _, h, hb⟩
      · obtain ⟨data, hd, hm⟩ :=
          (channel_data_modern_none _ (Or.inr (Or.inl rfl)) _ _ x0 x1 x2 x3).1
        rw [parse_oklab_unfold]
        obtain ⟨c, rgba, h, hb⟩ := parsed_color_bits U _ _ _ _ _ data _ hd hm
        exact ⟨c, rgba, _, h, hb⟩
      · obtain ⟨data, hd, hm⟩ :=
          (channel_data_modern_none _ (Or.inr (Or.inr rfl)) _ _ x0 x1 x2 x3).1
        rw [parse_oklch_unfold]
        obtain ⟨c, rgba, h, hb⟩ := parsed_color_bits U _ _ _ _ _ data _ hd hm
        exact ⟨c, rgba, _, h, hb⟩
    · rcases hname with hn | hn | hn | hn | rfl | rfl | rfl
      · obtain ⟨data, hd, hm⟩ := (rgba_modern_none _ _ x0 x1 x2 x3).2
        rw [parse_rgb_unfold U other name _ (Or.inl hn)]
        obtain ⟨c, rgba, h, hb⟩ := parsed_color_bits U _ _ _ _ _ data _ hd hm
        exact ⟨c, rgba, _, h, hb⟩
      · obtain ⟨data, hd, hm⟩ := (rgba_modern_none _ _ x0 x1 x2 x3).2
        rw [parse_rgb_unfold U other name _ (Or.inr hn)]
        obtain ⟨c, rgba, h, hb⟩ := parsed_color_bits U _ _ _ _ _ data _ hd hm
        exact ⟨c, rgba, _, h, hb⟩
      · obtain ⟨data, hd, hm⟩ := (hsla_modern_none _ _ x0 x1 x2 x3).2
        rw [parse_hsl_unfold U other name _ (Or.inl hn)]
        obtain ⟨c, rgba, h, hb⟩ := parsed_color_bits U _ _ _ _ _ data _ hd hm
        exact ⟨c, rgba, _, h, hb⟩
      · obtain ⟨data, hd, hm⟩ := (hsla_modern_none _ _ x0 x1 x2 x3).2
        rw [parse_hsl_unfold U other name _ (Or.inr hn)]
        obtain ⟨c, rgba, h, hb⟩ := parsed_color_bits U _ _ _ _ _ data _ hd hm
        exact ⟨c, rgba, _, h, hb⟩
      · obtain ⟨data, hd, hm⟩ := (channel_data_modern_none _ (Or.inl rfl) _ _ x0 x1 x2 x3).2
        rw [parse_hwb_unfold]
        obtain ⟨c, rgba, h, hb⟩ := parsed_color_bits U _ _ _ _ _ data _ hd hm
        exact ⟨c, rgba, _, h, hb⟩
      · obtain ⟨data, hd, hm⟩ :=
          (channel_data_modern_none _ (Or.inr (Or.inl rfl)) _ _ x0 x1 x2 x3).2
        rw [parse_oklab_unfold]
        obtain ⟨c, rgba, h, hb⟩ := parsed_color_bits U _ _ _ _ _ data _ hd hm
        exact ⟨c, rgba, _, h, hb⟩
      · obtain ⟨data, hd, hm⟩ :=
          (channel_data_modern_none _ (Or.inr (Or.inr rfl)) _ _ x0 x1 x2 x3).2
        rw [parse_oklch_unfold]
        obtain ⟨c, rgba, h, hb⟩ := parsed_color_bits U _ _ _ _ _ data _ hd hm
        exact ⟨c, rgba, _, h, hb⟩
  · intro hk
    constructor
    · obtain ⟨data, hd, hm⟩ := (color_modern_none k hk _ _ x0 x1 x2 x3).1
      rw [parse_color_unfold]
      obtain ⟨c, rgba, h, hb⟩ := parsed_color_bits U _ (fun d : ParseColorData => d.color_space)
        false (fun d => d.channels.values) (fun d => d.channels.missing) data _ hd hm
      exact ⟨c, rgba, _, h, hb⟩
    · obtain ⟨data, hd, hm⟩ := (color_modern_none k hk _ _ x0 x1 x2 x3).2
      rw [parse_color_unfold]
      obtain ⟨c, rgba, h, hb⟩ := parsed_color_bits U _ (fun d : ParseColorData => d.color_space)
        false (fun d => d.channels.values) (fun d => d.channels.missing) data _ hd hm
      exact ⟨c, rgba, _, h, hb⟩

/-- Witness for C25: `hsl(120, none, 50%)` is rejected, and `oklch(none 0.1 none)`
is accepted with its first and third components missing. -/
theorem parse_none_witness :
    gtk_css_color_value_parse idUtils (fun _ _ => .error) "hsl"
      [.NUMBER 120, .COMMA, .IDENT "none", .COMMA, .PERCENTAGE 50] = .error ∧
    ∃ c rgba s, gtk_css_color_value_parse idUtils (fun _ _ => .error) "oklch"
        [.IDENT "none", .NUMBER (1 / 10), .IDENT "none"] = .ok (.color c rgba s) ∧
      missing_bit c 0 = true ∧ missing_bit c 1 = false ∧ missing_bit c 2 = true ∧
      missing_bit c 3 = false :=
  ⟨(parse_none idUtils (fun _ _ => .error) "hsl"
      [.NUMBER 120, .COMMA, .IDENT "none", .COMMA, .PERCENTAGE 50] none none none none
      "srgb").1 (Or.inr (Or.inr (Or.inl rfl))) (by decide) (by decide),
    ((parse_none idUtils (fun _ _ => .error) "oklch" [] none (some (1 / 10)) none none
      "srgb").2.1 (Or.inr (Or.inr (Or.inr (Or.inr (Or.inr (Or.inr rfl))))))).1⟩

/-- C27: the blocks accepted by a colour function.  In legacy syntax `rgb()` takes
exactly 3 arguments, `rgba()` exactly 4, `hsl()` and `hsla()` 3 or 4; in
modern syntax every function takes exactly 3 channels, optionally followed
by `/` and an alpha; `color()` takes a colour-space keyword first.  A block
with anything after the alpha is rejected. -/
theorem parse_argument_count (U : ColorUtils)
    (other : String → GtkCssParser → ParseResult GtkCssValue) (name : String)
    (block : GtkCssParser) (v : GtkCssValue)
    (h : gtk_css_color_value_parse U other name block = .ok v) :
    (name = "rgb" → modern_shape block = true ∨ legacy_shape 3 block = true) ∧
    (name = "rgba" → modern_shape block = true ∨ legacy_shape 4 block = true) ∧
    (name = "hsl" ∨ name = "hsla" →
      modern_shape block = true ∨ legacy_shape 3 block = true ∨
        legacy_shape 4 block = true) ∧
    (name = "hwb" ∨ name = "oklab" ∨ name = "oklch" → modern_shape block = true) ∧
    (name = "color" → ∃ k rest, block = k :: rest ∧
      (k = .IDENT "srgb" ∨ k = .IDENT "srgb-linear") ∧ modern_shape rest = true) ∧
    (∀ a0 a1 a2 a3 extra, extra ≠ [] →
      (name = "rgb" ∨ name = "rgba" ∨ name = "hsl" ∨ name = "hsla" ∨ name = "hwb" ∨
        name = "oklab" ∨ name = "oklch") →
      gtk_css_color_value_parse U other name ([a0, a1, a2, .DELIM '/', a3] ++ extra) =
        .error) ∧
    (∀ k a0 a1 a2 a3 extra, extra ≠ [] →
      gtk_css_color_value_parse U other "color"
        (k :: ([a0, a1, a2, .DELIM '/', a3] ++ extra)) = .error) := by
  obtain ⟨h1, h2, h3, h4, h5⟩ := parse_ok_shape U other name block v h
  refine ⟨h1, h2, h3, h4, h5, ?_, ?_⟩
  · intro a0 a1 a2 a3 extra he hname
    have hname8 : name = "rgb" ∨ name = "rgba" ∨ name = "hsl" ∨ name = "hsla" ∨
        name = "hwb" ∨ name = "oklab" ∨ name = "oklch" ∨ name = "color" := by
      rcases hname with hn | hn | hn | hn | hn | hn | hn <;> simp [hn]
    rcases parse_total U other name _ hname8 with he1 | ⟨w, hw⟩
    · exact he1
    · exfalso
      have hshape := parse_ok_shape U other name _ w hw
      have hm := (not_shape_of_extra a0 a1 a2 a3 extra 3 he).1
      have hl3 := (not_shape_of_extra a0 a1 a2 a3 extra 3 he).2
      have hl4 := (not_shape_of_extra a0 a1 a2 a3 extra 4 he).2
      rcases hname with hn | hn | hn | hn | hn | hn | hn
      · rcases hshape.1 hn with q | q
        · rw [hm] at q; cases q
        · rw [hl3] at q; cases q
      · rcases hshape.2.1 hn with q | q
        · rw [hm] at q; cases q
        · rw [hl4] at q; cases q
      · rcases hshape.2.2.1 (Or.inl hn) with q | q | q
        · rw [hm] at q; cases q
        · rw [hl3] at q; cases q
        · rw [hl4] at q; cases q
      · rcases hshape.2.2.1 (Or.inr hn) with q | q | q
        · rw [hm] at q; cases q
        · rw [hl3] at q; cases q
        · rw [hl4] at q; cases q
      · have q := hshape.2.2.2.1 (Or.inl hn)
        rw [hm] at q; cases q
      · have q := hshape.2.2.2.1 (Or.inr (Or.inl hn))
        rw [hm] at q; cases q
      · have q := hshape.2.2.2.1 (Or.inr (Or.inr hn))
        rw [hm] at q; cases q
  · intro k a0 a1 a2 a3 extra he
    rcases parse_total U other "color" (k :: ([a0, a1, a2, .DELIM '/', a3] ++ extra))
      (Or.inr (Or.inr (Or.inr (Or.inr (Or.inr (Or.inr (Or.inr rfl))))))) with he1 | ⟨w, hw⟩
    · exact he1
    · exfalso
      obtain ⟨k1, rest1, hs, -, q⟩ := (parse_ok_shape U other "color" _ w hw).2.2.2.2 rfl
      obtain ⟨-, rfl⟩ := List.cons.inj hs
      rw [(not_shape_of_extra a0 a1 a2 a3 extra 3 he).1] at q
      cases q

/-- Witness for C27: `rgb(255,0,0)` is accepted and is a legacy block with three
arguments. -/
theorem parse_argument_count_witness :
    ∃ v, gtk_css_color_value_parse idUtils (fun _ _ => .error) "rgb"
        [.NUMBER 255, .COMMA, .NUMBER 0, .COMMA, .NUMBER 0] = .ok v ∧
      (modern_shape [.NUMBER 255, .COMMA, .NUMBER 0, .COMMA, .NUMBER 0] = true ∨
        legacy_shape 3 [.NUMBER 255, .COMMA, .NUMBER 0, .COMMA, .NUMBER 0] = true) := by
  obtain ⟨rgba, h⟩ := parse_rgb_legacy_eval idUtils (fun _ _ => .error) false 255 0 0
  exact ⟨_, h, (parse_argument_count idUtils (fun _ _ => .error) "rgb" _ _ h).1 rfl⟩

/-! ### Ranges of the parsed components -/

/-- A property of the data that every step of `parse_func` keeps holds of the
result of the loop. -/
theorem loop_invariant {δ : Type} (P : δ → Prop) (allow_alpha require_alpha : Bool)
    (parse_func : ParseFunc δ)
    (hP : ∀ self arg syn data step, parse_func self arg syn data = .ok step → P data →
      P step.data) :
    ∀ (fuel : Nat) (self : GtkCssParser) (syn : ColorSyntax) (arg min_args max_args : Nat)
      (data d : δ), P data →
      parse_color_function_loop allow_alpha require_alpha parse_func fuel self syn arg
        min_args max_args data = .ok d → P d := by
  intro fuel
  induction fuel with
  | zero =>
    intro self syn arg min_args max_args data d _ h
    cases h
  | succ fuel ih =>
    intro self syn arg min_args max_args data d hd h
    rw [loop_succ] at h
    cases hp : parse_func self arg syn data with
    | out_of_fuel => rw [hp] at h; cases h
    | assertion_failed => rw [hp] at h; cases h
    | error => rw [hp] at h; cases h
    | ok step =>
      rw [hp] at h
      dsimp only at h
      have hs := hP self arg syn data step hp hd
      split_ifs at h
      cases ha : after_argument allow_alpha require_alpha step.parser step.syn
          (arg + step.parse_args) min_args max_args with
      | accept =>
        rw [ha] at h
        cases h
        exact hs
      | reject =>
        rw [ha] at h
        cases h
      | next self1 syn1 min1 max1 =>
        rw [ha] at h
        exact ih self1 syn1 _ min1 max1 step.data d hs h

/-- A step of `parse_rgba_color_channel` keeps the four components in `[0, 1]`. -/
theorem rgba_step_range (self : GtkCssParser) (arg : Nat) (syn : ColorSyntax)
    (data : ParseRGBAData) (step : ParseStep ParseRGBAData)
    (h : parse_rgba_color_channel self arg syn data = .ok step)
    (hd : in_unit data.rgba.red ∧ in_unit data.rgba.green ∧ in_unit data.rgba.blue ∧
      in_unit data.rgba.alpha) :
    in_unit step.data.rgba.red ∧ in_unit step.data.rgba.green ∧ in_unit step.data.rgba.blue ∧
      in_unit step.data.rgba.alpha := by
  unfold parse_rgba_color_channel at h
  split at h
  · split at h
    · rename_i ch d hp
      cases h
      obtain ⟨-, hr, -⟩ := parse_rgb_channel_value_some self syn data d ch hp
      dsimp only
      rw [hr]
      exact ⟨parse_rgb_channel_value_range self syn data d ch hp, hd.2⟩
    · cases h
  · split at h
    · rename_i ch d hp
      cases h
      obtain ⟨-, hr, -⟩ := parse_rgb_channel_value_some self syn data d ch hp
      dsimp only
      rw [hr]
      exact ⟨hd.1, parse_rgb_channel_value_range self syn data d ch hp, hd.2.2⟩
    · cases h
  · split at h
    · rename_i ch d hp
      cases h
      obtain ⟨-, hr, -⟩ := parse_rgb_channel_value_some self syn data d ch hp
      dsimp only
      rw [hr]
      exact ⟨hd.1, hd.2.1, parse_rgb_channel_value_range self syn data d ch hp, hd.2.2.2⟩
    · cases h
  · obtain ⟨ch, hr, rfl⟩ := channel_step_ok _ _ _ h
    exact ⟨hd.1, hd.2.1, hd.2.2.1, parse_alpha_value_range self syn ch hr⟩
  · cases h

/-- A step of `parse_hsla_color_channel` keeps the alpha in `[0, 1]`. -/
theorem hsla_step_alpha (self : GtkCssParser) (arg : Nat) (syn : ColorSyntax)
    (data : ParseHSLAData) (step : ParseStep ParseHSLAData)
    (h : parse_hsla_color_channel self arg syn data = .ok step)
    (hd : in_unit data.hsla.alpha) : in_unit step.data.hsla.alpha := by
  unfold parse_hsla_color_channel at h
  split at h
  · obtain ⟨ch, hr, rfl⟩ := channel_step_ok _ _ _ h
    exact hd
  · obtain ⟨ch, hr, rfl⟩ := channel_step_ok _ _ _ h
    exact hd
  · obtain ⟨ch, hr, rfl⟩ := channel_step_ok _ _ _ h
    exact hd
  · obtain ⟨ch, hr, rfl⟩ := channel_step_ok _ _ _ h
    exact parse_alpha_value_range self syn ch hr
  · cases h

/-- A step of `parse_hwb_color_channel`, `parse_oklab_color_channel` or
`parse_oklch_color_channel` keeps the alpha in `[0, 1]`. -/
theorem channel_data_step_alpha (parse_func : ParseFunc ChannelData)
    (hpf : parse_func = parse_hwb_color_channel ∨ parse_func = parse_oklab_color_channel ∨
      parse_func = parse_oklch_color_channel)
    (self : GtkCssParser) (arg : Nat) (syn : ColorSyntax)
    (data : ChannelData) (step : ParseStep ChannelData)
    (h : parse_func self arg syn data = .ok step)
    (hd : in_unit data.values.x3) : in_unit step.data.values.x3 := by
  rcases hpf with rfl | rfl | rfl
  · unfold parse_hwb_color_channel at h
    split at h
    · obtain ⟨ch, hr, rfl⟩ := channel_step_ok _ _ _ h
      exact hd
    · obtain ⟨ch, hr, rfl⟩ := channel_step_ok _ _ _ h
      exact hd
    · obtain ⟨ch, hr, rfl⟩ := channel_step_ok _ _ _ h
      exact hd
    · obtain ⟨ch, hr, rfl⟩ := channel_step_ok _ _ _ h
      exact parse_alpha_value_range self syn ch hr
    · cases h
  · unfold parse_oklab_color_channel at h
    split at h
    · obtain ⟨v, hr, rfl⟩ := plain_step_ok _ _ _ _ h
      exact hd
    · obtain ⟨v, hr, rfl⟩ := plain_step_ok _ _ _ _ h
      exact hd
    · obtain ⟨v, hr, rfl⟩ := plain_step_ok _ _ _ _ h
      exact hd
    · obtain ⟨ch, hr, rfl⟩ := channel_step_ok _ _ _ h
      exact parse_alpha_value_range self syn ch hr
    · cases h
  · unfold parse_oklch_color_channel at h
    split at h
    · obtain ⟨v, hr, rfl⟩ := plain_step_ok _ _ _ _ h
      exact hd
    · obtain ⟨v, hr, rfl⟩ := plain_step_ok _ _ _ _ h
      exact hd
    · obtain ⟨ch, hr, rfl⟩ := channel_step_ok _ _ _ h
      exact hd
    · obtain ⟨ch, hr, rfl⟩ := channel_step_ok _ _ _ h
      exact parse_alpha_value_range self syn ch hr
    · cases h

/-- A step of `parse_color_color_channel` keeps the alpha in `[0, 1]`. -/
theorem color_step_alpha (self : GtkCssParser) (arg : Nat) (syn : ColorSyntax)
    (data : ParseColorData) (step : ParseStep ParseColorData)
    (h : parse_color_color_channel self arg syn data = .ok step)
    (hd : in_unit data.channels.values.x3) : in_unit step.data.channels.values.x3 := by
  unfold parse_color_color_channel at h
  split at h
  · split_ifs at h
    · cases h
      exact hd
    · cases h
      exact hd
  · obtain ⟨v, hr, rfl⟩ := plain_step_ok _ _ _ _ h
    exact hd
  · obtain ⟨v, hr, rfl⟩ := plain_step_ok _ _ _ _ h
    exact hd
  · obtain ⟨v, hr, rfl⟩ := plain_step_ok _ _ _ _ h
    exact hd
  · obtain ⟨ch, hr, rfl⟩ := channel_step_ok _ _ _ h
    exact parse_alpha_value_range self syn ch hr
  · cases h

/-- A component that is not flagged missing is stored as it is given. -/
theorem init_with_missing_value (U : ColorUtils) (cs : GtkCssColorSpace) (v : Vec4 ℚ)
    (m : Vec4 Bool) (i : Nat) (hi : i < 4)
    (h : missing_bit (gtk_css_color_init_with_missing U cs v m) i = false) :
    (gtk_css_color_init_with_missing U cs v m).values.get i = v.get i := by
  rw [init_with_missing_bit U cs v m i hi] at h
  obtain ⟨m0, m1, m2, m3⟩ := m
  interval_cases i <;> simp only [Vec4.get] at h <;> subst h <;> rfl

/-- The components of a colour parsed by `rgb()` or `rgba()` that are not missing
lie in `[0, 1]`. -/
theorem parse_rgb_range (U : ColorUtils)
    (other : String → GtkCssParser → ParseResult GtkCssValue) (name : String)
    (block : GtkCssParser) (c : GtkCssColor) (rgba : GdkRGBA) (s : Bool)
    (hname : name = "rgb" ∨ name = "rgba")
    (h : gtk_css_color_value_parse U other name block = .ok (.color c rgba s)) :
    ∀ i, i < 4 → missing_bit c i = false → in_unit (c.values.get i) := by
  rw [parse_rgb_unfold U other name block hname] at h
  obtain ⟨data, rgba1, hd, hv⟩ := parsed_color_ok_inv U _ _ _ _ _ _ h
  cases hv
  have hinv := loop_invariant
    (fun d : ParseRGBAData => in_unit d.rgba.red ∧ in_unit d.rgba.green ∧
      in_unit d.rgba.blue ∧ in_unit d.rgba.alpha) _ _ parse_rgba_color_channel
    rgba_step_range 6 block .DETECTING 0 3 4 _ data
    (by norm_num [in_unit]) hd
  intro i hi hm
  rw [init_with_missing_value U _ _ _ i hi hm]
  interval_cases i
  · exact hinv.1
  · exact hinv.2.1
  · exact hinv.2.2.1
  · exact hinv.2.2.2

/-- The alpha of a colour parsed by a colour function, when it is not missing,
lies in `[0, 1]`. -/
theorem parse_alpha_range (U : ColorUtils)
    (other : String → GtkCssParser → ParseResult GtkCssValue) (name : String)
    (block : GtkCssParser) (c : GtkCssColor) (rgba : GdkRGBA) (s : Bool)
    (hname : name = "rgb" ∨ name = "rgba" ∨ name = "hsl" ∨ name = "hsla" ∨ name = "hwb" ∨
      name = "oklab" ∨ name = "oklch" ∨ name = "color")
    (h : gtk_css_color_value_parse U other name block = .ok (.color c rgba s))
    (hm : missing_bit c 3 = false) : in_unit c.values.x3 := by
  have h01 : in_unit (1 : ℚ) := by norm_num [in_unit]
  rcases hname with hn | hn | hn | hn | rfl | rfl | rfl | rfl
  · exact parse_rgb_range U other name block c rgba s (Or.inl hn) h 3 (by decide) hm
  · exact parse_rgb_range U other name block c rgba s (Or.inr hn) h 3 (by decide) hm
  · rw [parse_hsl_unfold U other name block (Or.inl hn)] at h
    obtain ⟨data, rgba1, hd, hv⟩ := parsed_color_ok_inv U _ _ _ _ _ _ h
    cases hv
    have hinv := loop_invariant (fun d : ParseHSLAData => in_unit d.hsla.alpha) _ _
      parse_hsla_color_channel hsla_step_alpha 6 block .DETECTING 0 3 4 _ data h01 hd
    have := init_with_missing_value U _ _ _ 3 (by decide) hm
    simp only [Vec4.get] at this
    rw [this]
    exact hinv
  · rw [parse_hsl_unfold U other name block (Or.inr hn)] at h
    obtain ⟨data, rgba1, hd, hv⟩ := parsed_color_ok_inv U _ _ _ _ _ _ h
    cases hv
    have hinv := loop_invariant (fun d : ParseHSLAData => in_unit d.hsla.alpha) _ _
      parse_hsla_color_channel hsla_step_alpha 6 block .DETECTING 0 3 4 _ data h01 hd
    have := init_with_missing_value U _ _ _ 3 (by decide) hm
    simp only [Vec4.get] at this
    rw [this]
    exact hinv
  · rw [parse_hwb_unfold] at h
    obtain ⟨data, rgba1, hd, hv⟩ := parsed_color_ok_inv U _ _ _ _ _ _ h
    cases hv
    have hinv := loop_invariant (fun d : ChannelData => in_unit d.values.x3) _ _
      parse_hwb_color_channel (channel_data_step_alpha _ (Or.inl rfl)) 6 block .MODERN 0 3 4
      _ data h01 hd
    have := init_with_missing_value U _ _ _ 3 (by decide) hm
    simp only [Vec4.get] at this
    rw [this]
    exact hinv
  · rw [parse_oklab_unfold] at h
    obtain ⟨data, rgba1, hd, hv⟩ := parsed_color_ok_inv U _ _ _ _ _ _ h
    cases hv
    have hinv := loop_invariant (fun d : ChannelData => in_unit d.values.x3) _ _
      parse_oklab_color_channel (channel_data_step_alpha _ (Or.inr (Or.inl rfl))) 6 block
      .MODERN 0 3 4 _ data h01 hd
    have := init_with_missing_value U _ _ _ 3 (by decide) hm
    simp only [Vec4.get] at this
    rw [this]
    exact hinv
  · rw [parse_oklch_unfold] at h
    obtain ⟨data, rgba1, hd, hv⟩ := parsed_color_ok_inv U _ _ _ _ _ _ h
    cases hv
    have hinv := loop_invariant (fun d : ChannelData => in_unit d.values.x3) _ _
      parse_oklch_color_channel (channel_data_step_alpha _ (Or.inr (Or.inr rfl))) 6 block
      .MODERN 0 3 4 _ data h01 hd
    have := init_with_missing_value U _ _ _ 3 (by decide) hm
    simp only [Vec4.get] at this
    rw [this]
    exact hinv
  · rw [parse_color_unfold] at h
    obtain ⟨data, rgba1, hd, hv⟩ := parsed_color_ok_inv U _ _ _ _ _ _ h
    cases hv
    have hinv := loop_invariant (fun d : ParseColorData => in_unit d.channels.values.x3) _ _
      parse_color_color_channel color_step_alpha 6 block .MODERN 0 4 5 _ data h01 hd
    have := init_with_missing_value U _ _ _ 3 (by decide) hm
    simp only [Vec4.get] at this
    rw [this]
    exact hinv

/-- C28: a colour channel parsed by `parse_rgb_channel_value` lies in `[0, 1]`; it
is `clamp (n, 0, 255) / 255` for a number `n` and
`clamp (255 * p / 100, 0, 255) / 255` for a percentage `p`; an alpha parsed by
`parse_alpha_value` lies in `[0, 1]`.  In the colour returned by `rgb()` or
`rgba()` every component that is not missing lies in `[0, 1]`, and in the
colour returned by any colour function the alpha, when it is not missing,
lies in `[0, 1]`. -/
theorem parse_channel_range (U : ColorUtils)
    (other : String → GtkCssParser → ParseResult GtkCssValue) (name : String)
    (block : GtkCssParser) (c : GtkCssColor) (rgba : GdkRGBA) (s : Bool)
    (parser : GtkCssParser) (syn : ColorSyntax) (data : ParseRGBAData)
    (h : gtk_css_color_value_parse U other name block = .ok (.color c rgba s)) :
    (∀ ch data1, parse_rgb_channel_value parser syn data = some (ch, data1) →
      0 ≤ ch.value ∧ ch.value ≤ 1) ∧
    (∀ n rest ch data1,
      parse_rgb_channel_value (.NUMBER n :: rest) syn data = some (ch, data1) →
      ch.value = CLAMP n 0 255 / 255) ∧
    (∀ p rest ch data1,
      parse_rgb_channel_value (.PERCENTAGE p :: rest) syn data = some (ch, data1) →
      ch.value = CLAMP (255 * p / 100) 0 255 / 255) ∧
    (∀ ch, parse_alpha_value parser syn = some ch → 0 ≤ ch.value ∧ ch.value ≤ 1) ∧
    ((name = "rgb" ∨ name = "rgba") → ∀ i, i < 4 → missing_bit c i = false →
      0 ≤ c.values.get i ∧ c.values.get i ≤ 1) ∧
    ((name = "rgb" ∨ name = "rgba" ∨ name = "hsl" ∨ name = "hsla" ∨ name = "hwb" ∨
        name = "oklab" ∨ name = "oklch" ∨ name = "color") →
      missing_bit c 3 = false → 0 ≤ c.values.x3 ∧ c.values.x3 ≤ 1) := by
  refine ⟨fun ch data1 hp => parse_rgb_channel_value_range parser syn data data1 ch hp,
    ?_, ?_, fun ch hp => parse_alpha_value_range parser syn ch hp,
    fun hname => parse_rgb_range U other name block c rgba s hname h,
    fun hname hm => parse_alpha_range U other name block c rgba s hname h hm⟩
  · intro n rest ch data1 hp
    rw [parse_rgb_channel_value_number] at hp
    cases syn <;> dsimp only at hp
    · cases hp
      rfl
    · cases hp
      rfl
    · split_ifs at hp
      cases hp
      rfl
  · intro p rest ch data1 hp
    rw [parse_rgb_channel_value_percentage] at hp
    have e : 255 * p / 100 = p * 255 / 100 := by ring
    rw [e]
    cases syn <;> dsimp only at hp
    · cases hp
      rfl
    · cases hp
      rfl
    · split_ifs at hp
      cases hp
      rfl

/-- Witness for C28: in `rgb(300 -5% 0 / 2)` the channels `300`, `-5%` and the
alpha `2` are stored as `1`, `0` and `1`. -/
theorem parse_channel_range_witness :
    ∃ c rgba s, gtk_css_color_value_parse idUtils (fun _ _ => .error) "rgb"
        [.NUMBER 300, .PERCENTAGE (-5), .NUMBER 0, .DELIM '/', .NUMBER 2] =
        .ok (.color c rgba s) ∧
      c.values = ⟨1, 0, 0, 1⟩ ∧
      ((0 : ℚ) ≤ c.values.x3 ∧ c.values.x3 ≤ 1) := by
  obtain ⟨rgba, h⟩ := (parse_rgb_modern_eval idUtils (fun _ _ => .error) "rgb" (Or.inl rfl)
    false true false false 300 (-5) 0 2).2
  refine ⟨_, rgba, _, h, ?_, ?_⟩
  · norm_num [rgb_channel_of, alpha_of, CLAMP]
  · exact (parse_channel_range idUtils (fun _ _ => .error) "rgb" _ _ rgba _ [] .MODERN
      ⟨⟨0, 0, 0, 1⟩, false, no_missing⟩ h).2.2.2.2.2 (Or.inl rfl) rfl

/-! ### Claims on the legacy mix and the constructors -/

/-- The field `rgba` is read from the literal and colour nodes only. -/
theorem get_rgba_some_iff (v : GtkCssValue) :
    (∃ rgba, gtk_css_color_value_get_rgba v = some rgba) ↔ is_color v = true := by
  cases v <;> simp [is_color, gtk_css_color_value_get_rgba]

/-- C38: when every child is a literal or colour node, `gtk_css_color_value_new_shade`,
`gtk_css_color_value_new_alpha` and `gtk_css_color_value_new_mix` return the
literal of the shaded, scaled or mixed RGBA, and `gtk_css_color_value_resolve`
returns that same literal for the shade, alpha or mix node over the same
children and factor, for every provider and current colour.  A constructor
builds a composite node when a child is not a literal or colour node, and
only then. -/
theorem new_composite_folds (E : StyleEnv) (provider : String → Option GtkCssValue)
    (current : Option GtkCssValue) (c c1 c2 : GtkCssValue) (factor : ℚ) (fuel : Nat) :
    (∀ rgba, gtk_css_color_value_get_rgba c = some rgba →
      gtk_css_color_value_new_shade E c factor = .literal (apply_shade E rgba factor) ∧
      gtk_css_color_value_resolve E provider current (fuel + 2) (.shade c factor) =
        .resolved (gtk_css_color_value_new_shade E c factor) ∧
      gtk_css_color_value_new_alpha c factor = .literal (apply_alpha rgba factor) ∧
      gtk_css_color_value_resolve E provider current (fuel + 2) (.alpha c factor) =
        .resolved (gtk_css_color_value_new_alpha c factor)) ∧
    (∀ rgba1 rgba2, gtk_css_color_value_get_rgba c1 = some rgba1 →
      gtk_css_color_value_get_rgba c2 = some rgba2 →
      gtk_css_color_value_new_mix c1 c2 factor = .literal (apply_mix rgba1 rgba2 factor) ∧
      gtk_css_color_value_resolve E provider current (fuel + 2) (.mix c1 c2 factor) =
        .resolved (gtk_css_color_value_new_mix c1 c2 factor)) ∧
    (gtk_css_color_value_new_shade E c factor = .shade c factor ↔ is_color c = false) ∧
    (gtk_css_color_value_new_alpha c factor = .alpha c factor ↔ is_color c = false) ∧
    (gtk_css_color_value_new_mix c1 c2 factor = .mix c1 c2 factor ↔
      (is_color c1 = false ∨ is_color c2 = false)) ∧
    (is_color (gtk_css_color_value_new_shade E c factor) = true ↔ is_color c = true) ∧
    (is_color (gtk_css_color_value_new_alpha c factor) = true ↔ is_color c = true) ∧
    (is_color (gtk_css_color_value_new_mix c1 c2 factor) = true ↔
      (is_color c1 = true ∧ is_color c2 = true)) := by
  refine ⟨?_, ?_, ?_, ?_, ?_, ?_, ?_, ?_⟩
  · intro rgba h
    cases c <;> simp [gtk_css_color_value_get_rgba] at h <;> subst h <;>
      exact ⟨rfl, rfl, rfl, rfl⟩
  · intro rgba1 rgba2 h1 h2
    cases c1 <;> simp [gtk_css_color_value_get_rgba] at h1 <;> subst h1 <;>
      cases c2 <;> simp [gtk_css_color_value_get_rgba] at h2 <;> subst h2 <;>
      exact ⟨rfl, rfl⟩
  · cases c <;>
      simp [gtk_css_color_value_new_shade, gtk_css_color_value_new_literal, is_color]
  · cases c <;>
      simp [gtk_css_color_value_new_alpha, gtk_css_color_value_new_literal, is_color]
  · cases c1 <;> cases c2 <;>
      simp [gtk_css_color_value_new_mix, gtk_css_color_value_get_rgba,
        gtk_css_color_value_new_literal, is_color]
  · cases c <;>
      simp [gtk_css_color_value_new_shade, gtk_css_color_value_new_literal, is_color]
  · cases c <;>
      simp [gtk_css_color_value_new_alpha, gtk_css_color_value_new_literal, is_color]
  · cases c1 <;> cases c2 <;>
      simp [gtk_css_color_value_new_mix, gtk_css_color_value_get_rgba,
        gtk_css_color_value_new_literal, is_color]

/-- Witness for C38: the alpha scale of opaque red by `1/2`, and the mix of a
literal with a named reference, which stays a mix node. -/
theorem new_composite_folds_witness :
    gtk_css_color_value_get_rgba (.literal ⟨1, 0, 0, 1⟩) = some ⟨1, 0, 0, 1⟩ ∧
    gtk_css_color_value_new_alpha (.literal ⟨1, 0, 0, 1⟩) (1 / 2) =
      .literal (apply_alpha ⟨1, 0, 0, 1⟩ (1 / 2)) ∧
    gtk_css_color_value_resolve idEnv (provider_of []) none 2
        (.alpha (.literal ⟨1, 0, 0, 1⟩) (1 / 2)) =
      .resolved (gtk_css_color_value_new_alpha (.literal ⟨1, 0, 0, 1⟩) (1 / 2)) ∧
    gtk_css_color_value_new_mix (.literal ⟨1, 0, 0, 1⟩) (.name 0 "a") (1 / 2) =
      .mix (.literal ⟨1, 0, 0, 1⟩) (.name 0 "a") (1 / 2) := by
  have h := new_composite_folds idEnv (provider_of []) none (.literal ⟨1, 0, 0, 1⟩)
    (.literal ⟨1, 0, 0, 1⟩) (.name 0 "a") (1 / 2) 0
  have h1 := h.1 ⟨1, 0, 0, 1⟩ rfl
  exact ⟨rfl, h1.2.2.1, h1.2.2.2, h.2.2.2.2.1.mpr (Or.inr rfl)⟩

/-- The source colour of a conversion to sRGB that starts in sRGB or in linear
sRGB: the result is the image by `gtk_linear_srgb_to_rgb` of the linear
components. -/
theorem convert_linear_to_srgb (U : ColorUtils) (v : Vec4 ℚ) :
    gtk_css_color_convert U (gtk_css_color_init_with_missing U .SRGB_LINEAR v no_missing)
        .SRGB =
      some (gtk_css_color_init U .SRGB
        ⟨(U.gtk_linear_srgb_to_rgb v.x0 v.x1 v.x2).1, (U.gtk_linear_srgb_to_rgb v.x0 v.x1 v.x2).2.1,
          (U.gtk_linear_srgb_to_rgb v.x0 v.x1 v.x2).2.2, v.x3⟩) := by
  simp [gtk_css_color_convert, convert_to_rectangular, convert_to_linear,
    convert_linear_to_linear, convert_from_linear, convert_from_rectangular,
    dest_linear, gtk_css_color_init, gtk_css_color_init_with_missing, no_missing, powerless]

/-- A conversion from sRGB to sRGB goes through linear sRGB. -/
theorem convert_srgb_to_srgb (U : ColorUtils) (v : Vec4 ℚ) :
    gtk_css_color_convert U (gtk_css_color_init_with_missing U .SRGB v no_missing) .SRGB =
      gtk_css_color_convert U (gtk_css_color_init_with_missing U .SRGB_LINEAR
        ⟨(U.gtk_rgb_to_linear_srgb v.x0 v.x1 v.x2).1, (U.gtk_rgb_to_linear_srgb v.x0 v.x1 v.x2).2.1,
          (U.gtk_rgb_to_linear_srgb v.x0 v.x1 v.x2).2.2, v.x3⟩ no_missing) .SRGB := by
  simp [gtk_css_color_convert, convert_to_rectangular, convert_to_linear,
    convert_linear_to_linear, convert_from_linear, convert_from_rectangular,
    dest_linear, gtk_css_color_init, gtk_css_color_init_with_missing, no_missing, powerless]

/-- C39: `gtk_css_value_color_equal` is not transitive.  For all primitives, an
equality of RGBA that is reflexive and an equality of colours that holds only
between colours of the same colour space, there are a colour node `c1` in
sRGB and a colour node `c2` in linear sRGB, both returned by
`gtk_css_color_value_new_color` without missing component and with the same
cached RGBA, and a literal `l` of that RGBA, such that `c1` equals `l` and
`l` equals `c2` but `c1` does not equal `c2`. -/
theorem color_equal_not_transitive (U : ColorUtils) (gdk_rgba_equal : GdkRGBA → GdkRGBA → Bool)
    (gtk_css_color_equal : GtkCssColor → GtkCssColor → Bool)
    (hrefl : ∀ a, gdk_rgba_equal a a = true)
    (hspace : ∀ a b, gtk_css_color_equal a b = true → a.color_space = b.color_space) :
    ∃ (v1 v2 : Vec4 ℚ) (color1 color2 : GtkCssColor) (rgba : GdkRGBA),
      gtk_css_color_value_new_color U .SRGB true v1 no_missing =
        some (.color color1 rgba true) ∧
      gtk_css_color_value_new_color U .SRGB_LINEAR false v2 no_missing =
        some (.color color2 rgba false) ∧
      color1.missing = 0 ∧ color2.missing = 0 ∧
      color1.color_space ≠ color2.color_space ∧
      gtk_css_value_color_equal gdk_rgba_equal gtk_css_color_equal
        (.color color1 rgba true) (.literal rgba) = true ∧
      gtk_css_value_color_equal gdk_rgba_equal gtk_css_color_equal
        (.literal rgba) (.color color2 rgba false) = true ∧
      gtk_css_value_color_equal gdk_rgba_equal gtk_css_color_equal
        (.color color1 rgba true) (.color color2 rgba false) = false := by
  let w := U.gtk_rgb_to_linear_srgb 1 0 0
  let z := U.gtk_linear_srgb_to_rgb w.1 w.2.1 w.2.2
  refine ⟨⟨1, 0, 0, 1⟩, ⟨w.1, w.2.1, w.2.2, 1⟩,
    gtk_css_color_init_with_missing U .SRGB ⟨1, 0, 0, 1⟩ no_missing,
    gtk_css_color_init_with_missing U .SRGB_LINEAR ⟨w.1, w.2.1, w.2.2, 1⟩ no_missing,
    ⟨z.1, z.2.1, z.2.2, 1⟩, ?_, ?_, rfl, rfl, ?_, ?_, ?_, ?_⟩
  · unfold gtk_css_color_value_new_color
    dsimp only
    rw [convert_srgb_to_srgb, convert_linear_to_srgb]
    rfl
  · unfold gtk_css_color_value_new_color
    dsimp only
    rw [convert_linear_to_srgb]
    rfl
  · show GtkCssColorSpace.SRGB ≠ GtkCssColorSpace.SRGB_LINEAR
    decide
  · simp [gtk_css_value_color_equal, gtk_css_color_init_with_missing, no_missing, hrefl]
  · simp [gtk_css_value_color_equal, gtk_css_color_init_with_missing, no_missing, hrefl]
  · simp only [gtk_css_value_color_equal]
    cases h : gtk_css_color_equal
      (gtk_css_color_init_with_missing U .SRGB ⟨1, 0, 0, 1⟩ no_missing)
      (gtk_css_color_init_with_missing U .SRGB_LINEAR ⟨w.1, w.2.1, w.2.2, 1⟩ no_missing)
    · rfl
    · have hne : GtkCssColorSpace.SRGB ≠ GtkCssColorSpace.SRGB_LINEAR := by decide
      exact absurd (hspace _ _ h) hne

/-- Witness for C39: with the identity primitives and the structural equalities,
sRGB red, the literal red and linear-sRGB red. -/
theorem color_equal_not_transitive_witness :
    (∀ a : GdkRGBA, (fun a b : GdkRGBA => decide (a = b)) a a = true) ∧
    (∀ a b : GtkCssColor, (fun a b : GtkCssColor => decide (a = b)) a b = true →
      a.color_space = b.color_space) ∧
    ∃ (v1 v2 : Vec4 ℚ) (color1 color2 : GtkCssColor) (rgba : GdkRGBA),
      gtk_css_color_value_new_color idUtils .SRGB true v1 no_missing =
        some (.color color1 rgba true) ∧
      gtk_css_color_value_new_color idUtils .SRGB_LINEAR false v2 no_missing =
        some (.color color2 rgba false) ∧
      color1.missing = 0 ∧ color2.missing = 0 ∧
      color1.color_space ≠ color2.color_space ∧
      gtk_css_value_color_equal (fun a b => decide (a = b)) (fun a b => decide (a = b))
        (.color color1 rgba true) (.literal rgba) = true ∧
      gtk_css_value_color_equal (fun a b => decide (a = b)) (fun a b => decide (a = b))
        (.literal rgba) (.color color2 rgba false) = true ∧
      gtk_css_value_color_equal (fun a b => decide (a = b)) (fun a b => decide (a = b))
        (.color color1 rgba true) (.color color2 rgba false) = false := by
  have h1 : ∀ a : GdkRGBA, (fun a b : GdkRGBA => decide (a = b)) a a = true := by
    intro a
    simp
  have h2 : ∀ a b : GtkCssColor, (fun a b : GtkCssColor => decide (a = b)) a b = true →
      a.color_space = b.color_space := by
    intro a b h
    simp at h
    rw [h]
  exact ⟨h1, h2, color_equal_not_transitive idUtils _ _ h1 h2⟩

/-! ### Claims on `gtk_css_color_init` and `collect_analogous_missing` -/

/-- The mask stored by `gtk_css_color_init_with_missing` for the flags of
`gtk_css_color_init`: at most one flag is set. -/
theorem init_missing_eq (U : ColorUtils) (s : GtkCssColorSpace) (v : Vec4 ℚ) :
    (gtk_css_color_init U s v).missing =
      (powerless s v).x0.toNat + 4 * (powerless s v).x2.toNat := by
  cases s <;> simp only [gtk_css_color_init, gtk_css_color_init_with_missing, powerless] <;>
    try split_ifs
  all_goals rfl

/-- C34, counterexample: the HSL colour `(10, 0, 1/2000)` has saturation `0` and
a lightness that is not `0`, and for no choice of the primitives does
`gtk_css_color_init` keep its hue: the hue is flagged missing. -/
theorem init_missing_mask_counterexample :
    (1 / 2000 : ℚ) ≠ 0 ∧
    ¬ ∃ U : ColorUtils,
      missing_bit (gtk_css_color_init U .HSL ⟨10, 0, 1 / 2000, 1⟩) 0 = false := by
  refine ⟨by norm_num, ?_⟩
  rintro ⟨U, h⟩
  have e : (gtk_css_color_init U .HSL ⟨10, 0, 1 / 2000, 1⟩).missing = 1 := by
    rw [init_missing_eq]
    have : |(1 / 2000 : ℚ)| < 1 / 1000 := by
      rw [abs_of_pos (by norm_num)]
      norm_num
    simp only [powerless]
    rw [if_pos this]
    rfl
  rw [missing_bit, e] at h
  revert h
  decide

/-- C34, amended: the mask computed by `gtk_css_color_init` is empty for sRGB,
linear sRGB and Oklab; for HSL it is the hue (bit 0) when `|lightness| < 0.001`
and empty otherwise; for HWB it is the hue (bit 0) when
`white + black > 99.999` and empty otherwise; for Oklch it is the hue (bit 2)
when `|chroma| < 0.001` and empty otherwise.  Alpha is never flagged, and an
HSL colour with saturation `0` and a lightness of absolute value at least
`0.001` keeps its hue. -/
theorem init_missing_mask (U : ColorUtils) (v : Vec4 ℚ) (s : GtkCssColorSpace)
    (h l a : ℚ) :
    (gtk_css_color_init U .SRGB v).missing = 0 ∧
    (gtk_css_color_init U .SRGB_LINEAR v).missing = 0 ∧
    (gtk_css_color_init U .OKLAB v).missing = 0 ∧
    (gtk_css_color_init U .HSL v).missing = (if |v.x2| < 1 / 1000 then 1 else 0) ∧
    (gtk_css_color_init U .HWB v).missing = (if v.x1 + v.x2 > 99999 / 1000 then 1 else 0) ∧
    (gtk_css_color_init U .OKLCH v).missing = (if |v.x1| < 1 / 1000 then 4 else 0) ∧
    missing_bit (gtk_css_color_init U s v) 3 = false ∧
    (1 / 1000 ≤ |l| → ∀ i, missing_bit (gtk_css_color_init U .HSL ⟨h, 0, l, a⟩) i = false) := by
  refine ⟨by rw [init_missing_eq]; rfl, by rw [init_missing_eq]; rfl,
    by rw [init_missing_eq]; rfl, ?_, ?_, ?_, ?_, ?_⟩
  · rw [init_missing_eq]
    simp only [powerless]
    split_ifs <;> rfl
  · rw [init_missing_eq]
    simp only [powerless]
    split_ifs <;> rfl
  · rw [init_missing_eq]
    simp only [powerless]
    split_ifs <;> rfl
  · rw [missing_bit, init_missing_eq]
    cases s <;> simp only [powerless] <;> try split_ifs
    all_goals decide
  · intro hl i
    rw [missing_bit, init_missing_eq]
    simp only [powerless]
    rw [if_neg (not_lt.mpr hl)]
    simp [no_missing]

/-- Witness for C34: grey of lightness `50` keeps its hue. -/
theorem init_missing_mask_witness :
    (1 / 1000 : ℚ) ≤ |50| ∧
    missing_bit (gtk_css_color_init idUtils .HSL ⟨120, 0, 50, 1⟩) 0 = false := by
  have h : (1 / 1000 : ℚ) ≤ |50| := by
    rw [abs_of_pos (by norm_num)]
    norm_num
  exact ⟨h, (init_missing_mask idUtils ⟨0, 0, 0, 0⟩ .SRGB 120 50 1).2.2.2.2.2.2.2 h 0⟩

/-- The projection of the missing flags of a colour into its own colour space:
the flags themselves outside HWB; in HWB the flags of the hue and of alpha,
whiteness and blackness having no column in the table `analogous`. -/
theorem collect_own_space (c : GtkCssColor) :
    collect_analogous_missing c c.color_space =
      if c.color_space = .HWB then ⟨missing_bit c 0, false, false, missing_bit c 3⟩
      else ⟨missing_bit c 0, missing_bit c 1, missing_bit c 2, missing_bit c 3⟩ := by
  obtain ⟨cs, v, m⟩ := c
  simp only [collect_analogous_missing, List.foldl]
  generalize missing_bit ⟨cs, v, m⟩ 0 = b0
  generalize missing_bit ⟨cs, v, m⟩ 1 = b1
  generalize missing_bit ⟨cs, v, m⟩ 2 = b2
  generalize missing_bit ⟨cs, v, m⟩ 3 = b3
  cases cs <;> cases b0 <;> cases b1 <;> cases b2 <;> cases b3 <;> rfl

/-- C35, counterexample: an HWB colour whose whiteness is missing (mask `2`):
projected into HWB, no flag is set. -/
theorem collect_same_space_counterexample :
    missing_bit ⟨.HWB, ⟨0, 50, 50, 1⟩, 2⟩ 1 = true ∧
    collect_analogous_missing ⟨.HWB, ⟨0, 50, 50, 1⟩, 2⟩ .HWB = no_missing ∧
    (collect_analogous_missing ⟨.HWB, ⟨0, 50, 50, 1⟩, 2⟩ .HWB).get 1 ≠
      missing_bit ⟨.HWB, ⟨0, 50, 50, 1⟩, 2⟩ 1 := by
  refine ⟨by decide, ?_, ?_⟩
  · rw [collect_own_space]
    decide
  · rw [collect_own_space]
    decide

/-- C35, amended: for every colour in sRGB, linear sRGB, HSL, Oklab or Oklch, and
for every HWB colour whose whiteness and blackness are not missing,
`collect_analogous_missing` into the colour's own space yields exactly the
missing flags of the colour.  For an HWB colour it yields the flags of the hue
and of alpha only: whiteness and blackness have no analogous component. -/
theorem collect_same_space (c : GtkCssColor) :
    (c.color_space ≠ .HWB ∨ (missing_bit c 1 = false ∧ missing_bit c 2 = false) →
      ∀ i, i < 4 → (collect_analogous_missing c c.color_space).get i = missing_bit c i) ∧
    (c.color_space = .HWB →
      collect_analogous_missing c c.color_space =
        ⟨missing_bit c 0, false, false, missing_bit c 3⟩) := by
  constructor
  · intro h i hi
    rw [collect_own_space]
    rcases h with h | ⟨h1, h2⟩
    · rw [if_neg h]
      interval_cases i <;> rfl
    · split_ifs
      · interval_cases i
        · rfl
        · exact h1.symm
        · exact h2.symm
        · rfl
      · interval_cases i <;> rfl
  · intro h
    rw [collect_own_space, if_pos h]

/-- Witness for C35: an HSL colour whose hue and alpha are missing (mask `9`),
and an HWB colour whose hue is missing. -/
theorem collect_same_space_witness :
    (GtkCssColor.mk .HSL ⟨0, 50, 50, 0⟩ 9).color_space ≠ .HWB ∧
    collect_analogous_missing ⟨.HSL, ⟨0, 50, 50, 0⟩, 9⟩ .HSL = ⟨true, false, false, true⟩ ∧
    (collect_analogous_missing ⟨.HWB, ⟨0, 50, 50, 1⟩, 1⟩ .HWB).get 0 = true := by
  have h1 := (collect_same_space ⟨.HSL, ⟨0, 50, 50, 0⟩, 9⟩).1 (Or.inl (by decide))
  have h2 := (collect_same_space ⟨.HWB, ⟨0, 50, 50, 1⟩, 1⟩).1
    (Or.inr ⟨by decide, by decide⟩) 0 (by decide)
  refine ⟨by decide, ?_, h2⟩
  have e0 := h1 0 (by decide)
  have e1 := h1 1 (by decide)
  have e2 := h1 2 (by decide)
  have e3 := h1 3 (by decide)
  simp only [Vec4.get] at e0 e1 e2 e3
  have : ∀ w : Vec4 Bool, w = ⟨w.x0, w.x1, w.x2, w.x3⟩ := fun w => rfl
  rw [this (collect_analogous_missing _ _), e0, e1, e2, e3]
  decide

/-! ### The blend in the rectangular spaces -/

/-- A conversion from linear sRGB to linear sRGB returns the colour. -/
theorem convert_linear_self (U : ColorUtils) (c : GtkCssColor)
    (h : c.color_space = .SRGB_LINEAR) :
    gtk_css_color_convert U c .SRGB_LINEAR = some c := by
  obtain ⟨cs, v, m⟩ := c
  simp only at h
  subst h
  simp [gtk_css_color_convert, convert_to_rectangular, convert_to_linear,
    convert_linear_to_linear, convert_from_linear, convert_from_rectangular, dest_linear]

/-- The blend of two colours of sRGB or linear sRGB without missing flag: the
alpha `a` is the blend of the alphas; the colour components are the blend of
the premultiplied components, divided by `a` unless `a` is `0`. -/
theorem blend_rectangular (U : ColorUtils) (a b : GtkCssColor) (p : ℚ)
    (space : GtkCssColorSpace) (interp : GtkCssHueInterpolation)
    (hs : space = .SRGB ∨ space = .SRGB_LINEAR) (ha : a.color_space = space)
    (hb : b.color_space = space) :
    interpolate_converted U no_missing no_missing a b p space interp =
      if a.values.x3 * (1 - p) + b.values.x3 * p = 0 then
        ⟨space,
          ⟨a.values.x0 * a.values.x3 * (1 - p) + b.values.x0 * b.values.x3 * p,
            a.values.x1 * a.values.x3 * (1 - p) + b.values.x1 * b.values.x3 * p,
            a.values.x2 * a.values.x3 * (1 - p) + b.values.x2 * b.values.x3 * p,
            a.values.x3 * (1 - p) + b.values.x3 * p⟩, 0⟩
      else
        ⟨space,
          ⟨(a.values.x0 * a.values.x3 * (1 - p) + b.values.x0 * b.values.x3 * p) /
              (a.values.x3 * (1 - p) + b.values.x3 * p),
            (a.values.x1 * a.values.x3 * (1 - p) + b.values.x1 * b.values.x3 * p) /
              (a.values.x3 * (1 - p) + b.values.x3 * p),
            (a.values.x2 * a.values.x3 * (1 - p) + b.values.x2 * b.values.x3 * p) /
              (a.values.x3 * (1 - p) + b.values.x3 * p),
            a.values.x3 * (1 - p) + b.values.x3 * p⟩, 0⟩ := by
  obtain ⟨sa, ⟨a0, a1, a2, a3⟩, ma⟩ := a
  obtain ⟨sb, ⟨b0, b1, b2, b3⟩, mb⟩ := b
  simp only at ha hb
  subst ha hb
  rw [interpolate_converted, carry_missing_fold]
  rcases hs with hs | hs <;> subst hs <;>
    simp +decide [apply_hue_interpolation, premultiply, premultiply_component, unpremultiply,
      unpremultiply_component, normalize_hue, gtk_css_color_init_with_missing, missing_bit,
      Vec4.get, Vec4.set, no_missing]

/-! ### Claims on the premultiplied blend -/

/-- C33: for two colours of linear sRGB without missing component, of alphas `a1`
and `a2`, interpolated in linear sRGB at progress `p`, the result is a colour
of linear sRGB without missing component whose alpha is
`a = a1 * (1 - p) + a2 * p`; when `a` is not `0` each colour component is
`(c1 * a1 * (1 - p) + c2 * a2 * p) / a`, and when `a` is `0` the component is
the undivided `c1 * a1 * (1 - p) + c2 * a2 * p`. -/
theorem interpolate_linear (U : ColorUtils) (A B : GtkCssColor) (p : ℚ)
    (interp : GtkCssHueInterpolation) (hA : A.color_space = .SRGB_LINEAR)
    (hB : B.color_space = .SRGB_LINEAR) (hAm : A.missing = 0) (hBm : B.missing = 0) :
    ∃ out, gtk_css_color_interpolate U A B p .SRGB_LINEAR interp = some out ∧
      out.color_space = .SRGB_LINEAR ∧ out.missing = 0 ∧
      out.values.x3 = A.values.x3 * (1 - p) + B.values.x3 * p ∧
      (out.values.x3 ≠ 0 → ∀ i, i < 3 →
        out.values.get i =
          (A.values.get i * A.values.x3 * (1 - p) + B.values.get i * B.values.x3 * p) /
            out.values.x3) ∧
      (out.values.x3 = 0 → ∀ i, i < 3 →
        out.values.get i =
          A.values.get i * A.values.x3 * (1 - p) + B.values.get i * B.values.x3 * p) := by
  have e : gtk_css_color_interpolate U A B p .SRGB_LINEAR interp =
      some (interpolate_converted U no_missing no_missing A B p .SRGB_LINEAR interp) := by
    simp only [gtk_css_color_interpolate, convert_linear_self U A hA,
      convert_linear_self U B hB, Option.some_bind, collect_of_missing_eq_zero A _ hAm,
      collect_of_missing_eq_zero B _ hBm]
  rw [e, blend_rectangular U A B p .SRGB_LINEAR interp (Or.inr rfl) hA hB]
  by_cases h0 : A.values.x3 * (1 - p) + B.values.x3 * p = 0
  · rw [if_pos h0]
    refine ⟨_, rfl, rfl, rfl, rfl, fun h => absurd h0 h, fun _ i hi => ?_⟩
    interval_cases i <;> rfl
  · rw [if_neg h0]
    refine ⟨_, rfl, rfl, rfl, rfl, fun _ i hi => ?_, fun h => absurd h h0⟩
    interval_cases i <;> rfl

/-- Witness for C33: opaque linear red and half-transparent linear blue at
progress `1/2`: the alpha is `3/4`, the red component `(1/2) / (3/4)`. -/
theorem interpolate_linear_witness :
    ∃ out, gtk_css_color_interpolate idUtils ⟨.SRGB_LINEAR, ⟨1, 0, 0, 1⟩, 0⟩
        ⟨.SRGB_LINEAR, ⟨0, 0, 1, 1 / 2⟩, 0⟩ (1 / 2) .SRGB_LINEAR .SHORTER = some out ∧
      out.values.x3 = 3 / 4 ∧ out.values.x0 = 2 / 3 := by
  obtain ⟨out, h, -, -, h3, hc, -⟩ := interpolate_linear idUtils ⟨.SRGB_LINEAR, ⟨1, 0, 0, 1⟩, 0⟩
    ⟨.SRGB_LINEAR, ⟨0, 0, 1, 1 / 2⟩, 0⟩ (1 / 2) .SHORTER rfl rfl rfl rfl
  have e3 : out.values.x3 = 3 / 4 := by
    rw [h3]
    norm_num
  refine ⟨out, h, e3, ?_⟩
  have e0 := hc (by rw [e3]; norm_num) 0 (by decide)
  rw [e3] at e0
  simp only [Vec4.get] at e0
  rw [e0]
  norm_num

/-- The blend when alpha is the only component flagged missing, on both sides:
the mask is cleared before `premultiply`, so the colour components are
multiplied by the stored alphas all the same; the result has its alpha
flagged, and `unpremultiply` does nothing. -/
theorem blend_missing_alpha (U : ColorUtils) (a b : GtkCssColor) (p : ℚ)
    (space : GtkCssColorSpace) (interp : GtkCssHueInterpolation)
    (hs : space = .SRGB ∨ space = .SRGB_LINEAR) (ha : a.color_space = space)
    (hb : b.color_space = space) :
    interpolate_converted U ⟨false, false, false, true⟩ ⟨false, false, false, true⟩ a b p space
        interp =
      ⟨space,
        ⟨a.values.x0 * a.values.x3 * (1 - p) + b.values.x0 * b.values.x3 * p,
          a.values.x1 * a.values.x3 * (1 - p) + b.values.x1 * b.values.x3 * p,
          a.values.x2 * a.values.x3 * (1 - p) + b.values.x2 * b.values.x3 * p,
          U.missing_value (a.values.x3 * (1 - p) + b.values.x3 * p)⟩, 8⟩ := by
  obtain ⟨sa, ⟨a0, a1, a2, a3⟩, ma⟩ := a
  obtain ⟨sb, ⟨b0, b1, b2, b3⟩, mb⟩ := b
  simp only at ha hb
  subst ha hb
  rw [interpolate_converted, carry_missing_fold]
  rcases hs with hs | hs <;> subst hs <;>
    simp +decide [apply_hue_interpolation, premultiply, premultiply_component, unpremultiply,
      unpremultiply_component, normalize_hue, gtk_css_color_init_with_missing, missing_bit,
      Vec4.get, Vec4.set, no_missing]

/-- The projection of a mask with the alpha bit only, for a colour of sRGB or
linear sRGB projected into its own space. -/
theorem collect_alpha_only (v : Vec4 ℚ) (s : GtkCssColorSpace)
    (hs : s = .SRGB ∨ s = .SRGB_LINEAR) :
    collect_analogous_missing ⟨s, v, 8⟩ s = ⟨false, false, false, true⟩ := by
  have h := collect_own_space ⟨s, v, 8⟩
  simp only at h
  rw [h]
  rcases hs with hs | hs <;> subst hs <;> simp +decide [missing_bit]

/-- C32 (fails on the code): with alpha missing on both endpoints the
premultiplication is not skipped.  The two endpoints are the linear-sRGB
colour `(1, 1, 1)` whose alpha is flagged missing and stored as `0`; the plain
blend of the components is `1` at every progress, and the interpolation in
linear sRGB returns the components `(0, 0, 0)`, with alpha flagged missing:
`gtk_css_color_interpolate` clears `from1.missing` and `to1.missing` before it
calls `premultiply`, whose test of the alpha flag then never holds. -/
theorem interpolate_missing_alpha_premultiplies (U : ColorUtils) (p : ℚ)
    (interp : GtkCssHueInterpolation) :
    missing_bit ⟨.SRGB_LINEAR, ⟨1, 1, 1, 0⟩, 8⟩ 3 = true ∧
    (collect_analogous_missing ⟨.SRGB_LINEAR, ⟨1, 1, 1, 0⟩, 8⟩ .SRGB_LINEAR).x3 = true ∧
    gtk_css_color_convert U ⟨.SRGB_LINEAR, ⟨1, 1, 1, 0⟩, 8⟩ .SRGB_LINEAR =
      some ⟨.SRGB_LINEAR, ⟨1, 1, 1, 0⟩, 8⟩ ∧
    gtk_css_color_interpolate U ⟨.SRGB_LINEAR, ⟨1, 1, 1, 0⟩, 8⟩
        ⟨.SRGB_LINEAR, ⟨1, 1, 1, 0⟩, 8⟩ p .SRGB_LINEAR interp =
      some ⟨.SRGB_LINEAR, ⟨0, 0, 0, U.missing_value 0⟩, 8⟩ ∧
    (1 : ℚ) * (1 - p) + 1 * p = 1 := by
  refine ⟨by decide, ?_, convert_linear_self U _ rfl, ?_, ?_⟩
  · rw [collect_alpha_only _ _ (Or.inr rfl)]
  · have hc := convert_linear_self U ⟨.SRGB_LINEAR, ⟨1, 1, 1, 0⟩, 8⟩ rfl
    simp only [gtk_css_color_interpolate, hc, Option.some_bind,
      collect_alpha_only _ _ (Or.inr rfl)]
    rw [blend_missing_alpha U _ _ p .SRGB_LINEAR interp (Or.inr rfl) rfl rfl]
    norm_num
  · ring

/-- The result of the resolver with reference counts is the result of
`gtk_css_color_value_do_resolve`. -/
theorem do_resolve_refs_fst (E : StyleEnv) (provider : String → Option GtkCssValue)
    (current : Option GtkCssValue) :
    ∀ (fuel : Nat) (color : GtkCssValue) (L : List Nat) (held : List GtkCssValue),
      (gtk_css_color_value_do_resolve_refs E provider current fuel color L held).1 =
        gtk_css_color_value_do_resolve E provider current fuel color L := by
  intro fuel
  induction fuel with
  | zero => intro color L held; rfl
  | succ n ih =>
    intro color L held
    cases color with
    | literal rgba => rfl
    | color c rgba s => rfl
    | name addr name =>
      simp only [gtk_css_color_value_do_resolve_refs, gtk_css_color_value_do_resolve]
      split_ifs
      · rfl
      · cases provider name with
        | none => rfl
        | some named => exact ih named _ held
    | shade c factor =>
      simp only [gtk_css_color_value_do_resolve_refs, gtk_css_color_value_do_resolve]
      rw [← ih c L held]
      cases h : (gtk_css_color_value_do_resolve_refs E provider current n c L held).1 with
      | resolved val => cases hg : gtk_css_color_value_get_rgba val <;> simp [hg]
      | out_of_fuel => simp [h]
      | assertion_failed => simp [h]
      | unresolved => simp [h]
    | alpha c factor =>
      simp only [gtk_css_color_value_do_resolve_refs, gtk_css_color_value_do_resolve]
      rw [← ih c L held]
      cases h : (gtk_css_color_value_do_resolve_refs E provider current n c L held).1 with
      | resolved val => cases hg : gtk_css_color_value_get_rgba val <;> simp [hg]
      | out_of_fuel => simp [h]
      | assertion_failed => simp [h]
      | unresolved => simp [h]
    | mix c1 c2 factor =>
      simp only [gtk_css_color_value_do_resolve_refs, gtk_css_color_value_do_resolve]
      rw [← ih c1 L held]
      cases h : (gtk_css_color_value_do_resolve_refs E provider current n c1 L held).1 with
      | resolved val1 =>
        cases hg : gtk_css_color_value_get_rgba val1 with
        | none => simp [hg]
        | some color1 =>
          simp only [hg]
          rw [← ih c2 L (gtk_css_color_value_do_resolve_refs E provider current n c1 L held).2]
          cases h2 : (gtk_css_color_value_do_resolve_refs E provider current n c2 L
            (gtk_css_color_value_do_resolve_refs E provider current n c1 L held).2).1 with
          | resolved val2 => cases hg2 : gtk_css_color_value_get_rgba val2 <;> simp [hg2]
          | out_of_fuel => simp [h2]
          | assertion_failed => simp [h2]
          | unresolved => simp [h2]
      | out_of_fuel => simp [h]
      | assertion_failed => simp [h]
      | unresolved => simp [h]
    | current_color =>
      simp only [gtk_css_color_value_do_resolve_refs, gtk_css_color_value_do_resolve]
      cases current <;> rfl

/-- Taking a reference adds one entry. -/
theorem count_ref (x v : GtkCssValue) (held : List GtkCssValue) :
    List.count x (gtk_css_value_ref v held) = List.count x held + if v = x then 1 else 0 := by
  simp [gtk_css_value_ref, List.count_cons]

/-- Releasing a reference removes one entry. -/
theorem count_unref (x v : GtkCssValue) (held : List GtkCssValue) :
    List.count x (gtk_css_value_unref v held) =
      List.count x held - if v = x then 1 else 0 := by
  simp [gtk_css_value_unref, List.count_erase]

/-- The balance of the references of a call of the resolver: when it returns a
value, the references held are those held before and one reference on the
value returned; in every case no reference held before is released. -/
theorem do_resolve_refs_count (E : StyleEnv) (provider : String → Option GtkCssValue)
    (current : Option GtkCssValue) :
    ∀ (fuel : Nat) (color : GtkCssValue) (L : List Nat) (held : List GtkCssValue)
      (x : GtkCssValue),
      (∀ v, (gtk_css_color_value_do_resolve_refs E provider current fuel color L held).1 =
          .resolved v →
        List.count x (gtk_css_color_value_do_resolve_refs E provider current fuel color L held).2 =
          List.count x held + if v = x then 1 else 0) ∧
      List.count x held ≤
        List.count x (gtk_css_color_value_do_resolve_refs E provider current fuel color L held).2 := by
  intro fuel
  induction fuel with
  | zero =>
    intro color L held x
    exact ⟨fun v hv => (by cases hv), le_rfl⟩
  | succ n ih =>
    intro color L held x
    cases color with
    | literal rgba =>
      simp only [gtk_css_color_value_do_resolve_refs, count_ref]
      refine ⟨fun v hv => ?_, Nat.le_add_right _ _⟩
      cases hv
      rfl
    | color c rgba s =>
      simp only [gtk_css_color_value_do_resolve_refs, count_ref]
      refine ⟨fun v hv => ?_, Nat.le_add_right _ _⟩
      cases hv
      rfl
    | name addr name =>
      simp only [gtk_css_color_value_do_resolve_refs]
      split_ifs
      · exact ⟨fun v hv => (by cases hv), le_rfl⟩
      · cases provider name with
        | none => exact ⟨fun v hv => (by cases hv), le_rfl⟩
        | some named => exact ih named _ held x
    | shade c factor =>
      simp only [gtk_css_color_value_do_resolve_refs]
      obtain ⟨ih1, ih2⟩ := ih c L held x
      generalize gtk_css_color_value_do_resolve_refs E provider current n c L held = r
        at ih1 ih2 ⊢
      obtain ⟨r1, r2⟩ := r
      cases r1 with
      | resolved val =>
        have e := ih1 val rfl
        simp only at e ⊢
        cases hg : gtk_css_color_value_get_rgba val with
        | none => exact ⟨fun v hv => (by cases hv), ih2⟩
        | some rgba =>
          simp only [count_unref, count_ref, e]
          constructor
          · intro v hv
            cases hv
            split_ifs <;> omega
          · split_ifs <;> omega
      | out_of_fuel => exact ⟨fun v hv => (by cases hv), ih2⟩
      | assertion_failed => exact ⟨fun v hv => (by cases hv), ih2⟩
      | unresolved => exact ⟨fun v hv => (by cases hv), ih2⟩
    | alpha c factor =>
      simp only [gtk_css_color_value_do_resolve_refs]
      obtain ⟨ih1, ih2⟩ := ih c L held x
      generalize gtk_css_color_value_do_resolve_refs E provider current n c L held = r
        at ih1 ih2 ⊢
      obtain ⟨r1, r2⟩ := r
      cases r1 with
      | resolved val =>
        have e := ih1 val rfl
        simp only at e ⊢
        cases hg : gtk_css_color_value_get_rgba val with
        | none => exact ⟨fun v hv => (by cases hv), ih2⟩
        | some rgba =>
          simp only [count_unref, count_ref, e]
          constructor
          · intro v hv
            cases hv
            split_ifs <;> omega
          · split_ifs <;> omega
      | out_of_fuel => exact ⟨fun v hv => (by cases hv), ih2⟩
      | assertion_failed => exact ⟨fun v hv => (by cases hv), ih2⟩
      | unresolved => exact ⟨fun v hv => (by cases hv), ih2⟩
    | mix c1 c2 factor =>
      simp only [gtk_css_color_value_do_resolve_refs]
      obtain ⟨ih1, ih2⟩ := ih c1 L held x
      generalize gtk_css_color_value_do_resolve_refs E provider current n c1 L held = r
        at ih1 ih2 ⊢
      obtain ⟨r1, r2⟩ := r
      cases r1 with
      | resolved val1 =>
        have e1 := ih1 val1 rfl
        simp only at e1 ih2 ⊢
        cases hg : gtk_css_color_value_get_rgba val1 with
        | none => exact ⟨fun v hv => (by cases hv), ih2⟩
        | some color1 =>
          simp only
          obtain ⟨jh1, jh2⟩ := ih c2 L r2 x
          generalize gtk_css_color_value_do_resolve_refs E provider current n c2 L r2 = s
            at jh1 jh2 ⊢
          obtain ⟨s1, s2⟩ := s
          cases s1 with
          | resolved val2 =>
            have e2 := jh1 val2 rfl
            simp only at e2 jh2 ⊢
            cases hg2 : gtk_css_color_value_get_rgba val2 with
            | none => exact ⟨fun v hv => (by cases hv), ih2.trans jh2⟩
            | some color2 =>
              simp only [count_unref, count_ref, e2, e1]
              constructor
              · intro v hv
                cases hv
                split_ifs <;> omega
              · split_ifs <;> omega
          | out_of_fuel => exact ⟨fun v hv => (by cases hv), ih2.trans jh2⟩
          | assertion_failed => exact ⟨fun v hv => (by cases hv), ih2.trans jh2⟩
          | unresolved => exact ⟨fun v hv => (by cases hv), ih2.trans jh2⟩
      | out_of_fuel => exact ⟨fun v hv => (by cases hv), ih2⟩
      | assertion_failed => exact ⟨fun v hv => (by cases hv), ih2⟩
      | unresolved => exact ⟨fun v hv => (by cases hv), ih2⟩
    | current_color =>
      simp only [gtk_css_color_value_do_resolve_refs]
      cases current with
      | none =>
        simp only [count_ref]
        refine ⟨fun v hv => ?_, Nat.le_add_right _ _⟩
        cases hv
        rfl
      | some c =>
        simp only [count_ref]
        refine ⟨fun v hv => ?_, Nat.le_add_right _ _⟩
        cases hv
        rfl

/-- A mix node whose first child resolves and whose second child does not:
the call returns `NULL` with the reference on the first resolved value still
held. -/
theorem mix_keeps_first_reference (E : StyleEnv) (provider : String → Option GtkCssValue)
    (current : Option GtkCssValue) (fuel : Nat) (c1 c2 : GtkCssValue) (factor : ℚ)
    (L : List Nat) (held : List GtkCssValue) (val1 : GtkCssValue) (color1 : GdkRGBA)
    (h1 : (gtk_css_color_value_do_resolve_refs E provider current fuel c1 L held).1 =
      .resolved val1)
    (hg : gtk_css_color_value_get_rgba val1 = some color1)
    (h2 : (gtk_css_color_value_do_resolve_refs E provider current fuel c2 L
      (gtk_css_color_value_do_resolve_refs E provider current fuel c1 L held).2).1 =
      .unresolved) :
    (gtk_css_color_value_do_resolve_refs E provider current (fuel + 1) (.mix c1 c2 factor) L
      held).1 = .unresolved ∧
    List.count val1 held + 1 ≤
      List.count val1 (gtk_css_color_value_do_resolve_refs E provider current (fuel + 1)
        (.mix c1 c2 factor) L held).2 := by
  have k1 := (do_resolve_refs_count E provider current fuel c1 L held val1).1 val1 h1
  have k2 := (do_resolve_refs_count E provider current fuel c2 L
    (gtk_css_color_value_do_resolve_refs E provider current fuel c1 L held).2 val1).2
  rw [if_pos rfl] at k1
  simp only [gtk_css_color_value_do_resolve_refs, h1, hg, h2]
  exact ⟨trivial, by omega⟩

/-- A shade or alpha node whose child does not resolve returns `NULL` without
having taken a reference of its own: the references are those left by the
call on the child. -/
theorem shade_alpha_unresolved (E : StyleEnv) (provider : String → Option GtkCssValue)
    (current : Option GtkCssValue) (fuel : Nat) (c : GtkCssValue) (factor : ℚ)
    (L : List Nat) (held : List GtkCssValue)
    (h : (gtk_css_color_value_do_resolve_refs E provider current fuel c L held).1 =
      .unresolved) :
    gtk_css_color_value_do_resolve_refs E provider current (fuel + 1) (.shade c factor) L held =
      gtk_css_color_value_do_resolve_refs E provider current fuel c L held ∧
    gtk_css_color_value_do_resolve_refs E provider current (fuel + 1) (.alpha c factor) L held =
      gtk_css_color_value_do_resolve_refs E provider current fuel c L held := by
  simp only [gtk_css_color_value_do_resolve_refs, h]
  exact ⟨trivial, trivial⟩

/-- C40 (fails on the code): a failed resolution can leave a reference behind.
For the mix of a literal with a reference to a name that the provider does
not know, `gtk_css_color_value_do_resolve` returns `NULL` and the reference
taken on the resolved first child is still held: the source returns at
`if (val2 == NULL) return NULL;` without `gtk_css_value_unref (val1)`.  A shade
or alpha node over the unknown name returns `NULL` with the references
unchanged. -/
theorem resolve_mix_leaks_reference (E : StyleEnv) (current : Option GtkCssValue)
    (rgba : GdkRGBA) (addr : Nat) (name : String) (factor : ℚ) (fuel : Nat)
    (held : List GtkCssValue) :
    gtk_css_color_value_resolve E (provider_of []) current (fuel + 2)
      (.mix (.literal rgba) (.name addr name) factor) = .unresolved ∧
    gtk_css_color_value_do_resolve_refs E (provider_of []) current (fuel + 2)
      (.mix (.literal rgba) (.name addr name) factor) [] held =
      (.unresolved, .literal rgba :: held) ∧
    List.count (.literal rgba) (.literal rgba :: held) = List.count (.literal rgba) held + 1 ∧
    gtk_css_color_value_do_resolve_refs E (provider_of []) current (fuel + 2)
      (.shade (.name addr name) factor) [] held = (.unresolved, held) ∧
    gtk_css_color_value_do_resolve_refs E (provider_of []) current (fuel + 2)
      (.alpha (.name addr name) factor) [] held = (.unresolved, held) := by
  refine ⟨?_, ?_, ?_, ?_, ?_⟩
  · simp [gtk_css_color_value_resolve, gtk_css_color_value_do_resolve,
      gtk_css_color_value_get_rgba, provider_of]
  · simp [gtk_css_color_value_do_resolve_refs, gtk_css_color_value_get_rgba, provider_of,
      gtk_css_value_ref]
  · simp
  · simp [gtk_css_color_value_do_resolve_refs, provider_of]
  · simp [gtk_css_color_value_do_resolve_refs, provider_of]

end GtkCss
